import Mathlib

/-! The gthree renderer: render list and device-state cache.

A shallow embedding of parts of `gthree/gthreerenderer.c` and `gthree/gthreematerial.c`.

Modelling conventions
* `gboolean` is the C `int`: any non-zero value is true, `TRUE = 1`, `FALSE = 0`.
* `guint` is a natural number below `2 ^ 32`; storing `-1` in a `guint` stores `2 ^ 32 - 1`.
* A C `float` whose comparison decides what the code does and which may be NaN (the depth
  `z` of a render-list item, the line width, the polygon offset factor and units) is a
  `float`: an integer key in the order of the floats, or NaN, with the C comparisons
  `float.ne`, `float.gt` and `float.le` (IEEE NaN is unordered and unequal to itself). The
  other floats (`gfloat`: colours, viewport, morph influences, material parameters) are
  numbers, represented by their key alone.
* Pointers to objects, geometries and groups are addresses (`Nat`); a material pointer is
  represented by the fields of the private structure it points to.
* A `GArray` is a `List`; `len` is `List.length`. Array lengths stay far below `2 ^ 31`,
  so the conversion of `items->len` to the `int` index is exact and indices are `Nat`.
* The GL commands issued by a function are returned as a list, in issue order.
-/

namespace Gthree

set_option linter.unusedVariables false

/-! ## Data model -/

/-- The C type `gboolean` (an `int`). -/
abbrev gboolean := Int

/-- The C type `float` of a value that is a number (colours, viewport, morph influences,
material parameters), by its key in the order of the floats. -/
abbrev gfloat := Int

/-- The C type `float` at the places where the code compares two values of which either may
be NaN (the depth `z` of a render-list item, the line width, the polygon offset factor and
units): a number, given by its key in the order of the floats (`+0` and `-0` share a key),
or NaN. -/
inductive float
  | num (key : Int)
  | nan
  deriving DecidableEq, Repr

instance (n : Nat) : OfNat float n := ⟨float.num n⟩

/-- The C comparison `a != b` of two floats: true when either side is NaN. -/
def float.ne : float → float → Prop
  | float.num a, float.num b => a ≠ b
  | _, _ => True

/-- The C comparison `a > b` of two floats: false when either side is NaN. -/
def float.gt : float → float → Prop
  | float.num a, float.num b => a > b
  | _, _ => False

/-- The C comparison `a <= b` of two floats: false when either side is NaN. -/
def float.le : float → float → Prop
  | float.num a, float.num b => a ≤ b
  | _, _ => False

instance : LE float := ⟨float.le⟩

instance : (a b : float) → Decidable (float.ne a b)
  | float.num a, float.num b => inferInstanceAs (Decidable (a ≠ b))
  | float.num _, float.nan => isTrue trivial
  | float.nan, _ => isTrue trivial

instance : (a b : float) → Decidable (float.gt a b)
  | float.num a, float.num b => inferInstanceAs (Decidable (a > b))
  | float.num _, float.nan => isFalse not_false
  | float.nan, _ => isFalse not_false

instance : (a b : float) → Decidable (a ≤ b)
  | float.num a, float.num b => inferInstanceAs (Decidable (a ≤ b))
  | float.num _, float.nan => isFalse not_false
  | float.nan, _ => isFalse not_false

/-- The key of a number in the order of the floats; `0` for NaN, which has no place in the
order. -/
def float.key : float → Int
  | float.num k => k
  | float.nan => 0

/-- The C type `guint` (32 bit), kept below `2 ^ 32` by the code that writes it. -/
abbrev guint := Nat

/-- Glib `TRUE`. -/
def TRUE : gboolean := 1

/-- Glib `FALSE`. -/
def FALSE : gboolean := 0

/-- The value a `guint` variable holds after `-1` is assigned to it. -/
def GUINT_MINUS_ONE : guint := 2 ^ 32 - 1

/-- The enumeration `GthreeSide`, as used by `set_material_faces`. -/
inductive GthreeSide
  | GTHREE_SIDE_FRONT
  | GTHREE_SIDE_BACK
  | GTHREE_SIDE_DOUBLE
  deriving DecidableEq, Repr

/-- The enumeration `GthreeBlendMode` is an `int` in C; the renderer cache stores `-1` in a
field of this type, so values are integers. -/
abbrev GthreeBlendMode := Int

/-- Modelled from the spec: the enumerators of `GthreeBlendMode` (declared in
`gthreeenums.h`, which is not among the sources). The blend mode is the closed set
none, normal, additive, subtractive, multiply, custom; C numbers them from zero. -/
def GTHREE_BLEND_NO : GthreeBlendMode := 0

/-- Modelled from the spec: see `GTHREE_BLEND_NO`. -/
def GTHREE_BLEND_NORMAL : GthreeBlendMode := 1

/-- Modelled from the spec: see `GTHREE_BLEND_NO`. -/
def GTHREE_BLEND_ADDITIVE : GthreeBlendMode := 2

/-- Modelled from the spec: see `GTHREE_BLEND_NO`. -/
def GTHREE_BLEND_SUBTRACTIVE : GthreeBlendMode := 3

/-- Modelled from the spec: see `GTHREE_BLEND_NO`. -/
def GTHREE_BLEND_MULTIPLY : GthreeBlendMode := 4

/-- Modelled from the spec: see `GTHREE_BLEND_NO`. -/
def GTHREE_BLEND_CUSTOM : GthreeBlendMode := 5

/-- OpenGL enumerants used by the renderer (values of the OpenGL headers). -/
def GL_ZERO : guint := 0
def GL_ONE : guint := 1
def GL_SRC_COLOR : guint := 0x0300
def GL_ONE_MINUS_SRC_COLOR : guint := 0x0301
def GL_SRC_ALPHA : guint := 0x0302
def GL_ONE_MINUS_SRC_ALPHA : guint := 0x0303
def GL_CW : guint := 0x0900
def GL_CCW : guint := 0x0901
def GL_CULL_FACE : guint := 0x0B44
def GL_DEPTH_TEST : guint := 0x0B71
def GL_BLEND : guint := 0x0BE2
def GL_FUNC_ADD : guint := 0x8006
def GL_POLYGON_OFFSET_FILL : guint := 0x8037

/-- Names of the uniforms that the renderer looks up, in a program or in the uniform table
of a shader. -/
inductive UniformName
  | projectionMatrix
  | cameraPosition
  | viewMatrix
  | bindMatrix
  | bindMatrixInverse
  | boneMatrices0
  | morphTargetInfluences0
  | clippingPlanes
  | ambientLightColor
  | directionalLights
  | pointLights
  | spotLights
  | other (q : Nat)
  deriving DecidableEq, Repr

/-- Names of geometry and program attributes: `morphTarget%d`, `morphNormal%d`, or any
other name. -/
inductive AttributeName
  | morphTarget (i : Nat)
  | morphNormal (i : Nat)
  | other (q : Nat)
  deriving DecidableEq, Repr

/-- One entry of a `GthreeUniforms` table: its name and its `needs_update` flag. -/
structure GthreeUniform where
  name : UniformName
  needs_update : gboolean := TRUE
  deriving DecidableEq, Repr

/-- A `GthreeUniforms` table. -/
abbrev GthreeUniforms := List GthreeUniform

/-- A `GthreeShader`: its address and its uniform table. -/
structure GthreeShader where
  addr : Nat := 0
  uniforms : GthreeUniforms := []
  deriving DecidableEq, Repr

/-- A linked `GthreeProgram`: its address, the locations of its uniforms (a uniform that is
not listed has location `-1`) and its attribute-location table. -/
structure GthreeProgram where
  addr : Nat := 0
  uniform_locations : List (UniformName × Int) := []
  attribute_locations : List (AttributeName × Int) := []
  deriving DecidableEq, Repr

/-- The function `gthree_program_lookup_uniform_location`; a null program has no uniform. -/
def gthree_program_lookup_uniform_location (program : Option GthreeProgram)
    (name : UniformName) : Int :=
  match program with
  | none => -1
  | some p =>
    match p.uniform_locations.find? (fun e => e.1 = name) with
    | some e => e.2
    | none => -1

/-- The value of a `GthreeProgram *`: the address of the program, `0` for `NULL`. -/
def program_pointer (program : Option GthreeProgram) : Nat :=
  match program with
  | none => 0
  | some p => p.addr

/-- The struct `GthreeLightSetupHash`, with the two fields `setup_lights` writes. -/
structure GthreeLightSetupHash where
  num_directional : Int := 0
  num_point : Int := 0
  deriving DecidableEq, Repr

/-- Modelled from the spec: `gthree_light_setup_hash_equal` (not among the sources)
compares two light-configuration hashes; the hash summarises the active light counts, and
two hashes are equal when their counts are. -/
def gthree_light_setup_hash_equal (a b : GthreeLightSetupHash) : gboolean :=
  if a.num_directional = b.num_directional ∧ a.num_point = b.num_point then 1 else 0

/-- The struct `GthreeMaterialProperties`: the program resolved for the material (`none` is
`NULL`) and the light hash it was built against. `gthree_material_init` sets `num_point`
to `-1`. -/
structure GthreeMaterialProperties where
  program : Option GthreeProgram := none
  light_hash : GthreeLightSetupHash := { num_directional := 0, num_point := -1 }
  deriving DecidableEq, Repr

/-- The state of a `GthreeMeshMaterial` that the renderer reads through its accessors. -/
structure GthreeMeshMaterial where
  wireframe : gboolean := FALSE
  wireframe_line_width : float := 1
  skinning : gboolean := FALSE
  morph_targets : gboolean := FALSE
  morph_normals : gboolean := FALSE
  num_supported_morph_targets : Int := 0
  num_supported_morph_normals : Int := 0
  deriving DecidableEq, Repr

/-- The class of a material, as far as the renderer tests it with `GTHREE_IS_*`: a mesh
material (with its state), a line basic material (with its line width), a shader material,
or another material. -/
inductive GthreeMaterialKind
  | mesh_material (m : GthreeMeshMaterial)
  | line_basic_material (line_width : float)
  | shader_material
  | other_material
  deriving DecidableEq, Repr

/-- The fields of `GthreeMaterialPrivate` read by the renderer, with the values
`gthree_material_init` gives them as defaults; then the address of the material, its shader,
its class, and the results of the class methods `needs_lights`, `needs_camera_pos` and
`needs_view_matrix`. -/
structure GthreeMaterial where
  transparent : gboolean := FALSE
  visible : gboolean := TRUE
  blend_mode : GthreeBlendMode := GTHREE_BLEND_NORMAL
  blend_equation : guint := GL_FUNC_ADD
  blend_src_factor : guint := GL_SRC_ALPHA
  blend_dst_factor : guint := GL_ONE_MINUS_SRC_ALPHA
  polygon_offset : gboolean := FALSE
  polygon_offset_factor : float := 0
  polygon_offset_units : float := 0
  depth_test : gboolean := TRUE
  depth_write : gboolean := TRUE
  side : GthreeSide := GthreeSide.GTHREE_SIDE_FRONT
  vertex_colors : gboolean := FALSE
  needs_update : gboolean := TRUE
  addr : Nat := 0
  shader : GthreeShader := {}
  properties : GthreeMaterialProperties := {}
  kind : GthreeMaterialKind := GthreeMaterialKind.other_material
  needs_lights : gboolean := FALSE
  needs_camera_pos : gboolean := FALSE
  needs_view_matrix : gboolean := FALSE
  deriving DecidableEq, Repr

/-- Accessor `gthree_material_get_is_transparent`. -/
def gthree_material_get_is_transparent (material : GthreeMaterial) : gboolean :=
  material.transparent

/-- Accessor `gthree_material_get_side`. -/
def gthree_material_get_side (material : GthreeMaterial) : GthreeSide :=
  material.side

/-- The C struct `GthreeRenderListItem`. -/
structure GthreeRenderListItem where
  object : Nat
  geometry : Nat
  material : GthreeMaterial
  group : Nat
  z : float
  deriving DecidableEq, Repr

/-- The C struct `_GthreeRenderList`. -/
structure GthreeRenderList where
  current_z : float := 0
  use_background : gboolean := 0
  items : List GthreeRenderListItem := []
  opaque_ : List Nat := []
  transparent : List Nat := []
  background : List Nat := []
  deriving DecidableEq, Repr

/-! ## Render list operations -/

/-- The function `gthree_render_list_init`: resets the scratch fields and empties the four arrays. -/
def gthree_render_list_init (list : GthreeRenderList) : GthreeRenderList :=
  { list with
    current_z := 0
    use_background := FALSE
    items := []
    opaque_ := []
    transparent := []
    background := [] }

/-- The function `gthree_render_list_push`: appends the item with the current `z` and
appends its index to one of the three index arrays. -/
def gthree_render_list_push (list : GthreeRenderList) (object geometry : Nat)
    (material : GthreeMaterial) (group : Nat) : GthreeRenderList :=
  let item : GthreeRenderListItem :=
    { object := object, geometry := geometry, material := material, group := group,
      z := list.current_z }
  let index := list.items.length
  let list1 := { list with items := list.items ++ [item] }
  if list1.use_background ≠ 0 then
    { list1 with background := list1.background ++ [index] }
  else if gthree_material_get_is_transparent material ≠ 0 then
    { list1 with transparent := list1.transparent ++ [index] }
  else
    { list1 with opaque_ := list1.opaque_ ++ [index] }

/-- What a client of the render list does between `init` and `sort`: push an item, or
write the `use_background` or `current_z` field (as `project_object` and
`gthree_renderer_render_background` do). -/
inductive RenderListOp
  | push (object geometry : Nat) (material : GthreeMaterial) (group : Nat)
  | set_use_background (b : gboolean)
  | set_current_z (z : float)
  deriving DecidableEq, Repr

/-- One client step on the render list. -/
def RenderListOp.apply (list : GthreeRenderList) : RenderListOp → GthreeRenderList
  | .push object geometry material group =>
      gthree_render_list_push list object geometry material group
  | .set_use_background b => { list with use_background := b }
  | .set_current_z z => { list with current_z := z }

/-- A sequence of client steps, left to right. -/
def runOps (list : GthreeRenderList) (ops : List RenderListOp) : GthreeRenderList :=
  ops.foldl RenderListOp.apply list

/-- The three buckets of a render list. -/
inductive Bucket
  | opaque_
  | transparent
  | background
  deriving DecidableEq, Repr

/-- The classification rule in the words of the specification: background if
`use_background` is set, else transparent if the material is transparent, else opaque. -/
def classify (use_background : gboolean) (material : GthreeMaterial) : Bucket :=
  if use_background ≠ 0 then Bucket.background
  else if material.transparent ≠ 0 then Bucket.transparent
  else Bucket.opaque_

/-- The indices, in push order, of the pushes of `ops` that the classification rule sends
to bucket `b`, when the first push gets index `i` and `use_background` starts as `ub`. -/
def pushedInto (b : Bucket) : Nat → gboolean → List RenderListOp → List Nat
  | _, _, [] => []
  | i, ub, RenderListOp.push _ _ material _ :: ops =>
      (if classify ub material = b then [i] else []) ++ pushedInto b (i + 1) ub ops
  | i, _, RenderListOp.set_use_background v :: ops => pushedInto b i v ops
  | i, ub, RenderListOp.set_current_z _ :: ops => pushedInto b i ub ops

/-- The index array of a render list that holds bucket `b`. -/
def GthreeRenderList.bucket (list : GthreeRenderList) : Bucket → List Nat
  | Bucket.opaque_ => list.opaque_
  | Bucket.transparent => list.transparent
  | Bucket.background => list.background

/-- The three index arrays together hold each item index exactly once. -/
def Partitioned (list : GthreeRenderList) : Prop :=
  (list.opaque_ ++ list.transparent ++ list.background).Perm (List.range list.items.length)

/-! ## Sorting the render list -/

/-- The element `g_array_index (list->items, GthreeRenderListItem, i)`. The index arrays of
a list built by `gthree_render_list_push` only hold indices below `items->len`; the default
item stands for the undefined read outside the array. -/
def GthreeRenderList.item (list : GthreeRenderList) (i : Nat) : GthreeRenderListItem :=
  list.items.getD i { object := 0, geometry := 0, material := {}, group := 0, z := 0 }

/-- The comparator `render_list_painter_sort_stable` on two entries of an index array. The
two `z` are compared as C floats: when either is NaN, `a->z != b->z` is true and
`a->z > b->z` is false, so the result is `-1`. -/
def render_list_painter_sort_stable (list : GthreeRenderList) (ai bi : Nat) : Int :=
  let a := list.item ai
  let b := list.item bi
  if float.ne a.z b.z then
    if float.gt a.z b.z then 1 else -1
  else if a.object ≠ b.object then
    if a.object > b.object then 1 else -1
  else 0

/-- The comparator `render_list_reverse_painter_sort_stable` on two entries of an index
array; the `z` are compared as C floats, as in the painter comparator. -/
def render_list_reverse_painter_sort_stable (list : GthreeRenderList) (ai bi : Nat) : Int :=
  let a := list.item ai
  let b := list.item bi
  if float.ne a.z b.z then
    if float.gt b.z a.z then 1 else -1
  else if a.object ≠ b.object then
    if a.object > b.object then 1 else -1
  else 0

/-- Inner loop of the merge step while the head `x` of the first run is fixed: `recXs`
continues the merge once `x` has been emitted. -/
def msort_merge_from {α : Type} (compare_func : α → α → Int) (x : α) (xs : List α)
    (recXs : List α → List α) : List α → List α
  | [] => x :: xs
  | y :: ys =>
      if compare_func x y ≤ 0 then x :: recXs (y :: ys)
      else y :: msort_merge_from compare_func x xs recXs ys

/-- The merge loop of GLib `msort_with_tmp` (gqsort.c): while both runs are non-empty the
head of the first run is taken when `compare_func (b1, b2) <= 0`, else the head of the
second; the rest of the remaining run follows. -/
def msort_merge {α : Type} (compare_func : α → α → Int) : List α → List α → List α
  | [], ys => ys
  | x :: xs, ys => msort_merge_from compare_func x xs (msort_merge compare_func xs) ys

/-- GLib `msort_with_tmp`: an array of `n <= 1` elements is left alone; otherwise the first
`n / 2` elements and the remaining `n - n / 2` are sorted recursively and merged. The first
argument bounds the recursion depth. -/
def msort_with_tmp {α : Type} (compare_func : α → α → Int) : Nat → List α → List α
  | 0, b => b
  | depth + 1, b =>
      if b.length ≤ 1 then b
      else
        let n1 := b.length / 2
        msort_merge compare_func (msort_with_tmp compare_func depth (b.take n1))
          (msort_with_tmp compare_func depth (b.drop n1))

/-- GLib `g_array_sort_with_data` (a library routine, not part of this repository): it
sorts the array through `g_qsort_with_data`, which GLib documents as a stable sort and
implements as the merge sort `msort_with_tmp`. A recursion depth of `len` is never reached
because every recursive call at least halves (rounding up) an array of two or more elements. -/
def g_array_sort_with_data {α : Type} (array : List α) (compare_func : α → α → Int) : List α :=
  msort_with_tmp compare_func array.length array

/-- The function `gthree_render_list_sort`: sorts the opaque array with the painter
comparator, then the transparent array with the reverse painter comparator. -/
def gthree_render_list_sort (list : GthreeRenderList) : GthreeRenderList :=
  let list1 :=
    { list with
      opaque_ := g_array_sort_with_data list.opaque_ (render_list_painter_sort_stable list) }
  { list1 with
    transparent :=
      g_array_sort_with_data list1.transparent (render_list_reverse_painter_sort_stable list1) }

/-! ## Objects, geometries, light setup and program parameters -/

/-- A `GthreeSkeleton`: its address and `gthree_skeleton_get_n_bones`. -/
structure GthreeSkeleton where
  addr : Nat := 0
  n_bones : Int := 0
  deriving DecidableEq, Repr

/-- What a `GthreeSkinnedMesh` adds to a mesh: its skeleton (`none` is `NULL`) and whether
its bind matrix and inverse bind matrix pointers are non-null. -/
structure GthreeSkinnedMesh where
  skeleton : Option GthreeSkeleton := none
  has_bind_matrix : Bool := true
  has_inverse_bind_matrix : Bool := true
  deriving DecidableEq, Repr

/-- The enumeration `GthreeDrawMode`, as used by `render_item`; `other` stands for any value
that reaches the `default` label. -/
inductive GthreeDrawMode
  | GTHREE_DRAW_MODE_TRIANGLES
  | GTHREE_DRAW_MODE_TRIANGLE_STRIP
  | GTHREE_DRAW_MODE_TRIANGLE_FAN
  | other (v : Int)
  deriving DecidableEq, Repr

/-- A `GthreeMesh`: its draw mode, its morph influences (`gthree_mesh_get_morph_targets`),
the result of `gthree_mesh_has_morph_targets`, and the skinned-mesh part when the object is
a `GthreeSkinnedMesh`. -/
structure GthreeMesh where
  draw_mode : GthreeDrawMode := GthreeDrawMode.GTHREE_DRAW_MODE_TRIANGLES
  morph_targets : List gfloat := []
  has_morph_targets : gboolean := FALSE
  skinned : Option GthreeSkinnedMesh := none
  deriving DecidableEq, Repr

/-- The class of an object, as far as the renderer tests it with `GTHREE_IS_*`: a group, a
light, a mesh, a line-segments object, a sprite, or an object of another class (the scene,
a camera, a plain object). -/
inductive GthreeObjectKind
  | group
  | light
  | mesh (m : GthreeMesh)
  | line_segments
  | sprite
  | other_object
  deriving DecidableEq, Repr

/-- A `GthreeObject`: its address and its class; then what `project_object` reads from it:
the visible flag, the layer mask, the frustum-culled flag, the result of
`gthree_object_is_in_frustum` for the frustum of the frame, and the depth `z / w` of its
world position projected by the projection-screen matrix of the frame. -/
structure GthreeObject where
  addr : Nat := 0
  kind : GthreeObjectKind := GthreeObjectKind.other_object
  visible : gboolean := TRUE
  layer_mask : Nat := 1
  is_frustum_culled : gboolean := TRUE
  is_in_frustum : gboolean := TRUE
  projected_z : float := 0
  deriving DecidableEq, Repr

/-- The test `GTHREE_IS_SKINNED_MESH (object)` together with the cast: the skinned-mesh part
of the object, if it is one. -/
def GthreeObject.skinned_mesh (object : GthreeObject) : Option GthreeSkinnedMesh :=
  match object.kind with
  | GthreeObjectKind.mesh m => m.skinned
  | _ => none

/-- The test `GTHREE_IS_MESH_MATERIAL (material)` together with the cast. -/
def GthreeMaterial.mesh_material (material : GthreeMaterial) : Option GthreeMeshMaterial :=
  match material.kind with
  | GthreeMaterialKind.mesh_material m => some m
  | _ => none

/-- The value of `GTHREE_IS_MESH_MATERIAL (material) && get (GTHREE_MESH_MATERIAL (material))`
for an accessor `get` of the mesh material: `1` or `0`. -/
def GthreeMaterial.mesh_flag (material : GthreeMaterial)
    (get : GthreeMeshMaterial → gboolean) : gboolean :=
  match material.mesh_material with
  | some m => if get m ≠ 0 then 1 else 0
  | none => 0

/-- A `GthreeAttribute`, with the values its accessors return. -/
structure GthreeAttribute where
  addr : Nat := 0
  count : Int := 0
  gl_type : Int := 0
  gl_bytes_per_element : Int := 0
  item_offset : Int := 0
  gl_buffer : Int := 0
  normalized : gboolean := 0
  item_size : Int := 0
  stride : Int := 0
  deriving DecidableEq, Repr

/-- The struct `InfluenceInfo`. -/
structure InfluenceInfo where
  index : Nat
  value : gfloat
  deriving DecidableEq, Repr

/-- The fields `start` and `count` of a `GthreeGeometryGroup`. -/
structure GthreeGeometryGroup where
  start : Int
  count : Int
  deriving DecidableEq, Repr

/-- A `GthreeGeometry`: index, lazily built wireframe index and position attribute (`none` is
`NULL`), the user draw range (a negative count is unlimited), the table of named attributes,
the morph attribute arrays for "position" and "normal" (`none` is `NULL`), and the
`influences` scratch array of `update_morphtargets`. An attribute is an address; `none` as
an attribute stands for the result of a read outside a pointer array or through a null
array, which C leaves undefined. -/
structure GthreeGeometry where
  addr : Nat := 0
  index : Option GthreeAttribute := none
  wireframe_index : Option GthreeAttribute := none
  position : Option GthreeAttribute := none
  draw_range_start : Int := 0
  draw_range_count : Int := -1
  attributes : List (AttributeName × Option Nat) := []
  morph_attributes_position : Option (List Nat) := none
  morph_attributes_normal : Option (List Nat) := none
  influences : Option (List InfluenceInfo) := none
  deriving DecidableEq, Repr

/-- The struct `GthreeLightSetup`: the directional and point light arrays filled by the
lights, and the hash. -/
structure GthreeLightSetup where
  directional : List Nat := []
  point : List Nat := []
  hash : GthreeLightSetupHash := {}
  deriving DecidableEq, Repr

/-- The enumeration `GthreePrecision`; only `GTHREE_PRECISION_HIGH` is named by the renderer. -/
inductive GthreePrecision
  | GTHREE_PRECISION_HIGH
  | other (v : Int)
  deriving DecidableEq, Repr

/-- The enumeration `GthreeEncodingFormat`; only `GTHREE_ENCODING_FORMAT_GAMMA` is named by
the renderer. -/
inductive GthreeEncodingFormat
  | GTHREE_ENCODING_FORMAT_GAMMA
  | other (v : Int)
  deriving DecidableEq, Repr

/-- Modelled from the spec: the struct `GthreeProgramParameters` (declared in a header that
is not among the sources), with the fields the sources write. The parameter set is compared
structurally as part of the program-cache key; each field holds the value written to it.
The defaults are the `{0}` initialiser of `init_material`. -/
structure GthreeProgramParameters where
  precision : GthreePrecision := GthreePrecision.other 0
  supports_vertex_textures : gboolean := 0
  output_encoding : GthreeEncodingFormat := GthreeEncodingFormat.other 0
  physically_correct_lights : gboolean := 0
  double_sided : gboolean := 0
  flip_sided : gboolean := 0
  alpha_test : Int := 0
  vertex_colors : gboolean := 0
  map : gboolean := 0
  map_encoding : Int := 0
  env_map : gboolean := 0
  env_map_encoding : Int := 0
  env_map_mode : Int := 0
  flat_shading : gboolean := 0
  num_dir_lights : Nat := 0
  num_point_lights : Nat := 0
  max_bones : Int := 0
  skinning : gboolean := 0
  morph_targets : gboolean := 0
  morph_normals : gboolean := 0
  num_clipping_planes : Nat := 0
  deriving DecidableEq

/-- The matrices and vectors the renderer uploads, named by where they come from. -/
inductive UniformValue
  | projection_matrix (camera : Nat)
  | world_inverse_matrix (camera : Nat)
  | camera_position (camera : Nat)
  | bind_matrix (object : Nat)
  | inverse_bind_matrix (object : Nat)
  | bone_matrices (skeleton : Nat)
  deriving DecidableEq, Repr

/-- The messages the renderer passes to `g_warning`. -/
inductive GWarning
  | texture_units (texture_unit : guint) (max_textures : Int)
  | no_morph_target_influences_uniform
  deriving DecidableEq, Repr

/-- Calls from the renderer into its collaborators (program cache, program, shader,
uniforms, material, object) and to `g_warning`, with the arguments that identify them. -/
inductive Event
  | g_warning (w : GWarning)
  | program_cache_get (shader : Nat) (parameters : GthreeProgramParameters)
  | uniforms_set_color (shader : Nat) (name : UniformName)
  | uniforms_set_uarray (shader : Nat) (name : UniformName) (update_only : gboolean)
  | shader_update_uniform_locations_for_program (shader program : Nat)
  | program_use (program : Nat)
  | uniform_set_float4_array (shader : Nat) (name : UniformName)
  | material_set_uniforms (material shader camera : Nat)
  | uniforms_load (shader : Nat)
  | uniform_load (shader : Nat) (name : UniformName)
  | object_set_direct_uniforms (object program : Nat)
  | skeleton_update (skeleton : Nat)
  | object_update (object : Nat)
  | object_fill_render_list (object : Nat)
  | attribute_update (attr : Nat)
  | setup_vertex_attributes (material program geometry : Nat)
  | object_call_before_render_callback (object : Nat)
  | object_update_matrix_view (object : Nat)
  | render_item (render_list_index material : Nat)
  | render_target_realize (render_target : Nat)
  | material_load_default_attribute (material : Nat) (program_attribute : Int)
      (name : AttributeName)
  deriving DecidableEq

/-- A `graphene_rect_t`, by its origin and size. -/
structure graphene_rect_t where
  x : gfloat := 0
  y : gfloat := 0
  width : gfloat := 0
  height : gfloat := 0
  deriving DecidableEq, Repr

/-- A `GdkRGBA`. -/
structure GdkRGBA where
  red : gfloat := 0
  green : gfloat := 0
  blue : gfloat := 0
  alpha : gfloat := 0
  deriving DecidableEq, Repr

/-- A `graphene_plane_t`: the three components of its normal and its constant. -/
structure graphene_plane_t where
  normal_x : gfloat := 0
  normal_y : gfloat := 0
  normal_z : gfloat := 0
  constant : gfloat := 0
  deriving DecidableEq, Repr

/-- A `GthreeRenderTarget`, as far as the renderer reads it: its address, the framebuffer
name that `gthree_render_target_get_gl_framebuffer` returns once the target is realized, and
its viewport. -/
structure GthreeRenderTarget where
  addr : Nat := 0
  gl_framebuffer : Int := 0
  viewport : graphene_rect_t := {}
  deriving DecidableEq, Repr

/-! ## Device-state cache and setters -/

/-- The GL entry points called by the renderer, with their arguments. -/
inductive GLCommand
  | glEnable (cap : guint)
  | glDisable (cap : guint)
  | glFrontFace (mode : guint)
  | glDepthMask (flag : gboolean)
  | glLineWidth (width : float)
  | glPolygonOffset (factor units : float)
  | glBlendEquation (mode : guint)
  | glBlendFunc (sfactor dfactor : guint)
  | glBlendEquationSeparate (modeRGB modeAlpha : guint)
  | glBlendFuncSeparate (srcRGB dstRGB srcAlpha dstAlpha : guint)
  | glUniformMatrix4fv (location count : Int) (transpose : gboolean) (value : UniformValue)
  | glUniform3f (location : Int) (value : UniformValue)
  | glUniform1fv (location count : Int) (value : List gfloat)
  | glDrawElements (mode : guint) (count type indices : Int)
  | glDrawArrays (mode : guint) (first count : Int)
  | glBindBuffer (target : guint) (buffer : Int)
  | glClear (mask : guint)
  | glViewport (x y width height : gfloat)
  | glClearColor (red green blue alpha : gfloat)
  | glBindFramebuffer (target : guint) (framebuffer : Int)
  | glClearDepth (depth : gfloat)
  | glClearStencil (s : Int)
  | glDepthFunc (func : guint)
  | glCullFace (mode : guint)
  | glEnableVertexAttribArray (index : guint)
  | glDisableVertexAttribArray (index : guint)
  | glVertexAttribPointer (index : guint) (size type : Int) (normalized : gboolean)
      (stride pointer : Int)
  deriving DecidableEq, Repr

/-- The device-state cache of `GthreeRendererPrivate` (the `old_*` fields the setters use),
together with `gl_log`, the GL commands issued so far, oldest first; then the fields used
by program resolution, texture-unit allocation and morph targets, and `events`, the calls
into collaborators made so far, oldest first; then the geometry/program/wireframe triple of
the last draw, the fields used by the scene walk, and the GL context, size, viewports,
clear colours, auto-clear flags, framebuffers and render target used by the public entry
points; then the clipping planes, the flattened clipping state and the plane count of the
previous frame, and the two `guint8[8]` arrays of vertex-attribute tracking. The defaults
are the zero-filled private structure that GObject hands to the instance initialiser. -/
structure GthreeRendererPrivate where
  old_flip_sided : gboolean := 0
  old_double_sided : gboolean := 0
  old_depth_test : gboolean := 0
  old_depth_write : gboolean := 0
  old_line_width : float := 0
  old_polygon_offset : gboolean := 0
  old_polygon_offset_factor : float := 0
  old_polygon_offset_units : float := 0
  old_blending : GthreeBlendMode := 0
  old_blend_equation : guint := 0
  old_blend_src : guint := 0
  old_blend_dst : guint := 0
  gl_log : List GLCommand := []
  physically_correct_lights : gboolean := 0
  supports_vertex_textures : gboolean := 0
  clipping_enabled : gboolean := 0
  num_clipping_planes : guint := 0
  used_texture_units : guint := 0
  max_textures : Int := 0
  light_setup : GthreeLightSetup := {}
  lights : List Nat := []
  current_program : Nat := 0
  current_material : Nat := 0
  current_camera : Nat := 0
  morph_influences : List gfloat := [0, 0, 0, 0, 0, 0, 0, 0]
  events : List Event := []
  current_geometry_program_geometry : Nat := 0
  current_geometry_program_program : Nat := 0
  current_geometry_program_wireframe : gboolean := 0
  sort_objects : gboolean := 0
  current_render_list : GthreeRenderList := {}
  gl_context : Nat := 0
  width : Int := 0
  height : Int := 0
  viewport : graphene_rect_t := {}
  current_viewport : graphene_rect_t := {}
  clear_color : GdkRGBA := {}
  old_clear_color : GdkRGBA := {}
  auto_clear : gboolean := 0
  auto_clear_color : gboolean := 0
  auto_clear_depth : gboolean := 0
  auto_clear_stencil : gboolean := 0
  window_framebuffer : Int := 0
  current_framebuffer : Int := 0
  current_render_target : Option GthreeRenderTarget := none
  clipping_planes : List graphene_plane_t := []
  clipping_state : List gfloat := []
  old_num_global_planes : guint := 0
  new_attributes : List Nat := [0, 0, 0, 0, 0, 0, 0, 0]
  enabled_attributes : List Nat := [0, 0, 0, 0, 0, 0, 0, 0]
  deriving DecidableEq

/-- Issue one GL command. -/
def GthreeRendererPrivate.gl (priv : GthreeRendererPrivate) (c : GLCommand) :
    GthreeRendererPrivate :=
  { priv with gl_log := priv.gl_log ++ [c] }

/-- The stores of `gthree_renderer_init` into the device-state cache, applied to the
zero-filled private structure: blending, the three custom blend values, depth write and
depth test are set to `-1`; the other `old_*` fields are not written. -/
def gthree_renderer_init : GthreeRendererPrivate :=
  let priv : GthreeRendererPrivate := {}
  { priv with
    old_blending := -1
    old_blend_equation := GUINT_MINUS_ONE
    old_blend_src := GUINT_MINUS_ONE
    old_blend_dst := GUINT_MINUS_ONE
    old_depth_write := -1
    old_depth_test := -1 }

/-- The value of a C comparison such as `side == GTHREE_SIDE_DOUBLE`, as a `gboolean`. -/
def c_bool (p : Prop) [Decidable p] : gboolean := if p then 1 else 0

/-- The function `set_material_faces`. -/
def set_material_faces (priv : GthreeRendererPrivate) (material : GthreeMaterial) :
    GthreeRendererPrivate :=
  let side := gthree_material_get_side material
  let double_sided : gboolean := c_bool (side = GthreeSide.GTHREE_SIDE_DOUBLE)
  let flip_sided : gboolean := c_bool (side = GthreeSide.GTHREE_SIDE_BACK)
  let priv1 :=
    if priv.old_double_sided ≠ double_sided then
      let p := if double_sided ≠ 0 then priv.gl (GLCommand.glDisable GL_CULL_FACE)
               else priv.gl (GLCommand.glEnable GL_CULL_FACE)
      { p with old_double_sided := double_sided }
    else priv
  if priv1.old_flip_sided ≠ flip_sided then
    let p := if flip_sided ≠ 0 then priv1.gl (GLCommand.glFrontFace GL_CW)
             else priv1.gl (GLCommand.glFrontFace GL_CCW)
    { p with old_flip_sided := flip_sided }
  else priv1

/-- The function `set_depth_test`. -/
def set_depth_test (priv : GthreeRendererPrivate) (depth_test : gboolean) :
    GthreeRendererPrivate :=
  if priv.old_depth_test ≠ depth_test then
    let p := if depth_test ≠ 0 then priv.gl (GLCommand.glEnable GL_DEPTH_TEST)
             else priv.gl (GLCommand.glDisable GL_DEPTH_TEST)
    { p with old_depth_test := depth_test }
  else priv

/-- The function `set_depth_write`. -/
def set_depth_write (priv : GthreeRendererPrivate) (depth_write : gboolean) :
    GthreeRendererPrivate :=
  if priv.old_depth_write ≠ depth_write then
    { priv.gl (GLCommand.glDepthMask depth_write) with old_depth_write := depth_write }
  else priv

/-- The function `set_line_width`; the cached and the requested width are compared as C
floats (`!=` is true when either is NaN). -/
def set_line_width (priv : GthreeRendererPrivate) (line_width : float) :
    GthreeRendererPrivate :=
  if float.ne priv.old_line_width line_width then
    { priv.gl (GLCommand.glLineWidth line_width) with old_line_width := line_width }
  else priv

/-- The function `set_polygon_offset`; factor and units are compared with the cached ones
as C floats (`!=` is true when either is NaN). -/
def set_polygon_offset (priv : GthreeRendererPrivate) (polygon_offset : gboolean)
    (factor units : float) : GthreeRendererPrivate :=
  let priv1 :=
    if priv.old_polygon_offset ≠ polygon_offset then
      let p := if polygon_offset ≠ 0 then priv.gl (GLCommand.glEnable GL_POLYGON_OFFSET_FILL)
               else priv.gl (GLCommand.glDisable GL_POLYGON_OFFSET_FILL)
      { p with old_polygon_offset := polygon_offset }
    else priv
  if polygon_offset ≠ 0
      ∧ (float.ne priv1.old_polygon_offset_factor factor
        ∨ float.ne priv1.old_polygon_offset_units units) then
    { priv1.gl (GLCommand.glPolygonOffset factor units) with
      old_polygon_offset_factor := factor
      old_polygon_offset_units := units }
  else priv1

/-- The `switch (blending)` of `set_blending`: the GL commands of each blend mode; any
value outside the five named cases falls to `default`, which shares the code of
`GTHREE_BLEND_NO`. -/
def set_blending_switch (priv : GthreeRendererPrivate) (blending : GthreeBlendMode) :
    GthreeRendererPrivate :=
  if blending = GTHREE_BLEND_NORMAL then
    ((priv.gl (GLCommand.glEnable GL_BLEND)).gl
      (GLCommand.glBlendEquationSeparate GL_FUNC_ADD GL_FUNC_ADD)).gl
      (GLCommand.glBlendFuncSeparate GL_SRC_ALPHA GL_ONE_MINUS_SRC_ALPHA GL_ONE
        GL_ONE_MINUS_SRC_ALPHA)
  else if blending = GTHREE_BLEND_ADDITIVE then
    ((priv.gl (GLCommand.glEnable GL_BLEND)).gl (GLCommand.glBlendEquation GL_FUNC_ADD)).gl
      (GLCommand.glBlendFunc GL_SRC_ALPHA GL_ONE)
  else if blending = GTHREE_BLEND_SUBTRACTIVE then
    ((priv.gl (GLCommand.glEnable GL_BLEND)).gl (GLCommand.glBlendEquation GL_FUNC_ADD)).gl
      (GLCommand.glBlendFunc GL_ZERO GL_ONE_MINUS_SRC_COLOR)
  else if blending = GTHREE_BLEND_MULTIPLY then
    ((priv.gl (GLCommand.glEnable GL_BLEND)).gl (GLCommand.glBlendEquation GL_FUNC_ADD)).gl
      (GLCommand.glBlendFunc GL_ZERO GL_SRC_COLOR)
  else if blending = GTHREE_BLEND_CUSTOM then
    priv.gl (GLCommand.glEnable GL_BLEND)
  else
    priv.gl (GLCommand.glDisable GL_BLEND)

/-- The function `set_blending`. -/
def set_blending (priv : GthreeRendererPrivate) (blending : GthreeBlendMode)
    (blend_equation blend_src blend_dst : guint) : GthreeRendererPrivate :=
  let priv1 :=
    if blending ≠ priv.old_blending then
      { set_blending_switch priv blending with old_blending := blending }
    else priv
  if blending = GTHREE_BLEND_CUSTOM then
    let priv2 :=
      if blend_equation ≠ priv1.old_blend_equation then
        { priv1.gl (GLCommand.glBlendEquation blend_equation) with
          old_blend_equation := blend_equation }
      else priv1
    if blend_src ≠ priv2.old_blend_src ∨ blend_dst ≠ priv2.old_blend_dst then
      { priv2.gl (GLCommand.glBlendFunc blend_src blend_dst) with
        old_blend_src := blend_src
        old_blend_dst := blend_dst }
    else priv2
  else
    { priv1 with
      old_blend_equation := GUINT_MINUS_ONE
      old_blend_src := GUINT_MINUS_ONE
      old_blend_dst := GUINT_MINUS_ONE }

/-- The GL commands issued between the renderer states `before` and `after`. -/
def issued (before after : GthreeRendererPrivate) : List GLCommand :=
  after.gl_log.drop before.gl_log.length

/-- The GL command `set_material_faces` uses for the culling state of a side mode. -/
def cull_command (side : GthreeSide) : GLCommand :=
  if side = GthreeSide.GTHREE_SIDE_DOUBLE then GLCommand.glDisable GL_CULL_FACE
  else GLCommand.glEnable GL_CULL_FACE

/-- The GL command `set_material_faces` uses for the winding of a side mode. -/
def winding_command (side : GthreeSide) : GLCommand :=
  if side = GthreeSide.GTHREE_SIDE_BACK then GLCommand.glFrontFace GL_CW
  else GLCommand.glFrontFace GL_CCW

/-- The GL command that enables or disables capability `cap` according to a `gboolean`. -/
def enable_command (cap : guint) (flag : gboolean) : GLCommand :=
  if flag ≠ 0 then GLCommand.glEnable cap else GLCommand.glDisable cap

/-- The GL commands of the `switch` of `set_blending` for a blend mode. -/
def blend_mode_commands (blending : GthreeBlendMode) : List GLCommand :=
  (set_blending_switch {} blending).gl_log

/-! ## Draw range and draw call of `render_item` -/

def GL_LINES : guint := 0x0001
def GL_TRIANGLES : guint := 0x0004
def GL_TRIANGLE_STRIP : guint := 0x0005
def GL_TRIANGLE_FAN : guint := 0x0006

/-- Issue several GL commands, in order. -/
def GthreeRendererPrivate.gl_all (priv : GthreeRendererPrivate) (cs : List GLCommand) :
    GthreeRendererPrivate :=
  { priv with gl_log := priv.gl_log ++ cs }

/-- Record calls into collaborators, in order. -/
def GthreeRendererPrivate.emit (priv : GthreeRendererPrivate) (es : List Event) :
    GthreeRendererPrivate :=
  { priv with events := priv.events ++ es }

/-- The calls into collaborators made between the renderer states `before` and `after`. -/
def logged (before after : GthreeRendererPrivate) : List Event :=
  after.events.drop before.events.length

/-- The wireframe test of `render_item`: the material is a mesh material and
`gthree_mesh_material_get_is_wireframe` is true. -/
def render_item_wireframe (material : GthreeMaterial) : gboolean :=
  material.mesh_flag (fun m => m.wireframe)

/-- The range factor of `render_item`: `1`, or `2` when the wireframe index is used. -/
def render_item_range_factor (wireframe : gboolean) : Int :=
  if wireframe ≠ 0 then 2 else 1

/-- The element count `data_count` of `render_item`: the count of the index attribute if
there is one, else of the position attribute if there is one, else `-1`. -/
def render_item_data_count (index position : Option GthreeAttribute) : Int :=
  match index with
  | some i => i.count
  | none =>
    match position with
    | some p => p.count
    | none => -1

/-- The draw range computed by `render_item`: the pair `(draw_start, draw_count)`. The
arithmetic is that of C `int`, whose overflow is undefined; the values are integers. -/
def render_item_draw_range (data_count range_factor : Int) (geometry : GthreeGeometry)
    (group : Option GthreeGeometryGroup) : Int × Int :=
  let range_start := geometry.draw_range_start * range_factor
  let range_count := geometry.draw_range_count * range_factor
  let group_start :=
    match group with
    | some g => g.start * range_factor
    | none => 0
  let group_count :=
    match group with
    | some g => g.count * range_factor
    | none => -1
  let group_count := if group_count < 0 then data_count else group_count
  let range_count := if range_count < 0 then data_count else range_count
  let draw_start := max range_start group_start
  let draw_end := min data_count (min (range_start + range_count) (group_start + group_count)) - 1
  let draw_count := max 0 (draw_end - draw_start + 1)
  (draw_start, draw_count)

/-- The GL draw mode `render_item` chooses for a mesh that is not drawn as wireframe. -/
def render_item_mesh_draw_mode (mode : GthreeDrawMode) : guint :=
  match mode with
  | GthreeDrawMode.GTHREE_DRAW_MODE_TRIANGLE_STRIP => GL_TRIANGLE_STRIP
  | GthreeDrawMode.GTHREE_DRAW_MODE_TRIANGLE_FAN => GL_TRIANGLE_FAN
  | _ => GL_TRIANGLES

/-- The last part of `render_item`, from `data_count = -1` to the end: the draw range, the
early return when `draw_count` is `0`, the choice of line width and draw mode, and the draw
call. `index` and `position` are the attributes selected before (the wireframe index when
`wireframe` is set). -/
def render_item_draw (priv : GthreeRendererPrivate) (object : GthreeObject)
    (material : GthreeMaterial) (geometry : GthreeGeometry)
    (group : Option GthreeGeometryGroup) (wireframe : gboolean)
    (index position : Option GthreeAttribute) : GthreeRendererPrivate :=
  let data_count := render_item_data_count index position
  let range := render_item_draw_range data_count (render_item_range_factor wireframe) geometry
    group
  let draw_start := range.1
  let draw_count := range.2
  if draw_count = 0 then priv
  else
    let r : GthreeRendererPrivate × guint :=
      match object.kind with
      | GthreeObjectKind.mesh m =>
        if wireframe ≠ 0 then
          (set_line_width priv
            (match material.mesh_material with
             | some mm => mm.wireframe_line_width
             | none => 0), GL_LINES)
        else (priv, render_item_mesh_draw_mode m.draw_mode)
      | GthreeObjectKind.line_segments =>
        (set_line_width priv
          (match material.kind with
           | GthreeMaterialKind.line_basic_material line_width => line_width
           | _ => 1), GL_LINES)
      | GthreeObjectKind.sprite => (priv, GL_TRIANGLES)
      | _ => (priv, GL_TRIANGLES)
    match index with
    | some i =>
      r.1.gl (GLCommand.glDrawElements r.2 draw_count i.gl_type
        ((i.item_offset + draw_start) * i.gl_bytes_per_element))
    | none => r.1.gl (GLCommand.glDrawArrays r.2 draw_start draw_count)

/-- Membership of element `k` in the user draw range `[start, start + count)` scaled by
the range factor `f`; a negative count is unlimited. -/
def in_user_range (geometry : GthreeGeometry) (f k : Int) : Prop :=
  geometry.draw_range_start * f ≤ k
    ∧ (geometry.draw_range_count * f < 0
      ∨ k < geometry.draw_range_start * f + geometry.draw_range_count * f)

/-- Membership of element `k` in the range of the group scaled by the range factor `f`; a
negative count is unlimited, and an item without group is not restricted. -/
def in_group_range (group : Option GthreeGeometryGroup) (f k : Int) : Prop :=
  match group with
  | none => True
  | some g => g.start * f ≤ k ∧ (g.count * f < 0 ∨ k < g.start * f + g.count * f)

/-- Element `k` lies in the user draw range, in the group range and inside the element
data `[0, data_count)`. -/
def in_draw_intersection (data_count f : Int) (geometry : GthreeGeometry)
    (group : Option GthreeGeometryGroup) (k : Int) : Prop :=
  in_user_range geometry f k ∧ in_group_range group f k ∧ 0 ≤ k ∧ k < data_count

/-- The group start is not negative (an item without group has none). -/
def group_start_nonneg (group : Option GthreeGeometryGroup) : Prop :=
  match group with
  | none => True
  | some g => 0 ≤ g.start

instance (geometry : GthreeGeometry) (f k : Int) : Decidable (in_user_range geometry f k) := by
  unfold in_user_range
  infer_instance

instance (group : Option GthreeGeometryGroup) (f k : Int) :
    Decidable (in_group_range group f k) := by
  cases group <;> unfold in_group_range <;> infer_instance

instance (data_count f : Int) (geometry : GthreeGeometry) (group : Option GthreeGeometryGroup)
    (k : Int) : Decidable (in_draw_intersection data_count f geometry group k) := by
  unfold in_draw_intersection
  infer_instance

instance (group : Option GthreeGeometryGroup) : Decidable (group_start_nonneg group) := by
  cases group <;> unfold group_start_nonneg <;> infer_instance

/-- The count `render_item` works with: the scaled count, or the element count when the
scaled count is negative (unlimited). -/
def effective_count (count data_count : Int) : Int :=
  if count < 0 then data_count else count

/-- The start of the group of an item; `0` for an item without group. -/
def group_start_of (group : Option GthreeGeometryGroup) : Int :=
  match group with
  | some g => g.start
  | none => 0

/-- The count of the group of an item; `-1` (unlimited) for an item without group. -/
def group_count_of (group : Option GthreeGeometryGroup) : Int :=
  match group with
  | some g => g.count
  | none => -1

/-! ## Morph targets -/

/-- The C library function `fabs`, on the value of a float. -/
def fabs (x : gfloat) : gfloat :=
  if x < 0 then -x else x

/-- The comparator `influence_info_cmp`. -/
def influence_info_cmp (a b : InfluenceInfo) : Int :=
  let aa := fabs a.value
  let bb := fabs b.value
  if aa = bb then 0
  else if bb > aa then -1
  else 1

/-- GLib `g_array_sort` (a library routine, not part of this repository): like
`g_array_sort_with_data` it sorts through `g_qsort_with_data`, the stable merge sort
`msort_with_tmp`. -/
def g_array_sort {α : Type} (array : List α) (compare_func : α → α → Int) : List α :=
  g_array_sort_with_data array compare_func

/-- The collaborator `gthree_geometry_remove_attribute` (not among the sources): the named
attribute is dropped from the attribute table. -/
def gthree_geometry_remove_attribute (geometry : GthreeGeometry) (name : AttributeName) :
    GthreeGeometry :=
  { geometry with attributes := geometry.attributes.filter (fun e => e.1 ≠ name) }

/-- The collaborator `gthree_geometry_add_attribute` (not among the sources): the attribute
is stored under the name, replacing an attribute of the same name. -/
def gthree_geometry_add_attribute (geometry : GthreeGeometry) (name : AttributeName)
    (attr : Option Nat) : GthreeGeometry :=
  { geometry with
    attributes := geometry.attributes.filter (fun e => e.1 ≠ name) ++ [(name, attr)] }

/-- GLib `g_ptr_array_index`: the element at the index; `none` stands for the undefined
read through a null array or outside the array. -/
def g_ptr_array_index (array : Option (List Nat)) (i : Nat) : Option Nat :=
  match array with
  | none => none
  | some l => l.get? i

/-- The element `g_array_index (influences, InfluenceInfo, i)`; a read outside the array
is undefined in C and gives the zero entry here. -/
def influence_at (influences : List InfluenceInfo) (i : Nat) : InfluenceInfo :=
  influences.getD i { index := 0, value := 0 }

/-- The first loop of `update_morphtargets` ("Remove current morphAttributes"): for each
`i < length` whose entry of the influence array has a non-zero value, `morphTarget<i>` is
removed if `morphTargets` is non-null and `morphNormal<i>` if `morphNormals` is. -/
def update_morphtargets_remove (morphTargets morphNormals : Option (List Nat))
    (influences : List InfluenceInfo) (length : Nat) (geometry : GthreeGeometry) :
    GthreeGeometry :=
  (List.range length).foldl
    (fun g i =>
      if (influence_at influences i).value ≠ 0 then
        let g1 :=
          if morphTargets.isSome then
            gthree_geometry_remove_attribute g (AttributeName.morphTarget i)
          else g
        if morphNormals.isSome then
          gthree_geometry_remove_attribute g1 (AttributeName.morphNormal i)
        else g1
      else g)
    geometry

/-- The second loop of `update_morphtargets` ("Collect influences"): entry `i` of the
influence array becomes `{i, object_influences[i]}` for each `i < length`. -/
def update_morphtargets_collect (object_influences : List gfloat)
    (influences : List InfluenceInfo) : List InfluenceInfo :=
  (List.range object_influences.length).foldl
    (fun infl i => infl.set i { index := i, value := object_influences.getD i 0 })
    influences

/-- One round of the third loop of `update_morphtargets` ("Add morphAttributes") for slot
`i`: the geometry after it and the value written to `morph_influences[i]`. The attribute
bound to `morphNormal<i>` is read from `morphTargets`, as in the source. -/
def update_morphtargets_slot (morphTargets morphNormals : Option (List Nat))
    (influences : List InfluenceInfo) (length : Nat) (geometry : GthreeGeometry) (i : Nat) :
    GthreeGeometry × gfloat :=
  if i < length then
    let info := influence_at influences i
    if info.value ≠ 0 then
      let g1 :=
        if morphTargets.isSome then
          gthree_geometry_add_attribute geometry (AttributeName.morphTarget i)
            (g_ptr_array_index morphTargets info.index)
        else geometry
      let g2 :=
        if morphNormals.isSome then
          gthree_geometry_add_attribute g1 (AttributeName.morphNormal i)
            (g_ptr_array_index morphTargets info.index)
        else g1
      (g2, info.value)
    else (geometry, 0)
  else (geometry, 0)

/-- The third loop of `update_morphtargets` over the slots `0 .. 7`: the geometry after it
and the eight values written to `morph_influences[0 .. 7]`, in slot order. -/
def update_morphtargets_add (morphTargets morphNormals : Option (List Nat))
    (influences : List InfluenceInfo) (length : Nat) (geometry : GthreeGeometry) :
    GthreeGeometry × List gfloat :=
  (List.range 8).foldl
    (fun (acc : GthreeGeometry × List gfloat) i =>
      let r := update_morphtargets_slot morphTargets morphNormals influences length acc.1 i
      (r.1, acc.2 ++ [r.2]))
    (geometry, [])

/-- The function `update_morphtargets`, for a mesh with the morph influences
`object_influences` and a mesh material: the renderer state and the geometry after it. -/
def update_morphtargets (priv : GthreeRendererPrivate) (object_influences : List gfloat)
    (geometry : GthreeGeometry) (material : GthreeMeshMaterial)
    (program : Option GthreeProgram) : GthreeRendererPrivate × GthreeGeometry :=
  let length := object_influences.length
  let influences0 :=
    match geometry.influences with
    | none => (List.range length).map (fun i => ({ index := i, value := 0 } : InfluenceInfo))
    | some l => l
  let morphTargets :=
    if material.morph_targets ≠ 0 then geometry.morph_attributes_position else none
  let morphNormals :=
    if material.morph_normals ≠ 0 then geometry.morph_attributes_normal else none
  let geometry1 := update_morphtargets_remove morphTargets morphNormals influences0 length geometry
  let influences1 := update_morphtargets_collect object_influences influences0
  let influences2 := g_array_sort influences1 influence_info_cmp
  let r := update_morphtargets_add morphTargets morphNormals influences2 length geometry1
  let geometry2 := { r.1 with influences := some influences2 }
  let priv1 := { priv with morph_influences := r.2 }
  let morph_target_influences_location :=
    gthree_program_lookup_uniform_location program UniformName.morphTargetInfluences0
  if morph_target_influences_location ≥ 0 then
    (priv1.gl (GLCommand.glUniform1fv morph_target_influences_location 8 priv1.morph_influences),
      geometry2)
  else
    (priv1.emit [Event.g_warning GWarning.no_morph_target_influences_uniform], geometry2)

/-- The influence array after the "Collect influences" loop of `update_morphtargets` has
run over an array of the right length: entry `i` is `{i, object_influences[i]}`. -/
def collected_influences (object_influences : List gfloat) : List InfluenceInfo :=
  (List.range object_influences.length).map
    (fun i => ({ index := i, value := object_influences.getD i 0 } : InfluenceInfo))

/-- The influence array after `g_array_sort (influences, influence_info_cmp)`: the ranking
`update_morphtargets` works with. -/
def ranked_influences (object_influences : List gfloat) : List InfluenceInfo :=
  g_array_sort (collected_influences object_influences) influence_info_cmp

/-- The value the third loop of `update_morphtargets` writes to `morph_influences[i]`. -/
def slot_value (influences : List InfluenceInfo) (length i : Nat) : gfloat :=
  if i < length ∧ (influence_at influences i).value ≠ 0 then (influence_at influences i).value
  else 0

/-- The attribute-table entry `e` is a binding the third loop of `update_morphtargets` makes
for slot `i`: the slot is below `length`, the entry ranked at `i` has a non-zero value, the
name is `morphTarget<i>` or `morphNormal<i>` and the attribute is the one read at the index
of that entry. -/
def bound_in_slot (morphTargets : Option (List Nat)) (influences : List InfluenceInfo)
    (length i : Nat) (e : AttributeName × Option Nat) : Prop :=
  i < length ∧ (influence_at influences i).value ≠ 0
    ∧ (e.1 = AttributeName.morphTarget i ∨ e.1 = AttributeName.morphNormal i)
    ∧ e.2 = g_ptr_array_index morphTargets (influence_at influences i).index

/-- The scratch array `geometry->influences` fits a mesh with `n` morph influences: it is
`NULL` (and is then created with `n` entries) or has `n` entries, as it has after every
earlier call for a mesh with `n` influences. -/
def influences_fit (geometry : GthreeGeometry) (n : Nat) : Prop :=
  match geometry.influences with
  | none => True
  | some l => l.length = n

instance (geometry : GthreeGeometry) (n : Nat) : Decidable (influences_fit geometry n) := by
  unfold influences_fit
  cases geometry.influences <;> infer_instance

/-! ## Texture units -/

/-- The function `gthree_renderer_allocate_texture_unit`: the new state and the returned
unit. The comparison converts the `int` limit to `unsigned`; the `guint` counter wraps at
`2 ^ 32`. -/
def gthree_renderer_allocate_texture_unit (priv : GthreeRendererPrivate) :
    GthreeRendererPrivate × guint :=
  let texture_unit := priv.used_texture_units
  let priv1 :=
    if texture_unit ≥ (priv.max_textures % 4294967296).toNat then
      priv.emit [Event.g_warning (GWarning.texture_units texture_unit priv.max_textures)]
    else priv
  ({ priv1 with used_texture_units := (priv1.used_texture_units + 1) % 4294967296 },
    texture_unit)

/-- The units returned by `n` successive calls of `gthree_renderer_allocate_texture_unit`,
oldest first, and the state after them. -/
def allocate_texture_units : Nat → GthreeRendererPrivate → GthreeRendererPrivate × List guint
  | 0, priv => (priv, [])
  | n + 1, priv =>
    let r := gthree_renderer_allocate_texture_unit priv
    let rest := allocate_texture_units n r.1
    (rest.1, r.2 :: rest.2)

/-! ## Program resolution: `init_material` and `set_program` -/

/-- The code that the renderer calls through a class pointer or in another module and whose
result it uses: the virtual method `set_params` of the material class, which writes into the
parameter set it is handed, and `gthree_program_cache_get`, whose result (`none` is `NULL`)
may depend on everything that was called before. -/
structure Collaborators where
  set_params : GthreeMaterial → GthreeProgramParameters → GthreeProgramParameters
  program_cache_get : List Event → GthreeShader → GthreeProgramParameters →
    Option GthreeProgram

def MAX_MORPH_TARGETS : Nat := 8
def MAX_MORPH_NORMALS : Nat := 4

/-- The function `gthree_uniforms_lookup`: the entry of the table with the name, if any. -/
def gthree_uniforms_lookup (uniforms : GthreeUniforms) (name : UniformName) :
    Option GthreeUniform :=
  uniforms.find? (fun u => u.name = name)

/-- The call `gthree_uniform_set_needs_update (uni, needs_update)` on the entry found by
`gthree_uniforms_lookup (uniforms, name)`, guarded by `if (uni)`: the table is keyed by
name, so the entry of that name gets the flag; a table without the name is unchanged. -/
def uniforms_set_needs_update (uniforms : GthreeUniforms) (name : UniformName)
    (needs_update : gboolean) : GthreeUniforms :=
  uniforms.map (fun u => if u.name = name then { u with needs_update := needs_update } else u)

/-- The function `material_apply_light_setup` on the uniform table of a shader: three calls
into the uniform table. -/
def material_apply_light_setup (priv : GthreeRendererPrivate) (shader : GthreeShader)
    (update_only : gboolean) : GthreeRendererPrivate :=
  priv.emit
    [Event.uniforms_set_color shader.addr UniformName.ambientLightColor,
     Event.uniforms_set_uarray shader.addr UniformName.directionalLights update_only,
     Event.uniforms_set_uarray shader.addr UniformName.pointLights update_only]

/-- The function `mark_uniforms_lights_needs_update`, with its five lookups in source
order. -/
def mark_uniforms_lights_needs_update (uniforms : GthreeUniforms) (needs_update : gboolean) :
    GthreeUniforms :=
  let u1 := uniforms_set_needs_update uniforms UniformName.ambientLightColor needs_update
  let u2 := uniforms_set_needs_update u1 UniformName.directionalLights needs_update
  let u3 := uniforms_set_needs_update u2 UniformName.pointLights needs_update
  let u4 := uniforms_set_needs_update u3 UniformName.directionalLights needs_update
  uniforms_set_needs_update u4 UniformName.spotLights needs_update

/-- The variable `max_bones` of `init_material`: the bone count of the skeleton of a skinned
mesh, `0` for any other object or a skinned mesh without skeleton. -/
def init_material_max_bones (object : GthreeObject) : Int :=
  match object.skinned_mesh with
  | some skinned =>
    match skinned.skeleton with
    | some skeleton => skeleton.n_bones
    | none => 0
  | none => 0

/-- The parameter set `init_material` hands to the program cache (the assignments to
`parameters` in source order). -/
def init_material_parameters (c : Collaborators) (priv : GthreeRendererPrivate)
    (material : GthreeMaterial) (object : GthreeObject) : GthreeProgramParameters :=
  let parameters0 : GthreeProgramParameters := {}
  let parameters1 : GthreeProgramParameters :=
    { parameters0 with
      precision := GthreePrecision.GTHREE_PRECISION_HIGH
      supports_vertex_textures := priv.supports_vertex_textures
      output_encoding := GthreeEncodingFormat.GTHREE_ENCODING_FORMAT_GAMMA
      physically_correct_lights := priv.physically_correct_lights }
  let parameters2 := c.set_params material parameters1
  let parameters3 : GthreeProgramParameters :=
    { parameters2 with
      num_dir_lights := priv.light_setup.directional.length
      num_point_lights := priv.light_setup.point.length }
  { parameters3 with
    max_bones := init_material_max_bones object
    skinning := material.mesh_flag (fun m => m.skinning)
    morph_targets := material.mesh_flag (fun m => m.morph_targets)
    morph_normals := material.mesh_flag (fun m => m.morph_normals)
    num_clipping_planes := priv.num_clipping_planes }

/-- The value of `g_hash_table_lookup (program_attributes, attr)` as an integer: the stored
location, `0` (`NULL`) when the name is not in the table or the program is `NULL`. -/
def program_attribute_lookup (program : Option GthreeProgram) (name : AttributeName) : Int :=
  match program with
  | none => 0
  | some p =>
    match p.attribute_locations.find? (fun e => e.1 = name) with
    | some e => e.2
    | none => 0

/-- The counting loops of `init_material`: how many of the names `mk 0 .. mk (max - 1)` have
a non-`NULL` entry in the attribute table of the program. -/
def init_material_num_supported (program : Option GthreeProgram) (mk : Nat → AttributeName)
    (max : Nat) : Int :=
  (List.range max).foldl
    (fun num_supported i =>
      if program_attribute_lookup program (mk i) ≠ 0 then num_supported + 1 else num_supported)
    0

/-- The two blocks of `init_material` that store the supported morph target and morph normal
counts in a mesh material. -/
def init_material_morph_support (program : Option GthreeProgram) (kind : GthreeMaterialKind) :
    GthreeMaterialKind :=
  match kind with
  | GthreeMaterialKind.mesh_material m =>
    let m1 :=
      if m.morph_targets ≠ 0 then
        { m with num_supported_morph_targets :=
            init_material_num_supported program AttributeName.morphTarget MAX_MORPH_TARGETS }
      else m
    let m2 :=
      if m1.morph_normals ≠ 0 then
        { m1 with num_supported_morph_normals :=
            init_material_num_supported program AttributeName.morphNormal MAX_MORPH_NORMALS }
      else m1
    GthreeMaterialKind.mesh_material m2
  | k => k

/-- The block of `init_material` that makes sure the uniform table of a material that is
not a shader material has a `clippingPlanes` entry (a new uniform needs an update). -/
def init_material_clipping_uniform (kind : GthreeMaterialKind) (shader : GthreeShader) :
    GthreeShader :=
  if kind ≠ GthreeMaterialKind.shader_material then
    match gthree_uniforms_lookup shader.uniforms UniformName.clippingPlanes with
    | some _ => shader
    | none =>
      { shader with uniforms := shader.uniforms ++ [{ name := UniformName.clippingPlanes }] }
  else shader

/-- The function `init_material`: the renderer state and the material after it. -/
def init_material (c : Collaborators) (priv : GthreeRendererPrivate)
    (material : GthreeMaterial) (object : GthreeObject) :
    GthreeRendererPrivate × GthreeMaterial :=
  let shader := material.shader
  let parameters := init_material_parameters c priv material object
  let program := c.program_cache_get priv.events shader parameters
  let priv1 := priv.emit [Event.program_cache_get shader.addr parameters]
  let material1 : GthreeMaterial :=
    { material with
      properties := { program := program, light_hash := priv.light_setup.hash }
      kind := init_material_morph_support program material.kind
      shader := init_material_clipping_uniform material.kind shader }
  let priv2 :=
    if priv1.lights ≠ [] then material_apply_light_setup priv1 shader FALSE else priv1
  let priv3 :=
    priv2.emit
      [Event.shader_update_uniform_locations_for_program shader.addr (program_pointer program)]
  (priv3, material1)

/-- The local variables of `set_program` together with the renderer state and the material,
as the function proceeds. The three flags start as `false`. -/
structure SetProgramState where
  priv : GthreeRendererPrivate
  material : GthreeMaterial
  refreshProgram : gboolean := FALSE
  refreshMaterial : gboolean := FALSE
  refreshLights : gboolean := FALSE

/-- The beginning of `set_program`: the texture-unit counter is reset, a material whose
`needs_update` flag is clear gets it set when its cached light hash differs from the hash of
the light setup, and a material whose flag is then set is initialised and its flag
cleared. -/
def set_program_update_material (c : Collaborators) (priv : GthreeRendererPrivate)
    (material : GthreeMaterial) (object : GthreeObject) : SetProgramState :=
  let priv1 := { priv with used_texture_units := 0 }
  let material1 :=
    if material.needs_update = 0 then
      if gthree_light_setup_hash_equal material.properties.light_hash priv1.light_setup.hash = 0
      then { material with needs_update := TRUE }
      else material
    else material
  if material1.needs_update ≠ 0 then
    let r := init_material c priv1 material1 object
    { priv := r.1, material := { r.2 with needs_update := FALSE } }
  else { priv := priv1, material := material1 }

/-- The program and material tests of `set_program`: a program other than the current one
is put in use and sets all three flags; a material other than the current one sets
`refreshMaterial`. -/
def set_program_bind (s : SetProgramState) : SetProgramState :=
  let program := s.material.properties.program
  let s1 : SetProgramState :=
    if program_pointer program ≠ s.priv.current_program then
      { s with
        priv :=
          { s.priv.emit [Event.program_use (program_pointer program)] with
            current_program := program_pointer program }
        refreshProgram := TRUE
        refreshMaterial := TRUE
        refreshLights := TRUE }
    else s
  if s1.material.addr ≠ s1.priv.current_material then
    { s1 with
      priv := { s1.priv with current_material := s1.material.addr }
      refreshMaterial := TRUE }
  else s1

/-- The camera block of `set_program`: on a program refresh or a camera other than the
current one the projection matrix is uploaded; a new camera is remembered and sets
`refreshMaterial` and `refreshLights`; then camera position and view matrix are uploaded
when the material needs them and the program has the uniform. -/
def set_program_camera (s : SetProgramState) (camera : Nat) : SetProgramState :=
  let program := s.material.properties.program
  if s.refreshProgram ≠ 0 ∨ camera ≠ s.priv.current_camera then
    let priv1 :=
      s.priv.gl (GLCommand.glUniformMatrix4fv
        (gthree_program_lookup_uniform_location program UniformName.projectionMatrix) 1 FALSE
        (UniformValue.projection_matrix camera))
    let s1 : SetProgramState :=
      if camera ≠ priv1.current_camera then
        { s with
          priv := { priv1 with current_camera := camera }
          refreshMaterial := TRUE
          refreshLights := TRUE }
      else { s with priv := priv1 }
    let priv2 :=
      if s1.material.needs_camera_pos ≠ 0
          ∧ gthree_program_lookup_uniform_location program UniformName.cameraPosition ≥ 0 then
        s1.priv.gl (GLCommand.glUniform3f
          (gthree_program_lookup_uniform_location program UniformName.cameraPosition)
          (UniformValue.camera_position camera))
      else s1.priv
    let priv3 :=
      if s1.material.needs_view_matrix ≠ 0
          ∧ gthree_program_lookup_uniform_location program UniformName.viewMatrix ≥ 0 then
        priv2.gl (GLCommand.glUniformMatrix4fv
          (gthree_program_lookup_uniform_location program UniformName.viewMatrix) 1 FALSE
          (UniformValue.world_inverse_matrix camera))
      else priv2
    { s1 with priv := priv3 }
  else s

/-- The skinning block of `set_program`, entered for a mesh material with skinning: the bind
matrices of a skinned mesh are uploaded when their pointers are not `NULL`, and the bone
matrices of its skeleton when the program has the `boneMatrices[0]` uniform. -/
def set_program_skinning (s : SetProgramState) (object : GthreeObject) : SetProgramState :=
  let program := s.material.properties.program
  if s.material.mesh_flag (fun m => m.skinning) ≠ 0 then
    match object.skinned_mesh with
    | some skinned =>
      let priv1 :=
        if skinned.has_bind_matrix then
          s.priv.gl (GLCommand.glUniformMatrix4fv
            (gthree_program_lookup_uniform_location program UniformName.bindMatrix) 1 FALSE
            (UniformValue.bind_matrix object.addr))
        else s.priv
      let priv2 :=
        if skinned.has_inverse_bind_matrix then
          priv1.gl (GLCommand.glUniformMatrix4fv
            (gthree_program_lookup_uniform_location program UniformName.bindMatrixInverse) 1
            FALSE (UniformValue.inverse_bind_matrix object.addr))
        else priv1
      match skinned.skeleton with
      | some skeleton =>
        if gthree_program_lookup_uniform_location program UniformName.boneMatrices0 ≥ 0 then
          { s with
            priv := priv2.gl (GLCommand.glUniformMatrix4fv
              (gthree_program_lookup_uniform_location program UniformName.boneMatrices0)
              skeleton.n_bones FALSE (UniformValue.bone_matrices skeleton.addr)) }
        else { s with priv := priv2 }
      | none => { s with priv := priv2 }
    | none => s
  else s

/-- The clipping block of `set_program`: while clipping is enabled the `clippingPlanes`
uniform of the material, if it has one, gets the clipping state and is marked as needing an
update. -/
def set_program_clipping (s : SetProgramState) : SetProgramState :=
  if s.priv.clipping_enabled ≠ 0 then
    match gthree_uniforms_lookup s.material.shader.uniforms UniformName.clippingPlanes with
    | some _ =>
      { s with
        priv := s.priv.emit
          [Event.uniform_set_float4_array s.material.shader.addr UniformName.clippingPlanes]
        material :=
          { s.material with
            shader :=
              { s.material.shader with
                uniforms := uniforms_set_needs_update s.material.shader.uniforms
                  UniformName.clippingPlanes TRUE } } }
    | none => s
  else s

/-- The last block of `set_program`. With `refreshMaterial` set: for a material that needs
lights the light uniforms are marked with `refreshLights` and, when that is set, the light
setup is copied into them; then `gthree_material_set_uniforms` and the bulk
`gthree_uniforms_load`. Otherwise only the `clippingPlanes` uniform, if the material has
one, is loaded. The two load functions are code of another module and each call is recorded
as one event; the calls a load makes back into the renderer
(`gthree_renderer_allocate_texture_unit`, once for a texture uniform) are not replayed, so
the texture-unit counter of the result is the counter before the loads. -/
def set_program_refresh (s : SetProgramState) (camera : Nat) : SetProgramState :=
  let shader := s.material.shader
  if s.refreshMaterial ≠ 0 then
    let s1 : SetProgramState :=
      if s.material.needs_lights ≠ 0 then
        let uniforms1 := mark_uniforms_lights_needs_update shader.uniforms s.refreshLights
        let priv1 :=
          if s.refreshLights ≠ 0 then material_apply_light_setup s.priv shader TRUE
          else s.priv
        { s with
          priv := priv1
          material := { s.material with shader := { shader with uniforms := uniforms1 } } }
      else s
    { s1 with
      priv := s1.priv.emit
        [Event.material_set_uniforms s1.material.addr shader.addr camera,
         Event.uniforms_load shader.addr] }
  else
    match gthree_uniforms_lookup shader.uniforms UniformName.clippingPlanes with
    | some _ =>
      { s with priv := s.priv.emit [Event.uniform_load shader.addr UniformName.clippingPlanes] }
    | none => s

/-- The function `set_program`: the blocks above in source order, then
`gthree_object_set_direct_uniforms`. The result holds the renderer state and the material
after the call and the final values of the three refresh flags; the returned program is the
program of the material properties. -/
def set_program (c : Collaborators) (priv : GthreeRendererPrivate) (camera : Nat)
    (material : GthreeMaterial) (object : GthreeObject) : SetProgramState :=
  let s1 := set_program_update_material c priv material object
  let s2 := set_program_bind s1
  let s3 := set_program_camera s2 camera
  let s4 := set_program_skinning s3 object
  let s5 := set_program_clipping s4
  let s6 := set_program_refresh s5 camera
  { s6 with
    priv := s6.priv.emit
      [Event.object_set_direct_uniforms object.addr
        (program_pointer s6.material.properties.program)] }

/-- The value `set_program` returns: the program stored in the material properties. -/
def SetProgramState.program (s : SetProgramState) : Option GthreeProgram :=
  s.material.properties.program

/-- An event is a call of `gthree_program_cache_get`, which only `init_material` makes. -/
def Event.is_program_cache_get : Event → Bool
  | Event.program_cache_get _ _ => true
  | _ => false

/-- The number of times `init_material` ran between two renderer states. -/
def init_material_calls (before after : GthreeRendererPrivate) : Nat :=
  (logged before after).countP Event.is_program_cache_get

/-- The material is dirty on entry of `set_program`: its `needs_update` flag is set, or
its cached light hash is not equal to the hash of the light setup. -/
def material_dirty (priv : GthreeRendererPrivate) (material : GthreeMaterial) : Prop :=
  material.needs_update ≠ 0
    ∨ gthree_light_setup_hash_equal material.properties.light_hash priv.light_setup.hash = 0

instance (priv : GthreeRendererPrivate) (material : GthreeMaterial) :
    Decidable (material_dirty priv material) := by
  unfold material_dirty
  infer_instance

/-- The material as `init_material` receives it from `set_program`: with the
`needs_update` flag set when only the light hash made it dirty. -/
def set_program_marked_material (priv : GthreeRendererPrivate) (material : GthreeMaterial) :
    GthreeMaterial :=
  if material.needs_update = 0 then
    if gthree_light_setup_hash_equal material.properties.light_hash priv.light_setup.hash = 0
    then { material with needs_update := TRUE }
    else material
  else material

/-- The events of the blocks of `set_program` that follow the first one. -/
def set_program_later_events (s1 : SetProgramState) (camera : Nat) (object : GthreeObject) :
    List Event :=
  let s4 := set_program_skinning (set_program_camera (set_program_bind s1) camera) object
  let s5 := set_program_clipping s4
  (if program_pointer s1.material.properties.program ≠ s1.priv.current_program then
      [Event.program_use (program_pointer s1.material.properties.program)]
    else [])
    ++ (if s4.priv.clipping_enabled ≠ 0
          ∧ (gthree_uniforms_lookup s4.material.shader.uniforms
              UniformName.clippingPlanes).isSome then
        [Event.uniform_set_float4_array s4.material.shader.addr UniformName.clippingPlanes]
      else [])
    ++ (if s5.refreshMaterial ≠ 0 then
        (if s5.material.needs_lights ≠ 0 ∧ s5.refreshLights ≠ 0 then
          [Event.uniforms_set_color s5.material.shader.addr UniformName.ambientLightColor,
           Event.uniforms_set_uarray s5.material.shader.addr UniformName.directionalLights TRUE,
           Event.uniforms_set_uarray s5.material.shader.addr UniformName.pointLights TRUE]
        else [])
        ++ [Event.material_set_uniforms s5.material.addr s5.material.shader.addr camera,
            Event.uniforms_load s5.material.shader.addr]
      else if (gthree_uniforms_lookup s5.material.shader.uniforms
            UniformName.clippingPlanes).isSome then
        [Event.uniform_load s5.material.shader.addr UniformName.clippingPlanes]
      else [])
    ++ [Event.object_set_direct_uniforms object.addr
        (program_pointer s1.material.properties.program)]

/-- The events of the first block of `set_program`: those of `init_material` for a dirty
material, none otherwise. -/
def set_program_init_events (c : Collaborators) (priv : GthreeRendererPrivate)
    (material : GthreeMaterial) (object : GthreeObject) : List Event :=
  if material_dirty priv material then
    Event.program_cache_get material.shader.addr
        (init_material_parameters c { priv with used_texture_units := 0 }
          (set_program_marked_material priv material) object)
      :: ((if priv.lights ≠ [] then
            [Event.uniforms_set_color material.shader.addr UniformName.ambientLightColor,
             Event.uniforms_set_uarray material.shader.addr UniformName.directionalLights FALSE,
             Event.uniforms_set_uarray material.shader.addr UniformName.pointLights FALSE]
          else [])
        ++ [Event.shader_update_uniform_locations_for_program material.shader.addr
            (program_pointer
              (set_program_update_material c priv material object).material.properties.program)])
  else []

/-! ## Mesh phong material: GObject properties -/

/-- A `graphene_vec3_t`, by its components. -/
structure graphene_vec3_t where
  x : gfloat := 0
  y : gfloat := 0
  z : gfloat := 0
  deriving DecidableEq, Repr

/-- The property ids of `GthreeMeshPhongMaterial`: the anonymous `enum` of
`gthreemeshphongmaterial.c`, numbered from `PROP_0 = 0`. -/
def PROP_0 : guint := 0
def PROP_COLOR : guint := 1
def PROP_EMISSIVE_COLOR : guint := 2
def PROP_SPECULAR_COLOR : guint := 3
def PROP_REFLECTIVITY : guint := 4
def PROP_REFRACTION_RATIO : guint := 5
def PROP_MAP : guint := 6
def PROP_ENV_MAP : guint := 7
def PROP_COMBINE : guint := 8
def PROP_SHININESS : guint := 9
def PROP_FLAT_SHADING : guint := 10

/-- A `GValue` holding a float, a boxed `graphene_vec3_t`, an object pointer, an enum value or
a boolean. -/
inductive GValue
  | float (v : gfloat)
  | boxed (v : graphene_vec3_t)
  | object (p : Nat)
  | enum (v : Int)
  | boolean (v : gboolean)
  deriving DecidableEq, Repr

/-- GLib `g_value_get_float`: the float held; `0` for a value of another type. -/
def g_value_get_float : GValue → gfloat
  | GValue.float v => v
  | _ => 0

/-- GLib `g_value_get_boxed`: the boxed vector held; the zero vector stands for the pointer
got from a value of another type. -/
def g_value_get_boxed : GValue → graphene_vec3_t
  | GValue.boxed v => v
  | _ => {}

/-- GLib `g_value_get_object`: the pointer held; `NULL` for a value of another type. -/
def g_value_get_object : GValue → Nat
  | GValue.object p => p
  | _ => 0

/-- GLib `g_value_get_enum`. -/
def g_value_get_enum : GValue → Int
  | GValue.enum v => v
  | _ => 0

/-- GLib `g_value_get_boolean`. -/
def g_value_get_boolean : GValue → gboolean
  | GValue.boolean v => v
  | _ => 0

/-- The enumerator `GTHREE_OPERATION_MULTIPLY` (declared in `gthreeenums.h`, which is not
among the sources; only its identity matters here). -/
def GTHREE_OPERATION_MULTIPLY : Int := 0

/-- The struct `GthreeMeshPhongMaterialPrivate`, then the `needs_update` flag of the
material it belongs to, the properties notified through `g_object_notify_by_pspec` (oldest
first) and the ids reported by `G_OBJECT_WARN_INVALID_PROPERTY_ID`. Floats are kept in
hundredths. The defaults are the values `gthree_mesh_phong_material_init` and
`gthree_material_init` store. -/
structure GthreeMeshPhongMaterial where
  color : graphene_vec3_t := { x := 100, y := 100, z := 100 }
  emissive : graphene_vec3_t := { x := 0, y := 0, z := 0 }
  specular : graphene_vec3_t := { x := 7, y := 7, z := 7 }
  shininess : gfloat := 3000
  reflectivity : gfloat := 100
  refraction_ratio : gfloat := 98
  combine : Int := GTHREE_OPERATION_MULTIPLY
  flat_shading : gboolean := FALSE
  map : Nat := 0
  env_map : Nat := 0
  needs_update : gboolean := TRUE
  notified : List guint := []
  invalid_property_ids : List guint := []
  deriving DecidableEq, Repr

/-- The function `gthree_mesh_phong_material_set_color`; the comparison
`gdk_rgba_equal (color, &priv->color)` is taken as equality of the two vectors. -/
def gthree_mesh_phong_material_set_color (phong : GthreeMeshPhongMaterial)
    (color : graphene_vec3_t) : GthreeMeshPhongMaterial :=
  if color = phong.color then phong
  else
    { phong with
      color := color
      needs_update := TRUE
      notified := phong.notified ++ [PROP_COLOR] }

/-- The function `gthree_mesh_phong_material_set_emissive_color`. -/
def gthree_mesh_phong_material_set_emissive_color (phong : GthreeMeshPhongMaterial)
    (color : graphene_vec3_t) : GthreeMeshPhongMaterial :=
  { phong with emissive := color, needs_update := TRUE }

/-- The function `gthree_mesh_phong_material_set_specular_color`. -/
def gthree_mesh_phong_material_set_specular_color (phong : GthreeMeshPhongMaterial)
    (color : graphene_vec3_t) : GthreeMeshPhongMaterial :=
  { phong with specular := color, needs_update := TRUE }

/-- The function `gthree_mesh_phong_material_set_shininess`. -/
def gthree_mesh_phong_material_set_shininess (phong : GthreeMeshPhongMaterial)
    (shininess : gfloat) : GthreeMeshPhongMaterial :=
  { phong with shininess := shininess, needs_update := TRUE }

/-- The function `gthree_mesh_phong_material_set_flat_shading`. -/
def gthree_mesh_phong_material_set_flat_shading (phong : GthreeMeshPhongMaterial)
    (flat_shading : gboolean) : GthreeMeshPhongMaterial :=
  if phong.flat_shading = flat_shading then phong
  else
    { phong with
      flat_shading := flat_shading
      needs_update := TRUE
      notified := phong.notified ++ [PROP_FLAT_SHADING] }

/-- The function `gthree_mesh_phong_material_set_refraction_ratio`. -/
def gthree_mesh_phong_material_set_refraction_ratio (phong : GthreeMeshPhongMaterial)
    (ratio : gfloat) : GthreeMeshPhongMaterial :=
  { phong with
    refraction_ratio := ratio
    needs_update := TRUE
    notified := phong.notified ++ [ PROP_REFRACTION_RATIO ] }

/-- The function `gthree_mesh_phong_material_set_reflectivity`; it notifies
`obj_props[PROP_REFRACTION_RATIO]`, as in the source. -/
def gthree_mesh_phong_material_set_reflectivity (phong : GthreeMeshPhongMaterial)
    (reflectivity : gfloat) : GthreeMeshPhongMaterial :=
  { phong with
    reflectivity := reflectivity
    needs_update := TRUE
    notified := phong.notified ++ [ PROP_REFRACTION_RATIO ] }

/-- The function `gthree_mesh_phong_material_set_map`; `g_set_object` stores the pointer and
is true when it differs from the one held. -/
def gthree_mesh_phong_material_set_map (phong : GthreeMeshPhongMaterial) (texture : Nat) :
    GthreeMeshPhongMaterial :=
  if phong.map ≠ texture then
    { phong with
      map := texture
      needs_update := TRUE
      notified := phong.notified ++ [PROP_MAP] }
  else phong

/-- The function `gthree_mesh_phong_material_set_env_map`. -/
def gthree_mesh_phong_material_set_env_map (phong : GthreeMeshPhongMaterial) (texture : Nat) :
    GthreeMeshPhongMaterial :=
  if phong.env_map ≠ texture then
    { phong with
      env_map := texture
      needs_update := TRUE
      notified := phong.notified ++ [PROP_ENV_MAP] }
  else phong

/-- The function `gthree_mesh_phong_material_set_combine`. -/
def gthree_mesh_phong_material_set_combine (phong : GthreeMeshPhongMaterial) (combine : Int) :
    GthreeMeshPhongMaterial :=
  if phong.combine = combine then phong
  else
    { phong with
      combine := combine
      needs_update := TRUE
      notified := phong.notified ++ [PROP_COMBINE] }

/-- The function `gthree_mesh_phong_material_set_property`: the `switch` over the property
id, case by case as in the source. -/
def gthree_mesh_phong_material_set_property (phong : GthreeMeshPhongMaterial)
    (prop_id : guint) (value : GValue) : GthreeMeshPhongMaterial :=
  if prop_id = PROP_COLOR then
    gthree_mesh_phong_material_set_color phong (g_value_get_boxed value)
  else if prop_id = PROP_EMISSIVE_COLOR then
    gthree_mesh_phong_material_set_emissive_color phong (g_value_get_boxed value)
  else if prop_id = PROP_SPECULAR_COLOR then
    gthree_mesh_phong_material_set_specular_color phong (g_value_get_boxed value)
  else if prop_id = PROP_REFRACTION_RATIO then
    gthree_mesh_phong_material_set_refraction_ratio phong (g_value_get_float value)
  else if prop_id = PROP_REFLECTIVITY then
    gthree_mesh_phong_material_set_refraction_ratio phong (g_value_get_float value)
  else if prop_id = PROP_SHININESS then
    gthree_mesh_phong_material_set_shininess phong (g_value_get_float value)
  else if prop_id = PROP_MAP then
    gthree_mesh_phong_material_set_map phong (g_value_get_object value)
  else if prop_id = PROP_ENV_MAP then
    gthree_mesh_phong_material_set_env_map phong (g_value_get_object value)
  else if prop_id = PROP_COMBINE then
    gthree_mesh_phong_material_set_combine phong (g_value_get_enum value)
  else if prop_id = PROP_FLAT_SHADING then
    gthree_mesh_phong_material_set_flat_shading phong (g_value_get_boolean value)
  else
    { phong with invalid_property_ids := phong.invalid_property_ids ++ [prop_id] }

/-- The function `gthree_mesh_phong_material_get_property`: the value stored into the
`GValue`; `none` when the id reaches `default` (nothing is stored, a warning is printed). -/
def gthree_mesh_phong_material_get_property (phong : GthreeMeshPhongMaterial)
    (prop_id : guint) : Option GValue :=
  if prop_id = PROP_COLOR then some (GValue.boxed phong.color)
  else if prop_id = PROP_EMISSIVE_COLOR then some (GValue.boxed phong.emissive)
  else if prop_id = PROP_SPECULAR_COLOR then some (GValue.boxed phong.specular)
  else if prop_id = PROP_REFRACTION_RATIO then some (GValue.float phong.refraction_ratio)
  else if prop_id = PROP_REFLECTIVITY then some (GValue.float phong.reflectivity)
  else if prop_id = PROP_SHININESS then some (GValue.float phong.shininess)
  else if prop_id = PROP_MAP then some (GValue.object phong.map)
  else if prop_id = PROP_ENV_MAP then some (GValue.object phong.env_map)
  else if prop_id = PROP_COMBINE then some (GValue.enum phong.combine)
  else if prop_id = PROP_FLAT_SHADING then some (GValue.boolean phong.flat_shading)
  else none

/-! ## The function `render_item` -/

def GL_ELEMENT_ARRAY_BUFFER : guint := 0x8893

/-- The renderer state, the material and the geometry after `render_item`. -/
structure RenderItemResult where
  priv : GthreeRendererPrivate
  material : GthreeMaterial
  geometry : GthreeGeometry

/-- The test of `render_item` on the cached triple: the geometry, the program or the
wireframe flag of this draw differs from the one of the previous draw. -/
def render_item_triple_differs (priv : GthreeRendererPrivate) (geometry : GthreeGeometry)
    (program : Option GthreeProgram) (wireframe : gboolean) : Prop :=
  geometry.addr ≠ priv.current_geometry_program_geometry
    ∨ program_pointer program ≠ priv.current_geometry_program_program
    ∨ wireframe ≠ priv.current_geometry_program_wireframe

instance (priv : GthreeRendererPrivate) (geometry : GthreeGeometry)
    (program : Option GthreeProgram) (wireframe : gboolean) :
    Decidable (render_item_triple_differs priv geometry program wireframe) := by
  unfold render_item_triple_differs
  infer_instance

/-- The morph-target test of `render_item`: the influences of the mesh and the mesh material
when the object is a mesh for which `gthree_mesh_has_morph_targets` holds and the material
is a mesh material. -/
def render_item_morph (object : GthreeObject) (material : GthreeMaterial) :
    Option (List gfloat × GthreeMeshMaterial) :=
  match object.kind with
  | GthreeObjectKind.mesh m =>
    if m.has_morph_targets ≠ 0 then
      match material.mesh_material with
      | some mm => some (m.morph_targets, mm)
      | none => none
    else none
  | _ => none

/-- The address of an attribute pointer, `0` for `NULL`. -/
def attribute_pointer (attr : Option GthreeAttribute) : Nat :=
  match attr with
  | some a => a.addr
  | none => 0

/-- The block of `render_item` that compares the geometry, the program and the wireframe
flag of this draw with the cached triple and stores them when one differs. -/
def render_item_cache_triple (priv : GthreeRendererPrivate) (geometry : GthreeGeometry)
    (program : Option GthreeProgram) (wireframe : gboolean) : GthreeRendererPrivate :=
  if render_item_triple_differs priv geometry program wireframe then
    { priv with
      current_geometry_program_geometry := geometry.addr
      current_geometry_program_program := program_pointer program
      current_geometry_program_wireframe := wireframe }
  else priv

/-- The block of `render_item` that calls `update_morphtargets` for a mesh with morph
targets drawn with a mesh material. -/
def render_item_update_morphtargets (priv : GthreeRendererPrivate) (object : GthreeObject)
    (material : GthreeMaterial) (geometry : GthreeGeometry) (program : Option GthreeProgram) :
    GthreeRendererPrivate × GthreeGeometry :=
  match render_item_morph object material with
  | some (influences, mm) => update_morphtargets priv influences geometry mm program
  | none => (priv, geometry)

/-- The blocks of `render_item` that update the wireframe index and, when `update_buffers`
is set, call `setup_vertex_attributes` (recorded as an event) and bind the index buffer. -/
def render_item_setup (priv : GthreeRendererPrivate) (material : GthreeMaterial)
    (program : Option GthreeProgram) (geometry : GthreeGeometry)
    (index : Option GthreeAttribute) (wireframe : gboolean) (update_buffers : Bool) :
    GthreeRendererPrivate :=
  let priv1 :=
    if wireframe ≠ 0 then priv.emit [Event.attribute_update (attribute_pointer index)]
    else priv
  if update_buffers then
    let p := priv1.emit
      [Event.setup_vertex_attributes material.addr (program_pointer program) geometry.addr]
    match index with
    | some i => p.gl (GLCommand.glBindBuffer GL_ELEMENT_ARRAY_BUFFER i.gl_buffer)
    | none => p
  else priv1

/-- The variable `update_buffers` of `render_item` before the vertex attributes are set up:
the triple of this draw differs from the cached one, or the morph targets were updated. -/
def render_item_update_buffers (priv : GthreeRendererPrivate) (object : GthreeObject)
    (material : GthreeMaterial) (geometry : GthreeGeometry) (program : Option GthreeProgram)
    (wireframe : gboolean) : Bool :=
  decide (render_item_triple_differs priv geometry program wireframe)
    || (render_item_morph object material).isSome

/-- The function `render_item` on the object, geometry and group the item points to: the
visibility test, the wireframe flag, `set_program`, the blocks above and the draw. -/
def render_item (c : Collaborators) (priv : GthreeRendererPrivate) (camera : Nat)
    (material : GthreeMaterial) (object : GthreeObject) (geometry : GthreeGeometry)
    (group : Option GthreeGeometryGroup) : RenderItemResult :=
  if material.visible = 0 then { priv := priv, material := material, geometry := geometry }
  else
    let wireframe := render_item_wireframe material
    let s := set_program c priv camera material object
    let program := s.program
    let update_buffers := render_item_update_buffers s.priv object s.material geometry program
      wireframe
    let priv1 := render_item_cache_triple s.priv geometry program wireframe
    let r := render_item_update_morphtargets priv1 object s.material geometry program
    let index := if wireframe ≠ 0 then r.2.wireframe_index else r.2.index
    let position := r.2.position
    let priv2 := render_item_setup r.1 s.material program r.2 index wireframe update_buffers
    { priv := render_item_draw priv2 object s.material r.2 group wireframe index position
      material := s.material
      geometry := r.2 }

/-- An event is a call of `setup_vertex_attributes`. -/
def Event.is_setup_vertex_attributes : Event → Bool
  | Event.setup_vertex_attributes _ _ _ => true
  | _ => false

/-- The number of times `setup_vertex_attributes` ran between two renderer states. -/
def setup_vertex_attributes_calls (before after : GthreeRendererPrivate) : Nat :=
  (logged before after).countP Event.is_setup_vertex_attributes

/-- The GL draw commands among a list of commands. -/
def GLCommand.is_draw : GLCommand → Bool
  | GLCommand.glDrawElements _ _ _ _ => true
  | GLCommand.glDrawArrays _ _ _ => true
  | _ => false

/-- The `mode` argument of a draw command. -/
def GLCommand.draw_mode : GLCommand → Option guint
  | GLCommand.glDrawElements mode _ _ _ => some mode
  | GLCommand.glDrawArrays mode _ _ => some mode
  | _ => none

/-- The fields of the renderer state that `set_program` never writes: the cached
geometry/program/wireframe triple. -/
def same_triple (a b : GthreeRendererPrivate) : Prop :=
  b.current_geometry_program_geometry = a.current_geometry_program_geometry
    ∧ b.current_geometry_program_program = a.current_geometry_program_program
    ∧ b.current_geometry_program_wireframe = a.current_geometry_program_wireframe

/-- The modes of the draw commands (`glDrawElements`, `glDrawArrays`) issued so far, oldest
first. -/
def draws_of (priv : GthreeRendererPrivate) : List guint :=
  priv.gl_log.filterMap GLCommand.draw_mode

/-- The topology `render_item` draws with, given the wireframe flag (the material is a mesh
material in wireframe mode): for a mesh, lines when the flag is set and the draw mode of the
mesh otherwise; lines for a line-segments object; triangles for a sprite and for any other
object, whatever the flag. -/
def render_item_topology (object : GthreeObject) (wireframe : gboolean) : guint :=
  match object.kind with
  | GthreeObjectKind.mesh m =>
    if wireframe ≠ 0 then GL_LINES else render_item_mesh_draw_mode m.draw_mode
  | GthreeObjectKind.line_segments => GL_LINES
  | _ => GL_TRIANGLES

/-! ## The scene walk: `project_object` -/

/-- A `GthreeCamera`, as far as `project_object` reads it: its address and the layer mask of
the camera object. -/
structure GthreeCamera where
  addr : Nat := 0
  layer_mask : Nat := 1
  deriving DecidableEq, Repr

/-- Modelled from the spec: `gthree_object_check_layer` (not among the sources) tests
whether the layer mask of the node intersects the layer mask of the camera. -/
def gthree_object_check_layer (object : GthreeObject) (layer_mask : Nat) : gboolean :=
  if object.layer_mask &&& layer_mask ≠ 0 then TRUE else FALSE

/-- A node of the scene graph: an object and its children, in the order in which
`gthree_object_iter_next` yields them. -/
inductive SceneNode
  | mk (object : GthreeObject) (children : List SceneNode)

/-- The object of a node. -/
def SceneNode.object : SceneNode → GthreeObject
  | SceneNode.mk object _ => object

/-- The skeleton updated by `project_object` for a skinned mesh with a skeleton. -/
def project_object_skeleton (priv : GthreeRendererPrivate) (object : GthreeObject) :
    GthreeRendererPrivate :=
  match object.skinned_mesh with
  | some skinned =>
    match skinned.skeleton with
    | some skeleton => priv.emit [Event.skeleton_update skeleton.addr]
    | none => priv
  | none => priv

/-- The part of `project_object` for a visible object before the loop over its children:
the layer test and the classification. `fill` is the virtual method
`gthree_object_fill_render_list` of the object class; its call is also recorded as an
event. -/
def project_object_classify (fill : GthreeObject → GthreeRenderList → GthreeRenderList)
    (priv : GthreeRendererPrivate) (camera : GthreeCamera) (object : GthreeObject) :
    GthreeRendererPrivate :=
  if gthree_object_check_layer object camera.layer_mask ≠ 0 then
    match object.kind with
    | GthreeObjectKind.group => priv
    | GthreeObjectKind.light => { priv with lights := priv.lights ++ [object.addr] }
    | GthreeObjectKind.other_object => priv
    | _ =>
      let priv1 := project_object_skeleton priv object
      if object.is_frustum_culled = 0 ∨ object.is_in_frustum ≠ 0 then
        let priv2 := priv1.emit [Event.object_update object.addr]
        let z : float := if priv2.sort_objects ≠ 0 then object.projected_z else 0
        let priv3 :=
          { priv2 with current_render_list := { priv2.current_render_list with current_z := z } }
        { priv3.emit [Event.object_fill_render_list object.addr] with
          current_render_list := fill object priv3.current_render_list }
      else priv1
  else priv

mutual
/-- The function `project_object`. -/
def project_object (fill : GthreeObject → GthreeRenderList → GthreeRenderList)
    (camera : GthreeCamera) : SceneNode → GthreeRendererPrivate → GthreeRendererPrivate
  | SceneNode.mk object children, priv =>
    if object.visible = 0 then priv
    else project_children fill camera children (project_object_classify fill priv camera object)
/-- The loop of `project_object` over the children of a node. -/
def project_children (fill : GthreeObject → GthreeRenderList → GthreeRenderList)
    (camera : GthreeCamera) : List SceneNode → GthreeRendererPrivate → GthreeRendererPrivate
  | [], priv => priv
  | child :: rest, priv =>
    project_children fill camera rest (project_object fill camera child priv)
end

/-- The objects handed to `gthree_object_fill_render_list`, in call order, among a list of
events. -/
def filled_objects (events : List Event) : List Nat :=
  events.filterMap
    (fun e =>
      match e with
      | Event.object_fill_render_list object => some object
      | _ => none)

/-- A node passes the layer test, is a mesh, a line-segments object or a sprite, and is
flagged to skip frustum culling or lies inside the frustum. -/
def is_render_candidate (camera : GthreeCamera) (object : GthreeObject) : Bool :=
  decide (object.layer_mask &&& camera.layer_mask ≠ 0)
    && (match object.kind with
        | GthreeObjectKind.mesh _ => true
        | GthreeObjectKind.line_segments => true
        | GthreeObjectKind.sprite => true
        | _ => false)
    && (decide (object.is_frustum_culled = 0) || decide (object.is_in_frustum ≠ 0))

/-- A node passes the layer test and is a light. -/
def is_listed_light (camera : GthreeCamera) (object : GthreeObject) : Bool :=
  decide (object.layer_mask &&& camera.layer_mask ≠ 0)
    && decide (object.kind = GthreeObjectKind.light)

mutual
/-- The nodes of a tree in depth-first pre-order, each with the flag "the node and all its
ancestors are visible"; `ancestors_visible` is the flag of the parent. -/
def preorder_flagged (ancestors_visible : Bool) : SceneNode → List (GthreeObject × Bool)
  | SceneNode.mk object children =>
    (object, ancestors_visible && decide (object.visible ≠ 0))
      :: preorder_flagged_children (ancestors_visible && decide (object.visible ≠ 0)) children
/-- The pre-order sequence of a list of sibling trees. -/
def preorder_flagged_children (ancestors_visible : Bool) :
    List SceneNode → List (GthreeObject × Bool)
  | [] => []
  | child :: rest =>
    preorder_flagged ancestors_visible child ++ preorder_flagged_children ancestors_visible rest
end

/-- The addresses of the nodes of the pre-order sequence that are visible with all their
ancestors and satisfy `p`. -/
def preorder_select (p : GthreeObject → Bool) (nodes : List (GthreeObject × Bool)) : List Nat :=
  (nodes.filter (fun n => n.2 && p n.1)).map (fun n => n.1.addr)

/-! ## Public entry points: clearing, viewport, clear colour, render target -/

/-- GL constant `GL_DEPTH_BUFFER_BIT`. -/
def GL_DEPTH_BUFFER_BIT : guint := 0x00000100

/-- GL constant `GL_STENCIL_BUFFER_BIT`. -/
def GL_STENCIL_BUFFER_BIT : guint := 0x00000400

/-- GL constant `GL_COLOR_BUFFER_BIT`. -/
def GL_COLOR_BUFFER_BIT : guint := 0x00004000

/-- GL constant `GL_FRAMEBUFFER`. -/
def GL_FRAMEBUFFER : guint := 0x8D40

/-- The static function `clear`; the GL command goes to the log of the renderer state. -/
def clear (priv : GthreeRendererPrivate) (color depth stencil : gboolean) :
    GthreeRendererPrivate :=
  let bits : guint := 0
  let bits1 := if color ≠ 0 then bits ||| GL_COLOR_BUFFER_BIT else bits
  let bits2 := if depth ≠ 0 then bits1 ||| GL_DEPTH_BUFFER_BIT else bits1
  let bits3 := if stencil ≠ 0 then bits2 ||| GL_STENCIL_BUFFER_BIT else bits2
  priv.gl (GLCommand.glClear bits3)

/-- The function `gthree_renderer_clear`. In the public entry points `current` is the context
that `gdk_gl_context_get_current ()` returns during the call; `none` is the abort of a failed
`g_assert`. -/
def gthree_renderer_clear (current : Nat) (priv : GthreeRendererPrivate)
    (color depth stencil : gboolean) : Option GthreeRendererPrivate :=
  if current = priv.gl_context then some (clear priv color depth stencil) else none

/-- The function `gthree_renderer_clear_depth`. -/
def gthree_renderer_clear_depth (current : Nat) (priv : GthreeRendererPrivate) :
    Option GthreeRendererPrivate :=
  if current = priv.gl_context then some (clear priv FALSE TRUE FALSE) else none

/-- The function `gthree_renderer_clear_color`. -/
def gthree_renderer_clear_color (current : Nat) (priv : GthreeRendererPrivate) :
    Option GthreeRendererPrivate :=
  if current = priv.gl_context then some (clear priv TRUE FALSE FALSE) else none

/-- The function `gthree_renderer_set_viewport`. It does not read the current context. -/
def gthree_renderer_set_viewport (current : Nat) (priv : GthreeRendererPrivate)
    (x y width height : gfloat) : GthreeRendererPrivate :=
  let priv1 := { priv with viewport := { x := x, y := y, width := width, height := height } }
  let priv2 := { priv1 with current_viewport := priv1.viewport }
  priv2.gl
    (GLCommand.glViewport priv2.current_viewport.x priv2.current_viewport.y
      priv2.current_viewport.width priv2.current_viewport.height)

/-- The function `gthree_renderer_set_size`. It does not read the current context. -/
def gthree_renderer_set_size (current : Nat) (priv : GthreeRendererPrivate)
    (width height : Int) : GthreeRendererPrivate :=
  let priv1 := { priv with width := width, height := height }
  gthree_renderer_set_viewport current priv1 0 0 width height

/-- The function `gthree_renderer_set_clear_color`. It does not read the current context. -/
def gthree_renderer_set_clear_color (current : Nat) (priv : GthreeRendererPrivate)
    (color : GdkRGBA) : GthreeRendererPrivate :=
  let priv1 := { priv with clear_color := color }
  priv1.gl
    (GLCommand.glClearColor priv1.clear_color.red priv1.clear_color.green
      priv1.clear_color.blue priv1.clear_color.alpha)

/-- The function `gthree_renderer_set_render_target`. It does not read the current context.
The call of `gthree_render_target_realize` is recorded as an event; the blocks under
`TODO` are not compiled. -/
def gthree_renderer_set_render_target (current : Nat) (priv : GthreeRendererPrivate)
    (render_target : Option GthreeRenderTarget)
    (active_cube_target active_mipmap_level : Int) : GthreeRendererPrivate :=
  let priv1 := { priv with current_render_target := render_target }
  let priv2 :=
    match render_target with
    | some target => priv1.emit [Event.render_target_realize target.addr]
    | none => priv1
  let framebuffer : Int :=
    match render_target with
    | some target => target.gl_framebuffer
    | none => priv2.window_framebuffer
  let priv3 :=
    match render_target with
    | some target => { priv2 with current_viewport := target.viewport }
    | none => { priv2 with current_viewport := priv2.viewport }
  let priv4 :=
    { priv3.gl (GLCommand.glBindFramebuffer GL_FRAMEBUFFER framebuffer) with
      current_framebuffer := framebuffer }
  priv4.gl
    (GLCommand.glViewport priv4.current_viewport.x priv4.current_viewport.y
      priv4.current_viewport.width priv4.current_viewport.height)

/-! ## The frame: render list, background and the three passes -/

/-- Modelled from the spec: the class implementations of `gthree_object_fill_render_list`
(not among the sources). A drawable appends one item per geometry, material and group that
it draws, each through `gthree_render_list_push`; `pushes` gives those triples for an
object. -/
def gthree_object_fill_render_list (pushes : GthreeObject → List (Nat × GthreeMaterial × Nat))
    (object : GthreeObject) (list : GthreeRenderList) : GthreeRenderList :=
  (pushes object).foldl
    (fun l p => gthree_render_list_push l object.addr p.1 p.2.1 p.2.2) list

/-- The function `gthree_renderer_render_background`. `bg_color` is the background colour of
the scene (`none` for `NULL`); `bg_mesh` is the mesh selected by the two texture tests (the
box mesh for a cube texture, the plane mesh for another texture, `none` without background
texture), whose creation and texture uniform are not modelled. -/
def gthree_renderer_render_background
    (fill : GthreeObject → GthreeRenderList → GthreeRenderList)
    (priv : GthreeRendererPrivate) (bg_color : Option GdkRGBA) (bg_mesh : Option GthreeObject) :
    GthreeRendererPrivate :=
  let priv1 :=
    match bg_color with
    | none =>
      let default_col : GdkRGBA := { red := 0, green := 0, blue := 0, alpha := 0 }
      if ¬ (default_col = priv.old_clear_color) then
        { priv.gl (GLCommand.glClearColor 0 0 0 0) with old_clear_color := default_col }
      else priv
    | some color =>
      if ¬ (color = priv.old_clear_color) then
        { priv.gl (GLCommand.glClearColor color.red color.green color.blue color.alpha) with
          old_clear_color := color }
      else priv
  let force_clear : gboolean :=
    match bg_color with
    | none => FALSE
    | some _ => TRUE
  let priv2 :=
    if priv1.auto_clear ≠ 0 ∨ force_clear ≠ 0 then
      clear priv1 priv1.auto_clear_color priv1.auto_clear_depth priv1.auto_clear_stencil
    else priv1
  match bg_mesh with
  | some mesh =>
    let priv3 := priv2.emit [Event.object_update mesh.addr]
    let list1 := { priv3.current_render_list with use_background := TRUE }
    let list2 := { list1 with current_z := 0 }
    let list3 := fill mesh list2
    { priv3.emit [Event.object_fill_render_list mesh.addr] with
      current_render_list := { list3 with use_background := FALSE } }
  | none => priv2

/-- The body of the loop of `render_objects` for one entry of the index array. The items of
the render list always hold a material here, so the `continue` on a `NULL` material is taken
by no item. The call of `render_item` is recorded as an event with the index of the item and
the material used; `render_item` itself does not write the render list. -/
def render_objects_item (priv : GthreeRendererPrivate) (camera : Nat)
    (use_blending : gboolean) (override_material : Option GthreeMaterial)
    (render_list_index : Nat) : GthreeRendererPrivate :=
  let item := priv.current_render_list.item render_list_index
  let priv1 :=
    priv.emit
      [Event.object_call_before_render_callback item.object,
        Event.object_update_matrix_view item.object]
  let material : GthreeMaterial :=
    match override_material with
    | some m => m
    | none => item.material
  let priv2 :=
    if use_blending ≠ 0 then
      set_blending priv1 material.blend_mode material.blend_equation material.blend_src_factor
        material.blend_dst_factor
    else priv1
  let priv3 := set_depth_test priv2 material.depth_test
  let priv4 := set_depth_write priv3 material.depth_write
  let priv5 :=
    set_polygon_offset priv4 material.polygon_offset material.polygon_offset_factor
      material.polygon_offset_units
  let priv6 := set_material_faces priv5 material
  priv6.emit [Event.render_item render_list_index material.addr]

/-- The function `render_objects`. -/
def render_objects (priv : GthreeRendererPrivate) (render_list_indexes : List Nat)
    (camera : Nat) (use_blending : gboolean) (override_material : Option GthreeMaterial) :
    GthreeRendererPrivate :=
  render_list_indexes.foldl
    (fun p i => render_objects_item p camera use_blending override_material i) priv

/-- The three passes of `gthree_renderer_render`, from the read of the override material of
the scene to the last call of `render_objects`. -/
def gthree_renderer_render_passes (priv : GthreeRendererPrivate) (camera : Nat)
    (override_material : Option GthreeMaterial) : GthreeRendererPrivate :=
  match override_material with
  | some m =>
    let priv1 := set_blending priv m.blend_mode m.blend_equation m.blend_src_factor
      m.blend_dst_factor
    let priv2 := set_depth_test priv1 m.depth_test
    let priv3 := set_depth_write priv2 m.depth_write
    let priv4 := set_polygon_offset priv3 m.polygon_offset m.polygon_offset_factor
      m.polygon_offset_units
    let priv5 := render_objects priv4 priv4.current_render_list.background camera TRUE (some m)
    let priv6 := render_objects priv5 priv5.current_render_list.opaque_ camera TRUE (some m)
    render_objects priv6 priv6.current_render_list.transparent camera TRUE (some m)
  | none =>
    let priv1 := set_blending priv GTHREE_BLEND_NO 0 0 0
    let priv2 := render_objects priv1 priv1.current_render_list.background camera FALSE none
    let priv3 := render_objects priv2 priv2.current_render_list.opaque_ camera FALSE none
    render_objects priv3 priv3.current_render_list.transparent camera TRUE none

/-- The function `gthree_renderer_render` after its context assertion: the reset of the
light list and of the draw cache, the render list of the frame (`gthree_render_list_init`,
`project_object`, the optional sort), `gthree_renderer_set_render_target`,
`gthree_renderer_render_background` and the three passes. The matrix and frustum updates,
`clipping_init`, the flush of deleted resources, `setup_lights` and the mipmap update of the
render target neither touch the render list nor call `render_item`; they are left out. -/
def gthree_renderer_render_frame (current : Nat)
    (fill : GthreeObject → GthreeRenderList → GthreeRenderList) (camera : GthreeCamera)
    (scene : SceneNode) (bg_color : Option GdkRGBA) (bg_mesh : Option GthreeObject)
    (override_material : Option GthreeMaterial) (priv : GthreeRendererPrivate) :
    GthreeRendererPrivate :=
  let priv1 :=
    { priv with
      lights := []
      current_material := 0
      current_camera := 0
      current_geometry_program_geometry := 0
      current_geometry_program_program := 0
      current_geometry_program_wireframe := FALSE }
  let priv2 :=
    { priv1 with current_render_list := gthree_render_list_init priv1.current_render_list }
  let priv3 := project_object fill camera scene priv2
  let priv4 :=
    if priv3.sort_objects ≠ 0 then
      { priv3 with current_render_list := gthree_render_list_sort priv3.current_render_list }
    else priv3
  let priv5 := gthree_renderer_set_render_target current priv4 priv4.current_render_target 0 0
  let priv6 := gthree_renderer_render_background fill priv5 bg_color bg_mesh
  gthree_renderer_render_passes priv6 camera.addr override_material

/-- The function `gthree_renderer_render`: the context assertion, then the frame. -/
def gthree_renderer_render (current : Nat)
    (fill : GthreeObject → GthreeRenderList → GthreeRenderList) (camera : GthreeCamera)
    (scene : SceneNode) (bg_color : Option GdkRGBA) (bg_mesh : Option GthreeObject)
    (override_material : Option GthreeMaterial) (priv : GthreeRendererPrivate) :
    Option GthreeRendererPrivate :=
  if current = priv.gl_context then
    some (gthree_renderer_render_frame current fill camera scene bg_color bg_mesh
      override_material priv)
  else none

/-- The calls of `render_item` among a list of events, in call order: the render list index
and the material of each. -/
def render_item_calls (events : List Event) : List (Nat × Nat) :=
  events.filterMap
    (fun e =>
      match e with
      | Event.render_item render_list_index material => some (render_list_index, material)
      | _ => none)

/-- The call of `render_item` that a pass makes for the entry `i` of an index array: the
index with the address of the material of the item. -/
def pass_call (list : GthreeRenderList) (i : Nat) : Nat × Nat :=
  (i, (list.item i).material.addr)

/-! ## Default GL state and the modelled GPU -/

/-- GL constant `GL_LEQUAL`. -/
def GL_LEQUAL : guint := 0x0203

/-- GL constant `GL_BACK`. -/
def GL_BACK : guint := 0x0405

/-- The function `gthree_set_default_gl_state`. -/
def gthree_set_default_gl_state (priv : GthreeRendererPrivate) : GthreeRendererPrivate :=
  priv.gl_all
    [GLCommand.glClearColor 0 0 0 1,
      GLCommand.glClearDepth 1,
      GLCommand.glClearStencil 0,
      GLCommand.glEnable GL_DEPTH_TEST,
      GLCommand.glDepthFunc GL_LEQUAL,
      GLCommand.glFrontFace GL_CCW,
      GLCommand.glCullFace GL_BACK,
      GLCommand.glEnable GL_CULL_FACE,
      GLCommand.glEnable GL_BLEND,
      GLCommand.glBlendEquation GL_FUNC_ADD,
      GLCommand.glBlendFunc GL_SRC_ALPHA GL_ONE_MINUS_SRC_ALPHA,
      GLCommand.glViewport priv.current_viewport.x priv.current_viewport.y
        priv.current_viewport.width priv.current_viewport.height,
      GLCommand.glClearColor priv.clear_color.red priv.clear_color.green priv.clear_color.blue
        priv.clear_color.alpha]

/-- The function `gthree_renderer_init` on the zero-filled instance: the stores into the
fields modelled here (the auto-clear flags, `sort_objects`, the size and the device-state
cache of `gthree_renderer_init`), then `gthree_set_default_gl_state`. The queries of the GL
implementation and the creation of the program cache, the arrays and the render list are
not modelled; their fields keep the defaults. -/
def gthree_renderer_init_instance : GthreeRendererPrivate :=
  gthree_set_default_gl_state
    { gthree_renderer_init with
      auto_clear := TRUE
      auto_clear_color := TRUE
      auto_clear_depth := TRUE
      auto_clear_stencil := TRUE
      sort_objects := TRUE
      width := 1
      height := 1
      physically_correct_lights := FALSE
      current_framebuffer := 0 }

/-- The state of the GL context written by the device-state setters and by `glClearColor`,
as the OpenGL specification defines it (OpenGL is a library, not part of this repository).
The defaults are the initial values of a new context: depth test, face culling and polygon
offset fill disabled, depth mask true, front face counter-clockwise, polygon offset factor
and units 0, line width 1, clear colour (0, 0, 0, 0). -/
structure GLState where
  depth_test : Bool := false
  depth_mask : Bool := true
  cull_face : Bool := false
  front_face : guint := GL_CCW
  polygon_offset_fill : Bool := false
  polygon_offset_factor : float := 0
  polygon_offset_units : float := 0
  line_width : float := 1
  clear_color : GdkRGBA := { red := 0, green := 0, blue := 0, alpha := 0 }
  deriving DecidableEq, Repr

/-- The effect of `glEnable (cap)` or `glDisable (cap)` on the modelled GL state. -/
def GLState.set_capability (s : GLState) (cap : guint) (value : Bool) : GLState :=
  if cap = GL_DEPTH_TEST then { s with depth_test := value }
  else if cap = GL_CULL_FACE then { s with cull_face := value }
  else if cap = GL_POLYGON_OFFSET_FILL then { s with polygon_offset_fill := value }
  else s

/-- The effect of one GL command on the modelled GL state; a command that writes none of
its fields leaves it unchanged. -/
def GLState.apply (s : GLState) : GLCommand → GLState
  | GLCommand.glEnable cap => s.set_capability cap true
  | GLCommand.glDisable cap => s.set_capability cap false
  | GLCommand.glFrontFace mode => { s with front_face := mode }
  | GLCommand.glDepthMask flag => { s with depth_mask := decide (flag ≠ 0) }
  | GLCommand.glLineWidth width => { s with line_width := width }
  | GLCommand.glPolygonOffset factor units =>
    { s with polygon_offset_factor := factor, polygon_offset_units := units }
  | GLCommand.glClearColor red green blue alpha =>
    { s with clear_color := { red := red, green := green, blue := blue, alpha := alpha } }
  | _ => s

/-- The modelled GL state after a list of commands. -/
def GLState.run (s : GLState) (commands : List GLCommand) : GLState :=
  commands.foldl GLState.apply s

/-- The GL state of the context of a renderer: the initial state of the context followed by
every command the renderer has issued. -/
def gpu_state (priv : GthreeRendererPrivate) : GLState :=
  GLState.run {} priv.gl_log

/-- One call of a device-state setter other than `set_blending`, with its arguments. -/
inductive DeviceStateCall
  | material_faces (material : GthreeMaterial)
  | depth_test (depth_test : gboolean)
  | depth_write (depth_write : gboolean)
  | line_width (line_width : float)
  | polygon_offset (polygon_offset : gboolean) (factor units : float)
  deriving DecidableEq

/-- The setter call applied to a renderer state. -/
def DeviceStateCall.apply (priv : GthreeRendererPrivate) :
    DeviceStateCall → GthreeRendererPrivate
  | DeviceStateCall.material_faces m => set_material_faces priv m
  | DeviceStateCall.depth_test b => set_depth_test priv b
  | DeviceStateCall.depth_write b => set_depth_write priv b
  | DeviceStateCall.line_width w => set_line_width priv w
  | DeviceStateCall.polygon_offset b factor units => set_polygon_offset priv b factor units

/-- A sequence of setter calls, left to right. -/
def run_device_state_calls (priv : GthreeRendererPrivate) (calls : List DeviceStateCall) :
    GthreeRendererPrivate :=
  calls.foldl DeviceStateCall.apply priv

/-- The value `f` finds in the most recent element of a list in which it finds one. -/
def most_recent {α β : Type} (f : α → Option β) (l : List α) : Option β :=
  l.foldl
    (fun acc a =>
      match f a with
      | some v => some v
      | none => acc)
    none

/-- The side mode requested by a call of `set_material_faces`. -/
def DeviceStateCall.side : DeviceStateCall → Option GthreeSide
  | DeviceStateCall.material_faces m => some m.side
  | _ => none

/-- The flag requested by a call of `set_depth_test`. -/
def DeviceStateCall.depth_test_flag : DeviceStateCall → Option gboolean
  | DeviceStateCall.depth_test b => some b
  | _ => none

/-- The flag requested by a call of `set_depth_write`. -/
def DeviceStateCall.depth_write_flag : DeviceStateCall → Option gboolean
  | DeviceStateCall.depth_write b => some b
  | _ => none

/-- The width requested by a call of `set_line_width`. -/
def DeviceStateCall.width : DeviceStateCall → Option float
  | DeviceStateCall.line_width w => some w
  | _ => none

/-- The enable flag requested by a call of `set_polygon_offset`. -/
def DeviceStateCall.polygon_offset_flag : DeviceStateCall → Option gboolean
  | DeviceStateCall.polygon_offset b _ _ => some b
  | _ => none

/-- The factor and units requested by a call of `set_polygon_offset` that requests polygon
offset enabled. -/
def DeviceStateCall.polygon_offset_values : DeviceStateCall → Option (float × float)
  | DeviceStateCall.polygon_offset b factor units =>
    if b ≠ 0 then some (factor, units) else none
  | _ => none

/-- Some call of the sequence requests a line width other than 0. -/
def line_width_requested (calls : List DeviceStateCall) : Bool :=
  calls.any
    (fun c =>
      match c.width with
      | some w => decide (w ≠ 0)
      | none => false)

/-- The device-state cache agrees with the GL state of the context for depth test, depth
write, face culling, winding and polygon offset: each `old_*` field is the value the GPU
holds. -/
def device_cache_sound (priv : GthreeRendererPrivate) : Prop :=
  (gpu_state priv).depth_test = decide (priv.old_depth_test ≠ 0)
    ∧ (gpu_state priv).depth_mask = decide (priv.old_depth_write ≠ 0)
    ∧ (gpu_state priv).cull_face = decide (priv.old_double_sided = 0)
    ∧ (gpu_state priv).front_face = (if priv.old_flip_sided ≠ 0 then GL_CW else GL_CCW)
    ∧ (gpu_state priv).polygon_offset_fill = decide (priv.old_polygon_offset ≠ 0)
    ∧ (gpu_state priv).polygon_offset_factor = priv.old_polygon_offset_factor
    ∧ (gpu_state priv).polygon_offset_units = priv.old_polygon_offset_units

instance (priv : GthreeRendererPrivate) : Decidable (device_cache_sound priv) := by
  unfold device_cache_sound
  infer_instance

/-! ## Morph slots bound by `update_morphtargets` -/

/-- The attribute name is `morphTarget<i>` for some slot `i`. -/
def AttributeName.is_morph_target : AttributeName → Bool
  | AttributeName.morphTarget _ => true
  | _ => false

/-- The attribute name is `morphNormal<i>` for some slot `i`. -/
def AttributeName.is_morph_normal : AttributeName → Bool
  | AttributeName.morphNormal _ => true
  | _ => false

/-- The entries of the attribute table `after` that are not entries of the table `before`:
the bindings made in between. -/
def new_bindings (before after : List (AttributeName × Option Nat)) :
    List (AttributeName × Option Nat) :=
  after.filter (fun e => decide (e ∉ before))
/-! ## Clipping planes -/

/-- The four floats `project_planes` writes for one plane: the normal and the constant. -/
def plane_floats (plane : graphene_plane_t) : List gfloat :=
  [plane.normal_x, plane.normal_y, plane.normal_z, plane.constant]

/-- GLib `g_array_set_size` (a library routine, not part of this repository) on an array
created without the clear flag: the array is cut or extended to the length; the new
elements are undefined in C and `0` here. -/
def g_array_set_size (array : List gfloat) (length : Nat) : List gfloat :=
  array.take length ++ List.replicate (length - array.length) 0

/-- The function `project_planes`. `transform` stands for `transform_plane` with the view
matrix and the normal matrix of the camera. Every element of the state from `dst_offset` on
is written. -/
def project_planes (priv : GthreeRendererPrivate) (planes : List graphene_plane_t)
    (transform : graphene_plane_t → graphene_plane_t) (dst_offset : Nat)
    (skip_transform : gboolean) : GthreeRendererPrivate :=
  let n_planes := planes.length
  let priv1 :=
    if n_planes ≠ 0 then
      let flat_size := dst_offset + n_planes * 4
      let dst_array := g_array_set_size priv.clipping_state flat_size
      let written :=
        if skip_transform = 0 then (planes.map (fun p => plane_floats (transform p))).flatten
        else (planes.map plane_floats).flatten
      { priv with clipping_state := dst_array.take dst_offset ++ written }
    else priv
  { priv1 with num_clipping_planes := n_planes }

/-- The function `clipping_init`: the renderer state after it and the returned flag. -/
def clipping_init (priv : GthreeRendererPrivate)
    (transform : graphene_plane_t → graphene_plane_t) : GthreeRendererPrivate × gboolean :=
  let enabled : gboolean :=
    c_bool (priv.clipping_planes.length ≠ 0 ∨ priv.old_num_global_planes ≠ 0)
  let priv1 := project_planes priv priv.clipping_planes transform 0 FALSE
  ({ priv1 with old_num_global_planes := priv.clipping_planes.length }, enabled)

/-- The statement `priv->clipping_enabled = clipping_init (renderer, camera)` of
`gthree_renderer_render`, executed once per frame. -/
def gthree_renderer_render_clipping (priv : GthreeRendererPrivate)
    (transform : graphene_plane_t → graphene_plane_t) : GthreeRendererPrivate :=
  { (clipping_init priv transform).1 with clipping_enabled := (clipping_init priv transform).2 }

/-- The function `gthree_renderer_add_clipping_plane`. -/
def gthree_renderer_add_clipping_plane (priv : GthreeRendererPrivate)
    (plane : graphene_plane_t) : GthreeRendererPrivate :=
  { priv with clipping_planes := priv.clipping_planes ++ [plane] }

/-- The function `gthree_renderer_remove_all_clipping_planes`. -/
def gthree_renderer_remove_all_clipping_planes (priv : GthreeRendererPrivate) :
    GthreeRendererPrivate :=
  { priv with clipping_planes := [] }
/-! ## Vertex attribute arrays -/

/-- GL constant `GL_ARRAY_BUFFER`. -/
def GL_ARRAY_BUFFER : guint := 0x8892

/-- The function `init_attributes`; `G_N_ELEMENTS (priv->new_attributes)` is 8. -/
def init_attributes (priv : GthreeRendererPrivate) : GthreeRendererPrivate :=
  { priv with
    new_attributes := (List.range 8).foldl (fun a i => a.set i 0) priv.new_attributes }

/-- The function `enable_attribute` (`attr` is its parameter `attribute`). An index outside
the two arrays is undefined in C; here the write is dropped and the read gives 0. -/
def enable_attribute (priv : GthreeRendererPrivate) (attr : guint) : GthreeRendererPrivate :=
  let priv1 := { priv with new_attributes := priv.new_attributes.set attr 1 }
  if priv1.enabled_attributes.getD attr 0 = 0 then
    { priv1.gl (GLCommand.glEnableVertexAttribArray attr) with
      enabled_attributes := priv1.enabled_attributes.set attr 1 }
  else priv1

/-- One round of the loop of `disable_unused_attributes`. -/
def disable_unused_attribute (priv : GthreeRendererPrivate) (i : Nat) :
    GthreeRendererPrivate :=
  if priv.enabled_attributes.getD i 0 ≠ priv.new_attributes.getD i 0 then
    { priv.gl (GLCommand.glDisableVertexAttribArray i) with
      enabled_attributes := priv.enabled_attributes.set i 0 }
  else priv

/-- The function `disable_unused_attributes`. -/
def disable_unused_attributes (priv : GthreeRendererPrivate) : GthreeRendererPrivate :=
  (List.range 8).foldl disable_unused_attribute priv

/-- The collaborator `gthree_geometry_get_attribute` (not among the sources): the attribute
stored under the name, `none` for `NULL`. -/
def gthree_geometry_get_attribute (geometry : GthreeGeometry) (name : AttributeName) :
    Option Nat :=
  match geometry.attributes.find? (fun e => e.1 = name) with
  | some e => e.2
  | none => none

/-- The body of the loop of `setup_vertex_attributes` for one entry of the attribute-location
table of the program. `attribute_at` gives the attribute object at an address. -/
def setup_vertex_attributes_entry (attribute_at : Nat → GthreeAttribute)
    (priv : GthreeRendererPrivate) (material : GthreeMaterial) (geometry : GthreeGeometry)
    (name : AttributeName) (program_attribute : Int) : GthreeRendererPrivate :=
  if program_attribute ≥ 0 then
    match gthree_geometry_get_attribute geometry name with
    | some a =>
      let geometry_attribute := attribute_at a
      let priv1 := enable_attribute priv program_attribute.toNat
      let priv2 := priv1.gl (GLCommand.glBindBuffer GL_ARRAY_BUFFER geometry_attribute.gl_buffer)
      priv2.gl
        (GLCommand.glVertexAttribPointer program_attribute.toNat geometry_attribute.item_size
          geometry_attribute.gl_type geometry_attribute.normalized
          (geometry_attribute.stride * geometry_attribute.gl_bytes_per_element)
          (geometry_attribute.item_offset * geometry_attribute.gl_bytes_per_element))
    | none =>
      priv.emit [Event.material_load_default_attribute material.addr program_attribute name]
  else priv

/-- The function `setup_vertex_attributes`. The attribute-location table of the program is
walked in the order of the list, which stands for the iteration order of the hash table. -/
def setup_vertex_attributes (attribute_at : Nat → GthreeAttribute)
    (priv : GthreeRendererPrivate) (material : GthreeMaterial) (program : GthreeProgram)
    (geometry : GthreeGeometry) : GthreeRendererPrivate :=
  let priv1 := init_attributes priv
  let priv2 :=
    program.attribute_locations.foldl
      (fun p e => setup_vertex_attributes_entry attribute_at p material geometry e.1 e.2) priv1
  disable_unused_attributes priv2

/-- The location `setup_vertex_attributes` enables for an entry of the attribute-location
table: the location of an entry that is not negative and whose name the geometry has. -/
def used_location (geometry : GthreeGeometry) (e : AttributeName × Int) : Option Nat :=
  if e.2 ≥ 0 ∧ (gthree_geometry_get_attribute geometry e.1).isSome then some e.2.toNat
  else none

/-- The locations used by `setup_vertex_attributes` for a program and a geometry. -/
def used_locations (program : GthreeProgram) (geometry : GthreeGeometry) : List Nat :=
  program.attribute_locations.filterMap (used_location geometry)

/-- The effect of one GL command on the enabled vertex attribute arrays of the context, as
OpenGL defines it (a library, not part of this repository). -/
def attrib_arrays_apply (gpu : Nat → Bool) : GLCommand → Nat → Bool
  | GLCommand.glEnableVertexAttribArray a => fun i => if i = a then true else gpu i
  | GLCommand.glDisableVertexAttribArray a => fun i => if i = a then false else gpu i
  | _ => gpu

/-- The enabled vertex attribute arrays after a list of GL commands. -/
def attrib_arrays_after (gpu : Nat → Bool) (commands : List GLCommand) : Nat → Bool :=
  commands.foldl attrib_arrays_apply gpu

/-- The array `enabled_attributes` mirrors the enabled vertex attribute arrays `gpu` of the
context: entry `i` is 1 when array `i` is enabled and 0 when it is not. -/
def mirrors_attrib_arrays (priv : GthreeRendererPrivate) (gpu : Nat → Bool) : Prop :=
  ∀ i, i < 8 → priv.enabled_attributes.getD i 0 = (if gpu i = true then 1 else 0)

/-- The state of the attribute tracking inside `setup_vertex_attributes`, relative to the
command log `log0` and the enabled arrays `gpu` at its start: `used` are the locations
enabled so far and `k` is the number of rounds `disable_unused_attributes` has made. The two
arrays have 8 entries; `new_attributes` marks the used locations; `enabled_attributes` marks
the used locations and, from `k` on, the arrays that were enabled at the start; the commands
issued since leave exactly those arrays enabled; an array was enabled by a command only if
it was not enabled at the start and is used, and disabled only if it was enabled at the
start, is not used and lies below `k`. -/
def attrib_tracking (log0 : List GLCommand) (gpu : Nat → Bool) (used : List Nat) (k : Nat)
    (p : GthreeRendererPrivate) : Prop :=
  p.new_attributes.length = 8
    ∧ p.enabled_attributes.length = 8
    ∧ (∀ i, i < 8 → p.new_attributes.getD i 0 = (if i ∈ used then 1 else 0))
    ∧ (∀ i, i < 8 →
        p.enabled_attributes.getD i 0 = (if i ∈ used ∨ (k ≤ i ∧ gpu i = true) then 1 else 0))
    ∧ ∃ commands, p.gl_log = log0 ++ commands
        ∧ (∀ i, attrib_arrays_after gpu commands i
            = (decide (i ∈ used) || (decide (k ≤ i) && gpu i)))
        ∧ (∀ a, GLCommand.glEnableVertexAttribArray a ∈ commands → gpu a = false ∧ a ∈ used)
        ∧ (∀ a, GLCommand.glDisableVertexAttribArray a ∈ commands →
            gpu a = true ∧ a ∉ used ∧ a < k)
/-! ## Blending during the passes -/

/-- The GL commands that change the blend state: enabling or disabling `GL_BLEND` and the
blend equation and blend function commands. -/
def GLCommand.is_blend : GLCommand → Bool
  | GLCommand.glEnable cap => decide (cap = GL_BLEND)
  | GLCommand.glDisable cap => decide (cap = GL_BLEND)
  | GLCommand.glBlendEquation _ => true
  | GLCommand.glBlendFunc _ _ => true
  | GLCommand.glBlendEquationSeparate _ _ => true
  | GLCommand.glBlendFuncSeparate _ _ _ _ => true
  | _ => false

/-- The blend part of the device-state cache is the same in two renderer states. -/
def same_blend_cache (a b : GthreeRendererPrivate) : Prop :=
  b.old_blending = a.old_blending
    ∧ b.old_blend_equation = a.old_blend_equation
    ∧ b.old_blend_src = a.old_blend_src
    ∧ b.old_blend_dst = a.old_blend_dst

/-! # Theorems -/

/-! ## Render list: partition and classification -/

theorem push_items_length (list : GthreeRenderList) (object geometry : Nat)
    (material : GthreeMaterial) (group : Nat) :
    (gthree_render_list_push list object geometry material group).items.length
      = list.items.length + 1 := by
  unfold gthree_render_list_push
  dsimp only
  split_ifs <;> simp

theorem push_use_background (list : GthreeRenderList) (object geometry : Nat)
    (material : GthreeMaterial) (group : Nat) :
    (gthree_render_list_push list object geometry material group).use_background
      = list.use_background := by
  unfold gthree_render_list_push
  dsimp only
  split_ifs <;> rfl

theorem push_bucket (list : GthreeRenderList) (object geometry : Nat)
    (material : GthreeMaterial) (group : Nat) (b : Bucket) :
    (gthree_render_list_push list object geometry material group).bucket b
      = list.bucket b
        ++ (if classify list.use_background material = b then [list.items.length] else []) := by
  unfold gthree_render_list_push classify gthree_material_get_is_transparent
  dsimp only
  cases b <;> split_ifs <;> simp_all [GthreeRenderList.bucket]

theorem runOps_bucket (b : Bucket) (ops : List RenderListOp) :
    ∀ list : GthreeRenderList,
      (runOps list ops).bucket b
        = list.bucket b ++ pushedInto b list.items.length list.use_background ops := by
  induction ops with
  | nil => intro list; simp [runOps, pushedInto]
  | cons op ops ih =>
    intro list
    have h := ih (RenderListOp.apply list op)
    simp only [runOps, List.foldl_cons] at h ⊢
    rw [h]
    cases op with
    | push object geometry material group =>
      simp only [RenderListOp.apply, pushedInto, push_bucket, push_items_length,
        push_use_background, List.append_assoc]
    | set_use_background v => rfl
    | set_current_z z => rfl

theorem partitioned_push (list : GthreeRenderList) (object geometry : Nat)
    (material : GthreeMaterial) (group : Nat) (h : Partitioned list) :
    Partitioned (gthree_render_list_push list object geometry material group) := by
  unfold Partitioned at h ⊢
  have ho := push_bucket list object geometry material group Bucket.opaque_
  have ht := push_bucket list object geometry material group Bucket.transparent
  have hb := push_bucket list object geometry material group Bucket.background
  simp only [GthreeRenderList.bucket] at ho ht hb
  rw [ho, ht, hb, push_items_length, List.range_succ]
  rw [List.perm_iff_count] at h ⊢
  intro a
  have ha := h a
  simp only [List.count_append] at ha ⊢
  generalize classify list.use_background material = c
  cases c <;> simp <;> omega

theorem partitioned_runOps (ops : List RenderListOp) :
    ∀ list : GthreeRenderList, Partitioned list → Partitioned (runOps list ops) := by
  induction ops with
  | nil => intro list h; simpa [runOps] using h
  | cons op ops ih =>
    intro list h
    simp only [runOps, List.foldl_cons]
    apply ih
    cases op with
    | push object geometry material group =>
      exact partitioned_push list object geometry material group h
    | set_use_background v => exact h
    | set_current_z z => exact h

/-- C1: after `gthree_render_list_init` followed by any sequence of pushes and writes of
`use_background` (and `current_z`), the concatenation of the opaque, transparent and
background index arrays is a permutation of `0 .. items.len - 1`: every item index is in
exactly one bucket, exactly once. -/
theorem render_list_buckets_partition (list0 : GthreeRenderList) (ops : List RenderListOp) :
    ((runOps (gthree_render_list_init list0) ops).opaque_
        ++ (runOps (gthree_render_list_init list0) ops).transparent
        ++ (runOps (gthree_render_list_init list0) ops).background).Perm
      (List.range (runOps (gthree_render_list_init list0) ops).items.length) := by
  apply partitioned_runOps
  simp [Partitioned, gthree_render_list_init]

/-- C2: after `gthree_render_list_init` and any sequence of pushes interleaved with writes
of `use_background`, before any sort, the background array is exactly the indices pushed
while `use_background` was set, the transparent array exactly those pushed with
`use_background` clear and a transparent material, the opaque array exactly the others,
each in push order; the i-th push has index i. -/
theorem render_list_buckets_classified (list0 : GthreeRenderList) (ops : List RenderListOp) :
    (runOps (gthree_render_list_init list0) ops).background
        = pushedInto Bucket.background 0 FALSE ops
      ∧ (runOps (gthree_render_list_init list0) ops).transparent
        = pushedInto Bucket.transparent 0 FALSE ops
      ∧ (runOps (gthree_render_list_init list0) ops).opaque_
        = pushedInto Bucket.opaque_ 0 FALSE ops := by
  have hb := runOps_bucket Bucket.background ops (gthree_render_list_init list0)
  have ht := runOps_bucket Bucket.transparent ops (gthree_render_list_init list0)
  have ho := runOps_bucket Bucket.opaque_ ops (gthree_render_list_init list0)
  simp only [GthreeRenderList.bucket, gthree_render_list_init, List.nil_append,
    List.length_nil] at hb ht ho
  exact ⟨hb, ht, ho⟩

/-! ## The merge sort behind `g_array_sort_with_data` -/

theorem msort_merge_nil_right {α : Type} (cmp : α → α → Int) (xs : List α) :
    msort_merge cmp xs [] = xs := by
  cases xs <;> rfl

theorem msort_merge_cons_cons {α : Type} (cmp : α → α → Int) (x y : α) (xs ys : List α) :
    msort_merge cmp (x :: xs) (y :: ys)
      = if cmp x y ≤ 0 then x :: msort_merge cmp xs (y :: ys)
        else y :: msort_merge cmp (x :: xs) ys := by
  rfl

theorem msort_merge_perm {α : Type} (cmp : α → α → Int) :
    ∀ xs ys : List α, (msort_merge cmp xs ys).Perm (xs ++ ys) := by
  intro xs
  induction xs with
  | nil => intro ys; exact List.Perm.refl _
  | cons x xs ihx =>
    intro ys
    induction ys with
    | nil => rw [msort_merge_nil_right, List.append_nil]
    | cons y ys ihy =>
      rw [msort_merge_cons_cons]
      split_ifs
      · exact (ihx (y :: ys)).cons x
      · exact (ihy.cons y).trans List.perm_middle.symm

theorem msort_with_tmp_perm {α : Type} (cmp : α → α → Int) :
    ∀ (depth : Nat) (b : List α), (msort_with_tmp cmp depth b).Perm b := by
  intro depth
  induction depth with
  | zero => intro b; exact List.Perm.refl _
  | succ depth ih =>
    intro b
    unfold msort_with_tmp
    split_ifs
    · exact List.Perm.refl _
    · dsimp only
      refine (msort_merge_perm cmp _ _).trans ?_
      have h := (ih (b.take (b.length / 2))).append (ih (b.drop (b.length / 2)))
      rwa [List.take_append_drop] at h

theorem msort_merge_sorted {α : Type} (cmp : α → α → Int) (P : α → Prop)
    (htot : ∀ a b, P a → P b → cmp a b ≤ 0 ∨ cmp b a ≤ 0)
    (htr : ∀ a b c, P a → P b → P c → cmp a b ≤ 0 → cmp b c ≤ 0 → cmp a c ≤ 0) :
    ∀ xs ys : List α, (∀ x ∈ xs, P x) → (∀ y ∈ ys, P y) →
      xs.Pairwise (fun a b => cmp a b ≤ 0) →
      ys.Pairwise (fun a b => cmp a b ≤ 0) →
      (msort_merge cmp xs ys).Pairwise (fun a b => cmp a b ≤ 0) := by
  intro xs
  induction xs with
  | nil => intro ys _ _ _ hy; exact hy
  | cons x xs ihx =>
    intro ys
    induction ys with
    | nil => intro _ _ hx _; rwa [msort_merge_nil_right]
    | cons y ys ihy =>
      intro px py hx hy
      rw [msort_merge_cons_cons]
      rw [List.pairwise_cons] at hx hy
      have pxx : P x := px x (List.mem_cons_self _ _)
      have pyy : P y := py y (List.mem_cons_self _ _)
      have pxs : ∀ a ∈ xs, P a := fun a ha => px a (List.mem_cons_of_mem _ ha)
      have pys : ∀ a ∈ ys, P a := fun a ha => py a (List.mem_cons_of_mem _ ha)
      split_ifs with hxy
      · refine List.Pairwise.cons ?_ (ihx (y :: ys) pxs py hx.2 (List.Pairwise.cons hy.1 hy.2))
        intro z hz
        rcases List.mem_append.1 ((msort_merge_perm cmp xs (y :: ys)).subset hz) with h | h
        · exact hx.1 z h
        · rcases List.mem_cons.1 h with h | h
          · rw [h]; exact hxy
          · exact htr x y z pxx pyy (pys z h) hxy (hy.1 z h)
      · have hyx : cmp y x ≤ 0 := (htot x y pxx pyy).resolve_left hxy
        refine List.Pairwise.cons ?_ (ihy px pys (List.Pairwise.cons hx.1 hx.2) hy.2)
        intro z hz
        rcases List.mem_append.1 ((msort_merge_perm cmp (x :: xs) ys).subset hz) with h | h
        · rcases List.mem_cons.1 h with h | h
          · rw [h]; exact hyx
          · exact htr y x z pyy pxx (pxs z h) hyx (hx.1 z h)
        · exact hy.1 z h

theorem msort_with_tmp_sorted {α : Type} (cmp : α → α → Int) (P : α → Prop)
    (htot : ∀ a b, P a → P b → cmp a b ≤ 0 ∨ cmp b a ≤ 0)
    (htr : ∀ a b c, P a → P b → P c → cmp a b ≤ 0 → cmp b c ≤ 0 → cmp a c ≤ 0) :
    ∀ (depth : Nat) (b : List α), (∀ x ∈ b, P x) → b.length ≤ depth + 1 →
      (msort_with_tmp cmp depth b).Pairwise (fun a b => cmp a b ≤ 0) := by
  intro depth
  induction depth with
  | zero =>
    intro b _ hb
    unfold msort_with_tmp
    match b, hb with
    | [], _ => exact List.Pairwise.nil
    | [a], _ => exact List.pairwise_singleton _ a
  | succ depth ih =>
    intro b pb hb
    unfold msort_with_tmp
    split_ifs with h1
    · match b, h1 with
      | [], _ => exact List.Pairwise.nil
      | [a], _ => exact List.pairwise_singleton _ a
    · dsimp only
      have p1 : ∀ x ∈ b.take (b.length / 2), P x := fun x hx => pb x (List.mem_of_mem_take hx)
      have p2 : ∀ x ∈ b.drop (b.length / 2), P x := fun x hx => pb x (List.mem_of_mem_drop hx)
      apply msort_merge_sorted cmp P htot htr
      · intro x hx
        exact p1 x ((msort_with_tmp_perm cmp depth _).subset hx)
      · intro x hx
        exact p2 x ((msort_with_tmp_perm cmp depth _).subset hx)
      · apply ih _ p1
        rw [List.length_take]
        omega
      · apply ih _ p2
        rw [List.length_drop]
        omega

theorem g_array_sort_with_data_sorted {α : Type} (cmp : α → α → Int) (P : α → Prop)
    (htot : ∀ a b, P a → P b → cmp a b ≤ 0 ∨ cmp b a ≤ 0)
    (htr : ∀ a b c, P a → P b → P c → cmp a b ≤ 0 → cmp b c ≤ 0 → cmp a c ≤ 0)
    (array : List α) (hP : ∀ x ∈ array, P x) :
    (g_array_sort_with_data array cmp).Pairwise (fun a b => cmp a b ≤ 0) :=
  msort_with_tmp_sorted cmp P htot htr array.length array hP (Nat.le_succ _)

theorem msort_merge_of_sorted {α : Type} (cmp : α → α → Int) :
    ∀ xs ys : List α, (xs ++ ys).Pairwise (fun a b => cmp a b ≤ 0) →
      msort_merge cmp xs ys = xs ++ ys := by
  intro xs
  induction xs with
  | nil => intro ys _; rfl
  | cons x xs ihx =>
    intro ys h
    cases ys with
    | nil => rw [msort_merge_nil_right, List.append_nil]
    | cons y ys =>
      rw [msort_merge_cons_cons]
      rw [List.cons_append, List.pairwise_cons] at h
      have hxy : cmp x y ≤ 0 := h.1 y (by simp)
      rw [if_pos hxy, ihx (y :: ys) h.2, List.cons_append]

theorem msort_with_tmp_of_sorted {α : Type} (cmp : α → α → Int) :
    ∀ (depth : Nat) (b : List α), b.Pairwise (fun a b => cmp a b ≤ 0) →
      msort_with_tmp cmp depth b = b := by
  intro depth
  induction depth with
  | zero => intro b _; rfl
  | succ depth ih =>
    intro b hb
    unfold msort_with_tmp
    split_ifs
    · rfl
    · dsimp only
      rw [ih _ (hb.sublist (List.take_sublist _ _)), ih _ (hb.sublist (List.drop_sublist _ _))]
      rw [msort_merge_of_sorted cmp _ _ (by rwa [List.take_append_drop]),
        List.take_append_drop]

/-! ## The two comparators are total preorders on depths that are numbers -/

theorem lex_cmp_le_iff (za zb : Int) (oa ob : Nat) :
    (if za ≠ zb then (if za > zb then (1 : Int) else -1)
      else if oa ≠ ob then (if oa > ob then 1 else -1) else 0) ≤ 0
      ↔ za < zb ∨ (za = zb ∧ oa ≤ ob) := by
  split_ifs <;> omega

theorem lex_rev_cmp_le_iff (za zb : Int) (oa ob : Nat) :
    (if za ≠ zb then (if zb > za then (1 : Int) else -1)
      else if oa ≠ ob then (if oa > ob then 1 else -1) else 0) ≤ 0
      ↔ zb < za ∨ (za = zb ∧ oa ≤ ob) := by
  split_ifs <;> omega

theorem lex_total (za zb : Int) (oa ob : Nat) :
    (za < zb ∨ (za = zb ∧ oa ≤ ob)) ∨ (zb < za ∨ (zb = za ∧ ob ≤ oa)) := by
  omega

theorem lex_trans (za zb zc : Int) (oa ob oc : Nat)
    (hab : za < zb ∨ (za = zb ∧ oa ≤ ob)) (hbc : zb < zc ∨ (zb = zc ∧ ob ≤ oc)) :
    za < zc ∨ (za = zc ∧ oa ≤ oc) := by
  omega

theorem float_eq_num_key (a : float) (ha : a ≠ float.nan) : a = float.num a.key := by
  cases a with
  | num k => rfl
  | nan => exact absurd rfl ha

theorem float_num_le_iff (x y : Int) : float.num x ≤ float.num y ↔ x ≤ y :=
  Iff.rfl

theorem float_le_iff_key (a b : float) (ha : a ≠ float.nan) (hb : b ≠ float.nan) :
    a ≤ b ↔ a.key ≤ b.key := by
  rw [float_eq_num_key a ha, float_eq_num_key b hb]
  exact Iff.rfl

theorem float_not_le_nan_right (a : float) : ¬ a ≤ float.nan := by
  cases a <;> exact not_false

theorem float_not_le_nan_left (a : float) : ¬ float.nan ≤ a :=
  not_false

theorem painter_le_iff (list : GthreeRenderList) (a b : Nat)
    (ha : (list.item a).z ≠ float.nan) (hb : (list.item b).z ≠ float.nan) :
    render_list_painter_sort_stable list a b ≤ 0
      ↔ (list.item a).z.key < (list.item b).z.key
        ∨ ((list.item a).z.key = (list.item b).z.key
          ∧ (list.item a).object ≤ (list.item b).object) := by
  unfold render_list_painter_sort_stable
  dsimp only
  generalize (list.item a).z = za at ha ⊢
  generalize (list.item b).z = zb at hb ⊢
  cases za with
  | nan => exact absurd rfl ha
  | num x =>
    cases zb with
    | nan => exact absurd rfl hb
    | num y => exact lex_cmp_le_iff x y _ _

theorem reverse_painter_le_iff (list : GthreeRenderList) (a b : Nat)
    (ha : (list.item a).z ≠ float.nan) (hb : (list.item b).z ≠ float.nan) :
    render_list_reverse_painter_sort_stable list a b ≤ 0
      ↔ (list.item b).z.key < (list.item a).z.key
        ∨ ((list.item a).z.key = (list.item b).z.key
          ∧ (list.item a).object ≤ (list.item b).object) := by
  unfold render_list_reverse_painter_sort_stable
  dsimp only
  generalize (list.item a).z = za at ha ⊢
  generalize (list.item b).z = zb at hb ⊢
  cases za with
  | nan => exact absurd rfl ha
  | num x =>
    cases zb with
    | nan => exact absurd rfl hb
    | num y => exact lex_rev_cmp_le_iff x y _ _

theorem painter_total (list : GthreeRenderList) (a b : Nat)
    (ha : (list.item a).z ≠ float.nan) (hb : (list.item b).z ≠ float.nan) :
    render_list_painter_sort_stable list a b ≤ 0
      ∨ render_list_painter_sort_stable list b a ≤ 0 := by
  rw [painter_le_iff list a b ha hb, painter_le_iff list b a hb ha]
  exact lex_total _ _ _ _

theorem painter_trans (list : GthreeRenderList) (a b c : Nat)
    (ha : (list.item a).z ≠ float.nan) (hb : (list.item b).z ≠ float.nan)
    (hc : (list.item c).z ≠ float.nan)
    (hab : render_list_painter_sort_stable list a b ≤ 0)
    (hbc : render_list_painter_sort_stable list b c ≤ 0) :
    render_list_painter_sort_stable list a c ≤ 0 := by
  rw [painter_le_iff list _ _ ha hb] at hab
  rw [painter_le_iff list _ _ hb hc] at hbc
  rw [painter_le_iff list _ _ ha hc]
  exact lex_trans _ _ _ _ _ _ hab hbc

theorem reverse_painter_total (list : GthreeRenderList) (a b : Nat)
    (ha : (list.item a).z ≠ float.nan) (hb : (list.item b).z ≠ float.nan) :
    render_list_reverse_painter_sort_stable list a b ≤ 0
      ∨ render_list_reverse_painter_sort_stable list b a ≤ 0 := by
  rw [reverse_painter_le_iff list a b ha hb, reverse_painter_le_iff list b a hb ha]
  rcases lex_total (list.item b).z.key (list.item a).z.key (list.item b).object
      (list.item a).object with h | h | ⟨h1, h2⟩
  · rcases h with h | ⟨h1, h2⟩
    · exact Or.inl (Or.inl h)
    · exact Or.inr (Or.inr ⟨h1, h2⟩)
  · exact Or.inr (Or.inl h)
  · exact Or.inl (Or.inr ⟨h1, h2⟩)

theorem reverse_painter_trans (list : GthreeRenderList) (a b c : Nat)
    (ha : (list.item a).z ≠ float.nan) (hb : (list.item b).z ≠ float.nan)
    (hc : (list.item c).z ≠ float.nan)
    (hab : render_list_reverse_painter_sort_stable list a b ≤ 0)
    (hbc : render_list_reverse_painter_sort_stable list b c ≤ 0) :
    render_list_reverse_painter_sort_stable list a c ≤ 0 := by
  rw [reverse_painter_le_iff list _ _ ha hb] at hab
  rw [reverse_painter_le_iff list _ _ hb hc] at hbc
  rw [reverse_painter_le_iff list _ _ ha hc]
  rcases hab with h1 | ⟨h1, h2⟩
  · rcases hbc with h3 | ⟨h3, _⟩
    · exact Or.inl (lt_trans h3 h1)
    · exact Or.inl (h3 ▸ h1)
  · rcases hbc with h3 | ⟨h3, h4⟩
    · exact Or.inl (h1 ▸ h3)
    · exact Or.inr ⟨h1.trans h3, le_trans h2 h4⟩

theorem painter_congr_items (list1 list2 : GthreeRenderList) (h : list1.items = list2.items) :
    render_list_painter_sort_stable list1 = render_list_painter_sort_stable list2 := by
  funext a b
  simp [render_list_painter_sort_stable, GthreeRenderList.item, h]

theorem reverse_painter_congr_items (list1 list2 : GthreeRenderList)
    (h : list1.items = list2.items) :
    render_list_reverse_painter_sort_stable list1
      = render_list_reverse_painter_sort_stable list2 := by
  funext a b
  simp [render_list_reverse_painter_sort_stable, GthreeRenderList.item, h]

theorem sort_of_sorted (list : GthreeRenderList)
    (ho : list.opaque_.Pairwise (fun a b => render_list_painter_sort_stable list a b ≤ 0))
    (ht : list.transparent.Pairwise
      (fun a b => render_list_reverse_painter_sort_stable list a b ≤ 0)) :
    gthree_render_list_sort list = list := by
  have e : ∀ o : List Nat,
      render_list_reverse_painter_sort_stable { list with opaque_ := o }
        = render_list_reverse_painter_sort_stable list :=
    fun o => reverse_painter_congr_items _ list rfl
  unfold gthree_render_list_sort
  dsimp only
  rw [e]
  unfold g_array_sort_with_data
  rw [msort_with_tmp_of_sorted _ _ _ ho, msort_with_tmp_of_sorted _ _ _ ht]

theorem sort_opaque_sorted (list : GthreeRenderList)
    (hz : ∀ i ∈ list.opaque_, (list.item i).z ≠ float.nan) :
    (gthree_render_list_sort list).opaque_.Pairwise
      (fun a b => render_list_painter_sort_stable list a b ≤ 0) :=
  g_array_sort_with_data_sorted (render_list_painter_sort_stable list)
    (fun i => (list.item i).z ≠ float.nan) (painter_total list) (painter_trans list)
    list.opaque_ hz

theorem sort_transparent_sorted (list : GthreeRenderList)
    (hz : ∀ i ∈ list.transparent, (list.item i).z ≠ float.nan) :
    (gthree_render_list_sort list).transparent.Pairwise
      (fun a b => render_list_reverse_painter_sort_stable list a b ≤ 0) :=
  g_array_sort_with_data_sorted (render_list_reverse_painter_sort_stable list)
    (fun i => (list.item i).z ≠ float.nan) (reverse_painter_total list)
    (reverse_painter_trans list) list.transparent hz

theorem sort_opaque_mem (list : GthreeRenderList) (i : Nat)
    (hi : i ∈ (gthree_render_list_sort list).opaque_) : i ∈ list.opaque_ :=
  (msort_with_tmp_perm _ _ _).subset hi

theorem sort_transparent_mem (list : GthreeRenderList) (i : Nat)
    (hi : i ∈ (gthree_render_list_sort list).transparent) : i ∈ list.transparent :=
  (msort_with_tmp_perm _ _ _).subset hi

theorem sort_buckets_pairwise (list : GthreeRenderList) :
    ((∀ i ∈ list.opaque_, (list.item i).z ≠ float.nan) →
        (gthree_render_list_sort list).opaque_.Pairwise
          (fun a b => (list.item a).z ≤ (list.item b).z))
      ∧ ((∀ i ∈ list.transparent, (list.item i).z ≠ float.nan) →
        (gthree_render_list_sort list).transparent.Pairwise
          (fun a b => (list.item a).z ≥ (list.item b).z)) := by
  constructor
  · intro hz
    refine List.Pairwise.imp_of_mem ?_ (sort_opaque_sorted list hz)
    intro a b ha hb hab
    have za := hz a (sort_opaque_mem list a ha)
    have zb := hz b (sort_opaque_mem list b hb)
    rw [painter_le_iff list a b za zb] at hab
    rw [float_le_iff_key _ _ za zb]
    rcases hab with h1 | ⟨h1, _⟩
    · exact le_of_lt h1
    · exact le_of_eq h1
  · intro hz
    refine List.Pairwise.imp_of_mem ?_ (sort_transparent_sorted list hz)
    intro a b ha hb hab
    have za := hz a (sort_transparent_mem list a ha)
    have zb := hz b (sort_transparent_mem list b hb)
    rw [reverse_painter_le_iff list a b za zb] at hab
    show (list.item b).z ≤ (list.item a).z
    rw [float_le_iff_key _ _ zb za]
    rcases hab with h1 | ⟨h1, _⟩
    · exact le_of_lt h1
    · exact le_of_eq h1.symm

/-! ## Render list: sorting -/

/-- C3 (counterexample): three opaque items with depths 5, NaN and 1, pushed in this order.
Every comparison with the NaN depth returns `-1`, so the merge sort leaves the opaque
index array as it was: the depths of consecutive entries are 5, NaN, 1, which is not
non-decreasing (`5 <= NaN` is false, and 5 comes before 1). -/
theorem sort_opaque_nan_depth_unsorted :
    (gthree_render_list_sort
        { items := [{ object := 1, geometry := 0, material := {}, group := 0, z := 5 },
                    { object := 2, geometry := 0, material := {}, group := 0, z := float.nan },
                    { object := 3, geometry := 0, material := {}, group := 0, z := 1 }],
          opaque_ := [0, 1, 2] }).opaque_ = [0, 1, 2]
      ∧ ¬ List.Chain'
        (fun i j =>
          ((gthree_render_list_sort
            { items := [{ object := 1, geometry := 0, material := {}, group := 0, z := 5 },
                        { object := 2, geometry := 0, material := {}, group := 0,
                          z := float.nan },
                        { object := 3, geometry := 0, material := {}, group := 0, z := 1 }],
              opaque_ := [0, 1, 2] }).item i).z
            ≤ ((gthree_render_list_sort
            { items := [{ object := 1, geometry := 0, material := {}, group := 0, z := 5 },
                        { object := 2, geometry := 0, material := {}, group := 0,
                          z := float.nan },
                        { object := 3, geometry := 0, material := {}, group := 0, z := 1 }],
              opaque_ := [0, 1, 2] }).item j).z)
        (gthree_render_list_sort
          { items := [{ object := 1, geometry := 0, material := {}, group := 0, z := 5 },
                      { object := 2, geometry := 0, material := {}, group := 0, z := float.nan },
                      { object := 3, geometry := 0, material := {}, group := 0, z := 1 }],
            opaque_ := [0, 1, 2] }).opaque_ := by
  refine ⟨by decide, ?_⟩
  intro h
  rw [show (gthree_render_list_sort
      { items := [{ object := 1, geometry := 0, material := {}, group := 0, z := 5 },
                  { object := 2, geometry := 0, material := {}, group := 0, z := float.nan },
                  { object := 3, geometry := 0, material := {}, group := 0, z := 1 }],
        opaque_ := [0, 1, 2] }).opaque_ = [0, 1, 2] from by decide] at h
  exact absurd (List.chain'_cons.1 h).1 (by decide)

/-- C3 (amended): for every render list in which no item referenced by the opaque index
array has a NaN `z`, after `gthree_render_list_sort` the `z` values of the items referenced
by consecutive entries of the opaque index array are non-decreasing. -/
theorem sort_opaque_z_nondecreasing (list : GthreeRenderList)
    (hz : ∀ i ∈ list.opaque_, (list.item i).z ≠ float.nan) :
    List.Chain'
      (fun i j => ((gthree_render_list_sort list).item i).z
        ≤ ((gthree_render_list_sort list).item j).z)
      (gthree_render_list_sort list).opaque_ :=
  List.Pairwise.chain' ((sort_buckets_pairwise list).1 hz)

/-- C3 (witness): opaque items with depths 5, 1 and 3 come out in the order 1, 3, 5. -/
theorem sort_opaque_z_nondecreasing_witness :
    (∀ i ∈ ([0, 1, 2] : List Nat),
        (({ items := [{ object := 1, geometry := 0, material := {}, group := 0, z := 5 },
                      { object := 2, geometry := 0, material := {}, group := 0, z := 1 },
                      { object := 3, geometry := 0, material := {}, group := 0, z := 3 }],
            opaque_ := [0, 1, 2] } : GthreeRenderList).item i).z ≠ float.nan)
      ∧ (gthree_render_list_sort
          { items := [{ object := 1, geometry := 0, material := {}, group := 0, z := 5 },
                      { object := 2, geometry := 0, material := {}, group := 0, z := 1 },
                      { object := 3, geometry := 0, material := {}, group := 0, z := 3 }],
            opaque_ := [0, 1, 2] }).opaque_ = [1, 2, 0]
      ∧ List.Chain'
        (fun i j =>
          ((gthree_render_list_sort
            { items := [{ object := 1, geometry := 0, material := {}, group := 0, z := 5 },
                        { object := 2, geometry := 0, material := {}, group := 0, z := 1 },
                        { object := 3, geometry := 0, material := {}, group := 0, z := 3 }],
              opaque_ := [0, 1, 2] }).item i).z
            ≤ ((gthree_render_list_sort
            { items := [{ object := 1, geometry := 0, material := {}, group := 0, z := 5 },
                        { object := 2, geometry := 0, material := {}, group := 0, z := 1 },
                        { object := 3, geometry := 0, material := {}, group := 0, z := 3 }],
              opaque_ := [0, 1, 2] }).item j).z)
        (gthree_render_list_sort
          { items := [{ object := 1, geometry := 0, material := {}, group := 0, z := 5 },
                      { object := 2, geometry := 0, material := {}, group := 0, z := 1 },
                      { object := 3, geometry := 0, material := {}, group := 0, z := 3 }],
            opaque_ := [0, 1, 2] }).opaque_ :=
  ⟨by decide, by decide,
    sort_opaque_z_nondecreasing
      { items := [{ object := 1, geometry := 0, material := {}, group := 0, z := 5 },
                  { object := 2, geometry := 0, material := {}, group := 0, z := 1 },
                  { object := 3, geometry := 0, material := {}, group := 0, z := 3 }],
        opaque_ := [0, 1, 2] } (by decide)⟩

/-- C4 (counterexample): three transparent items with depths 1, NaN and 5, pushed in this
order. Every comparison with the NaN depth returns `-1`, so the merge sort leaves the
transparent index array as it was: the depths of consecutive entries are 1, NaN, 5, which is
not non-increasing (`1 >= NaN` is false, and 1 comes before 5). -/
theorem sort_transparent_nan_depth_unsorted :
    (gthree_render_list_sort
        { items := [{ object := 1, geometry := 0, material := {}, group := 0, z := 1 },
                    { object := 2, geometry := 0, material := {}, group := 0, z := float.nan },
                    { object := 3, geometry := 0, material := {}, group := 0, z := 5 }],
          transparent := [0, 1, 2] }).transparent = [0, 1, 2]
      ∧ ¬ List.Chain'
        (fun i j =>
          ((gthree_render_list_sort
            { items := [{ object := 1, geometry := 0, material := {}, group := 0, z := 1 },
                        { object := 2, geometry := 0, material := {}, group := 0,
                          z := float.nan },
                        { object := 3, geometry := 0, material := {}, group := 0, z := 5 }],
              transparent := [0, 1, 2] }).item i).z
            ≥ ((gthree_render_list_sort
            { items := [{ object := 1, geometry := 0, material := {}, group := 0, z := 1 },
                        { object := 2, geometry := 0, material := {}, group := 0,
                          z := float.nan },
                        { object := 3, geometry := 0, material := {}, group := 0, z := 5 }],
              transparent := [0, 1, 2] }).item j).z)
        (gthree_render_list_sort
          { items := [{ object := 1, geometry := 0, material := {}, group := 0, z := 1 },
                      { object := 2, geometry := 0, material := {}, group := 0, z := float.nan },
                      { object := 3, geometry := 0, material := {}, group := 0, z := 5 }],
            transparent := [0, 1, 2] }).transparent := by
  refine ⟨by decide, ?_⟩
  intro h
  rw [show (gthree_render_list_sort
      { items := [{ object := 1, geometry := 0, material := {}, group := 0, z := 1 },
                  { object := 2, geometry := 0, material := {}, group := 0, z := float.nan },
                  { object := 3, geometry := 0, material := {}, group := 0, z := 5 }],
        transparent := [0, 1, 2] }).transparent = [0, 1, 2] from by decide] at h
  exact absurd (List.chain'_cons.1 h).1 (by decide)

/-- C4 (amended): for every render list in which no item referenced by the transparent
index array has a NaN `z`, after `gthree_render_list_sort` the `z` values of the items
referenced by consecutive entries of the transparent index array are non-increasing. -/
theorem sort_transparent_z_nonincreasing (list : GthreeRenderList)
    (hz : ∀ i ∈ list.transparent, (list.item i).z ≠ float.nan) :
    List.Chain'
      (fun i j => ((gthree_render_list_sort list).item i).z
        ≥ ((gthree_render_list_sort list).item j).z)
      (gthree_render_list_sort list).transparent :=
  List.Pairwise.chain' ((sort_buckets_pairwise list).2 hz)

/-- C4 (witness): transparent items with depths 1, 5 and 3 come out in the order 5, 3, 1. -/
theorem sort_transparent_z_nonincreasing_witness :
    (∀ i ∈ ([0, 1, 2] : List Nat),
        (({ items := [{ object := 1, geometry := 0, material := {}, group := 0, z := 1 },
                      { object := 2, geometry := 0, material := {}, group := 0, z := 5 },
                      { object := 3, geometry := 0, material := {}, group := 0, z := 3 }],
            transparent := [0, 1, 2] } : GthreeRenderList).item i).z ≠ float.nan)
      ∧ (gthree_render_list_sort
          { items := [{ object := 1, geometry := 0, material := {}, group := 0, z := 1 },
                      { object := 2, geometry := 0, material := {}, group := 0, z := 5 },
                      { object := 3, geometry := 0, material := {}, group := 0, z := 3 }],
            transparent := [0, 1, 2] }).transparent = [1, 2, 0]
      ∧ List.Chain'
        (fun i j =>
          ((gthree_render_list_sort
            { items := [{ object := 1, geometry := 0, material := {}, group := 0, z := 1 },
                        { object := 2, geometry := 0, material := {}, group := 0, z := 5 },
                        { object := 3, geometry := 0, material := {}, group := 0, z := 3 }],
              transparent := [0, 1, 2] }).item i).z
            ≥ ((gthree_render_list_sort
            { items := [{ object := 1, geometry := 0, material := {}, group := 0, z := 1 },
                        { object := 2, geometry := 0, material := {}, group := 0, z := 5 },
                        { object := 3, geometry := 0, material := {}, group := 0, z := 3 }],
              transparent := [0, 1, 2] }).item j).z)
        (gthree_render_list_sort
          { items := [{ object := 1, geometry := 0, material := {}, group := 0, z := 1 },
                      { object := 2, geometry := 0, material := {}, group := 0, z := 5 },
                      { object := 3, geometry := 0, material := {}, group := 0, z := 3 }],
            transparent := [0, 1, 2] }).transparent :=
  ⟨by decide, by decide,
    sort_transparent_z_nonincreasing
      { items := [{ object := 1, geometry := 0, material := {}, group := 0, z := 1 },
                  { object := 2, geometry := 0, material := {}, group := 0, z := 5 },
                  { object := 3, geometry := 0, material := {}, group := 0, z := 3 }],
        transparent := [0, 1, 2] } (by decide)⟩

/-- C5 (counterexample): six opaque items with depths 2, NaN, 1, 1, NaN, NaN. The first
sort leaves the opaque index array as `[3, 0, 1, 2, 4, 5]` (depths 1, 2, NaN, 1, NaN, NaN);
a second sort changes it to `[2, 3, 0, 1, 4, 5]` (depths 1, 1, 2, NaN, NaN, NaN). -/
theorem sort_nan_depth_not_idempotent :
    (gthree_render_list_sort
        { items := [{ object := 1, geometry := 0, material := {}, group := 0, z := 2 },
                    { object := 2, geometry := 0, material := {}, group := 0, z := float.nan },
                    { object := 3, geometry := 0, material := {}, group := 0, z := 1 },
                    { object := 4, geometry := 0, material := {}, group := 0, z := 1 },
                    { object := 5, geometry := 0, material := {}, group := 0, z := float.nan },
                    { object := 6, geometry := 0, material := {}, group := 0, z := float.nan }],
          opaque_ := [0, 1, 2, 3, 4, 5] }).opaque_ = [3, 0, 1, 2, 4, 5]
      ∧ (gthree_render_list_sort (gthree_render_list_sort
        { items := [{ object := 1, geometry := 0, material := {}, group := 0, z := 2 },
                    { object := 2, geometry := 0, material := {}, group := 0, z := float.nan },
                    { object := 3, geometry := 0, material := {}, group := 0, z := 1 },
                    { object := 4, geometry := 0, material := {}, group := 0, z := 1 },
                    { object := 5, geometry := 0, material := {}, group := 0, z := float.nan },
                    { object := 6, geometry := 0, material := {}, group := 0, z := float.nan }],
          opaque_ := [0, 1, 2, 3, 4, 5] })).opaque_ = [2, 3, 0, 1, 4, 5] := by
  decide

/-- C5 (amended): `gthree_render_list_sort` is idempotent on every render list in which no
item referenced by the opaque or the transparent index array has a NaN `z` (the items may
repeat `z` values and objects): sorting the sorted render list returns it unchanged, so the
opaque and transparent arrays stay exactly as the first sort left them. -/
theorem sort_idempotent (list : GthreeRenderList)
    (ho : ∀ i ∈ list.opaque_, (list.item i).z ≠ float.nan)
    (ht : ∀ i ∈ list.transparent, (list.item i).z ≠ float.nan) :
    gthree_render_list_sort (gthree_render_list_sort list) = gthree_render_list_sort list := by
  apply sort_of_sorted
  · rw [painter_congr_items (gthree_render_list_sort list) list rfl]
    exact sort_opaque_sorted list ho
  · rw [reverse_painter_congr_items (gthree_render_list_sort list) list rfl]
    exact sort_transparent_sorted list ht

/-- C5 (witness): opaque items with depths 2, 1, 1 (two of them of the same object) and
transparent items with depths 1, 4, 4: the second sort returns the render list of the
first. -/
theorem sort_idempotent_witness :
    ((∀ i ∈ ([0, 1, 2] : List Nat),
        (({ items := [{ object := 1, geometry := 0, material := {}, group := 0, z := 2 },
                      { object := 2, geometry := 0, material := {}, group := 0, z := 1 },
                      { object := 2, geometry := 0, material := {}, group := 0, z := 1 },
                      { object := 4, geometry := 0, material := {}, group := 0, z := 1 },
                      { object := 5, geometry := 0, material := {}, group := 0, z := 4 },
                      { object := 6, geometry := 0, material := {}, group := 0, z := 4 }],
            opaque_ := [0, 1, 2], transparent := [3, 4, 5] } : GthreeRenderList).item i).z
          ≠ float.nan)
        ∧ (∀ i ∈ ([3, 4, 5] : List Nat),
        (({ items := [{ object := 1, geometry := 0, material := {}, group := 0, z := 2 },
                      { object := 2, geometry := 0, material := {}, group := 0, z := 1 },
                      { object := 2, geometry := 0, material := {}, group := 0, z := 1 },
                      { object := 4, geometry := 0, material := {}, group := 0, z := 1 },
                      { object := 5, geometry := 0, material := {}, group := 0, z := 4 },
                      { object := 6, geometry := 0, material := {}, group := 0, z := 4 }],
            opaque_ := [0, 1, 2], transparent := [3, 4, 5] } : GthreeRenderList).item i).z
          ≠ float.nan))
      ∧ gthree_render_list_sort (gthree_render_list_sort
          { items := [{ object := 1, geometry := 0, material := {}, group := 0, z := 2 },
                      { object := 2, geometry := 0, material := {}, group := 0, z := 1 },
                      { object := 2, geometry := 0, material := {}, group := 0, z := 1 },
                      { object := 4, geometry := 0, material := {}, group := 0, z := 1 },
                      { object := 5, geometry := 0, material := {}, group := 0, z := 4 },
                      { object := 6, geometry := 0, material := {}, group := 0, z := 4 }],
            opaque_ := [0, 1, 2], transparent := [3, 4, 5] })
        = gthree_render_list_sort
          { items := [{ object := 1, geometry := 0, material := {}, group := 0, z := 2 },
                      { object := 2, geometry := 0, material := {}, group := 0, z := 1 },
                      { object := 2, geometry := 0, material := {}, group := 0, z := 1 },
                      { object := 4, geometry := 0, material := {}, group := 0, z := 1 },
                      { object := 5, geometry := 0, material := {}, group := 0, z := 4 },
                      { object := 6, geometry := 0, material := {}, group := 0, z := 4 }],
            opaque_ := [0, 1, 2], transparent := [3, 4, 5] } :=
  ⟨⟨by decide, by decide⟩,
    sort_idempotent
      { items := [{ object := 1, geometry := 0, material := {}, group := 0, z := 2 },
                  { object := 2, geometry := 0, material := {}, group := 0, z := 1 },
                  { object := 2, geometry := 0, material := {}, group := 0, z := 1 },
                  { object := 4, geometry := 0, material := {}, group := 0, z := 1 },
                  { object := 5, geometry := 0, material := {}, group := 0, z := 4 },
                  { object := 6, geometry := 0, material := {}, group := 0, z := 4 }],
        opaque_ := [0, 1, 2], transparent := [3, 4, 5] } (by decide) (by decide)⟩

/-- C6: `gthree_render_list_sort` leaves the background index array and the items array
exactly as they were, so background items keep their insertion order. -/
theorem sort_keeps_background_and_items (list : GthreeRenderList) :
    (gthree_render_list_sort list).background = list.background
      ∧ (gthree_render_list_sort list).items = list.items :=
  ⟨rfl, rfl⟩

/-! ## Device-state setters: issued commands and cache -/

theorem float_ne_of_ne (a b : float) (h : a ≠ b) : float.ne a b := by
  cases a <;> cases b <;> first | exact trivial | skip
  exact fun e => h (congrArg float.num e)

theorem float_eq_of_not_ne (a b : float) (h : ¬ float.ne a b) : a = b := by
  cases a <;> cases b <;> first | exact absurd trivial h | skip
  exact congrArg float.num (not_not.mp h)

theorem float_not_ne_self (a : float) (h : a ≠ float.nan) : ¬ float.ne a a := by
  cases a with
  | num k => exact fun e => e rfl
  | nan => exact absurd rfl h

theorem float_ne_nan_left (a : float) : float.ne float.nan a :=
  trivial

theorem float_ne_nan_right (a : float) : float.ne a float.nan := by
  cases a <;> exact trivial

theorem float_ne_zero_iff (a : float) : float.ne 0 a ↔ a ≠ 0 := by
  cases a with
  | num k =>
    constructor
    · intro h e
      exact h (float.num.inj e).symm
    · intro h e
      exact h (congrArg float.num e.symm)
  | nan => exact ⟨fun _ e => float.noConfusion e, fun _ => trivial⟩

theorem issued_of_log (before after : GthreeRendererPrivate) (cmds : List GLCommand)
    (h : after.gl_log = before.gl_log ++ cmds) : issued before after = cmds := by
  unfold issued
  rw [h, List.drop_left]

theorem set_material_faces_eq (priv : GthreeRendererPrivate) (material : GthreeMaterial) :
    set_material_faces priv material
      = (if (if priv.old_double_sided
                ≠ c_bool (material.side = GthreeSide.GTHREE_SIDE_DOUBLE) then
              { priv with
                old_double_sided := c_bool (material.side = GthreeSide.GTHREE_SIDE_DOUBLE)
                gl_log := priv.gl_log ++ [cull_command material.side] }
            else priv).old_flip_sided
            ≠ c_bool (material.side = GthreeSide.GTHREE_SIDE_BACK) then
          { (if priv.old_double_sided
                ≠ c_bool (material.side = GthreeSide.GTHREE_SIDE_DOUBLE) then
              { priv with
                old_double_sided := c_bool (material.side = GthreeSide.GTHREE_SIDE_DOUBLE)
                gl_log := priv.gl_log ++ [cull_command material.side] }
            else priv) with
            old_flip_sided := c_bool (material.side = GthreeSide.GTHREE_SIDE_BACK)
            gl_log := (if priv.old_double_sided
                ≠ c_bool (material.side = GthreeSide.GTHREE_SIDE_DOUBLE) then
              { priv with
                old_double_sided := c_bool (material.side = GthreeSide.GTHREE_SIDE_DOUBLE)
                gl_log := priv.gl_log ++ [cull_command material.side] }
            else priv).gl_log ++ [winding_command material.side] }
        else
          (if priv.old_double_sided
                ≠ c_bool (material.side = GthreeSide.GTHREE_SIDE_DOUBLE) then
              { priv with
                old_double_sided := c_bool (material.side = GthreeSide.GTHREE_SIDE_DOUBLE)
                gl_log := priv.gl_log ++ [cull_command material.side] }
            else priv)) := by
  unfold set_material_faces gthree_material_get_side cull_command winding_command
    GthreeRendererPrivate.gl
  cases material.side <;> rfl

theorem set_material_faces_log (priv : GthreeRendererPrivate) (material : GthreeMaterial) :
    (set_material_faces priv material).gl_log
      = priv.gl_log
        ++ ((if priv.old_double_sided ≠ c_bool (material.side = GthreeSide.GTHREE_SIDE_DOUBLE)
              then [cull_command material.side] else [])
          ++ (if priv.old_flip_sided ≠ c_bool (material.side = GthreeSide.GTHREE_SIDE_BACK)
              then [winding_command material.side] else [])) := by
  rw [set_material_faces_eq]
  by_cases h1 : priv.old_double_sided ≠ c_bool (material.side = GthreeSide.GTHREE_SIDE_DOUBLE)
  · by_cases h2 : priv.old_flip_sided ≠ c_bool (material.side = GthreeSide.GTHREE_SIDE_BACK)
    · simp only [if_pos h1, if_pos h2]
      exact List.append_assoc _ _ _
    · simp only [if_pos h1, if_neg h2]
      exact (congrArg _ (List.append_nil _)).symm
  · by_cases h2 : priv.old_flip_sided ≠ c_bool (material.side = GthreeSide.GTHREE_SIDE_BACK)
    · simp only [if_neg h1, if_pos h2]
      rfl
    · simp only [if_neg h1, if_neg h2]
      exact (List.append_nil _).symm

theorem set_material_faces_cache (priv : GthreeRendererPrivate) (material : GthreeMaterial) :
    set_material_faces priv material
      = { priv with
          old_double_sided := c_bool (material.side = GthreeSide.GTHREE_SIDE_DOUBLE)
          old_flip_sided := c_bool (material.side = GthreeSide.GTHREE_SIDE_BACK)
          gl_log := (set_material_faces priv material).gl_log } := by
  rw [set_material_faces_eq]
  generalize c_bool (material.side = GthreeSide.GTHREE_SIDE_DOUBLE) = ds
  generalize c_bool (material.side = GthreeSide.GTHREE_SIDE_BACK) = fs
  by_cases h1 : priv.old_double_sided ≠ ds
  · rw [if_pos h1]
    by_cases h2 : priv.old_flip_sided ≠ fs
    · rw [if_pos h2]
    · rw [if_neg h2]
      have h3 := not_not.mp h2
      subst h3
      rfl
  · rw [if_neg h1]
    have h4 := not_not.mp h1
    subst h4
    by_cases h2 : priv.old_flip_sided ≠ fs
    · rw [if_pos h2]
    · rw [if_neg h2]
      have h3 := not_not.mp h2
      subst h3
      rfl

theorem set_depth_test_eq (priv : GthreeRendererPrivate) (depth_test : gboolean) :
    set_depth_test priv depth_test
      = if priv.old_depth_test ≠ depth_test then
          { priv with
            old_depth_test := depth_test
            gl_log := priv.gl_log ++ [enable_command GL_DEPTH_TEST depth_test] }
        else priv := by
  unfold set_depth_test enable_command GthreeRendererPrivate.gl
  split_ifs <;> rfl

theorem set_depth_test_log (priv : GthreeRendererPrivate) (depth_test : gboolean) :
    (set_depth_test priv depth_test).gl_log
      = priv.gl_log
        ++ (if priv.old_depth_test ≠ depth_test then [enable_command GL_DEPTH_TEST depth_test]
            else []) := by
  rw [set_depth_test_eq]
  split_ifs
  · rfl
  · exact (List.append_nil _).symm

theorem set_depth_test_cache (priv : GthreeRendererPrivate) (depth_test : gboolean) :
    set_depth_test priv depth_test
      = { priv with
          old_depth_test := depth_test
          gl_log := (set_depth_test priv depth_test).gl_log } := by
  rw [set_depth_test_eq]
  split_ifs with h
  · rfl
  · have h2 := not_not.mp h
    subst h2
    rfl

theorem set_depth_write_eq (priv : GthreeRendererPrivate) (depth_write : gboolean) :
    set_depth_write priv depth_write
      = if priv.old_depth_write ≠ depth_write then
          { priv with
            old_depth_write := depth_write
            gl_log := priv.gl_log ++ [GLCommand.glDepthMask depth_write] }
        else priv := by
  unfold set_depth_write GthreeRendererPrivate.gl
  split_ifs <;> rfl

theorem set_depth_write_log (priv : GthreeRendererPrivate) (depth_write : gboolean) :
    (set_depth_write priv depth_write).gl_log
      = priv.gl_log
        ++ (if priv.old_depth_write ≠ depth_write then [GLCommand.glDepthMask depth_write]
            else []) := by
  rw [set_depth_write_eq]
  split_ifs
  · rfl
  · exact (List.append_nil _).symm

theorem set_depth_write_cache (priv : GthreeRendererPrivate) (depth_write : gboolean) :
    set_depth_write priv depth_write
      = { priv with
          old_depth_write := depth_write
          gl_log := (set_depth_write priv depth_write).gl_log } := by
  rw [set_depth_write_eq]
  split_ifs with h
  · rfl
  · have h2 := not_not.mp h
    subst h2
    rfl

theorem set_line_width_eq (priv : GthreeRendererPrivate) (line_width : float) :
    set_line_width priv line_width
      = if float.ne priv.old_line_width line_width then
          { priv with
            old_line_width := line_width
            gl_log := priv.gl_log ++ [GLCommand.glLineWidth line_width] }
        else priv := by
  unfold set_line_width GthreeRendererPrivate.gl
  split_ifs <;> rfl

theorem set_line_width_log (priv : GthreeRendererPrivate) (line_width : float) :
    (set_line_width priv line_width).gl_log
      = priv.gl_log
        ++ (if float.ne priv.old_line_width line_width then [GLCommand.glLineWidth line_width]
            else []) := by
  rw [set_line_width_eq]
  split_ifs
  · rfl
  · exact (List.append_nil _).symm

theorem set_line_width_cache (priv : GthreeRendererPrivate) (line_width : float) :
    set_line_width priv line_width
      = { priv with
          old_line_width := line_width
          gl_log := (set_line_width priv line_width).gl_log } := by
  rw [set_line_width_eq]
  split_ifs with h
  · rfl
  · have h2 := float_eq_of_not_ne _ _ h
    subst h2
    rfl

theorem set_polygon_offset_log (priv : GthreeRendererPrivate) (polygon_offset : gboolean)
    (factor units : float) :
    (set_polygon_offset priv polygon_offset factor units).gl_log
      = priv.gl_log
        ++ ((if priv.old_polygon_offset ≠ polygon_offset
              then [enable_command GL_POLYGON_OFFSET_FILL polygon_offset] else [])
          ++ (if polygon_offset ≠ 0
                ∧ (float.ne priv.old_polygon_offset_factor factor
                  ∨ float.ne priv.old_polygon_offset_units units)
              then [GLCommand.glPolygonOffset factor units] else [])) := by
  unfold set_polygon_offset enable_command GthreeRendererPrivate.gl
  by_cases h1 : priv.old_polygon_offset ≠ polygon_offset
  · by_cases h2 : polygon_offset ≠ 0
        ∧ (float.ne priv.old_polygon_offset_factor factor ∨ float.ne priv.old_polygon_offset_units units)
    · simp only [if_pos h1, if_pos h2]
      split_ifs <;> exact List.append_assoc _ _ _
    · simp only [if_pos h1, if_neg h2]
      split_ifs <;> exact (congrArg _ (List.append_nil _)).symm
  · by_cases h2 : polygon_offset ≠ 0
        ∧ (float.ne priv.old_polygon_offset_factor factor ∨ float.ne priv.old_polygon_offset_units units)
    · simp only [if_neg h1, if_pos h2]
      rfl
    · simp only [if_neg h1, if_neg h2]
      exact (List.append_nil _).symm

theorem set_polygon_offset_cache (priv : GthreeRendererPrivate) (polygon_offset : gboolean)
    (factor units : float) :
    set_polygon_offset priv polygon_offset factor units
      = { priv with
          old_polygon_offset := polygon_offset
          old_polygon_offset_factor :=
            if polygon_offset ≠ 0 then factor else priv.old_polygon_offset_factor
          old_polygon_offset_units :=
            if polygon_offset ≠ 0 then units else priv.old_polygon_offset_units
          gl_log := (set_polygon_offset priv polygon_offset factor units).gl_log } := by
  unfold set_polygon_offset GthreeRendererPrivate.gl
  by_cases h0 : polygon_offset ≠ 0
  · by_cases h1 : priv.old_polygon_offset ≠ polygon_offset
    · by_cases h2 : float.ne priv.old_polygon_offset_factor factor
          ∨ float.ne priv.old_polygon_offset_units units
      · simp only [if_pos h1, if_pos h0, if_pos (And.intro h0 h2)]
      · have h5 : ¬ (polygon_offset ≠ 0
            ∧ (float.ne priv.old_polygon_offset_factor factor
              ∨ float.ne priv.old_polygon_offset_units units)) := fun h => h2 h.2
        simp only [if_pos h1, if_pos h0, if_neg h5]
        rw [not_or] at h2
        have h3 := float_eq_of_not_ne _ _ h2.1
        have h4 := float_eq_of_not_ne _ _ h2.2
        subst h3
        subst h4
        rfl
    · by_cases h2 : float.ne priv.old_polygon_offset_factor factor
          ∨ float.ne priv.old_polygon_offset_units units
      · simp only [if_neg h1, if_pos h0, if_pos (And.intro h0 h2)]
        have h3 := not_not.mp h1
        subst h3
        rfl
      · have h5 : ¬ (polygon_offset ≠ 0
            ∧ (float.ne priv.old_polygon_offset_factor factor
              ∨ float.ne priv.old_polygon_offset_units units)) := fun h => h2 h.2
        simp only [if_neg h1, if_pos h0, if_neg h5]
        rw [not_or] at h2
        have h3 := float_eq_of_not_ne _ _ h2.1
        have h4 := float_eq_of_not_ne _ _ h2.2
        have h6 := not_not.mp h1
        subst h3
        subst h4
        subst h6
        rfl
  · have h5 : ¬ (polygon_offset ≠ 0
        ∧ (float.ne priv.old_polygon_offset_factor factor ∨ float.ne priv.old_polygon_offset_units units)) :=
      fun h => h0 h.1
    by_cases h1 : priv.old_polygon_offset ≠ polygon_offset
    · simp only [if_pos h1, if_neg h0, if_neg h5]
    · simp only [if_neg h1, if_neg h0, if_neg h5]
      have h3 := not_not.mp h1
      subst h3
      rfl

theorem set_blending_switch_eq (priv : GthreeRendererPrivate) (blending : GthreeBlendMode) :
    set_blending_switch priv blending
      = { priv with gl_log := priv.gl_log ++ blend_mode_commands blending } := by
  unfold blend_mode_commands set_blending_switch GthreeRendererPrivate.gl
  split_ifs <;>
    simp only [List.append_assoc, List.nil_append, List.cons_append, List.singleton_append]

theorem blend_mode_commands_ne_nil (blending : GthreeBlendMode) :
    blend_mode_commands blending ≠ [] := by
  unfold blend_mode_commands set_blending_switch GthreeRendererPrivate.gl
  split_ifs <;> exact List.cons_ne_nil _ _

theorem set_blending_log (priv : GthreeRendererPrivate) (blending : GthreeBlendMode)
    (blend_equation blend_src blend_dst : guint) :
    (set_blending priv blending blend_equation blend_src blend_dst).gl_log
      = priv.gl_log
        ++ ((if blending ≠ priv.old_blending then blend_mode_commands blending else [])
          ++ (if blending = GTHREE_BLEND_CUSTOM ∧ blend_equation ≠ priv.old_blend_equation
              then [GLCommand.glBlendEquation blend_equation] else [])
          ++ (if blending = GTHREE_BLEND_CUSTOM
                ∧ (blend_src ≠ priv.old_blend_src ∨ blend_dst ≠ priv.old_blend_dst)
              then [GLCommand.glBlendFunc blend_src blend_dst] else [])) := by
  unfold set_blending
  simp only [set_blending_switch_eq, GthreeRendererPrivate.gl]
  by_cases hc : blending = GTHREE_BLEND_CUSTOM
  · by_cases h1 : blending ≠ priv.old_blending
    · by_cases h2 : blend_equation ≠ priv.old_blend_equation
      · by_cases h3 : blend_src ≠ priv.old_blend_src ∨ blend_dst ≠ priv.old_blend_dst
        · simp only [if_pos hc, if_pos h1, if_pos h2, if_pos h3, if_pos (And.intro hc h2),
            if_pos (And.intro hc h3), List.append_assoc]
        · simp only [if_pos hc, if_pos h1, if_pos h2, if_neg h3, if_pos (And.intro hc h2),
            if_neg (fun h => h3 (And.right h)), List.append_assoc, List.append_nil]
      · by_cases h3 : blend_src ≠ priv.old_blend_src ∨ blend_dst ≠ priv.old_blend_dst
        · simp only [if_pos hc, if_pos h1, if_neg h2, if_pos h3,
            if_neg (fun h => h2 (And.right h)), if_pos (And.intro hc h3), List.append_assoc,
            List.append_nil]
        · simp only [if_pos hc, if_pos h1, if_neg h2, if_neg h3,
            if_neg (fun h => h2 (And.right h)), if_neg (fun h => h3 (And.right h)),
            List.append_assoc, List.append_nil]
    · by_cases h2 : blend_equation ≠ priv.old_blend_equation
      · by_cases h3 : blend_src ≠ priv.old_blend_src ∨ blend_dst ≠ priv.old_blend_dst
        · simp only [if_pos hc, if_neg h1, if_pos h2, if_pos h3, if_pos (And.intro hc h2),
            if_pos (And.intro hc h3), List.append_assoc, List.nil_append]
        · simp only [if_pos hc, if_neg h1, if_pos h2, if_neg h3, if_pos (And.intro hc h2),
            if_neg (fun h => h3 (And.right h)), List.append_assoc, List.append_nil,
            List.nil_append]
      · by_cases h3 : blend_src ≠ priv.old_blend_src ∨ blend_dst ≠ priv.old_blend_dst
        · simp only [if_pos hc, if_neg h1, if_neg h2, if_pos h3,
            if_neg (fun h => h2 (And.right h)), if_pos (And.intro hc h3), List.append_assoc,
            List.append_nil, List.nil_append]
        · simp only [if_pos hc, if_neg h1, if_neg h2, if_neg h3,
            if_neg (fun h => h2 (And.right h)), if_neg (fun h => h3 (And.right h)),
            List.append_assoc, List.append_nil]
  · by_cases h1 : blending ≠ priv.old_blending
    · simp only [if_neg hc, if_pos h1, if_neg (fun h => hc (And.left h)), List.append_nil]
    · simp only [if_neg hc, if_neg h1, if_neg (fun h => hc (And.left h)), List.append_nil]

theorem set_blending_cache (priv : GthreeRendererPrivate) (blending : GthreeBlendMode)
    (blend_equation blend_src blend_dst : guint) :
    set_blending priv blending blend_equation blend_src blend_dst
      = { priv with
          old_blending := blending
          old_blend_equation :=
            if blending = GTHREE_BLEND_CUSTOM then blend_equation else GUINT_MINUS_ONE
          old_blend_src := if blending = GTHREE_BLEND_CUSTOM then blend_src else GUINT_MINUS_ONE
          old_blend_dst := if blending = GTHREE_BLEND_CUSTOM then blend_dst else GUINT_MINUS_ONE
          gl_log := (set_blending priv blending blend_equation blend_src blend_dst).gl_log } := by
  unfold set_blending
  simp only [set_blending_switch_eq, GthreeRendererPrivate.gl]
  by_cases hc : blending = GTHREE_BLEND_CUSTOM
  · simp only [if_pos hc]
    by_cases h1 : blending ≠ priv.old_blending
    · simp only [if_pos h1]
      by_cases h2 : blend_equation ≠ priv.old_blend_equation
      · simp only [if_pos h2]
        by_cases h3 : blend_src ≠ priv.old_blend_src ∨ blend_dst ≠ priv.old_blend_dst
        · simp only [if_pos h3]
        · simp only [if_neg h3]
          rw [not_or, not_not, not_not] at h3
          obtain ⟨h4, h5⟩ := h3
          subst h4
          subst h5
          rfl
      · simp only [if_neg h2]
        have h6 := not_not.mp h2
        subst h6
        by_cases h3 : blend_src ≠ priv.old_blend_src ∨ blend_dst ≠ priv.old_blend_dst
        · simp only [if_pos h3]
        · simp only [if_neg h3]
          rw [not_or, not_not, not_not] at h3
          obtain ⟨h4, h5⟩ := h3
          subst h4
          subst h5
          rfl
    · simp only [if_neg h1]
      have h7 := not_not.mp h1
      subst h7
      by_cases h2 : blend_equation ≠ priv.old_blend_equation
      · simp only [if_pos h2]
        by_cases h3 : blend_src ≠ priv.old_blend_src ∨ blend_dst ≠ priv.old_blend_dst
        · simp only [if_pos h3]
        · simp only [if_neg h3]
          rw [not_or, not_not, not_not] at h3
          obtain ⟨h4, h5⟩ := h3
          subst h4
          subst h5
          rfl
      · simp only [if_neg h2]
        have h6 := not_not.mp h2
        subst h6
        by_cases h3 : blend_src ≠ priv.old_blend_src ∨ blend_dst ≠ priv.old_blend_dst
        · simp only [if_pos h3]
        · simp only [if_neg h3]
          rw [not_or, not_not, not_not] at h3
          obtain ⟨h4, h5⟩ := h3
          subst h4
          subst h5
          rfl
  · simp only [if_neg hc]
    by_cases h1 : blending ≠ priv.old_blending
    · simp only [if_pos h1]
    · simp only [if_neg h1]
      have h7 := not_not.mp h1
      subst h7
      rfl

theorem set_material_faces_of_eq (priv : GthreeRendererPrivate) (material : GthreeMaterial)
    (h1 : priv.old_double_sided = c_bool (material.side = GthreeSide.GTHREE_SIDE_DOUBLE))
    (h2 : priv.old_flip_sided = c_bool (material.side = GthreeSide.GTHREE_SIDE_BACK)) :
    set_material_faces priv material = priv := by
  unfold set_material_faces gthree_material_get_side
  simp [h1, h2]

theorem set_depth_test_of_eq (priv : GthreeRendererPrivate) (depth_test : gboolean)
    (h : priv.old_depth_test = depth_test) : set_depth_test priv depth_test = priv := by
  unfold set_depth_test
  simp [h]

theorem set_depth_write_of_eq (priv : GthreeRendererPrivate) (depth_write : gboolean)
    (h : priv.old_depth_write = depth_write) : set_depth_write priv depth_write = priv := by
  unfold set_depth_write
  simp [h]

theorem set_line_width_of_eq (priv : GthreeRendererPrivate) (line_width : float)
    (h : priv.old_line_width = line_width) (hn : line_width ≠ float.nan) :
    set_line_width priv line_width = priv := by
  rw [set_line_width_eq, if_neg]
  rw [h]
  exact float_not_ne_self _ hn

theorem set_polygon_offset_of_eq (priv : GthreeRendererPrivate) (polygon_offset : gboolean)
    (factor units : float) (h : priv.old_polygon_offset = polygon_offset)
    (h2 : polygon_offset ≠ 0 →
      priv.old_polygon_offset_factor = factor ∧ priv.old_polygon_offset_units = units)
    (hn : polygon_offset ≠ 0 → factor ≠ float.nan ∧ units ≠ float.nan) :
    set_polygon_offset priv polygon_offset factor units = priv := by
  unfold set_polygon_offset
  dsimp only
  rw [if_neg (not_not.mpr h), if_neg]
  rintro ⟨hp, hor⟩
  obtain ⟨e1, e2⟩ := h2 hp
  obtain ⟨n1, n2⟩ := hn hp
  rw [e1, e2] at hor
  rcases hor with hor | hor
  · exact float_not_ne_self _ n1 hor
  · exact float_not_ne_self _ n2 hor

theorem set_blending_of_eq (priv : GthreeRendererPrivate) (blending : GthreeBlendMode)
    (blend_equation blend_src blend_dst : guint) (h : priv.old_blending = blending)
    (he : priv.old_blend_equation
      = if blending = GTHREE_BLEND_CUSTOM then blend_equation else GUINT_MINUS_ONE)
    (hs : priv.old_blend_src
      = if blending = GTHREE_BLEND_CUSTOM then blend_src else GUINT_MINUS_ONE)
    (hd : priv.old_blend_dst
      = if blending = GTHREE_BLEND_CUSTOM then blend_dst else GUINT_MINUS_ONE) :
    set_blending priv blending blend_equation blend_src blend_dst = priv := by
  cases priv
  unfold set_blending
  by_cases hc : blending = GTHREE_BLEND_CUSTOM <;> simp_all

/-! ## Device-state setters: the claims -/

/-- C7 (counterexample): on the freshly initialised renderer, a second call of
`set_line_width` with the same NaN width issues `glLineWidth` again, and a second call of
`set_polygon_offset` with polygon offset enabled and the same NaN factor issues
`glPolygonOffset` again: the C comparison `!=` is true whenever a side is NaN. -/
theorem setter_repeat_nan_issues_again :
    issued (set_line_width gthree_renderer_init float.nan)
        (set_line_width (set_line_width gthree_renderer_init float.nan) float.nan)
        = [GLCommand.glLineWidth float.nan]
      ∧ issued (set_polygon_offset gthree_renderer_init TRUE float.nan 1)
        (set_polygon_offset (set_polygon_offset gthree_renderer_init TRUE float.nan 1) TRUE
          float.nan 1)
        = [GLCommand.glPolygonOffset float.nan 1] := by
  decide

/-- C7 (amended): for each device-state setter and every renderer state, a second call with
the same arguments right after the first returns the state unchanged: it issues no GL
command (the command log is the same) and every cached `old_*` field keeps its value. For
`set_line_width` this holds for every width that is not NaN, for `set_polygon_offset` when
polygon offset is requested disabled or neither the factor nor the units is NaN. -/
theorem setter_repeat_is_noop (priv : GthreeRendererPrivate) (material : GthreeMaterial)
    (depth_test depth_write polygon_offset : gboolean) (line_width factor units : float)
    (blending : GthreeBlendMode) (blend_equation blend_src blend_dst : guint)
    (hw : line_width ≠ float.nan)
    (hfu : polygon_offset ≠ 0 → factor ≠ float.nan ∧ units ≠ float.nan) :
    set_depth_test (set_depth_test priv depth_test) depth_test
        = set_depth_test priv depth_test
      ∧ set_depth_write (set_depth_write priv depth_write) depth_write
        = set_depth_write priv depth_write
      ∧ set_line_width (set_line_width priv line_width) line_width
        = set_line_width priv line_width
      ∧ set_polygon_offset (set_polygon_offset priv polygon_offset factor units)
          polygon_offset factor units
        = set_polygon_offset priv polygon_offset factor units
      ∧ set_material_faces (set_material_faces priv material) material
        = set_material_faces priv material
      ∧ set_blending (set_blending priv blending blend_equation blend_src blend_dst)
          blending blend_equation blend_src blend_dst
        = set_blending priv blending blend_equation blend_src blend_dst := by
  refine ⟨?_, ?_, ?_, ?_, ?_, ?_⟩
  · apply set_depth_test_of_eq
    rw [set_depth_test_cache]
  · apply set_depth_write_of_eq
    rw [set_depth_write_cache]
  · apply set_line_width_of_eq _ _ _ hw
    rw [set_line_width_cache]
  · apply set_polygon_offset_of_eq _ _ _ _ _ _ hfu
    · rw [set_polygon_offset_cache]
    · intro hp
      rw [set_polygon_offset_cache]
      simp [hp]
  · apply set_material_faces_of_eq
    · rw [set_material_faces_cache]
    · rw [set_material_faces_cache]
  · apply set_blending_of_eq
    · rw [set_blending_cache]
    · rw [set_blending_cache]
    · rw [set_blending_cache]
    · rw [set_blending_cache]

/-- C7 (witness): the amended claim at the freshly initialised renderer with side BACK,
depth test and depth write TRUE, line width 2, polygon offset enabled with factor 3 and
units 4, and custom blending. -/
theorem setter_repeat_is_noop_witness :
    ((2 : float) ≠ float.nan ∧ (TRUE ≠ 0 → (3 : float) ≠ float.nan ∧ (4 : float) ≠ float.nan))
      ∧ set_line_width (set_line_width gthree_renderer_init 2) 2
        = set_line_width gthree_renderer_init 2
      ∧ set_polygon_offset (set_polygon_offset gthree_renderer_init TRUE 3 4) TRUE 3 4
        = set_polygon_offset gthree_renderer_init TRUE 3 4
      ∧ issued gthree_renderer_init (set_polygon_offset gthree_renderer_init TRUE 3 4)
        = [GLCommand.glEnable GL_POLYGON_OFFSET_FILL, GLCommand.glPolygonOffset 3 4] :=
  have h := setter_repeat_is_noop gthree_renderer_init { side := GthreeSide.GTHREE_SIDE_BACK }
    TRUE TRUE TRUE 2 3 4 GTHREE_BLEND_CUSTOM GL_FUNC_ADD GL_SRC_ALPHA GL_ONE (by decide)
    (fun _ => ⟨by decide, by decide⟩)
  ⟨⟨by decide, fun _ => ⟨by decide, by decide⟩⟩, h.2.2.1, h.2.2.2.1, by decide⟩

/-- C8 (counterexample): on the freshly initialised renderer the first submission of side
mode FRONT, of polygon offset disabled, and of line width 0 issues no GL command at all. -/
theorem first_submission_can_issue_nothing :
    issued gthree_renderer_init
        (set_material_faces gthree_renderer_init { side := GthreeSide.GTHREE_SIDE_FRONT }) = []
      ∧ issued gthree_renderer_init (set_polygon_offset gthree_renderer_init FALSE 0 0) = []
      ∧ issued gthree_renderer_init (set_line_width gthree_renderer_init 0) = [] := by
  decide

/-- C8 (amended): on the freshly initialised renderer the first submission to
`set_depth_test`, `set_depth_write` and `set_blending` issues a GL state change for every
requested value other than the initial sentinel `-1` (so for TRUE, FALSE and all six blend
modes); the first submission to `set_material_faces`, `set_polygon_offset` and
`set_line_width` issues a GL command exactly when the request differs from the
zero-initialised cache: side mode other than FRONT, polygon offset enabled, line width
other than 0. -/
theorem first_submission_issues (material : GthreeMaterial)
    (depth_test depth_write polygon_offset : gboolean) (line_width factor units : float)
    (blending : GthreeBlendMode) (blend_equation blend_src blend_dst : guint)
    (hdt : depth_test ≠ -1) (hdw : depth_write ≠ -1) (hb : blending ≠ -1) :
    issued gthree_renderer_init (set_depth_test gthree_renderer_init depth_test)
        = [enable_command GL_DEPTH_TEST depth_test]
      ∧ issued gthree_renderer_init (set_depth_write gthree_renderer_init depth_write)
        = [GLCommand.glDepthMask depth_write]
      ∧ issued gthree_renderer_init
          (set_blending gthree_renderer_init blending blend_equation blend_src blend_dst) ≠ []
      ∧ (issued gthree_renderer_init (set_material_faces gthree_renderer_init material) ≠ []
          ↔ material.side ≠ GthreeSide.GTHREE_SIDE_FRONT)
      ∧ (issued gthree_renderer_init
            (set_polygon_offset gthree_renderer_init polygon_offset factor units) ≠ []
          ↔ polygon_offset ≠ 0)
      ∧ (issued gthree_renderer_init (set_line_width gthree_renderer_init line_width) ≠ []
          ↔ line_width ≠ 0) := by
  refine ⟨?_, ?_, ?_, ?_, ?_, ?_⟩
  · rw [issued_of_log _ _ _ (set_depth_test_log _ _)]
    have h : gthree_renderer_init.old_depth_test ≠ depth_test := fun e => hdt e.symm
    rw [if_pos h]
  · rw [issued_of_log _ _ _ (set_depth_write_log _ _)]
    have h : gthree_renderer_init.old_depth_write ≠ depth_write := fun e => hdw e.symm
    rw [if_pos h]
  · rw [issued_of_log _ _ _ (set_blending_log _ _ _ _ _)]
    have h : blending ≠ gthree_renderer_init.old_blending := hb
    rw [if_pos h]
    have := blend_mode_commands_ne_nil blending
    simp [this]
  · rw [issued_of_log _ _ _ (set_material_faces_log _ _)]
    cases material.side <;> decide
  · rw [issued_of_log _ _ _ (set_polygon_offset_log _ _ _ _)]
    have h0 : gthree_renderer_init.old_polygon_offset = 0 := rfl
    rw [h0]
    by_cases hp : polygon_offset = 0
    · subst hp
      rw [if_neg (fun h => h rfl), if_neg (fun h => h.1 rfl)]
      exact ⟨fun h => absurd rfl h, fun h => absurd rfl h⟩
    · have hp2 : (0 : gboolean) ≠ polygon_offset := fun e => hp e.symm
      rw [if_pos hp2]
      exact ⟨fun _ => hp, fun _ => by simp⟩
  · rw [issued_of_log _ _ _ (set_line_width_log _ _)]
    have h0 : gthree_renderer_init.old_line_width = 0 := rfl
    rw [h0, ← float_ne_zero_iff]
    by_cases hw : float.ne 0 line_width
    · rw [if_pos hw]
      exact ⟨fun _ => hw, fun _ => List.cons_ne_nil _ _⟩
    · rw [if_neg hw]
      exact ⟨fun h => absurd rfl h, fun h => absurd h hw⟩

/-- C8 (witness): the amended claim at depth test TRUE, depth write FALSE, polygon offset
TRUE with factor 2 and units 3, line width 1, side BACK and blend mode custom. -/
theorem first_submission_issues_witness :
    (TRUE ≠ -1 ∧ FALSE ≠ -1 ∧ GTHREE_BLEND_CUSTOM ≠ -1)
      ∧ (issued gthree_renderer_init (set_depth_test gthree_renderer_init TRUE)
          = [enable_command GL_DEPTH_TEST TRUE]
        ∧ issued gthree_renderer_init (set_depth_write gthree_renderer_init FALSE)
          = [GLCommand.glDepthMask FALSE]
        ∧ issued gthree_renderer_init
            (set_blending gthree_renderer_init GTHREE_BLEND_CUSTOM GL_FUNC_ADD GL_SRC_ALPHA
              GL_ONE) ≠ []
        ∧ (issued gthree_renderer_init
              (set_material_faces gthree_renderer_init { side := GthreeSide.GTHREE_SIDE_BACK })
              ≠ []
            ↔ ({ side := GthreeSide.GTHREE_SIDE_BACK } : GthreeMaterial).side
              ≠ GthreeSide.GTHREE_SIDE_FRONT)
        ∧ (issued gthree_renderer_init (set_polygon_offset gthree_renderer_init TRUE 2 3) ≠ []
            ↔ TRUE ≠ 0)
        ∧ (issued gthree_renderer_init (set_line_width gthree_renderer_init 1) ≠ []
            ↔ (1 : float) ≠ 0)) :=
  ⟨by decide,
    first_submission_issues { side := GthreeSide.GTHREE_SIDE_BACK } TRUE FALSE TRUE 1 2 3
      GTHREE_BLEND_CUSTOM GL_FUNC_ADD GL_SRC_ALPHA GL_ONE (by decide) (by decide) (by decide)⟩

/-- C9 (counterexample): with polygon offset disabled in the request, a requested factor
and units that differ from the cached ones (1 against 0) cause no GL command and are not
stored: the cached factor and units stay 0. -/
theorem polygon_offset_values_skipped_when_disabled :
    gthree_renderer_init.old_polygon_offset_factor ≠ 1
      ∧ gthree_renderer_init.old_polygon_offset_units ≠ 1
      ∧ issued gthree_renderer_init (set_polygon_offset gthree_renderer_init FALSE 1 1) = []
      ∧ (set_polygon_offset gthree_renderer_init FALSE 1 1).old_polygon_offset_factor = 0
      ∧ (set_polygon_offset gthree_renderer_init FALSE 1 1).old_polygon_offset_units = 0 := by
  decide

/-- C9 (amended): for every renderer state, a setter call whose requested value differs
from the cached one (for the line width and the polygon offset factor and units: compares
unequal to it as a C float, which a NaN always does) issues the GL call of that attribute
and stores the requested value:
culling and winding (from the side mode), depth test, depth write, line width, polygon
offset enable, blend mode, and in custom mode the blend equation and the source and
destination factors. For the polygon offset factor and units this holds when the call
requests polygon offset enabled; when it requests polygon offset disabled, `glPolygonOffset`
is not issued and the cached factor and units keep their values. -/
theorem setter_applies_changed_value (priv : GthreeRendererPrivate) (material : GthreeMaterial)
    (depth_test depth_write polygon_offset : gboolean) (line_width factor units : float)
    (blending : GthreeBlendMode) (blend_equation blend_src blend_dst : guint) :
    (priv.old_double_sided ≠ c_bool (material.side = GthreeSide.GTHREE_SIDE_DOUBLE) →
        cull_command material.side ∈ issued priv (set_material_faces priv material)
          ∧ (set_material_faces priv material).old_double_sided
            = c_bool (material.side = GthreeSide.GTHREE_SIDE_DOUBLE))
      ∧ (priv.old_flip_sided ≠ c_bool (material.side = GthreeSide.GTHREE_SIDE_BACK) →
        winding_command material.side ∈ issued priv (set_material_faces priv material)
          ∧ (set_material_faces priv material).old_flip_sided
            = c_bool (material.side = GthreeSide.GTHREE_SIDE_BACK))
      ∧ (priv.old_depth_test ≠ depth_test →
        enable_command GL_DEPTH_TEST depth_test ∈ issued priv (set_depth_test priv depth_test)
          ∧ (set_depth_test priv depth_test).old_depth_test = depth_test)
      ∧ (priv.old_depth_write ≠ depth_write →
        GLCommand.glDepthMask depth_write ∈ issued priv (set_depth_write priv depth_write)
          ∧ (set_depth_write priv depth_write).old_depth_write = depth_write)
      ∧ (float.ne priv.old_line_width line_width →
        GLCommand.glLineWidth line_width ∈ issued priv (set_line_width priv line_width)
          ∧ (set_line_width priv line_width).old_line_width = line_width)
      ∧ (priv.old_polygon_offset ≠ polygon_offset →
        enable_command GL_POLYGON_OFFSET_FILL polygon_offset
            ∈ issued priv (set_polygon_offset priv polygon_offset factor units)
          ∧ (set_polygon_offset priv polygon_offset factor units).old_polygon_offset
            = polygon_offset)
      ∧ (polygon_offset ≠ 0 →
          float.ne priv.old_polygon_offset_factor factor ∨ float.ne priv.old_polygon_offset_units units →
        GLCommand.glPolygonOffset factor units
            ∈ issued priv (set_polygon_offset priv polygon_offset factor units)
          ∧ (set_polygon_offset priv polygon_offset factor units).old_polygon_offset_factor
            = factor
          ∧ (set_polygon_offset priv polygon_offset factor units).old_polygon_offset_units
            = units)
      ∧ (GLCommand.glPolygonOffset factor units
            ∉ issued priv (set_polygon_offset priv FALSE factor units)
          ∧ (set_polygon_offset priv FALSE factor units).old_polygon_offset_factor
            = priv.old_polygon_offset_factor
          ∧ (set_polygon_offset priv FALSE factor units).old_polygon_offset_units
            = priv.old_polygon_offset_units)
      ∧ (blending ≠ priv.old_blending →
        (∀ c ∈ blend_mode_commands blending,
            c ∈ issued priv (set_blending priv blending blend_equation blend_src blend_dst))
          ∧ blend_mode_commands blending ≠ []
          ∧ (set_blending priv blending blend_equation blend_src blend_dst).old_blending
            = blending)
      ∧ (blending = GTHREE_BLEND_CUSTOM → blend_equation ≠ priv.old_blend_equation →
        GLCommand.glBlendEquation blend_equation
            ∈ issued priv (set_blending priv blending blend_equation blend_src blend_dst)
          ∧ (set_blending priv blending blend_equation blend_src blend_dst).old_blend_equation
            = blend_equation)
      ∧ (blending = GTHREE_BLEND_CUSTOM →
          blend_src ≠ priv.old_blend_src ∨ blend_dst ≠ priv.old_blend_dst →
        GLCommand.glBlendFunc blend_src blend_dst
            ∈ issued priv (set_blending priv blending blend_equation blend_src blend_dst)
          ∧ (set_blending priv blending blend_equation blend_src blend_dst).old_blend_src
            = blend_src
          ∧ (set_blending priv blending blend_equation blend_src blend_dst).old_blend_dst
            = blend_dst) := by
  rw [issued_of_log _ _ _ (set_material_faces_log priv material),
    issued_of_log _ _ _ (set_depth_test_log priv depth_test),
    issued_of_log _ _ _ (set_depth_write_log priv depth_write),
    issued_of_log _ _ _ (set_line_width_log priv line_width),
    issued_of_log _ _ _ (set_polygon_offset_log priv polygon_offset factor units),
    issued_of_log _ _ _ (set_polygon_offset_log priv FALSE factor units),
    issued_of_log _ _ _ (set_blending_log priv blending blend_equation blend_src blend_dst)]
  refine ⟨?_, ?_, ?_, ?_, ?_, ?_, ?_, ?_, ?_, ?_, ?_⟩
  · intro h
    rw [set_material_faces_cache]
    simp [h]
  · intro h
    rw [set_material_faces_cache]
    simp [h]
  · intro h
    rw [set_depth_test_cache]
    simp [h]
  · intro h
    rw [set_depth_write_cache]
    simp [h]
  · intro h
    rw [set_line_width_cache]
    simp [h]
  · intro h
    rw [set_polygon_offset_cache]
    simp [h]
  · intro hp h
    rw [set_polygon_offset_cache]
    simp [hp, h]
  · rw [set_polygon_offset_cache]
    simp [FALSE, enable_command]
  · intro h
    rw [set_blending_cache]
    refine ⟨?_, blend_mode_commands_ne_nil blending, rfl⟩
    intro c hc
    simp [h, hc]
  · intro hc h
    rw [set_blending_cache]
    simp [hc, h]
  · intro hc h
    rw [set_blending_cache]
    simp [hc, h]

/-- C9 (witness): the amended claim at a state in which every cached value differs from
the request (side DOUBLE against cached winding flipped, and the initial cache otherwise). -/
theorem setter_applies_changed_value_witness :
    GLCommand.glDisable GL_CULL_FACE
        ∈ issued { gthree_renderer_init with old_flip_sided := 1 }
            (set_material_faces { gthree_renderer_init with old_flip_sided := 1 }
              { side := GthreeSide.GTHREE_SIDE_DOUBLE })
      ∧ GLCommand.glFrontFace GL_CCW
        ∈ issued { gthree_renderer_init with old_flip_sided := 1 }
            (set_material_faces { gthree_renderer_init with old_flip_sided := 1 }
              { side := GthreeSide.GTHREE_SIDE_DOUBLE })
      ∧ GLCommand.glPolygonOffset 3 4
        ∈ issued { gthree_renderer_init with old_flip_sided := 1 }
            (set_polygon_offset { gthree_renderer_init with old_flip_sided := 1 } TRUE 3 4)
      ∧ GLCommand.glBlendEquation GL_FUNC_ADD
        ∈ issued { gthree_renderer_init with old_flip_sided := 1 }
            (set_blending { gthree_renderer_init with old_flip_sided := 1 } GTHREE_BLEND_CUSTOM
              GL_FUNC_ADD GL_SRC_ALPHA GL_ONE)
      ∧ GLCommand.glBlendFunc GL_SRC_ALPHA GL_ONE
        ∈ issued { gthree_renderer_init with old_flip_sided := 1 }
            (set_blending { gthree_renderer_init with old_flip_sided := 1 } GTHREE_BLEND_CUSTOM
              GL_FUNC_ADD GL_SRC_ALPHA GL_ONE) :=
  have h := setter_applies_changed_value { gthree_renderer_init with old_flip_sided := 1 }
    { side := GthreeSide.GTHREE_SIDE_DOUBLE } TRUE TRUE TRUE 2 3 4 GTHREE_BLEND_CUSTOM
    GL_FUNC_ADD GL_SRC_ALPHA GL_ONE
  ⟨(h.1 (by decide)).1, (h.2.1 (by decide)).1,
    (h.2.2.2.2.2.2.1 (by decide) (by decide)).1,
    (h.2.2.2.2.2.2.2.2.2.1 rfl (by decide)).1,
    (h.2.2.2.2.2.2.2.2.2.2 rfl (by decide)).1⟩

/-- C10 (counterexample): when the custom equation and factors are the value `2 ^ 32 - 1`
(the `guint` that `-1` becomes, used as the reset sentinel), the third call of the sequence
custom, none, custom only issues `glEnable (GL_BLEND)`: neither `glBlendEquation` nor
`glBlendFunc` is issued again. -/
theorem custom_sentinel_values_not_reapplied :
    issued
        (set_blending
          (set_blending gthree_renderer_init GTHREE_BLEND_CUSTOM 4294967295 4294967295
            4294967295)
          GTHREE_BLEND_NO 0 0 0)
        (set_blending
          (set_blending
            (set_blending gthree_renderer_init GTHREE_BLEND_CUSTOM 4294967295 4294967295
              4294967295)
            GTHREE_BLEND_NO 0 0 0)
          GTHREE_BLEND_CUSTOM 4294967295 4294967295 4294967295)
      = [GLCommand.glEnable GL_BLEND] := by
  decide

/-- C10 (amended): for every renderer state, every blend equation `e` other than the
sentinel `2 ^ 32 - 1`, all factors `s`, `d` that are not both the sentinel, and every
blend mode `m` other than custom (with any explicit arguments), the third call of
`set_blending (CUSTOM, e, s, d); set_blending (m, ...); set_blending (CUSTOM, e, s, d)`
issues exactly `glEnable (GL_BLEND)`, `glBlendEquation (e)` and `glBlendFunc (s, d)`. -/
theorem custom_roundtrip_reapplies (priv : GthreeRendererPrivate) (e s d : guint)
    (m : GthreeBlendMode) (e2 s2 d2 : guint) (hm : m ≠ GTHREE_BLEND_CUSTOM)
    (he : e ≠ GUINT_MINUS_ONE) (hsd : s ≠ GUINT_MINUS_ONE ∨ d ≠ GUINT_MINUS_ONE) :
    issued (set_blending (set_blending priv GTHREE_BLEND_CUSTOM e s d) m e2 s2 d2)
        (set_blending (set_blending (set_blending priv GTHREE_BLEND_CUSTOM e s d) m e2 s2 d2)
          GTHREE_BLEND_CUSTOM e s d)
      = [GLCommand.glEnable GL_BLEND, GLCommand.glBlendEquation e, GLCommand.glBlendFunc s d] := by
  rw [issued_of_log _ _ _ (set_blending_log _ _ _ _ _)]
  have hb : (set_blending (set_blending priv GTHREE_BLEND_CUSTOM e s d) m e2 s2 d2).old_blending
      = m := by rw [set_blending_cache]
  have h1 : (set_blending (set_blending priv GTHREE_BLEND_CUSTOM e s d) m e2 s2
      d2).old_blend_equation = GUINT_MINUS_ONE := by
    rw [set_blending_cache]; simp [hm]
  have h2 : (set_blending (set_blending priv GTHREE_BLEND_CUSTOM e s d) m e2 s2
      d2).old_blend_src = GUINT_MINUS_ONE := by
    rw [set_blending_cache]; simp [hm]
  have h3 : (set_blending (set_blending priv GTHREE_BLEND_CUSTOM e s d) m e2 s2
      d2).old_blend_dst = GUINT_MINUS_ONE := by
    rw [set_blending_cache]; simp [hm]
  rw [hb, h1, h2, h3]
  have hm2 : GTHREE_BLEND_CUSTOM ≠ m := fun h => hm h.symm
  have hc : blend_mode_commands GTHREE_BLEND_CUSTOM = [GLCommand.glEnable GL_BLEND] := by
    decide
  simp [hm2, he, hsd, hc]

/-- C10 (witness): the amended claim from the initial state with `GL_FUNC_ADD`,
`GL_SRC_ALPHA`, `GL_ONE` and the intermediate mode normal. -/
theorem custom_roundtrip_reapplies_witness :
    (GTHREE_BLEND_NORMAL ≠ GTHREE_BLEND_CUSTOM ∧ GL_FUNC_ADD ≠ GUINT_MINUS_ONE
        ∧ (GL_SRC_ALPHA ≠ GUINT_MINUS_ONE ∨ GL_ONE ≠ GUINT_MINUS_ONE))
      ∧ issued
          (set_blending
            (set_blending gthree_renderer_init GTHREE_BLEND_CUSTOM GL_FUNC_ADD GL_SRC_ALPHA
              GL_ONE)
            GTHREE_BLEND_NORMAL 0 0 0)
          (set_blending
            (set_blending
              (set_blending gthree_renderer_init GTHREE_BLEND_CUSTOM GL_FUNC_ADD GL_SRC_ALPHA
                GL_ONE)
              GTHREE_BLEND_NORMAL 0 0 0)
            GTHREE_BLEND_CUSTOM GL_FUNC_ADD GL_SRC_ALPHA GL_ONE)
        = [GLCommand.glEnable GL_BLEND, GLCommand.glBlendEquation GL_FUNC_ADD,
            GLCommand.glBlendFunc GL_SRC_ALPHA GL_ONE] :=
  ⟨by decide,
    custom_roundtrip_reapplies gthree_renderer_init GL_FUNC_ADD GL_SRC_ALPHA GL_ONE
      GTHREE_BLEND_NORMAL 0 0 0 (by decide) (by decide) (by decide)⟩

/-! ## Draw range of `render_item` -/

theorem draw_range_mem_iff (data_count : Int) (wireframe : gboolean) (geometry : GthreeGeometry)
    (group : Option GthreeGeometryGroup) (hrs : 0 ≤ geometry.draw_range_start)
    (hgs : group_start_nonneg group) (k : Int) :
    ((render_item_draw_range data_count (render_item_range_factor wireframe) geometry group).1 ≤ k
        ∧ k < (render_item_draw_range data_count (render_item_range_factor wireframe) geometry
              group).1
            + (render_item_draw_range data_count (render_item_range_factor wireframe) geometry
              group).2)
      ↔ in_draw_intersection data_count (render_item_range_factor wireframe) geometry group k := by
  unfold render_item_draw_range in_draw_intersection in_user_range in_group_range
    render_item_range_factor
  cases group with
  | none =>
    simp only [true_and]
    split_ifs <;> omega
  | some g =>
    have hg : 0 ≤ g.start := hgs
    dsimp only
    split_ifs <;> omega

theorem draw_range_formula (data_count : Int) (wireframe : gboolean) (geometry : GthreeGeometry)
    (group : Option GthreeGeometryGroup) :
    (render_item_draw_range data_count (render_item_range_factor wireframe) geometry group).1
        = max (geometry.draw_range_start * render_item_range_factor wireframe)
            (group_start_of group * render_item_range_factor wireframe)
      ∧ (render_item_draw_range data_count (render_item_range_factor wireframe) geometry group).2
        = max 0
            (min data_count
                (min
                  (geometry.draw_range_start * render_item_range_factor wireframe
                    + effective_count
                        (geometry.draw_range_count * render_item_range_factor wireframe)
                        data_count)
                  (group_start_of group * render_item_range_factor wireframe
                    + effective_count (group_count_of group * render_item_range_factor wireframe)
                        data_count))
              - (render_item_draw_range data_count (render_item_range_factor wireframe) geometry
                  group).1) := by
  unfold render_item_draw_range effective_count group_start_of group_count_of
    render_item_range_factor
  cases group with
  | none =>
    dsimp only
    split_ifs <;> omega
  | some g =>
    dsimp only
    split_ifs <;> omega

theorem draw_range_count_nonneg (data_count range_factor : Int) (geometry : GthreeGeometry)
    (group : Option GthreeGeometryGroup) :
    0 ≤ (render_item_draw_range data_count range_factor geometry group).2 := by
  unfold render_item_draw_range
  exact le_max_left _ _

theorem render_item_draw_of_count_zero (priv : GthreeRendererPrivate) (object : GthreeObject)
    (material : GthreeMaterial) (geometry : GthreeGeometry)
    (group : Option GthreeGeometryGroup) (wireframe : gboolean)
    (index position : Option GthreeAttribute)
    (h : (render_item_draw_range (render_item_data_count index position)
      (render_item_range_factor wireframe) geometry group).2 = 0) :
    render_item_draw priv object material geometry group wireframe index position = priv := by
  unfold render_item_draw
  dsimp only
  rw [if_pos h]

theorem draw_range_count_zero_of_empty (data_count : Int) (wireframe : gboolean)
    (geometry : GthreeGeometry) (group : Option GthreeGeometryGroup)
    (hrs : 0 ≤ geometry.draw_range_start) (hgs : group_start_nonneg group)
    (hempty : ∀ k : Int,
      ¬ in_draw_intersection data_count (render_item_range_factor wireframe) geometry group k) :
    (render_item_draw_range data_count (render_item_range_factor wireframe) geometry group).2
      = 0 := by
  by_contra hne
  have h0 := draw_range_count_nonneg data_count (render_item_range_factor wireframe) geometry
    group
  have hk := (draw_range_mem_iff data_count wireframe geometry group hrs hgs
    (render_item_draw_range data_count (render_item_range_factor wireframe) geometry group).1).1
    ⟨le_refl _, by omega⟩
  exact hempty _ hk

/-- C11 (counterexample): with 10 elements, user range start -5 with unlimited count and no
group, `render_item` draws 5 elements from 0, although element 7 lies in the user range
`[-5, ∞)`, in the unrestricted group range and in `[0, 10)`. -/
theorem draw_range_negative_start_not_intersection :
    render_item_draw_range 10 (render_item_range_factor FALSE)
        { draw_range_start := -5, draw_range_count := -1 } none = (0, 5)
      ∧ in_draw_intersection 10 (render_item_range_factor FALSE)
          { draw_range_start := -5, draw_range_count := -1 } none 7
      ∧ ¬ ((0 : Int) ≤ 7 ∧ (7 : Int) < 0 + 5) := by
  decide

/-- C11 (amended): for every draw item whose user draw range start and group start are not
negative, with element count `data_count`, range factor `f` (1, or 2 for wireframe), user
draw range (start `rs`, count `rc`) and optional group (start `gs`, count `gc`), a negative
count meaning unlimited: `draw_start = max (rs*f, gs*f)`,
`draw_count = max (0, min (data_count, rs*f + rc', gs*f + gc') - draw_start)` where a
negative scaled count is replaced by `data_count`, and the drawn elements
`[draw_start, draw_start + draw_count)` are exactly the elements in the intersection of the
user range, the group range and `[0, data_count)`. -/
theorem draw_range_is_intersection (data_count : Int) (wireframe : gboolean)
    (geometry : GthreeGeometry) (group : Option GthreeGeometryGroup)
    (hrs : 0 ≤ geometry.draw_range_start) (hgs : group_start_nonneg group) :
    (render_item_draw_range data_count (render_item_range_factor wireframe) geometry group).1
        = max (geometry.draw_range_start * render_item_range_factor wireframe)
            (group_start_of group * render_item_range_factor wireframe)
      ∧ (render_item_draw_range data_count (render_item_range_factor wireframe) geometry group).2
        = max 0
            (min data_count
                (min
                  (geometry.draw_range_start * render_item_range_factor wireframe
                    + effective_count
                        (geometry.draw_range_count * render_item_range_factor wireframe)
                        data_count)
                  (group_start_of group * render_item_range_factor wireframe
                    + effective_count (group_count_of group * render_item_range_factor wireframe)
                        data_count))
              - (render_item_draw_range data_count (render_item_range_factor wireframe) geometry
                  group).1)
      ∧ ∀ k : Int,
          ((render_item_draw_range data_count (render_item_range_factor wireframe) geometry
                group).1 ≤ k
            ∧ k < (render_item_draw_range data_count (render_item_range_factor wireframe)
                  geometry group).1
                + (render_item_draw_range data_count (render_item_range_factor wireframe)
                  geometry group).2)
          ↔ in_draw_intersection data_count (render_item_range_factor wireframe) geometry
              group k :=
  ⟨(draw_range_formula data_count wireframe geometry group).1,
    (draw_range_formula data_count wireframe geometry group).2,
    fun k => draw_range_mem_iff data_count wireframe geometry group hrs hgs k⟩

/-- C11 (witness): the two examples of the specification: 300 elements, unlimited user
range and group start 60 count 60 give start 60 count 60; 300 elements, user range start 50
count 50 and no group give start 50 count 50. -/
theorem draw_range_is_intersection_witness :
    ((0 : Int) ≤ ({} : GthreeGeometry).draw_range_start
        ∧ group_start_nonneg (some { start := 60, count := 60 }))
      ∧ render_item_draw_range 300 (render_item_range_factor FALSE) {}
          (some { start := 60, count := 60 }) = (60, 60)
      ∧ render_item_draw_range 300 (render_item_range_factor FALSE)
          { draw_range_start := 50, draw_range_count := 50 } none = (50, 50)
      ∧ ∀ k : Int,
          ((render_item_draw_range 300 (render_item_range_factor FALSE) {}
                (some { start := 60, count := 60 })).1 ≤ k
            ∧ k < (render_item_draw_range 300 (render_item_range_factor FALSE) {}
                  (some { start := 60, count := 60 })).1
                + (render_item_draw_range 300 (render_item_range_factor FALSE) {}
                  (some { start := 60, count := 60 })).2)
          ↔ in_draw_intersection 300 (render_item_range_factor FALSE) {}
              (some { start := 60, count := 60 }) k :=
  ⟨⟨by decide, by decide⟩, by decide, by decide,
    (draw_range_is_intersection 300 FALSE {} (some { start := 60, count := 60 }) (by decide)
      (by decide)).2.2⟩

/-- C12 (counterexample): with 10 position elements, user range start -3 count 5 and group
start -4 count 3, no element lies in the user range, the group range and `[0, 10)` at once,
yet `render_item` issues `glDrawArrays (GL_TRIANGLES, -3, 2)`. -/
theorem empty_intersection_negative_start_still_draws :
    (render_item_draw {} {} {} { draw_range_start := -3, draw_range_count := 5 }
        (some { start := -4, count := 3 }) FALSE none (some { count := 10 })).gl_log
        = [GLCommand.glDrawArrays GL_TRIANGLES (-3) 2]
      ∧ ∀ k : Int, ¬ in_draw_intersection 10 (render_item_range_factor FALSE)
          { draw_range_start := -3, draw_range_count := 5 } (some { start := -4, count := 3 })
          k := by
  refine ⟨by decide, ?_⟩
  intro k
  unfold in_draw_intersection in_user_range in_group_range render_item_range_factor
  simp only [FALSE]
  omega

/-- C12 (amended): for every draw item whose user draw range start and group start are not
negative and whose user draw range, group range and element data `[0, data_count)` have no
element in common, the draw part of `render_item` returns the renderer state unchanged: it
issues no GL command (neither `glDrawElements` nor `glDrawArrays`) and reports nothing. Among
the items with non-negative starts this includes every geometry with neither index nor
position attribute (second part). -/
theorem empty_draw_range_draws_nothing (priv : GthreeRendererPrivate) (object : GthreeObject)
    (material : GthreeMaterial) (geometry : GthreeGeometry)
    (group : Option GthreeGeometryGroup) (wireframe : gboolean)
    (index position : Option GthreeAttribute)
    (hrs : 0 ≤ geometry.draw_range_start) (hgs : group_start_nonneg group) :
    ((∀ k : Int, ¬ in_draw_intersection (render_item_data_count index position)
          (render_item_range_factor wireframe) geometry group k) →
        render_item_draw priv object material geometry group wireframe index position = priv)
      ∧ render_item_draw priv object material geometry group wireframe none none = priv := by
  constructor
  · intro hempty
    exact render_item_draw_of_count_zero priv object material geometry group wireframe index
      position (draw_range_count_zero_of_empty _ wireframe geometry group hrs hgs hempty)
  · apply render_item_draw_of_count_zero
    apply draw_range_count_zero_of_empty _ wireframe geometry group hrs hgs
    intro k hk
    have h1 : 0 ≤ k := hk.2.2.1
    have h2 : k < -1 := hk.2.2.2
    omega

/-- C12 (witness): 300 position elements, user range start 100 count 50 and group start 200
count 50 have no element in common; nothing is drawn. -/
theorem empty_draw_range_draws_nothing_witness :
    ((0 : Int) ≤ ({ draw_range_start := 100, draw_range_count := 50 } : GthreeGeometry).draw_range_start
        ∧ group_start_nonneg (some { start := 200, count := 50 }))
      ∧ render_item_draw {} {} {} { draw_range_start := 100, draw_range_count := 50 }
          (some { start := 200, count := 50 }) FALSE none (some { count := 300 }) = {} :=
  ⟨⟨by decide, by decide⟩,
    (empty_draw_range_draws_nothing {} {} {} { draw_range_start := 100, draw_range_count := 50 }
      (some { start := 200, count := 50 }) FALSE none (some { count := 300 }) (by decide)
      (by decide)).1
      (by
        intro k
        unfold in_draw_intersection in_user_range in_group_range render_item_range_factor
        simp only [FALSE]
        omega)⟩

/-! ## Morph targets -/

theorem foldl_set_range {α : Type} (f : Nat → α) :
    ∀ (k : Nat) (l : List α), k ≤ l.length →
      (List.range k).foldl (fun infl i => infl.set i (f i)) l
        = (List.range k).map f ++ l.drop k := by
  intro k
  induction k with
  | zero => intro l _; simp
  | succ k ih =>
    intro l hk
    have hk2 : k < l.length := hk
    rw [List.range_succ, List.foldl_append, ih l (Nat.le_of_lt hk2)]
    simp only [List.foldl_cons, List.foldl_nil, List.map_append, List.map_cons, List.map_nil]
    have hlen : ((List.range k).map f).length = k := by simp
    rw [List.set_append_right _ _ (by rw [hlen]), hlen, Nat.sub_self,
      List.drop_eq_getElem_cons hk2, List.set_cons_zero, List.append_assoc]
    rfl

theorem update_morphtargets_collect_eq (w : List gfloat) (influences : List InfluenceInfo)
    (h : influences.length = w.length) :
    update_morphtargets_collect w influences = collected_influences w := by
  unfold update_morphtargets_collect collected_influences
  rw [foldl_set_range _ _ _ (le_of_eq h.symm), ← h, List.drop_length, List.append_nil]

theorem update_morphtargets_slot_value (mt mn : Option (List Nat))
    (infl : List InfluenceInfo) (len : Nat) (g : GthreeGeometry) (i : Nat) :
    (update_morphtargets_slot mt mn infl len g i).2 = slot_value infl len i := by
  unfold update_morphtargets_slot slot_value
  by_cases h1 : i < len
  · by_cases h2 : (influence_at infl i).value ≠ 0
    · simp only [if_pos h1, if_pos h2, if_pos (And.intro h1 h2)]
    · simp only [if_pos h1, if_neg h2, if_neg (fun h : i < len ∧ _ => h2 h.2)]
  · simp only [if_neg h1, if_neg (fun h : i < len ∧ _ => h1 h.1)]

theorem mem_add_attribute (g : GthreeGeometry) (name : AttributeName) (attr : Option Nat)
    (e : AttributeName × Option Nat)
    (h : e ∈ (gthree_geometry_add_attribute g name attr).attributes) :
    e ∈ g.attributes ∨ e = (name, attr) := by
  unfold gthree_geometry_add_attribute at h
  simp only [List.mem_append, List.mem_filter, List.mem_singleton] at h
  rcases h with h | h
  · exact Or.inl h.1
  · exact Or.inr h

theorem mem_remove_attribute (g : GthreeGeometry) (name : AttributeName)
    (e : AttributeName × Option Nat)
    (h : e ∈ (gthree_geometry_remove_attribute g name).attributes) :
    e ∈ g.attributes := by
  unfold gthree_geometry_remove_attribute at h
  simp only [List.mem_filter] at h
  exact h.1

theorem update_morphtargets_slot_attributes (mt mn : Option (List Nat))
    (infl : List InfluenceInfo) (len : Nat) (g : GthreeGeometry) (i : Nat)
    (e : AttributeName × Option Nat)
    (h : e ∈ (update_morphtargets_slot mt mn infl len g i).1.attributes) :
    e ∈ g.attributes ∨ bound_in_slot mt infl len i e := by
  unfold update_morphtargets_slot at h
  by_cases h1 : i < len
  · by_cases h2 : (influence_at infl i).value ≠ 0
    · simp only [if_pos h1, if_pos h2] at h
      by_cases h3 : mn.isSome = true
      · simp only [if_pos h3] at h
        rcases mem_add_attribute _ _ _ _ h with h4 | h4
        · by_cases h5 : mt.isSome = true
          · simp only [if_pos h5] at h4
            rcases mem_add_attribute _ _ _ _ h4 with h6 | h6
            · exact Or.inl h6
            · exact Or.inr ⟨h1, h2, Or.inl (by rw [h6]), by rw [h6]⟩
          · simp only [if_neg h5] at h4
            exact Or.inl h4
        · exact Or.inr ⟨h1, h2, Or.inr (by rw [h4]), by rw [h4]⟩
      · simp only [if_neg h3] at h
        by_cases h5 : mt.isSome = true
        · simp only [if_pos h5] at h
          rcases mem_add_attribute _ _ _ _ h with h6 | h6
          · exact Or.inl h6
          · exact Or.inr ⟨h1, h2, Or.inl (by rw [h6]), by rw [h6]⟩
        · simp only [if_neg h5] at h
          exact Or.inl h
    · simp only [if_pos h1, if_neg h2] at h
      exact Or.inl h
  · simp only [if_neg h1] at h
    exact Or.inl h

theorem add_fold_values (mt mn : Option (List Nat)) (infl : List InfluenceInfo) (len : Nat) :
    ∀ (slots : List Nat) (g : GthreeGeometry) (acc : List gfloat),
      (slots.foldl
        (fun (acc : GthreeGeometry × List gfloat) i =>
          let r := update_morphtargets_slot mt mn infl len acc.1 i
          (r.1, acc.2 ++ [r.2]))
        (g, acc)).2 = acc ++ slots.map (slot_value infl len) := by
  intro slots
  induction slots with
  | nil => intro g acc; simp
  | cons i rest ih =>
    intro g acc
    rw [List.foldl_cons]
    dsimp only
    rw [ih, update_morphtargets_slot_value, List.map_cons, List.append_assoc]
    rfl

theorem add_fold_attributes (mt mn : Option (List Nat)) (infl : List InfluenceInfo) (len : Nat) :
    ∀ (slots : List Nat) (g : GthreeGeometry) (acc : List gfloat)
      (e : AttributeName × Option Nat),
      e ∈ (slots.foldl
        (fun (acc : GthreeGeometry × List gfloat) i =>
          let r := update_morphtargets_slot mt mn infl len acc.1 i
          (r.1, acc.2 ++ [r.2]))
        (g, acc)).1.attributes →
      e ∈ g.attributes ∨ ∃ i ∈ slots, bound_in_slot mt infl len i e := by
  intro slots
  induction slots with
  | nil => intro g acc e h; exact Or.inl h
  | cons i rest ih =>
    intro g acc e h
    rw [List.foldl_cons] at h
    dsimp only at h
    rcases ih _ _ e h with h1 | ⟨j, hj, hb⟩
    · rcases update_morphtargets_slot_attributes _ _ _ _ _ _ _ h1 with h2 | h2
      · exact Or.inl h2
      · exact Or.inr ⟨i, List.mem_cons_self _ _, h2⟩
    · exact Or.inr ⟨j, List.mem_cons_of_mem _ hj, hb⟩

theorem remove_fold_attributes (mt mn : Option (List Nat)) (infl : List InfluenceInfo) :
    ∀ (slots : List Nat) (g : GthreeGeometry) (e : AttributeName × Option Nat),
      e ∈ (slots.foldl
        (fun g i =>
          if (influence_at infl i).value ≠ 0 then
            let g1 :=
              if mt.isSome then
                gthree_geometry_remove_attribute g (AttributeName.morphTarget i)
              else g
            if mn.isSome then
              gthree_geometry_remove_attribute g1 (AttributeName.morphNormal i)
            else g1
          else g)
        g).attributes → e ∈ g.attributes := by
  intro slots
  induction slots with
  | nil => intro g e h; exact h
  | cons i rest ih =>
    intro g e h
    rw [List.foldl_cons] at h
    have h1 := ih _ e h
    dsimp only at h1
    split_ifs at h1
    · exact mem_remove_attribute _ _ _ (mem_remove_attribute _ _ _ h1)
    · exact mem_remove_attribute _ _ _ h1
    · exact mem_remove_attribute _ _ _ h1
    · exact h1
    · exact h1

theorem update_morphtargets_add_values (mt mn : Option (List Nat))
    (infl : List InfluenceInfo) (len : Nat) (g : GthreeGeometry) :
    (update_morphtargets_add mt mn infl len g).2 = (List.range 8).map (slot_value infl len) := by
  unfold update_morphtargets_add
  rw [add_fold_values, List.nil_append]

theorem update_morphtargets_add_attributes (mt mn : Option (List Nat))
    (infl : List InfluenceInfo) (len : Nat) (g : GthreeGeometry)
    (e : AttributeName × Option Nat)
    (h : e ∈ (update_morphtargets_add mt mn infl len g).1.attributes) :
    e ∈ g.attributes ∨ ∃ i, i < 8 ∧ bound_in_slot mt infl len i e := by
  unfold update_morphtargets_add at h
  rcases add_fold_attributes _ _ _ _ _ _ _ _ h with h1 | ⟨i, hi, hb⟩
  · exact Or.inl h1
  · exact Or.inr ⟨i, List.mem_range.mp hi, hb⟩

theorem update_morphtargets_remove_attributes (mt mn : Option (List Nat))
    (infl : List InfluenceInfo) (len : Nat) (g : GthreeGeometry)
    (e : AttributeName × Option Nat)
    (h : e ∈ (update_morphtargets_remove mt mn infl len g).attributes) :
    e ∈ g.attributes := by
  unfold update_morphtargets_remove at h
  exact remove_fold_attributes _ _ _ _ _ _ h

theorem update_morphtargets_spec (priv : GthreeRendererPrivate) (w : List gfloat)
    (geometry : GthreeGeometry) (material : GthreeMeshMaterial) (program : Option GthreeProgram)
    (hfit : influences_fit geometry w.length) :
    (update_morphtargets priv w geometry material program).2.influences
        = some (ranked_influences w)
      ∧ (update_morphtargets priv w geometry material program).1.morph_influences
        = (List.range 8).map (slot_value (ranked_influences w) w.length)
      ∧ issued priv (update_morphtargets priv w geometry material program).1
        = (if 0 ≤ gthree_program_lookup_uniform_location program
              UniformName.morphTargetInfluences0 then
            [GLCommand.glUniform1fv
              (gthree_program_lookup_uniform_location program UniformName.morphTargetInfluences0)
              8 ((List.range 8).map (slot_value (ranked_influences w) w.length))]
          else [])
      ∧ ∀ e ∈ (update_morphtargets priv w geometry material program).2.attributes,
          e ∈ geometry.attributes
            ∨ ∃ i, i < 8 ∧ bound_in_slot
                (if material.morph_targets ≠ 0 then geometry.morph_attributes_position else none)
                (ranked_influences w) w.length i e := by
  have hcollect : update_morphtargets_collect w
      (match geometry.influences with
       | none => (List.range w.length).map
          (fun i => ({ index := i, value := 0 } : InfluenceInfo))
       | some l => l) = collected_influences w := by
    apply update_morphtargets_collect_eq
    unfold influences_fit at hfit
    cases hi : geometry.influences with
    | none => simp
    | some l => rw [hi] at hfit; exact hfit
  unfold update_morphtargets
  simp only [hcollect]
  have hattr : ∀ e ∈ (update_morphtargets_add
        (if material.morph_targets ≠ 0 then geometry.morph_attributes_position else none)
        (if material.morph_normals ≠ 0 then geometry.morph_attributes_normal else none)
        (g_array_sort (collected_influences w) influence_info_cmp) w.length
        (update_morphtargets_remove
          (if material.morph_targets ≠ 0 then geometry.morph_attributes_position else none)
          (if material.morph_normals ≠ 0 then geometry.morph_attributes_normal else none)
          (match geometry.influences with
           | none => (List.range w.length).map
              (fun i => ({ index := i, value := 0 } : InfluenceInfo))
           | some l => l) w.length geometry)).1.attributes,
      e ∈ geometry.attributes
        ∨ ∃ i, i < 8 ∧ bound_in_slot
            (if material.morph_targets ≠ 0 then geometry.morph_attributes_position else none)
            (ranked_influences w) w.length i e := by
    intro e he
    rcases update_morphtargets_add_attributes _ _ _ _ _ _ he with h1 | h1
    · exact Or.inl (update_morphtargets_remove_attributes _ _ _ _ _ _ h1)
    · exact Or.inr h1
  by_cases hloc : gthree_program_lookup_uniform_location program
      UniformName.morphTargetInfluences0 ≥ 0
  · simp only [if_pos hloc, if_pos (show 0 ≤ gthree_program_lookup_uniform_location program
      UniformName.morphTargetInfluences0 from hloc)]
    refine ⟨rfl, update_morphtargets_add_values _ _ _ _ _, ?_, hattr⟩
    apply issued_of_log
    show _ ++ [_] = _ ++ [_]
    rw [← update_morphtargets_add_values]
    rfl
  · simp only [if_neg hloc, if_neg (show ¬ 0 ≤ gthree_program_lookup_uniform_location program
      UniformName.morphTargetInfluences0 from hloc)]
    refine ⟨rfl, update_morphtargets_add_values _ _ _ _ _, ?_, hattr⟩
    apply issued_of_log
    show priv.gl_log = priv.gl_log ++ []
    rw [List.append_nil]

theorem ranked_influences_perm (w : List gfloat) :
    (ranked_influences w).Perm (collected_influences w) :=
  msort_with_tmp_perm influence_info_cmp _ _

theorem ranked_influences_entry (w : List gfloat) (i : Nat) (hi : i < w.length) :
    (influence_at (ranked_influences w) i).index < w.length
      ∧ (influence_at (ranked_influences w) i).value
        = w.getD (influence_at (ranked_influences w) i).index 0 := by
  have hlen : (ranked_influences w).length = w.length := by
    rw [(ranked_influences_perm w).length_eq]
    unfold collected_influences
    rw [List.length_map, List.length_range]
  have hi2 : i < (ranked_influences w).length := by rw [hlen]; exact hi
  have hmem : influence_at (ranked_influences w) i ∈ ranked_influences w := by
    unfold influence_at
    rw [List.getD_eq_getElem _ _ hi2]
    exact List.getElem_mem _
  have hmem2 := (ranked_influences_perm w).mem_iff.mp hmem
  unfold collected_influences at hmem2
  rw [List.mem_map] at hmem2
  obtain ⟨j, hj, hje⟩ := hmem2
  rw [← hje]
  exact ⟨List.mem_range.mp hj, rfl⟩

/-- C13 (evaluation of the code): for the influences `[0.1, 0.9, 0.0, 0.4]` (in tenths:
`[1, 9, 0, 4]`) and a mesh material with morph targets, `update_morphtargets` leaves slot 0
unbound with influence 0 (the zero weight of target 2 is ranked first), binds `morphTarget1`
to target 0 (attribute 100), `morphTarget2` to target 3 (attribute 103) and `morphTarget3` to
target 1 (attribute 101), and uploads `[0, 0.1, 0.4, 0.9, 0, 0, 0, 0]`: the weights are
ranked by ascending magnitude. The binding of targets 1, 3, 0 to slots 0, 1, 2 is not what
the code produces. -/
theorem morph_targets_ranked_ascending :
    (update_morphtargets {} [1, 9, 0, 4]
        { morph_attributes_position := some [100, 101, 102, 103] } { morph_targets := TRUE }
        (some { addr := 7, uniform_locations := [(UniformName.morphTargetInfluences0, 5)] })
      ).2.attributes
        = [(AttributeName.morphTarget 1, some 100), (AttributeName.morphTarget 2, some 103),
            (AttributeName.morphTarget 3, some 101)]
      ∧ (update_morphtargets {} [1, 9, 0, 4]
        { morph_attributes_position := some [100, 101, 102, 103] } { morph_targets := TRUE }
        (some { addr := 7, uniform_locations := [(UniformName.morphTargetInfluences0, 5)] })
      ).2.influences
        = some [{ index := 2, value := 0 }, { index := 0, value := 1 },
            { index := 3, value := 4 }, { index := 1, value := 9 }]
      ∧ (update_morphtargets {} [1, 9, 0, 4]
        { morph_attributes_position := some [100, 101, 102, 103] } { morph_targets := TRUE }
        (some { addr := 7, uniform_locations := [(UniformName.morphTargetInfluences0, 5)] })
      ).1.gl_log = [GLCommand.glUniform1fv 5 8 [0, 1, 4, 9, 0, 0, 0, 0]]
      ∧ (update_morphtargets {} [1, 9, 0, 4]
        { morph_attributes_position := some [100, 101, 102, 103] } { morph_targets := TRUE }
        (some { addr := 7, uniform_locations := [(UniformName.morphTargetInfluences0, 5)] })
      ).2.attributes
        ≠ [(AttributeName.morphTarget 0, some 101), (AttributeName.morphTarget 1, some 103),
            (AttributeName.morphTarget 2, some 100)] := by
  decide

/-- C14 (counterexample): for the influences `[0.1, 0.9, 0.0, 0.4]` and a program that has
no `morphTargetInfluences` uniform, `update_morphtargets` issues no GL command at all (no
influence value is uploaded); it only logs the warning. -/
theorem morph_upload_skipped_without_uniform :
    issued {} (update_morphtargets {} [1, 9, 0, 4]
        { morph_attributes_position := some [100, 101, 102, 103] } { morph_targets := TRUE }
        (some { addr := 7 })).1 = []
      ∧ logged {} (update_morphtargets {} [1, 9, 0, 4]
        { morph_attributes_position := some [100, 101, 102, 103] } { morph_targets := TRUE }
        (some { addr := 7 })).1
        = [Event.g_warning GWarning.no_morph_target_influences_uniform] := by
  decide

/-- C14 (amended): for every influence array `w` of any length `n` (the scratch array of
the geometry being absent or of length `n`): the eight values `update_morphtargets` stores in
`morph_influences` are, for each slot `i` in `0 .. 7`, `0` when `i >= n` or when the weight
ranked at position `i` is exactly zero, and otherwise that weight; when the program has the
`morphTargetInfluences` uniform (location `>= 0`) exactly one `glUniform1fv` with count 8 and
these eight values is issued, and otherwise no GL command is issued; the ranked array is a
rearrangement of the pairs `(j, w[j])`, so the weight at each rank is the weight of the
target index stored with it; and every attribute-table entry that was not there before is a
slot binding `morphTarget<i>` / `morphNormal<i>` for a target index whose weight is not
zero: a morph target whose weight is exactly zero is never bound to any slot. -/
theorem morph_influences_upload (priv : GthreeRendererPrivate) (w : List gfloat)
    (geometry : GthreeGeometry) (material : GthreeMeshMaterial) (program : Option GthreeProgram)
    (hfit : influences_fit geometry w.length) :
    (update_morphtargets priv w geometry material program).1.morph_influences
        = (List.range 8).map (fun i =>
            if i < w.length ∧ (influence_at (ranked_influences w) i).value ≠ 0 then
              (influence_at (ranked_influences w) i).value
            else 0)
      ∧ issued priv (update_morphtargets priv w geometry material program).1
        = (if 0 ≤ gthree_program_lookup_uniform_location program
              UniformName.morphTargetInfluences0 then
            [GLCommand.glUniform1fv
              (gthree_program_lookup_uniform_location program UniformName.morphTargetInfluences0)
              8 (update_morphtargets priv w geometry material program).1.morph_influences]
          else [])
      ∧ (ranked_influences w).Perm (collected_influences w)
      ∧ (∀ i, i < w.length →
          (influence_at (ranked_influences w) i).value
            = w.getD (influence_at (ranked_influences w) i).index 0)
      ∧ ∀ e ∈ (update_morphtargets priv w geometry material program).2.attributes,
          e ∈ geometry.attributes
            ∨ ∃ i, i < 8
              ∧ bound_in_slot
                (if material.morph_targets ≠ 0 then geometry.morph_attributes_position else none)
                (ranked_influences w) w.length i e
              ∧ w.getD (influence_at (ranked_influences w) i).index 0 ≠ 0 := by
  obtain ⟨_, h2, h3, h4⟩ := update_morphtargets_spec priv w geometry material program hfit
  refine ⟨h2, ?_, ranked_influences_perm w, fun i hi => (ranked_influences_entry w i hi).2, ?_⟩
  · rw [h3, h2]
  · intro e he
    rcases h4 e he with h5 | ⟨i, hi, hb⟩
    · exact Or.inl h5
    · refine Or.inr ⟨i, hi, hb, ?_⟩
      rw [← (ranked_influences_entry w i hb.1).2]
      exact hb.2.1

/-- C14 (witness): the influences `[0.1, 0.9, 0.0, 0.4]` with a program whose
`morphTargetInfluences` uniform is at location 5: eight values are stored and uploaded by
one `glUniform1fv`. -/
theorem morph_influences_upload_witness :
    influences_fit { morph_attributes_position := some [100, 101, 102, 103] } 4
      ∧ (update_morphtargets {} [1, 9, 0, 4]
          { morph_attributes_position := some [100, 101, 102, 103] } { morph_targets := TRUE }
          (some { addr := 7, uniform_locations := [(UniformName.morphTargetInfluences0, 5)] })
          ).1.morph_influences.length = 8
      ∧ issued {} (update_morphtargets {} [1, 9, 0, 4]
          { morph_attributes_position := some [100, 101, 102, 103] } { morph_targets := TRUE }
          (some { addr := 7, uniform_locations := [(UniformName.morphTargetInfluences0, 5)] })).1
        = (if 0 ≤ gthree_program_lookup_uniform_location
              (some { addr := 7, uniform_locations := [(UniformName.morphTargetInfluences0, 5)] })
              UniformName.morphTargetInfluences0 then
            [GLCommand.glUniform1fv
              (gthree_program_lookup_uniform_location
                (some { addr := 7,
                        uniform_locations := [(UniformName.morphTargetInfluences0, 5)] })
                UniformName.morphTargetInfluences0)
              8 (update_morphtargets {} [1, 9, 0, 4]
                { morph_attributes_position := some [100, 101, 102, 103] }
                { morph_targets := TRUE }
                (some { addr := 7,
                        uniform_locations := [(UniformName.morphTargetInfluences0, 5)] })
                ).1.morph_influences]
          else []) :=
  ⟨by decide, by decide,
    (morph_influences_upload {} [1, 9, 0, 4]
      { morph_attributes_position := some [100, 101, 102, 103] } { morph_targets := TRUE }
      (some { addr := 7, uniform_locations := [(UniformName.morphTargetInfluences0, 5)] })
      (by decide)).2.1⟩

/-! ## Program resolution: `init_material` and `set_program` -/

theorem emit_events (priv : GthreeRendererPrivate) (es : List Event) :
    (priv.emit es).events = priv.events ++ es := rfl

theorem gl_events (priv : GthreeRendererPrivate) (cmd : GLCommand) :
    (priv.gl cmd).events = priv.events := rfl

theorem logged_of_events (before after : GthreeRendererPrivate) (es : List Event)
    (h : after.events = before.events ++ es) : logged before after = es := by
  unfold logged
  rw [h, List.drop_left]

theorem material_apply_light_setup_events (priv : GthreeRendererPrivate) (shader : GthreeShader)
    (update_only : gboolean) :
    (material_apply_light_setup priv shader update_only).events
      = priv.events ++
        [Event.uniforms_set_color shader.addr UniformName.ambientLightColor,
         Event.uniforms_set_uarray shader.addr UniformName.directionalLights update_only,
         Event.uniforms_set_uarray shader.addr UniformName.pointLights update_only] := rfl

/-- The events of `init_material`: the cache lookup, the light setup when there are lights,
and the update of the uniform locations. -/
theorem init_material_events (c : Collaborators) (priv : GthreeRendererPrivate)
    (material : GthreeMaterial) (object : GthreeObject) :
    (init_material c priv material object).1.events
      = priv.events
        ++ (Event.program_cache_get material.shader.addr
              (init_material_parameters c priv material object)
            :: ((if priv.lights ≠ [] then
                  [Event.uniforms_set_color material.shader.addr UniformName.ambientLightColor,
                   Event.uniforms_set_uarray material.shader.addr UniformName.directionalLights
                     FALSE,
                   Event.uniforms_set_uarray material.shader.addr UniformName.pointLights FALSE]
                else [])
              ++ [Event.shader_update_uniform_locations_for_program material.shader.addr
                  (program_pointer (c.program_cache_get priv.events material.shader
                    (init_material_parameters c priv material object)))])) := by
  unfold init_material
  by_cases h : priv.lights ≠ []
  · have h2 : (priv.emit [Event.program_cache_get material.shader.addr
        (init_material_parameters c priv material object)]).lights ≠ [] := h
    simp only [if_pos h, if_pos h2, emit_events, material_apply_light_setup_events,
      List.append_assoc, List.singleton_append, List.cons_append, List.nil_append]
  · have h2 : ¬ (priv.emit [Event.program_cache_get material.shader.addr
        (init_material_parameters c priv material object)]).lights ≠ [] := h
    simp only [if_neg h, if_neg h2, emit_events,
      List.append_assoc, List.singleton_append, List.cons_append, List.nil_append]

theorem init_material_calls_self (priv : GthreeRendererPrivate) :
    init_material_calls priv priv = 0 := by
  unfold init_material_calls logged
  simp

theorem init_material_calls_of_events (before after : GthreeRendererPrivate) (es : List Event)
    (h : after.events = before.events ++ es) :
    init_material_calls before after = es.countP Event.is_program_cache_get := by
  unfold init_material_calls
  rw [logged_of_events before after es h]

/-- What `set_program_bind` leaves alone and what it sets. -/
theorem set_program_bind_spec (s : SetProgramState) :
    (set_program_bind s).material = s.material
      ∧ (set_program_bind s).priv.current_camera = s.priv.current_camera
      ∧ (set_program_bind s).priv.used_texture_units = s.priv.used_texture_units
      ∧ (set_program_bind s).priv.light_setup = s.priv.light_setup
      ∧ (set_program_bind s).priv.clipping_enabled = s.priv.clipping_enabled
      ∧ (set_program_bind s).priv.gl_log = s.priv.gl_log
      ∧ (set_program_bind s).priv.current_program
          = program_pointer s.material.properties.program
      ∧ (set_program_bind s).priv.current_material = s.material.addr
      ∧ (set_program_bind s).priv.events
          = s.priv.events
            ++ (if program_pointer s.material.properties.program ≠ s.priv.current_program then
                [Event.program_use (program_pointer s.material.properties.program)]
              else []) := by
  unfold set_program_bind
  by_cases h1 : program_pointer s.material.properties.program ≠ s.priv.current_program
  · by_cases h2 : s.material.addr ≠ s.priv.current_material
    · have h3 : s.material.addr
          ≠ (s.priv.emit [Event.program_use (program_pointer s.material.properties.program)]
              ).current_material := h2
      simp only [if_pos h1, if_pos h3]
      and_intros <;> trivial
    · have h3 : ¬ s.material.addr
          ≠ (s.priv.emit [Event.program_use (program_pointer s.material.properties.program)]
              ).current_material := h2
      simp only [if_pos h1, if_neg h3]
      and_intros <;> first | trivial | exact (not_not.mp h2).symm
  · by_cases h2 : s.material.addr ≠ s.priv.current_material
    · simp only [if_neg h1, if_pos h2]
      and_intros <;>
        first | trivial | exact (not_not.mp h1).symm | exact (List.append_nil _).symm
    · simp only [if_neg h1, if_neg h2]
      and_intros <;>
        first
        | trivial | exact (not_not.mp h1).symm | exact (not_not.mp h2).symm
        | exact (List.append_nil _).symm

/-- The flags after `set_program_bind`, for a state whose flags are still `false`. -/
theorem set_program_bind_flags (s : SetProgramState) (hp : s.refreshProgram = FALSE)
    (hm : s.refreshMaterial = FALSE) (hl : s.refreshLights = FALSE) :
    (set_program_bind s).refreshProgram
        = c_bool (program_pointer s.material.properties.program ≠ s.priv.current_program)
      ∧ (set_program_bind s).refreshLights
        = c_bool (program_pointer s.material.properties.program ≠ s.priv.current_program)
      ∧ (set_program_bind s).refreshMaterial
        = c_bool (program_pointer s.material.properties.program ≠ s.priv.current_program
            ∨ s.material.addr ≠ s.priv.current_material) := by
  unfold set_program_bind c_bool
  by_cases h1 : program_pointer s.material.properties.program ≠ s.priv.current_program
  · by_cases h2 : s.material.addr ≠ s.priv.current_material
    · have h3 : s.material.addr
          ≠ (s.priv.emit [Event.program_use (program_pointer s.material.properties.program)]
              ).current_material := h2
      simp only [if_pos h1, if_pos h3,
        if_pos (Or.inl h1 : _ ∨ s.material.addr ≠ s.priv.current_material)]
      and_intros <;> trivial
    · have h3 : ¬ s.material.addr
          ≠ (s.priv.emit [Event.program_use (program_pointer s.material.properties.program)]
              ).current_material := h2
      simp only [if_pos h1, if_neg h3,
        if_pos (Or.inl h1 : _ ∨ s.material.addr ≠ s.priv.current_material)]
      and_intros <;> trivial
  · by_cases h2 : s.material.addr ≠ s.priv.current_material
    · simp only [if_neg h1, if_pos h2,
        if_pos (Or.inr h2 : program_pointer s.material.properties.program
          ≠ s.priv.current_program ∨ _)]
      and_intros <;> trivial
    · have h4 : ¬ (program_pointer s.material.properties.program ≠ s.priv.current_program
          ∨ s.material.addr ≠ s.priv.current_material) := fun h => h.elim h1 h2
      simp only [if_neg h1, if_neg h2, if_neg h4]
      and_intros <;> trivial

/-- What `set_program_camera` leaves alone and what it sets. -/
theorem set_program_camera_spec (s : SetProgramState) (camera : Nat) :
    (set_program_camera s camera).material = s.material
      ∧ (set_program_camera s camera).priv.current_program = s.priv.current_program
      ∧ (set_program_camera s camera).priv.current_material = s.priv.current_material
      ∧ (set_program_camera s camera).priv.used_texture_units = s.priv.used_texture_units
      ∧ (set_program_camera s camera).priv.light_setup = s.priv.light_setup
      ∧ (set_program_camera s camera).priv.clipping_enabled = s.priv.clipping_enabled
      ∧ (set_program_camera s camera).priv.events = s.priv.events
      ∧ (set_program_camera s camera).priv.current_camera = camera
      ∧ (set_program_camera s camera).refreshProgram = s.refreshProgram
      ∧ (set_program_camera s camera).refreshLights
          = (if camera ≠ s.priv.current_camera then TRUE else s.refreshLights)
      ∧ (set_program_camera s camera).refreshMaterial
          = (if camera ≠ s.priv.current_camera then TRUE else s.refreshMaterial) := by
  unfold set_program_camera
  by_cases h1 : camera ≠ s.priv.current_camera
  · have h2 : s.refreshProgram ≠ 0 ∨ camera ≠ s.priv.current_camera := Or.inr h1
    have h3 : camera ≠ (s.priv.gl (GLCommand.glUniformMatrix4fv
        (gthree_program_lookup_uniform_location s.material.properties.program
          UniformName.projectionMatrix) 1 FALSE
        (UniformValue.projection_matrix camera))).current_camera := h1
    simp only [if_pos h1, if_pos h2, if_pos h3]
    split_ifs <;> and_intros <;> trivial
  · have h3 : ¬ camera ≠ (s.priv.gl (GLCommand.glUniformMatrix4fv
        (gthree_program_lookup_uniform_location s.material.properties.program
          UniformName.projectionMatrix) 1 FALSE
        (UniformValue.projection_matrix camera))).current_camera := h1
    simp only [if_neg h1, if_neg h3]
    split_ifs <;> and_intros <;> first | trivial | exact (not_not.mp h1).symm

/-- What `set_program_skinning` leaves alone. -/
theorem set_program_skinning_spec (s : SetProgramState) (object : GthreeObject) :
    (set_program_skinning s object).material = s.material
      ∧ (set_program_skinning s object).priv.current_program = s.priv.current_program
      ∧ (set_program_skinning s object).priv.current_material = s.priv.current_material
      ∧ (set_program_skinning s object).priv.current_camera = s.priv.current_camera
      ∧ (set_program_skinning s object).priv.used_texture_units = s.priv.used_texture_units
      ∧ (set_program_skinning s object).priv.light_setup = s.priv.light_setup
      ∧ (set_program_skinning s object).priv.clipping_enabled = s.priv.clipping_enabled
      ∧ (set_program_skinning s object).priv.events = s.priv.events
      ∧ (set_program_skinning s object).refreshProgram = s.refreshProgram
      ∧ (set_program_skinning s object).refreshLights = s.refreshLights
      ∧ (set_program_skinning s object).refreshMaterial = s.refreshMaterial := by
  unfold set_program_skinning
  cases object.skinned_mesh with
  | none => split_ifs <;> and_intros <;> trivial
  | some skinned =>
    obtain ⟨skeleton, hb, hib⟩ := skinned
    cases skeleton with
    | none => dsimp only; split_ifs <;> and_intros <;> trivial
    | some skeleton => dsimp only; split_ifs <;> and_intros <;> trivial

theorem uniforms_set_needs_update_of_lookup_none (uniforms : GthreeUniforms)
    (name : UniformName) (needs_update : gboolean)
    (h : gthree_uniforms_lookup uniforms name = none) :
    uniforms_set_needs_update uniforms name needs_update = uniforms := by
  unfold gthree_uniforms_lookup at h
  unfold uniforms_set_needs_update
  rw [List.find?_eq_none] at h
  conv_rhs => rw [← List.map_id uniforms]
  apply List.map_congr_left
  intro u hu
  have h2 := h u hu
  simp only [decide_eq_true_eq] at h2
  rw [if_neg h2]
  rfl

/-- What `set_program_clipping` leaves alone and what it does. -/
theorem set_program_clipping_spec (s : SetProgramState) :
    (set_program_clipping s).material
        = { s.material with
            shader :=
              { s.material.shader with
                uniforms :=
                  if s.priv.clipping_enabled ≠ 0 then
                    uniforms_set_needs_update s.material.shader.uniforms
                      UniformName.clippingPlanes TRUE
                  else s.material.shader.uniforms } }
      ∧ (set_program_clipping s).priv.current_program = s.priv.current_program
      ∧ (set_program_clipping s).priv.current_material = s.priv.current_material
      ∧ (set_program_clipping s).priv.current_camera = s.priv.current_camera
      ∧ (set_program_clipping s).priv.used_texture_units = s.priv.used_texture_units
      ∧ (set_program_clipping s).priv.light_setup = s.priv.light_setup
      ∧ (set_program_clipping s).priv.clipping_enabled = s.priv.clipping_enabled
      ∧ (set_program_clipping s).priv.gl_log = s.priv.gl_log
      ∧ (set_program_clipping s).priv.events
          = s.priv.events
            ++ (if s.priv.clipping_enabled ≠ 0
                  ∧ (gthree_uniforms_lookup s.material.shader.uniforms
                      UniformName.clippingPlanes).isSome then
                [Event.uniform_set_float4_array s.material.shader.addr
                  UniformName.clippingPlanes]
              else [])
      ∧ (set_program_clipping s).refreshProgram = s.refreshProgram
      ∧ (set_program_clipping s).refreshLights = s.refreshLights
      ∧ (set_program_clipping s).refreshMaterial = s.refreshMaterial := by
  unfold set_program_clipping
  by_cases h1 : s.priv.clipping_enabled ≠ 0
  · cases h2 : gthree_uniforms_lookup s.material.shader.uniforms UniformName.clippingPlanes with
    | none =>
      have h3 : ¬ (s.priv.clipping_enabled ≠ 0 ∧ (none : Option GthreeUniform).isSome = true) :=
        fun h => Bool.false_ne_true h.2
      simp only [if_pos h1, if_neg h3, uniforms_set_needs_update_of_lookup_none _ _ _ h2,
        List.append_nil]
      and_intros <;> trivial
    | some u =>
      have h3 : s.priv.clipping_enabled ≠ 0 ∧ (some u).isSome = true := ⟨h1, rfl⟩
      simp only [if_pos h1, if_pos h3]
      and_intros <;> trivial
  · have h3 : ¬ (s.priv.clipping_enabled ≠ 0
        ∧ (gthree_uniforms_lookup s.material.shader.uniforms
            UniformName.clippingPlanes).isSome = true) := fun h => h1 h.1
    simp only [if_neg h1, if_neg h3, List.append_nil]
    and_intros <;> trivial

/-- What `set_program_refresh` leaves alone and what it does. -/
theorem set_program_refresh_spec (s : SetProgramState) (camera : Nat) :
    (set_program_refresh s camera).material
        = { s.material with
            shader :=
              { s.material.shader with
                uniforms :=
                  if s.refreshMaterial ≠ 0 ∧ s.material.needs_lights ≠ 0 then
                    mark_uniforms_lights_needs_update s.material.shader.uniforms s.refreshLights
                  else s.material.shader.uniforms } }
      ∧ (set_program_refresh s camera).priv.current_program = s.priv.current_program
      ∧ (set_program_refresh s camera).priv.current_material = s.priv.current_material
      ∧ (set_program_refresh s camera).priv.current_camera = s.priv.current_camera
      ∧ (set_program_refresh s camera).priv.used_texture_units = s.priv.used_texture_units
      ∧ (set_program_refresh s camera).priv.light_setup = s.priv.light_setup
      ∧ (set_program_refresh s camera).priv.clipping_enabled = s.priv.clipping_enabled
      ∧ (set_program_refresh s camera).priv.gl_log = s.priv.gl_log
      ∧ (set_program_refresh s camera).priv.events
          = s.priv.events
            ++ (if s.refreshMaterial ≠ 0 then
                (if s.material.needs_lights ≠ 0 ∧ s.refreshLights ≠ 0 then
                  [Event.uniforms_set_color s.material.shader.addr
                      UniformName.ambientLightColor,
                   Event.uniforms_set_uarray s.material.shader.addr
                      UniformName.directionalLights TRUE,
                   Event.uniforms_set_uarray s.material.shader.addr UniformName.pointLights
                      TRUE]
                else [])
                ++ [Event.material_set_uniforms s.material.addr s.material.shader.addr camera,
                    Event.uniforms_load s.material.shader.addr]
              else if (gthree_uniforms_lookup s.material.shader.uniforms
                    UniformName.clippingPlanes).isSome then
                [Event.uniform_load s.material.shader.addr UniformName.clippingPlanes]
              else [])
      ∧ (set_program_refresh s camera).refreshProgram = s.refreshProgram
      ∧ (set_program_refresh s camera).refreshLights = s.refreshLights
      ∧ (set_program_refresh s camera).refreshMaterial = s.refreshMaterial := by
  unfold set_program_refresh
  by_cases h1 : s.refreshMaterial ≠ 0
  · by_cases h2 : s.material.needs_lights ≠ 0
    · by_cases h3 : s.refreshLights ≠ 0
      · simp only [if_pos h1, if_pos h2, if_pos h3, if_pos (And.intro h1 h2),
          if_pos (And.intro h2 h3), material_apply_light_setup, emit_events,
          List.append_assoc, List.cons_append, List.nil_append]
        and_intros <;> trivial
      · have h4 : ¬ (s.material.needs_lights ≠ 0 ∧ s.refreshLights ≠ 0) := fun h => h3 h.2
        simp only [if_pos h1, if_pos h2, if_neg h3, if_pos (And.intro h1 h2), if_neg h4,
          emit_events, List.nil_append]
        and_intros <;> trivial
    · have h4 : ¬ (s.material.needs_lights ≠ 0 ∧ s.refreshLights ≠ 0) := fun h => h2 h.1
      have h5 : ¬ (s.refreshMaterial ≠ 0 ∧ s.material.needs_lights ≠ 0) := fun h => h2 h.2
      simp only [if_pos h1, if_neg h2, if_neg h4, if_neg h5, emit_events, List.nil_append]
      and_intros <;> trivial
  · have h5 : ¬ (s.refreshMaterial ≠ 0 ∧ s.material.needs_lights ≠ 0) := fun h => h1 h.1
    cases h2 : gthree_uniforms_lookup s.material.shader.uniforms UniformName.clippingPlanes with
    | none =>
      have h6 : ¬ ((none : Option GthreeUniform).isSome = true) := Bool.false_ne_true
      simp only [if_neg h1, if_neg h5, h2, if_neg h6, List.append_nil]
      and_intros <;> trivial
    | some u =>
      have h6 : (some u).isSome = true := rfl
      simp only [if_neg h1, if_neg h5, h2, if_pos h6]
      and_intros <;> trivial

/-- What `init_material` leaves alone in the renderer state, and what it stores in the
material. -/
theorem init_material_spec (c : Collaborators) (priv : GthreeRendererPrivate)
    (material : GthreeMaterial) (object : GthreeObject) :
    (init_material c priv material object).1.current_program = priv.current_program
      ∧ (init_material c priv material object).1.current_material = priv.current_material
      ∧ (init_material c priv material object).1.current_camera = priv.current_camera
      ∧ (init_material c priv material object).1.used_texture_units = priv.used_texture_units
      ∧ (init_material c priv material object).1.light_setup = priv.light_setup
      ∧ (init_material c priv material object).1.clipping_enabled = priv.clipping_enabled
      ∧ (init_material c priv material object).1.gl_log = priv.gl_log
      ∧ (init_material c priv material object).2.addr = material.addr
      ∧ (init_material c priv material object).2.needs_update = material.needs_update
      ∧ (init_material c priv material object).2.properties.light_hash = priv.light_setup.hash
      ∧ (init_material c priv material object).2.properties.program
          = c.program_cache_get priv.events material.shader
              (init_material_parameters c priv material object) := by
  unfold init_material
  by_cases h : priv.lights ≠ []
  · have h2 : (priv.emit [Event.program_cache_get material.shader.addr
        (init_material_parameters c priv material object)]).lights ≠ [] := h
    simp only [if_pos h2]
    and_intros <;> trivial
  · have h2 : ¬ (priv.emit [Event.program_cache_get material.shader.addr
        (init_material_parameters c priv material object)]).lights ≠ [] := h
    simp only [if_neg h2]
    and_intros <;> trivial

theorem set_program_update_material_eq (c : Collaborators) (priv : GthreeRendererPrivate)
    (material : GthreeMaterial) (object : GthreeObject) :
    set_program_update_material c priv material object
      = if material_dirty priv material then
          { priv := (init_material c { priv with used_texture_units := 0 }
              (set_program_marked_material priv material) object).1
            material :=
              { (init_material c { priv with used_texture_units := 0 }
                  (set_program_marked_material priv material) object).2 with
                needs_update := FALSE } }
        else { priv := { priv with used_texture_units := 0 }, material := material } := by
  unfold set_program_update_material set_program_marked_material material_dirty
  by_cases h1 : material.needs_update = 0
  · by_cases h2 : gthree_light_setup_hash_equal material.properties.light_hash
        priv.light_setup.hash = 0
    · have h3 : (TRUE : gboolean) ≠ 0 := by decide
      simp only [if_pos h1, if_pos h2, if_pos h3, if_pos (Or.inr h2 : material.needs_update ≠ 0 ∨ _)]
    · have h3 : ¬ (material.needs_update ≠ 0
          ∨ gthree_light_setup_hash_equal material.properties.light_hash
              priv.light_setup.hash = 0) := fun h => h.elim (fun h4 => h4 h1) h2
      have h4 : ¬ material.needs_update ≠ 0 := fun h => h h1
      simp only [if_pos h1, if_neg h2, if_neg h3, if_neg h4]
  · have h3 : material.needs_update ≠ 0 := h1
    simp only [if_neg h1, if_pos h3, if_pos (Or.inl h3 : material.needs_update ≠ 0 ∨ _)]

/-- The first block of `set_program`, field by field. -/
theorem set_program_update_material_spec (c : Collaborators) (priv : GthreeRendererPrivate)
    (material : GthreeMaterial) (object : GthreeObject) :
    (set_program_update_material c priv material object).refreshProgram = FALSE
      ∧ (set_program_update_material c priv material object).refreshMaterial = FALSE
      ∧ (set_program_update_material c priv material object).refreshLights = FALSE
      ∧ (set_program_update_material c priv material object).priv.current_program
          = priv.current_program
      ∧ (set_program_update_material c priv material object).priv.current_material
          = priv.current_material
      ∧ (set_program_update_material c priv material object).priv.current_camera
          = priv.current_camera
      ∧ (set_program_update_material c priv material object).priv.used_texture_units = 0
      ∧ (set_program_update_material c priv material object).priv.light_setup
          = priv.light_setup
      ∧ (set_program_update_material c priv material object).priv.clipping_enabled
          = priv.clipping_enabled
      ∧ (set_program_update_material c priv material object).material.addr = material.addr
      ∧ (set_program_update_material c priv material object).material.needs_update = FALSE
      ∧ (material_dirty priv material →
          (set_program_update_material c priv material object).material.properties.light_hash
            = priv.light_setup.hash)
      ∧ (¬ material_dirty priv material →
          (set_program_update_material c priv material object).material = material) := by
  rw [set_program_update_material_eq]
  have hi := init_material_spec c { priv with used_texture_units := 0 }
    (set_program_marked_material priv material) object
  have haddr : (set_program_marked_material priv material).addr = material.addr := by
    unfold set_program_marked_material
    split_ifs <;> rfl
  by_cases hd : material_dirty priv material
  · rw [if_pos hd]
    refine ⟨rfl, rfl, rfl, hi.1, hi.2.1, hi.2.2.1, hi.2.2.2.1, hi.2.2.2.2.1, hi.2.2.2.2.2.1,
      ?_, rfl, fun _ => hi.2.2.2.2.2.2.2.2.2.1, fun h => absurd hd h⟩
    exact hi.2.2.2.2.2.2.2.1.trans haddr
  · rw [if_neg hd]
    refine ⟨rfl, rfl, rfl, rfl, rfl, rfl, rfl, rfl, rfl, rfl, ?_, fun h => absurd h hd,
      fun _ => rfl⟩
    unfold material_dirty at hd
    exact not_not.mp (fun h => hd (Or.inl h))

/-- The events of the first block of `set_program`. -/
theorem set_program_update_material_events (c : Collaborators) (priv : GthreeRendererPrivate)
    (material : GthreeMaterial) (object : GthreeObject) :
    init_material_calls priv (set_program_update_material c priv material object).priv
      = if material_dirty priv material then 1 else 0 := by
  rw [set_program_update_material_eq]
  by_cases hd : material_dirty priv material
  · simp only [if_pos hd]
    have he := init_material_events c { priv with used_texture_units := 0 }
      (set_program_marked_material priv material) object
    rw [init_material_calls_of_events priv _ _ he]
    split_ifs <;> rfl
  · simp only [if_neg hd]
    unfold init_material_calls logged
    show (List.drop priv.events.length priv.events).countP _ = 0
    rw [List.drop_length]
    rfl

theorem c_bool_or_true (p : Prop) [Decidable p] (q : Prop) [Decidable q] :
    (if q then TRUE else c_bool p) = c_bool (p ∨ q) := by
  unfold c_bool TRUE
  by_cases hq : q
  · rw [if_pos hq, if_pos (Or.inr hq)]
  · by_cases hp : p
    · rw [if_neg hq, if_pos hp, if_pos (Or.inl hp)]
    · rw [if_neg hq, if_neg hp, if_neg (fun h => h.elim hp hq)]

/-- The bindings, the flags and the material after `set_program`, in terms of the state
after its first block. -/
theorem set_program_spec (c : Collaborators) (priv : GthreeRendererPrivate) (camera : Nat)
    (material : GthreeMaterial) (object : GthreeObject) :
    (set_program c priv camera material object).material.properties
        = (set_program_update_material c priv material object).material.properties
      ∧ (set_program c priv camera material object).material.addr = material.addr
      ∧ (set_program c priv camera material object).material.needs_update = FALSE
      ∧ (set_program c priv camera material object).priv.current_program
        = program_pointer
            (set_program_update_material c priv material object).material.properties.program
      ∧ (set_program c priv camera material object).priv.current_material = material.addr
      ∧ (set_program c priv camera material object).priv.current_camera = camera
      ∧ (set_program c priv camera material object).priv.used_texture_units = 0
      ∧ (set_program c priv camera material object).priv.light_setup = priv.light_setup
      ∧ (set_program c priv camera material object).refreshProgram
        = c_bool (program_pointer
              (set_program_update_material c priv material object).material.properties.program
            ≠ priv.current_program)
      ∧ (set_program c priv camera material object).refreshLights
        = c_bool (program_pointer
              (set_program_update_material c priv material object).material.properties.program
            ≠ priv.current_program ∨ camera ≠ priv.current_camera)
      ∧ (set_program c priv camera material object).refreshMaterial
        = c_bool ((program_pointer
              (set_program_update_material c priv material object).material.properties.program
            ≠ priv.current_program ∨ material.addr ≠ priv.current_material)
            ∨ camera ≠ priv.current_camera) := by
  have h1 := set_program_update_material_spec c priv material object
  have h2 := set_program_bind_spec (set_program_update_material c priv material object)
  have h2f := set_program_bind_flags (set_program_update_material c priv material object)
    h1.1 h1.2.1 h1.2.2.1
  have h3 := set_program_camera_spec
    (set_program_bind (set_program_update_material c priv material object)) camera
  have h4 := set_program_skinning_spec
    (set_program_camera
      (set_program_bind (set_program_update_material c priv material object)) camera) object
  have h5 := set_program_clipping_spec
    (set_program_skinning
      (set_program_camera
        (set_program_bind (set_program_update_material c priv material object)) camera) object)
  have h6 := set_program_refresh_spec
    (set_program_clipping
      (set_program_skinning
        (set_program_camera
          (set_program_bind (set_program_update_material c priv material object)) camera)
        object)) camera
  obtain ⟨h1p, h1m, h1l, h1cp, h1cm, h1cc, h1u, h1ls, h1ce, h1a, h1n, h1d, h1nd⟩ := h1
  obtain ⟨h2m, h2cc, h2u, h2ls, h2ce, h2gl, h2cp, h2cm, h2ev⟩ := h2
  obtain ⟨h2fp, h2fl, h2fm⟩ := h2f
  obtain ⟨h3m, h3cp, h3cm, h3u, h3ls, h3ce, h3ev, h3cc, h3fp, h3fl, h3fm⟩ := h3
  obtain ⟨h4m, h4cp, h4cm, h4cc, h4u, h4ls, h4ce, h4ev, h4fp, h4fl, h4fm⟩ := h4
  obtain ⟨h5m, h5cp, h5cm, h5cc, h5u, h5ls, h5ce, h5gl, h5ev, h5fp, h5fl, h5fm⟩ := h5
  obtain ⟨h6m, h6cp, h6cm, h6cc, h6u, h6ls, h6ce, h6gl, h6ev, h6fp, h6fl, h6fm⟩ := h6
  have hmat : (set_program_skinning
      (set_program_camera
        (set_program_bind (set_program_update_material c priv material object)) camera)
      object).material = (set_program_update_material c priv material object).material := by
    rw [h4m, h3m, h2m]
  unfold set_program
  dsimp only
  refine ⟨?_, ?_, ?_, ?_, ?_, ?_, ?_, ?_, ?_, ?_, ?_⟩
  · rw [h6m, h5m, hmat]
  · rw [h6m, h5m, hmat]
    exact h1a
  · rw [h6m, h5m, hmat]
    exact h1n
  · show (set_program_refresh _ camera).priv.current_program = _
    rw [h6cp, h5cp, h4cp, h3cp, h2cp]
  · show (set_program_refresh _ camera).priv.current_material = _
    rw [h6cm, h5cm, h4cm, h3cm, h2cm, h1a]
  · show (set_program_refresh _ camera).priv.current_camera = _
    rw [h6cc, h5cc, h4cc, h3cc]
  · show (set_program_refresh _ camera).priv.used_texture_units = _
    rw [h6u, h5u, h4u, h3u, h2u, h1u]
  · show (set_program_refresh _ camera).priv.light_setup = _
    rw [h6ls, h5ls, h4ls, h3ls, h2ls, h1ls]
  · rw [h6fp, h5fp, h4fp, h3fp, h2fp, h1cp]
  · rw [h6fl, h5fl, h4fl, h3fl, h2fl, h2cc, h1cc, h1cp]
    exact c_bool_or_true _ _
  · rw [h6fm, h5fm, h4fm, h3fm, h2fm, h2cc, h1cc, h1cp, h1cm, h1a]
    exact c_bool_or_true _ _

theorem set_program_events (c : Collaborators) (priv : GthreeRendererPrivate) (camera : Nat)
    (material : GthreeMaterial) (object : GthreeObject) :
    (set_program c priv camera material object).priv.events
      = (set_program_update_material c priv material object).priv.events
        ++ set_program_later_events (set_program_update_material c priv material object)
            camera object := by
  have h2 := set_program_bind_spec (set_program_update_material c priv material object)
  have h3 := set_program_camera_spec
    (set_program_bind (set_program_update_material c priv material object)) camera
  have h4 := set_program_skinning_spec
    (set_program_camera
      (set_program_bind (set_program_update_material c priv material object)) camera) object
  have h5 := set_program_clipping_spec
    (set_program_skinning
      (set_program_camera
        (set_program_bind (set_program_update_material c priv material object)) camera) object)
  have h6 := set_program_refresh_spec
    (set_program_clipping
      (set_program_skinning
        (set_program_camera
          (set_program_bind (set_program_update_material c priv material object)) camera)
        object)) camera
  obtain ⟨h2m, -, -, -, -, -, -, -, h2ev⟩ := h2
  obtain ⟨h3m, -, -, -, -, -, h3ev, -⟩ := h3
  obtain ⟨h4m, -, -, -, -, -, -, h4ev, -⟩ := h4
  obtain ⟨h5m, -, -, -, -, -, -, -, h5ev, -⟩ := h5
  obtain ⟨h6m, -, -, -, -, -, -, -, h6ev, -⟩ := h6
  unfold set_program set_program_later_events
  dsimp only
  rw [emit_events, h6ev, h5ev, h4ev, h3ev, h2ev, h6m, h5m, h4m, h3m, h2m]
  simp only [List.append_assoc]

theorem set_program_later_events_no_init (s1 : SetProgramState) (camera : Nat)
    (object : GthreeObject) :
    (set_program_later_events s1 camera object).countP Event.is_program_cache_get = 0 := by
  unfold set_program_later_events
  dsimp only
  simp only [List.countP_append]
  split_ifs <;> rfl

theorem init_material_calls_set_program (c : Collaborators) (priv : GthreeRendererPrivate)
    (camera : Nat) (material : GthreeMaterial) (object : GthreeObject) :
    init_material_calls priv (set_program c priv camera material object).priv
      = if material_dirty priv material then 1 else 0 := by
  have h1 := set_program_update_material_events c priv material object
  have h2 := set_program_events c priv camera material object
  have h3 : ∃ es, (set_program_update_material c priv material object).priv.events
      = priv.events ++ es ∧ es.countP Event.is_program_cache_get
        = if material_dirty priv material then 1 else 0 := by
    rw [set_program_update_material_eq]
    by_cases hd : material_dirty priv material
    · rw [if_pos hd, if_pos hd]
      refine ⟨_, init_material_events c { priv with used_texture_units := 0 }
        (set_program_marked_material priv material) object, ?_⟩
      split_ifs <;> rfl
    · rw [if_neg hd, if_neg hd]
      exact ⟨[], (List.append_nil _).symm, rfl⟩
  obtain ⟨es, he, hc⟩ := h3
  rw [he, List.append_assoc] at h2
  rw [init_material_calls_of_events _ _ _ h2, List.countP_append, hc,
    set_program_later_events_no_init, Nat.add_zero]

/-- C15: in `set_program`, `init_material` runs exactly once when, on entry, the
`needs_update` flag of the material is set or `gthree_light_setup_hash_equal` finds the light
hash cached on the material different from the hash of the frame's light setup, and it does
not run at all otherwise. -/
theorem set_program_reinitialises_iff_dirty (c : Collaborators) (priv : GthreeRendererPrivate)
    (camera : Nat) (material : GthreeMaterial) (object : GthreeObject) :
    init_material_calls priv (set_program c priv camera material object).priv
        = (if material.needs_update ≠ 0
              ∨ gthree_light_setup_hash_equal material.properties.light_hash
                  priv.light_setup.hash = 0 then 1
           else 0)
      ∧ (0 < init_material_calls priv (set_program c priv camera material object).priv
          ↔ (material.needs_update ≠ 0
              ∨ material.properties.light_hash ≠ priv.light_setup.hash)) := by
  have h := init_material_calls_set_program c priv camera material object
  unfold material_dirty at h
  refine ⟨h, ?_⟩
  rw [h]
  have heq : gthree_light_setup_hash_equal material.properties.light_hash
      priv.light_setup.hash = 0 ↔ material.properties.light_hash ≠ priv.light_setup.hash := by
    unfold gthree_light_setup_hash_equal
    constructor
    · intro h1 h2
      rw [h2] at h1
      simp at h1
    · intro h1
      rw [if_neg]
      intro h2
      apply h1
      cases hm : material.properties.light_hash
      cases hp : priv.light_setup.hash
      rw [hm, hp] at h2
      simp only at h2
      rw [h2.1, h2.2]
  rw [← heq]
  split_ifs with h1
  · exact ⟨fun _ => h1, fun _ => Nat.one_pos⟩
  · exact ⟨fun h2 => absurd h2 (Nat.lt_irrefl 0), fun h2 => absurd h2 h1⟩

theorem hash_equal_self (h : GthreeLightSetupHash) : gthree_light_setup_hash_equal h h ≠ 0 := by
  unfold gthree_light_setup_hash_equal
  rw [if_pos ⟨rfl, rfl⟩]
  decide

/-- After `set_program` the material is not dirty with respect to the light setup it was
resolved against. -/
theorem set_program_not_dirty_after (c : Collaborators) (priv : GthreeRendererPrivate)
    (camera : Nat) (material : GthreeMaterial) (object : GthreeObject)
    (priv2 : GthreeRendererPrivate) (h : priv2.light_setup.hash = priv.light_setup.hash) :
    ¬ material_dirty priv2 (set_program c priv camera material object).material := by
  obtain ⟨hprops, -, hn, -⟩ := set_program_spec c priv camera material object
  obtain ⟨-, -, -, -, -, -, -, -, -, -, -, hd, hnd⟩ :=
    set_program_update_material_spec c priv material object
  unfold material_dirty
  rw [hn, hprops, h]
  intro h1
  rcases h1 with h1 | h1
  · exact h1 rfl
  · by_cases hdirty : material_dirty priv material
    · rw [hd hdirty] at h1
      exact hash_equal_self _ h1
    · rw [hnd hdirty] at h1
      exact hdirty (Or.inr h1)

/-- C16: after `set_program` returns, the `needs_update` flag of the material is `FALSE`;
when the material was dirty on entry, the light hash stored in its properties is the hash of
the frame's light setup; `set_program` leaves the light setup as it is; and a following
`set_program` for the resulting material, in any renderer state with the same light-setup
hash (in particular the state just reached), does not run `init_material`. -/
theorem set_program_clears_dirty (c : Collaborators) (priv : GthreeRendererPrivate)
    (camera : Nat) (material : GthreeMaterial) (object : GthreeObject) :
    (set_program c priv camera material object).material.needs_update = FALSE
      ∧ ((material.needs_update ≠ 0
            ∨ gthree_light_setup_hash_equal material.properties.light_hash
                priv.light_setup.hash = 0) →
          (set_program c priv camera material object).material.properties.light_hash
            = priv.light_setup.hash)
      ∧ (set_program c priv camera material object).priv.light_setup = priv.light_setup
      ∧ (∀ (c2 : Collaborators) (camera2 : Nat) (object2 : GthreeObject),
          init_material_calls (set_program c priv camera material object).priv
            (set_program c2 (set_program c priv camera material object).priv camera2
              (set_program c priv camera material object).material object2).priv = 0)
      ∧ ∀ (c2 : Collaborators) (priv2 : GthreeRendererPrivate) (camera2 : Nat)
          (object2 : GthreeObject), priv2.light_setup.hash = priv.light_setup.hash →
          init_material_calls priv2
            (set_program c2 priv2 camera2 (set_program c priv camera material object).material
              object2).priv = 0 := by
  obtain ⟨hprops, -, hn, -, -, -, -, hls, -⟩ := set_program_spec c priv camera material object
  obtain ⟨-, -, -, -, -, -, -, -, -, -, -, hd, -⟩ :=
    set_program_update_material_spec c priv material object
  refine ⟨hn, ?_, hls, ?_, ?_⟩
  · intro h
    rw [hprops]
    exact hd h
  · intro c2 camera2 object2
    rw [init_material_calls_set_program, if_neg]
    exact set_program_not_dirty_after c priv camera material object _ (by rw [hls])
  · intro c2 priv2 camera2 object2 h
    rw [init_material_calls_set_program, if_neg]
    exact set_program_not_dirty_after c priv camera material object priv2 h

/-- C16 (witness): a freshly created material (`needs_update` set) in the initial renderer
state: after `set_program` the flag is clear and the stored hash is that of the light
setup. -/
theorem set_program_clears_dirty_witness :
    ((({} : GthreeMaterial).needs_update ≠ 0
        ∨ gthree_light_setup_hash_equal ({} : GthreeMaterial).properties.light_hash
            ({} : GthreeRendererPrivate).light_setup.hash = 0))
      ∧ (set_program
          { set_params := fun _ p => p, program_cache_get := fun _ _ _ => some { addr := 7 } }
          {} 1 {} {}).material.properties.light_hash
        = ({} : GthreeRendererPrivate).light_setup.hash :=
  ⟨by decide,
    (set_program_clears_dirty
      { set_params := fun _ p => p, program_cache_get := fun _ _ _ => some { addr := 7 } }
      {} 1 {} {}).2.1 (by decide)⟩

/-- C17: the parameter set `init_material` gathers and hands to `gthree_program_cache_get`
carries the light counts of the frame's light setup, whatever the `set_params` method of the
material wrote; so two renderer states whose light setups differ in the number of
directional lights give, for the same material and object, unequal parameter sets. -/
theorem init_material_parameters_light_counts (c : Collaborators)
    (priv : GthreeRendererPrivate) (material : GthreeMaterial) (object : GthreeObject) :
    (init_material_parameters c priv material object).num_dir_lights
        = priv.light_setup.directional.length
      ∧ (init_material_parameters c priv material object).num_point_lights
        = priv.light_setup.point.length
      ∧ (logged priv (init_material c priv material object).1).head?
        = some (Event.program_cache_get material.shader.addr
            (init_material_parameters c priv material object))
      ∧ ∀ priv2 : GthreeRendererPrivate,
          priv2.light_setup.directional.length ≠ priv.light_setup.directional.length →
          init_material_parameters c priv2 material object
            ≠ init_material_parameters c priv material object := by
  refine ⟨rfl, rfl, ?_, ?_⟩
  · rw [logged_of_events _ _ _ (init_material_events c priv material object)]
    rfl
  · intro priv2 h heq
    apply h
    have h2 := congrArg GthreeProgramParameters.num_dir_lights heq
    exact h2

/-- C17 (witness): a light setup without directional light and one with one directional
light give different parameter sets for the default material. -/
theorem init_material_parameters_light_counts_witness :
    ({ light_setup := { directional := [1] } } : GthreeRendererPrivate).light_setup.directional.length
        ≠ ({} : GthreeRendererPrivate).light_setup.directional.length
      ∧ init_material_parameters
          { set_params := fun _ p => p, program_cache_get := fun _ _ _ => none }
          { light_setup := { directional := [1] } } {} {}
        ≠ init_material_parameters
          { set_params := fun _ p => p, program_cache_get := fun _ _ _ => none } {} {} {} :=
  ⟨by decide,
    (init_material_parameters_light_counts
      { set_params := fun _ p => p, program_cache_get := fun _ _ _ => none } {} {} {}).2.2.2
      { light_setup := { directional := [1] } } (by decide)⟩

/-- C18 (counterexample): a mesh material with skinning set, used on an object that is not a
skinned mesh: the gathered parameter set has `skinning` true. -/
theorem skinning_parameter_ignores_object :
    (init_material_parameters
        { set_params := fun _ p => p, program_cache_get := fun _ _ _ => none } {}
        { kind := GthreeMaterialKind.mesh_material { skinning := TRUE } } {}).skinning = 1
      ∧ ({} : GthreeObject).skinned_mesh = none := by
  decide

/-- C18 (amended): in the parameter set gathered by `init_material`, `skinning` is true
exactly when the material is a mesh material with skinning set, whatever the object is; the
object only decides `max_bones`, which is the bone count of the skeleton of a skinned mesh
and `0` for every other object. -/
theorem skinning_parameter_from_material (c : Collaborators) (priv : GthreeRendererPrivate)
    (material : GthreeMaterial) (object : GthreeObject) :
    ((init_material_parameters c priv material object).skinning ≠ 0
        ↔ ∃ m, material.kind = GthreeMaterialKind.mesh_material m ∧ m.skinning ≠ 0)
      ∧ (init_material_parameters c priv material object).max_bones
        = init_material_max_bones object
      ∧ (init_material_max_bones object ≠ 0 → object.skinned_mesh ≠ none) := by
  refine ⟨?_, rfl, ?_⟩
  · show material.mesh_flag (fun m => m.skinning) ≠ 0 ↔ _
    unfold GthreeMaterial.mesh_flag GthreeMaterial.mesh_material
    cases hk : material.kind with
    | mesh_material m =>
      dsimp only
      constructor
      · intro h
        refine ⟨m, rfl, ?_⟩
        intro h0
        rw [if_neg (not_not.mpr h0)] at h
        exact h rfl
      · rintro ⟨m2, hm2, hs⟩
        cases hm2
        rw [if_pos hs]
        decide
    | line_basic_material w =>
      dsimp only
      constructor
      · intro h; exact absurd rfl h
      · rintro ⟨m2, hm2, -⟩; cases hm2
    | shader_material =>
      dsimp only
      constructor
      · intro h; exact absurd rfl h
      · rintro ⟨m2, hm2, -⟩; cases hm2
    | other_material =>
      dsimp only
      constructor
      · intro h; exact absurd rfl h
      · rintro ⟨m2, hm2, -⟩; cases hm2
  · intro h hnone
    apply h
    unfold init_material_max_bones
    rw [hnone]

/-- C18 (witness): a skinned mesh with a skeleton of 3 bones has `max_bones` 3, so it is a
skinned mesh. -/
theorem skinning_parameter_from_material_witness :
    init_material_max_bones
        { kind := GthreeObjectKind.mesh { skinned := some { skeleton := some { n_bones := 3 } } } }
        ≠ 0
      ∧ ({ kind := GthreeObjectKind.mesh { skinned := some { skeleton := some { n_bones := 3 } } } }
          : GthreeObject).skinned_mesh ≠ none :=
  ⟨by decide,
    (skinning_parameter_from_material
      { set_params := fun _ p => p, program_cache_get := fun _ _ _ => none } {} {}
      { kind := GthreeObjectKind.mesh
          { skinned := some { skeleton := some { n_bones := 3 } } } }).2.2 (by decide)⟩

/-- C19: the three refresh flags at the end of `set_program`, and the bindings after it.
`program` is the program of the material properties after the first block (the value
`set_program` returns). -/
theorem set_program_refresh_flags (c : Collaborators) (priv : GthreeRendererPrivate)
    (camera : Nat) (material : GthreeMaterial) (object : GthreeObject) :
    (set_program c priv camera material object).refreshProgram
        = c_bool (program_pointer (set_program c priv camera material object).program
            ≠ priv.current_program)
      ∧ (set_program c priv camera material object).refreshLights
        = c_bool (program_pointer (set_program c priv camera material object).program
            ≠ priv.current_program ∨ camera ≠ priv.current_camera)
      ∧ (set_program c priv camera material object).refreshMaterial
        = c_bool ((program_pointer (set_program c priv camera material object).program
            ≠ priv.current_program ∨ material.addr ≠ priv.current_material)
            ∨ camera ≠ priv.current_camera)
      ∧ (set_program c priv camera material object).priv.current_program
        = program_pointer (set_program c priv camera material object).program
      ∧ (set_program c priv camera material object).priv.current_material = material.addr
      ∧ (set_program c priv camera material object).priv.current_camera = camera
      ∧ (set_program c priv camera material object).material.addr = material.addr := by
  obtain ⟨hprops, ha, -, hcp, hcm, hcc, -, -, hfp, hfl, hfm⟩ :=
    set_program_spec c priv camera material object
  unfold SetProgramState.program
  rw [hprops]
  exact ⟨hfp, hfl, hfm, hcp, hcm, hcc, ha⟩

theorem allocate_texture_unit_fields (priv : GthreeRendererPrivate) :
    (gthree_renderer_allocate_texture_unit priv).2 = priv.used_texture_units
      ∧ (gthree_renderer_allocate_texture_unit priv).1.used_texture_units
        = (priv.used_texture_units + 1) % 4294967296
      ∧ (gthree_renderer_allocate_texture_unit priv).1.gl_log = priv.gl_log := by
  unfold gthree_renderer_allocate_texture_unit
  dsimp only
  split_ifs <;> exact ⟨rfl, rfl, rfl⟩

theorem allocate_texture_units_spec :
    ∀ (n : Nat) (priv : GthreeRendererPrivate), priv.used_texture_units < 4294967296 →
      (allocate_texture_units n priv).2
          = (List.range n).map (fun k => (priv.used_texture_units + k) % 4294967296) := by
  intro n
  induction n with
  | zero => intro priv _; rfl
  | succ n ih =>
    intro priv hlt
    obtain ⟨hr, hu, -⟩ := allocate_texture_unit_fields priv
    have hlt2 : (gthree_renderer_allocate_texture_unit priv).1.used_texture_units
        < 4294967296 := by
      rw [hu]
      exact Nat.mod_lt _ (by decide)
    have ih1 := ih (gthree_renderer_allocate_texture_unit priv).1 hlt2
    unfold allocate_texture_units
    dsimp only
    rw [ih1, hu, hr, List.range_succ_eq_map, List.map_cons, List.map_map]
    have e0 : (priv.used_texture_units + 0) % 4294967296 = priv.used_texture_units :=
      Nat.mod_eq_of_lt hlt
    rw [e0]
    congr 1
    apply List.map_congr_left
    intro k _
    simp only [Function.comp_apply]
    rw [Nat.mod_add_mod, Nat.add_assoc, Nat.add_comm 1 k]

theorem allocate_texture_units_from_zero (n : Nat) (p : GthreeRendererPrivate)
    (hp : p.used_texture_units = 0) (hn : n ≤ 4294967296) :
    (allocate_texture_units n p).2 = List.range n := by
  rw [allocate_texture_units_spec n p (by rw [hp]; decide), hp]
  conv_rhs => rw [← List.map_id (List.range n)]
  apply List.map_congr_left
  intro k hk
  rw [Nat.zero_add]
  exact Nat.mod_eq_of_lt (Nat.lt_of_lt_of_le (List.mem_range.1 hk) hn)

theorem allocate_texture_units_last (n : Nat) (p : GthreeRendererPrivate)
    (hp : p.used_texture_units = 0) :
    (allocate_texture_units (n + 1) p).2.getLast? = some (n % 4294967296) := by
  rw [allocate_texture_units_spec (n + 1) p (by rw [hp]; decide), hp, List.range_succ,
    List.map_append, List.map_singleton, List.getLast?_append, List.getLast?_singleton,
    Nat.zero_add]
  rfl

/-- C20 (counterexample): counted from a counter of zero, the call number `2 ^ 32 + 1` of
`gthree_renderer_allocate_texture_unit` returns `0`, not `2 ^ 32`: the `guint` counter has
wrapped. The call number `2 ^ 32` returns `2 ^ 32 - 1`. -/
theorem texture_unit_counter_wraps :
    (allocate_texture_units (4294967295 + 1) {}).2.getLast? = some 4294967295
      ∧ (allocate_texture_units (4294967296 + 1) {}).2.getLast? = some 0 :=
  ⟨allocate_texture_units_last 4294967295 {} rfl, allocate_texture_units_last 4294967296 {} rfl⟩

/-- C20 (amended): `set_program` resets the texture-unit counter to zero before anything
else: its first block leaves the counter at zero and the result of `set_program` does not
depend on the value the counter had on entry. Counted from a counter of zero, `n` successive
calls of `gthree_renderer_allocate_texture_unit` return `0, 1, .., n - 1` for every
`n <= 2 ^ 32`, so the `k`-th call returns `k - 1` for `1 <= k <= 2 ^ 32`. Every call returns
the current counter and increments it by one modulo `2 ^ 32`, also when the returned unit is
at or beyond `max_textures`, in which case the only further effect is one warning. -/
theorem texture_units_reset_and_count (c : Collaborators) (priv p : GthreeRendererPrivate)
    (camera : Nat) (material : GthreeMaterial) (object : GthreeObject) (n : Nat)
    (hp : p.used_texture_units = 0) (hn : n ≤ 4294967296) :
    (set_program_update_material c priv material object).priv.used_texture_units = 0
      ∧ set_program c priv camera material object
        = set_program c { priv with used_texture_units := 0 } camera material object
      ∧ (allocate_texture_units n p).2 = List.range n
      ∧ (∀ k, k < 4294967296 → (allocate_texture_units (k + 1) p).2.getLast? = some k)
      ∧ (gthree_renderer_allocate_texture_unit priv).2 = priv.used_texture_units
      ∧ (gthree_renderer_allocate_texture_unit priv).1.used_texture_units
        = (priv.used_texture_units + 1) % 4294967296
      ∧ (gthree_renderer_allocate_texture_unit priv).1.gl_log = priv.gl_log
      ∧ logged priv (gthree_renderer_allocate_texture_unit priv).1
        = (if priv.used_texture_units ≥ (priv.max_textures % 4294967296).toNat then
            [Event.g_warning
              (GWarning.texture_units priv.used_texture_units priv.max_textures)]
          else []) := by
  have hu1 := (set_program_update_material_spec c priv material object).2.2.2.2.2.2.1
  obtain ⟨f1, f2, f3⟩ := allocate_texture_unit_fields priv
  refine ⟨hu1, rfl, allocate_texture_units_from_zero n p hp hn, ?_, f1, f2, f3, ?_⟩
  · intro k hk
    rw [allocate_texture_units_last k p hp, Nat.mod_eq_of_lt hk]
  · apply logged_of_events
    unfold gthree_renderer_allocate_texture_unit
    dsimp only
    split_ifs
    · rfl
    · exact (List.append_nil _).symm

/-- C20 (witness): counted from the state the first block of `set_program` leaves for a
fresh renderer and material, three calls with `max_textures = 2` return the units 0, 1, 2;
the third call, at the limit, logs the warning and still increments the counter. -/
theorem texture_units_reset_and_count_witness :
    ((set_program_update_material ⟨fun _ p => p, fun _ _ _ => none⟩
          { used_texture_units := 7, max_textures := 2 } {} {}).priv.used_texture_units = 0
        ∧ 3 ≤ 4294967296)
      ∧ (allocate_texture_units 3
          (set_program_update_material ⟨fun _ p => p, fun _ _ _ => none⟩
            { used_texture_units := 7, max_textures := 2 } {} {}).priv).2 = [0, 1, 2]
      ∧ logged { used_texture_units := 2, max_textures := 2 }
          (gthree_renderer_allocate_texture_unit
            { used_texture_units := 2, max_textures := 2 }).1
        = [Event.g_warning (GWarning.texture_units 2 2)]
      ∧ (gthree_renderer_allocate_texture_unit
          { used_texture_units := 2, max_textures := 2 }).1.used_texture_units = 3 :=
  ⟨⟨by decide, by decide⟩,
    (texture_units_reset_and_count ⟨fun _ p => p, fun _ _ _ => none⟩
      { used_texture_units := 7, max_textures := 2 }
      (set_program_update_material ⟨fun _ p => p, fun _ _ _ => none⟩
        { used_texture_units := 7, max_textures := 2 } {} {}).priv 0 {} {} 3 (by decide)
      (by decide)).2.2.1,
    by decide, by decide⟩

/-! ## Render list: the sort only permutes -/

/-- C26: `gthree_render_list_sort` only permutes: the opaque index array after the sort is a
permutation of the one before, and so is the transparent index array (no index is added,
dropped or duplicated: every index occurs as often as before, and the lengths are the
same); the background index array and the items array are unchanged, so no index moves
between buckets. -/
theorem sort_only_permutes (list : GthreeRenderList) :
    (gthree_render_list_sort list).opaque_.Perm list.opaque_
      ∧ (gthree_render_list_sort list).transparent.Perm list.transparent
      ∧ (gthree_render_list_sort list).background = list.background
      ∧ (gthree_render_list_sort list).items = list.items
      ∧ (∀ i, (gthree_render_list_sort list).opaque_.count i = list.opaque_.count i)
      ∧ (∀ i, (gthree_render_list_sort list).transparent.count i = list.transparent.count i)
      ∧ (gthree_render_list_sort list).opaque_.length = list.opaque_.length
      ∧ (gthree_render_list_sort list).transparent.length = list.transparent.length := by
  have ho : (gthree_render_list_sort list).opaque_.Perm list.opaque_ :=
    msort_with_tmp_perm _ _ _
  have ht : (gthree_render_list_sort list).transparent.Perm list.transparent :=
    msort_with_tmp_perm _ _ _
  exact ⟨ho, ht, rfl, rfl, fun i => ho.count_eq i, fun i => ht.count_eq i, ho.length_eq,
    ht.length_eq⟩

/-! ## `set_program` without material refresh -/

theorem uniforms_lookup_set_needs_update (uniforms : GthreeUniforms) (name name2 : UniformName)
    (needs_update : gboolean) :
    (gthree_uniforms_lookup (uniforms_set_needs_update uniforms name needs_update) name2).isSome
      = (gthree_uniforms_lookup uniforms name2).isSome := by
  have hname : ∀ u : GthreeUniform,
      (if u.name = name then { u with needs_update := needs_update } else u).name = u.name := by
    intro u
    split_ifs <;> rfl
  unfold gthree_uniforms_lookup uniforms_set_needs_update
  rw [Bool.eq_iff_iff, List.find?_isSome, List.find?_isSome]
  constructor
  · rintro ⟨x, hx, hp⟩
    rw [List.mem_map] at hx
    obtain ⟨u, hu, rfl⟩ := hx
    refine ⟨u, hu, ?_⟩
    rw [hname] at hp
    exact hp
  · rintro ⟨u, hu, hp⟩
    refine ⟨_, List.mem_map_of_mem _ hu, ?_⟩
    rw [hname]
    exact hp

theorem set_program_marked_material_shader (priv : GthreeRendererPrivate)
    (material : GthreeMaterial) :
    (set_program_marked_material priv material).shader = material.shader := by
  unfold set_program_marked_material
  split_ifs <;> rfl

theorem set_program_update_material_logged (c : Collaborators) (priv : GthreeRendererPrivate)
    (material : GthreeMaterial) (object : GthreeObject) :
    (set_program_update_material c priv material object).priv.events
      = priv.events ++ set_program_init_events c priv material object := by
  unfold set_program_init_events
  rw [set_program_update_material_eq]
  by_cases hd : material_dirty priv material
  · rw [if_pos hd, if_pos hd]
    have he := init_material_events c { priv with used_texture_units := 0 }
      (set_program_marked_material priv material) object
    have hi := (init_material_spec c { priv with used_texture_units := 0 }
      (set_program_marked_material priv material) object).2.2.2.2.2.2.2.2.2.2
    rw [set_program_marked_material_shader] at he hi
    show (init_material c _ _ object).1.events = _
    rw [he]
    show priv.events ++ _ = priv.events ++ (_ :: (_ ++ [Event.shader_update_uniform_locations_for_program _
      (program_pointer (init_material c _ _ object).2.properties.program)]))
    rw [hi]
  · rw [if_neg hd, if_neg hd, List.append_nil]

theorem uniforms_lookup_ite_set_needs_update (uniforms : GthreeUniforms)
    (name name2 : UniformName) (needs_update : gboolean) (p : Prop) [Decidable p] :
    (gthree_uniforms_lookup
        (if p then uniforms_set_needs_update uniforms name needs_update else uniforms)
        name2).isSome
      = (gthree_uniforms_lookup uniforms name2).isSome := by
  split_ifs
  · exact uniforms_lookup_set_needs_update uniforms name name2 needs_update
  · rfl

/-- The events of `set_program` after its first block, in terms of the state `s1` after the
first block and of the flags after the camera block. -/
theorem set_program_later_events_eq (s1 : SetProgramState) (camera : Nat)
    (object : GthreeObject) :
    set_program_later_events s1 camera object
      = (if program_pointer s1.material.properties.program ≠ s1.priv.current_program then
          [Event.program_use (program_pointer s1.material.properties.program)]
        else [])
        ++ (if s1.priv.clipping_enabled ≠ 0
              ∧ (gthree_uniforms_lookup s1.material.shader.uniforms
                  UniformName.clippingPlanes).isSome then
            [Event.uniform_set_float4_array s1.material.shader.addr UniformName.clippingPlanes]
          else [])
        ++ (if (set_program_camera (set_program_bind s1) camera).refreshMaterial ≠ 0 then
            (if s1.material.needs_lights ≠ 0
                ∧ (set_program_camera (set_program_bind s1) camera).refreshLights ≠ 0 then
              [Event.uniforms_set_color s1.material.shader.addr UniformName.ambientLightColor,
               Event.uniforms_set_uarray s1.material.shader.addr UniformName.directionalLights
                  TRUE,
               Event.uniforms_set_uarray s1.material.shader.addr UniformName.pointLights TRUE]
            else [])
            ++ [Event.material_set_uniforms s1.material.addr s1.material.shader.addr camera,
                Event.uniforms_load s1.material.shader.addr]
          else if (gthree_uniforms_lookup s1.material.shader.uniforms
                UniformName.clippingPlanes).isSome then
            [Event.uniform_load s1.material.shader.addr UniformName.clippingPlanes]
          else [])
        ++ [Event.object_set_direct_uniforms object.addr
            (program_pointer s1.material.properties.program)] := by
  have h2 := set_program_bind_spec s1
  have h3 := set_program_camera_spec (set_program_bind s1) camera
  have h4 := set_program_skinning_spec (set_program_camera (set_program_bind s1) camera) object
  have h5 := set_program_clipping_spec
    (set_program_skinning (set_program_camera (set_program_bind s1) camera) object)
  unfold set_program_later_events
  dsimp only
  generalize set_program_bind s1 = s2 at *
  generalize set_program_camera s2 camera = s3 at *
  generalize set_program_skinning s3 object = s4 at *
  generalize set_program_clipping s4 = s5 at *
  obtain ⟨h2m, -, -, -, h2ce, -, -, -, -⟩ := h2
  obtain ⟨h3m, -, -, -, -, h3ce, -, -, -, -, -⟩ := h3
  obtain ⟨h4m, -, -, -, -, -, h4ce, -, -, h4fl, h4fm⟩ := h4
  obtain ⟨h5m, -, -, -, -, -, -, -, -, -, h5fl, h5fm⟩ := h5
  have hm4 : s4.material = s1.material := by rw [h4m, h3m, h2m]
  have hce4 : s4.priv.clipping_enabled = s1.priv.clipping_enabled := by
    rw [h4ce, h3ce, h2ce]
  rw [hm4] at h5m
  rw [h5fm, h5fl, h4fm, h4fl, h5m, hm4, hce4]
  dsimp only
  rw [uniforms_lookup_ite_set_needs_update]

/-- The flags and the uniform table at the end of `set_program`, in terms of the state
after the first block. -/
theorem set_program_final_uniforms (c : Collaborators) (priv : GthreeRendererPrivate)
    (camera : Nat) (material : GthreeMaterial) (object : GthreeObject) :
    (set_program c priv camera material object).refreshMaterial
        = (set_program_camera
            (set_program_bind (set_program_update_material c priv material object))
            camera).refreshMaterial
      ∧ (set_program c priv camera material object).refreshLights
        = (set_program_camera
            (set_program_bind (set_program_update_material c priv material object))
            camera).refreshLights
      ∧ (set_program c priv camera material object).material.shader.uniforms
        = (if (set_program c priv camera material object).refreshMaterial ≠ 0
              ∧ (set_program_update_material c priv material object).material.needs_lights
                ≠ 0 then
            mark_uniforms_lights_needs_update
              (if priv.clipping_enabled ≠ 0 then
                uniforms_set_needs_update
                  (set_program_update_material c priv material object).material.shader.uniforms
                  UniformName.clippingPlanes TRUE
              else
                (set_program_update_material c priv material object).material.shader.uniforms)
              (set_program c priv camera material object).refreshLights
          else if priv.clipping_enabled ≠ 0 then
            uniforms_set_needs_update
              (set_program_update_material c priv material object).material.shader.uniforms
              UniformName.clippingPlanes TRUE
          else (set_program_update_material c priv material object).material.shader.uniforms)
      := by
  have h1 := set_program_update_material_spec c priv material object
  have h2 := set_program_bind_spec (set_program_update_material c priv material object)
  have h3 := set_program_camera_spec
    (set_program_bind (set_program_update_material c priv material object)) camera
  have h4 := set_program_skinning_spec
    (set_program_camera
      (set_program_bind (set_program_update_material c priv material object)) camera) object
  have h5 := set_program_clipping_spec
    (set_program_skinning
      (set_program_camera
        (set_program_bind (set_program_update_material c priv material object)) camera) object)
  have h6 := set_program_refresh_spec
    (set_program_clipping
      (set_program_skinning
        (set_program_camera
          (set_program_bind (set_program_update_material c priv material object)) camera)
        object)) camera
  have hr : (set_program c priv camera material object).refreshMaterial
      = (set_program_refresh
          (set_program_clipping
            (set_program_skinning
              (set_program_camera
                (set_program_bind (set_program_update_material c priv material object)) camera)
              object)) camera).refreshMaterial := rfl
  have hl : (set_program c priv camera material object).refreshLights
      = (set_program_refresh
          (set_program_clipping
            (set_program_skinning
              (set_program_camera
                (set_program_bind (set_program_update_material c priv material object)) camera)
              object)) camera).refreshLights := rfl
  have hu : (set_program c priv camera material object).material
      = (set_program_refresh
          (set_program_clipping
            (set_program_skinning
              (set_program_camera
                (set_program_bind (set_program_update_material c priv material object)) camera)
              object)) camera).material := rfl
  rw [hr, hl, hu]
  generalize set_program_update_material c priv material object = s1 at *
  generalize set_program_bind s1 = s2 at *
  generalize set_program_camera s2 camera = s3 at *
  generalize set_program_skinning s3 object = s4 at *
  generalize set_program_clipping s4 = s5 at *
  generalize set_program_refresh s5 camera = s6 at *
  obtain ⟨-, -, -, -, -, -, -, -, h1ce, -⟩ := h1
  obtain ⟨h2m, -, -, -, h2ce, -, -, -, -⟩ := h2
  obtain ⟨h3m, -, -, -, -, h3ce, -, -, -, -, -⟩ := h3
  obtain ⟨h4m, -, -, -, -, -, h4ce, -, -, h4fl, h4fm⟩ := h4
  obtain ⟨h5m, -, -, -, -, -, -, -, -, -, h5fl, h5fm⟩ := h5
  obtain ⟨h6m, -, -, -, -, -, -, -, -, -, h6fl, h6fm⟩ := h6
  have hm4 : s4.material = s1.material := by rw [h4m, h3m, h2m]
  have hce4 : s4.priv.clipping_enabled = priv.clipping_enabled := by
    rw [h4ce, h3ce, h2ce, h1ce]
  rw [hm4, hce4] at h5m
  refine ⟨by rw [h6fm, h5fm, h4fm], by rw [h6fl, h5fl, h4fl], ?_⟩
  rw [h6m, h5m, h6fm, h6fl]

/-- All events of `set_program`: those of its first block, then the later ones. -/
theorem set_program_logged (c : Collaborators) (priv : GthreeRendererPrivate) (camera : Nat)
    (material : GthreeMaterial) (object : GthreeObject) :
    logged priv (set_program c priv camera material object).priv
      = set_program_init_events c priv material object
        ++ set_program_later_events (set_program_update_material c priv material object)
            camera object := by
  apply logged_of_events
  rw [set_program_events, set_program_update_material_logged, List.append_assoc]

/-- C30 (counterexample): a material that is dirty on entry (`needs_update` set), drawn
while its program, the material itself and the camera are the current ones and the frame has
a light: `set_program` computes `refreshMaterial = false`, yet `init_material` copies the
light setup into the light uniforms of the material (`directionalLights` and `pointLights`
are set with `update_only = FALSE`). -/
theorem light_setup_copied_without_refresh_material :
    (set_program
        { set_params := fun _ p => p, program_cache_get := fun _ _ _ => some { addr := 7 } }
        { lights := [5], light_setup := { directional := [5], hash := { num_directional := 1 } },
          current_program := 7, current_material := 3, current_camera := 1 }
        1 { addr := 3, shader := { addr := 4 } } {}).refreshMaterial = FALSE
      ∧ Event.uniforms_set_uarray 4 UniformName.directionalLights FALSE
        ∈ logged
          { lights := [5],
            light_setup := { directional := [5], hash := { num_directional := 1 } },
            current_program := 7, current_material := 3, current_camera := 1 }
          (set_program
            { set_params := fun _ p => p, program_cache_get := fun _ _ _ => some { addr := 7 } }
            { lights := [5],
              light_setup := { directional := [5], hash := { num_directional := 1 } },
              current_program := 7, current_material := 3, current_camera := 1 }
            1 { addr := 3, shader := { addr := 4 } } {}).priv := by
  decide

/-- C30 (amended): for every draw in which `set_program` computes `refreshMaterial = false`,
the calls it makes are, in this order: those of `init_material` when the material was dirty
on entry (this is the only place where the light setup is copied into the light uniforms,
and it happens only when the frame has lights), then, while clipping is enabled and the
uniform table of the material has a `clippingPlanes` entry, the store of the clipping state
into it, then the load of that one uniform if the table has it, then
`gthree_object_set_direct_uniforms`. So `gthree_material_set_uniforms` is not invoked, no
light uniform is marked, and there is no bulk `gthree_uniforms_load`; the uniform table is
left as the first block left it except for the update mark on `clippingPlanes` while
clipping is enabled. On every draw, whatever `refreshMaterial` is, with clipping enabled
and a `clippingPlanes` entry in the table the clipping state is stored into the entry and
the entry is loaded: by the bulk load when `refreshMaterial` is true, by its own load
otherwise. -/
theorem refresh_skipped_without_refresh_material (c : Collaborators)
    (priv : GthreeRendererPrivate) (camera : Nat) (material : GthreeMaterial)
    (object : GthreeObject) :
    ((set_program c priv camera material object).refreshMaterial = FALSE →
        logged priv (set_program c priv camera material object).priv
          = set_program_init_events c priv material object
            ++ (if priv.clipping_enabled ≠ 0
                  ∧ (gthree_uniforms_lookup
                      (set_program_update_material c priv material object).material.shader.uniforms
                      UniformName.clippingPlanes).isSome then
                [Event.uniform_set_float4_array
                  (set_program_update_material c priv material object).material.shader.addr
                  UniformName.clippingPlanes]
              else [])
            ++ (if (gthree_uniforms_lookup
                  (set_program_update_material c priv material object).material.shader.uniforms
                  UniformName.clippingPlanes).isSome then
                [Event.uniform_load
                  (set_program_update_material c priv material object).material.shader.addr
                  UniformName.clippingPlanes]
              else [])
            ++ [Event.object_set_direct_uniforms object.addr
                (program_pointer
                  (set_program_update_material c priv material object
                    ).material.properties.program)]
          ∧ (set_program c priv camera material object).material.shader.uniforms
            = (if priv.clipping_enabled ≠ 0 then
                uniforms_set_needs_update
                  (set_program_update_material c priv material object).material.shader.uniforms
                  UniformName.clippingPlanes TRUE
              else
                (set_program_update_material c priv material object).material.shader.uniforms))
      ∧ (¬ material_dirty priv material → set_program_init_events c priv material object = [])
      ∧ (priv.clipping_enabled ≠ 0 →
          (gthree_uniforms_lookup
            (set_program_update_material c priv material object).material.shader.uniforms
            UniformName.clippingPlanes).isSome = true →
          Event.uniform_set_float4_array
              (set_program_update_material c priv material object).material.shader.addr
              UniformName.clippingPlanes
            ∈ logged priv (set_program c priv camera material object).priv
          ∧ (if (set_program c priv camera material object).refreshMaterial ≠ 0 then
              Event.uniforms_load
                  (set_program_update_material c priv material object).material.shader.addr
                ∈ logged priv (set_program c priv camera material object).priv
            else
              Event.uniform_load
                  (set_program_update_material c priv material object).material.shader.addr
                  UniformName.clippingPlanes
                ∈ logged priv (set_program c priv camera material object).priv)) := by
  have hlog := set_program_logged c priv camera material object
  rw [set_program_later_events_eq] at hlog
  obtain ⟨hfm, hfl, hu⟩ := set_program_final_uniforms c priv camera material object
  obtain ⟨hfp, -, hfm2, -⟩ := set_program_refresh_flags c priv camera material object
  have hce := (set_program_update_material_spec c priv material object).2.2.2.2.2.2.2.2.1
  have hcp := (set_program_update_material_spec c priv material object).2.2.2.1
  have hprops := (set_program_spec c priv camera material object).1
  rw [← hfm, ← hfl, hce, hcp] at hlog
  refine ⟨?_, ?_, ?_⟩
  · intro h
    have h0 : ¬ (set_program c priv camera material object).refreshMaterial ≠ 0 :=
      fun hne => hne h
    have hand : ¬ ((set_program c priv camera material object).refreshMaterial ≠ 0
        ∧ (set_program_update_material c priv material object).material.needs_lights ≠ 0) :=
      fun hne => h0 hne.1
    have hprog : ¬ program_pointer
        (set_program_update_material c priv material object).material.properties.program
        ≠ priv.current_program := by
      intro hne
      rw [hfm2] at h
      unfold SetProgramState.program at h
      rw [hprops] at h
      unfold c_bool at h
      rw [if_pos (Or.inl (Or.inl hne))] at h
      exact absurd h (by decide)
    rw [if_neg hprog, if_neg h0] at hlog
    rw [if_neg hand] at hu
    refine ⟨?_, hu⟩
    rw [hlog]
    simp only [List.nil_append, List.append_assoc]
  · intro hd
    unfold set_program_init_events
    rw [if_neg hd]
  · intro hc hsome
    rw [hlog, if_pos (And.intro hc hsome)]
    constructor
    · simp only [List.mem_append, List.mem_singleton, true_or, or_true]
    · by_cases hrm : (set_program c priv camera material object).refreshMaterial ≠ 0
      · rw [if_pos hrm, if_pos hrm]
        simp only [List.mem_append, List.mem_cons, List.mem_singleton, true_or, or_true]
      · rw [if_neg hrm, if_neg hrm, if_pos hsome]
        simp only [List.mem_append, List.mem_singleton, true_or, or_true]

/-- C30 (witness): a clean material drawn again with the same program, material and camera
while clipping is enabled: `refreshMaterial` is false, and the only calls are the store of
the clipping state into `clippingPlanes`, the load of that uniform and
`gthree_object_set_direct_uniforms`. -/
theorem refresh_skipped_without_refresh_material_witness :
    (set_program
        { set_params := fun _ p => p, program_cache_get := fun _ _ _ => some { addr := 7 } }
        { clipping_enabled := TRUE, light_setup := { hash := { num_point := -1 } },
          current_program := 7, current_material := 3, current_camera := 1 }
        1
        { addr := 3, needs_update := FALSE,
          shader := { addr := 4, uniforms := [{ name := UniformName.clippingPlanes }] },
          properties := { program := some { addr := 7 } } }
        {}).refreshMaterial = FALSE
      ∧ logged
          { clipping_enabled := TRUE, light_setup := { hash := { num_point := -1 } },
            current_program := 7, current_material := 3, current_camera := 1 }
          (set_program
            { set_params := fun _ p => p, program_cache_get := fun _ _ _ => some { addr := 7 } }
            { clipping_enabled := TRUE, light_setup := { hash := { num_point := -1 } },
              current_program := 7, current_material := 3, current_camera := 1 }
            1
            { addr := 3, needs_update := FALSE,
              shader := { addr := 4, uniforms := [{ name := UniformName.clippingPlanes }] },
              properties := { program := some { addr := 7 } } }
            {}).priv
        = [Event.uniform_set_float4_array 4 UniformName.clippingPlanes,
           Event.uniform_load 4 UniformName.clippingPlanes,
           Event.object_set_direct_uniforms 0 7] :=
  ⟨by decide,
    ((refresh_skipped_without_refresh_material
      { set_params := fun _ p => p, program_cache_get := fun _ _ _ => some { addr := 7 } }
      { clipping_enabled := TRUE, light_setup := { hash := { num_point := -1 } },
        current_program := 7, current_material := 3, current_camera := 1 }
      1
      { addr := 3, needs_update := FALSE,
        shader := { addr := 4, uniforms := [{ name := UniformName.clippingPlanes }] },
        properties := { program := some { addr := 7 } } }
      {}).1 (by decide)).1.trans (by decide)⟩

/-! ## Mesh phong material: the "reflectivity" property -/

/-- C25 (evaluation of the code): on a freshly created phong material (reflectivity 1.0,
refraction ratio 0.98), setting the property "reflectivity" to 0.5 and reading it back gives
1.0, and the property "refraction-ratio" now reads 0.5: the `PROP_REFLECTIVITY` case of
`gthree_mesh_phong_material_set_property` calls the refraction-ratio setter. The setter
`gthree_mesh_phong_material_set_reflectivity` itself stores the reflectivity. -/
theorem reflectivity_property_sets_refraction_ratio :
    gthree_mesh_phong_material_get_property
        (gthree_mesh_phong_material_set_property {} PROP_REFLECTIVITY (GValue.float 50))
        PROP_REFLECTIVITY = some (GValue.float 100)
      ∧ gthree_mesh_phong_material_get_property
        (gthree_mesh_phong_material_set_property {} PROP_REFLECTIVITY (GValue.float 50))
        PROP_REFRACTION_RATIO = some (GValue.float 50)
      ∧ gthree_mesh_phong_material_get_property {} PROP_REFRACTION_RATIO
        = some (GValue.float 98)
      ∧ gthree_mesh_phong_material_get_property
        (gthree_mesh_phong_material_set_reflectivity {} 50) PROP_REFLECTIVITY
        = some (GValue.float 50) := by
  decide

/-! ## Vertex attribute rebinding in `render_item` -/

theorem same_triple_refl (a : GthreeRendererPrivate) : same_triple a a := ⟨rfl, rfl, rfl⟩

theorem same_triple_trans {a b c : GthreeRendererPrivate} (h1 : same_triple a b)
    (h2 : same_triple b c) : same_triple a c :=
  ⟨h2.1.trans h1.1, h2.2.1.trans h1.2.1, h2.2.2.trans h1.2.2⟩

theorem set_program_bind_triple (s : SetProgramState) :
    same_triple s.priv (set_program_bind s).priv := by
  unfold set_program_bind
  dsimp only
  split_ifs <;> exact ⟨rfl, rfl, rfl⟩

theorem set_program_camera_triple (s : SetProgramState) (camera : Nat) :
    same_triple s.priv (set_program_camera s camera).priv := by
  unfold set_program_camera
  dsimp only
  split_ifs <;> exact ⟨rfl, rfl, rfl⟩

theorem set_program_skinning_triple (s : SetProgramState) (object : GthreeObject) :
    same_triple s.priv (set_program_skinning s object).priv := by
  unfold set_program_skinning
  cases object.skinned_mesh with
  | none => dsimp only; split_ifs <;> exact ⟨rfl, rfl, rfl⟩
  | some skinned =>
    obtain ⟨skeleton, hb, hib⟩ := skinned
    cases skeleton with
    | none => dsimp only; split_ifs <;> exact ⟨rfl, rfl, rfl⟩
    | some skeleton => dsimp only; split_ifs <;> exact ⟨rfl, rfl, rfl⟩

theorem set_program_clipping_triple (s : SetProgramState) :
    same_triple s.priv (set_program_clipping s).priv := by
  unfold set_program_clipping
  cases gthree_uniforms_lookup s.material.shader.uniforms UniformName.clippingPlanes with
  | none => dsimp only; split_ifs <;> exact ⟨rfl, rfl, rfl⟩
  | some u => dsimp only; split_ifs <;> exact ⟨rfl, rfl, rfl⟩

theorem set_program_refresh_triple (s : SetProgramState) (camera : Nat) :
    same_triple s.priv (set_program_refresh s camera).priv := by
  unfold set_program_refresh
  dsimp only
  cases gthree_uniforms_lookup s.material.shader.uniforms UniformName.clippingPlanes with
  | none => dsimp only; split_ifs <;> exact ⟨rfl, rfl, rfl⟩
  | some u => dsimp only; split_ifs <;> exact ⟨rfl, rfl, rfl⟩

theorem init_material_triple (c : Collaborators) (priv : GthreeRendererPrivate)
    (material : GthreeMaterial) (object : GthreeObject) :
    same_triple priv (init_material c priv material object).1 := by
  unfold init_material
  dsimp only
  split_ifs <;> exact ⟨rfl, rfl, rfl⟩

theorem set_program_update_material_triple (c : Collaborators) (priv : GthreeRendererPrivate)
    (material : GthreeMaterial) (object : GthreeObject) :
    same_triple priv (set_program_update_material c priv material object).priv := by
  rw [set_program_update_material_eq]
  split_ifs
  · exact init_material_triple c { priv with used_texture_units := 0 } _ object
  · exact ⟨rfl, rfl, rfl⟩

theorem set_program_triple (c : Collaborators) (priv : GthreeRendererPrivate) (camera : Nat)
    (material : GthreeMaterial) (object : GthreeObject) :
    same_triple priv (set_program c priv camera material object).priv := by
  have h := same_triple_trans
    (same_triple_trans
      (same_triple_trans
        (same_triple_trans
          (same_triple_trans (set_program_update_material_triple c priv material object)
            (set_program_bind_triple _))
          (set_program_camera_triple _ camera))
        (set_program_skinning_triple _ object))
      (set_program_clipping_triple _))
    (set_program_refresh_triple _ camera)
  exact h

theorem init_material_morph_support_is_mesh (program : Option GthreeProgram)
    (kind : GthreeMaterialKind) :
    (∃ m, init_material_morph_support program kind = GthreeMaterialKind.mesh_material m)
      ↔ ∃ m, kind = GthreeMaterialKind.mesh_material m := by
  unfold init_material_morph_support
  cases kind with
  | mesh_material m => exact ⟨fun _ => ⟨m, rfl⟩, fun _ => ⟨_, rfl⟩⟩
  | line_basic_material w => exact Iff.rfl
  | shader_material => exact Iff.rfl
  | other_material => exact Iff.rfl

theorem mesh_material_isSome_iff (material : GthreeMaterial) :
    material.mesh_material.isSome = true
      ↔ ∃ m, material.kind = GthreeMaterialKind.mesh_material m := by
  unfold GthreeMaterial.mesh_material
  cases material.kind with
  | mesh_material m => exact ⟨fun _ => ⟨m, rfl⟩, fun _ => rfl⟩
  | line_basic_material w =>
    exact ⟨fun h => absurd h Bool.false_ne_true, fun ⟨m, h⟩ => by cases h⟩
  | shader_material =>
    exact ⟨fun h => absurd h Bool.false_ne_true, fun ⟨m, h⟩ => by cases h⟩
  | other_material =>
    exact ⟨fun h => absurd h Bool.false_ne_true, fun ⟨m, h⟩ => by cases h⟩

/-- The class of the material is the same after `set_program`: it is a mesh material
exactly when it was one. -/
theorem set_program_is_mesh_material (c : Collaborators) (priv : GthreeRendererPrivate)
    (camera : Nat) (material : GthreeMaterial) (object : GthreeObject) :
    (set_program c priv camera material object).material.mesh_material.isSome
      = material.mesh_material.isSome := by
  have h5 := (set_program_clipping_spec
    (set_program_skinning
      (set_program_camera
        (set_program_bind (set_program_update_material c priv material object)) camera)
      object)).1
  have h6 := (set_program_refresh_spec
    (set_program_clipping
      (set_program_skinning
        (set_program_camera
          (set_program_bind (set_program_update_material c priv material object)) camera)
        object)) camera).1
  have h4 := (set_program_skinning_spec
    (set_program_camera
      (set_program_bind (set_program_update_material c priv material object)) camera)
    object).1
  have h3 := (set_program_camera_spec
    (set_program_bind (set_program_update_material c priv material object)) camera).1
  have h2 := (set_program_bind_spec (set_program_update_material c priv material object)).1
  have hk : (set_program c priv camera material object).material.kind
      = (set_program_update_material c priv material object).material.kind := by
    show (set_program_refresh _ camera).material.kind = _
    rw [h6]
    show (set_program_clipping _).material.kind = _
    rw [h5]
    show (set_program_skinning _ object).material.kind = _
    rw [h4, h3, h2]
  have hk1 : (∃ m, (set_program_update_material c priv material object).material.kind
      = GthreeMaterialKind.mesh_material m)
      ↔ ∃ m, material.kind = GthreeMaterialKind.mesh_material m := by
    rw [set_program_update_material_eq]
    have hmk : (set_program_marked_material priv material).kind = material.kind := by
      unfold set_program_marked_material
      split_ifs <;> rfl
    split_ifs
    · show (∃ m, (init_material c _ _ object).2.kind = _) ↔ _
      unfold init_material
      dsimp only
      rw [hmk]
      exact init_material_morph_support_is_mesh _ _
    · exact Iff.rfl
  rw [Bool.eq_iff_iff, mesh_material_isSome_iff, mesh_material_isSome_iff, hk]
  exact hk1

theorem render_item_morph_isSome (object : GthreeObject) (material1 material2 : GthreeMaterial)
    (h : material1.mesh_material.isSome = material2.mesh_material.isSome) :
    (render_item_morph object material1).isSome = (render_item_morph object material2).isSome := by
  unfold render_item_morph
  cases object.kind with
  | mesh m =>
    dsimp only
    split_ifs
    · cases h1 : material1.mesh_material <;> cases h2 : material2.mesh_material <;>
        rw [h1, h2] at h <;>
        (first | rfl | exact absurd h Bool.false_ne_true | exact absurd h.symm Bool.false_ne_true)
    · rfl
  | group => rfl
  | light => rfl
  | line_segments => rfl
  | sprite => rfl
  | other_object => rfl

theorem update_morphtargets_events (priv : GthreeRendererPrivate) (w : List gfloat)
    (geometry : GthreeGeometry) (material : GthreeMeshMaterial)
    (program : Option GthreeProgram) :
    (update_morphtargets priv w geometry material program).1.events
        = priv.events
          ++ (if gthree_program_lookup_uniform_location program
                UniformName.morphTargetInfluences0 ≥ 0 then []
              else [Event.g_warning GWarning.no_morph_target_influences_uniform])
      ∧ same_triple priv (update_morphtargets priv w geometry material program).1
      ∧ (update_morphtargets priv w geometry material program).2.addr = geometry.addr := by
  have haddr_slot : ∀ mt mn infl len g i,
      (update_morphtargets_slot mt mn infl len g i).1.addr = g.addr := by
    intro mt mn infl len g i
    unfold update_morphtargets_slot gthree_geometry_add_attribute
    dsimp only
    split_ifs <;> rfl
  have haddr_add : ∀ mt mn infl len (slots : List Nat) (g : GthreeGeometry) (acc : List gfloat),
      (slots.foldl
        (fun (acc : GthreeGeometry × List gfloat) i =>
          let r := update_morphtargets_slot mt mn infl len acc.1 i
          (r.1, acc.2 ++ [r.2]))
        (g, acc)).1.addr = g.addr := by
    intro mt mn infl len slots
    induction slots with
    | nil => intro g acc; rfl
    | cons i rest ih =>
      intro g acc
      rw [List.foldl_cons]
      dsimp only
      rw [ih, haddr_slot]
  have haddr_rem : ∀ (mt mn : Option (List Nat)) (infl : List InfluenceInfo)
      (slots : List Nat) (g : GthreeGeometry),
      (slots.foldl
        (fun g i =>
          if (influence_at infl i).value ≠ 0 then
            let g1 :=
              if Option.isSome mt then
                gthree_geometry_remove_attribute g (AttributeName.morphTarget i)
              else g
            if Option.isSome mn then
              gthree_geometry_remove_attribute g1 (AttributeName.morphNormal i)
            else g1
          else g)
        g).addr = g.addr := by
    intro mt mn infl slots
    induction slots with
    | nil => intro g; rfl
    | cons i rest ih =>
      intro g
      rw [List.foldl_cons, ih]
      unfold gthree_geometry_remove_attribute
      dsimp only
      split_ifs <;> rfl
  unfold update_morphtargets
  dsimp only
  by_cases hloc : gthree_program_lookup_uniform_location program
      UniformName.morphTargetInfluences0 ≥ 0
  · rw [if_pos hloc, if_pos hloc]
    refine ⟨(List.append_nil _).symm, ⟨rfl, rfl, rfl⟩, ?_⟩
    show (update_morphtargets_add _ _ _ _ _).1.addr = _
    unfold update_morphtargets_add update_morphtargets_remove
    rw [haddr_add, haddr_rem]
  · rw [if_neg hloc, if_neg hloc]
    refine ⟨rfl, ⟨rfl, rfl, rfl⟩, ?_⟩
    show (update_morphtargets_add _ _ _ _ _).1.addr = _
    unfold update_morphtargets_add update_morphtargets_remove
    rw [haddr_add, haddr_rem]

theorem set_line_width_events (priv : GthreeRendererPrivate) (line_width : float) :
    (set_line_width priv line_width).events = priv.events
      ∧ same_triple priv (set_line_width priv line_width) := by
  unfold set_line_width
  split_ifs <;> exact ⟨rfl, rfl, rfl, rfl⟩

theorem render_item_draw_events (priv : GthreeRendererPrivate) (object : GthreeObject)
    (material : GthreeMaterial) (geometry : GthreeGeometry)
    (group : Option GthreeGeometryGroup) (wireframe : gboolean)
    (index position : Option GthreeAttribute) :
    (render_item_draw priv object material geometry group wireframe index position).events
        = priv.events
      ∧ same_triple priv
        (render_item_draw priv object material geometry group wireframe index position) := by
  have hlw := set_line_width_events priv
  unfold render_item_draw
  dsimp only
  cases index <;> cases object.kind <;> dsimp only <;> split_ifs <;>
    first | exact ⟨rfl, rfl, rfl, rfl⟩ | exact hlw _

theorem set_program_events_no_setup (c : Collaborators) (priv : GthreeRendererPrivate)
    (camera : Nat) (material : GthreeMaterial) (object : GthreeObject) :
    ∃ es, (set_program c priv camera material object).priv.events = priv.events ++ es
      ∧ es.countP Event.is_setup_vertex_attributes = 0 := by
  refine ⟨set_program_init_events c priv material object
    ++ set_program_later_events (set_program_update_material c priv material object) camera
        object, ?_, ?_⟩
  · rw [set_program_events, set_program_update_material_logged, List.append_assoc]
  · rw [List.countP_append]
    have h1 : (set_program_init_events c priv material object).countP
        Event.is_setup_vertex_attributes = 0 := by
      unfold set_program_init_events
      split_ifs <;> rfl
    have h2 : (set_program_later_events (set_program_update_material c priv material object)
        camera object).countP Event.is_setup_vertex_attributes = 0 := by
      unfold set_program_later_events
      dsimp only
      simp only [List.countP_append]
      split_ifs <;> rfl
    rw [h1, h2]

theorem render_item_cache_triple_events (priv : GthreeRendererPrivate)
    (geometry : GthreeGeometry) (program : Option GthreeProgram) (wireframe : gboolean) :
    (render_item_cache_triple priv geometry program wireframe).events = priv.events := by
  unfold render_item_cache_triple
  split_ifs <;> rfl

theorem render_item_update_morphtargets_events (priv : GthreeRendererPrivate)
    (object : GthreeObject) (material : GthreeMaterial) (geometry : GthreeGeometry)
    (program : Option GthreeProgram) :
    (∃ es, (render_item_update_morphtargets priv object material geometry program).1.events
        = priv.events ++ es ∧ es.countP Event.is_setup_vertex_attributes = 0)
      ∧ same_triple priv (render_item_update_morphtargets priv object material geometry program).1
      ∧ (render_item_update_morphtargets priv object material geometry program).2.addr
        = geometry.addr := by
  unfold render_item_update_morphtargets
  cases render_item_morph object material with
  | none => exact ⟨⟨[], (List.append_nil _).symm, rfl⟩, ⟨rfl, rfl, rfl⟩, rfl⟩
  | some pm =>
    obtain ⟨he, ht, ha⟩ := update_morphtargets_events priv pm.1 geometry pm.2 program
    refine ⟨⟨_, he, ?_⟩, ht, ha⟩
    split_ifs <;> rfl

theorem render_item_setup_events (priv : GthreeRendererPrivate) (material : GthreeMaterial)
    (program : Option GthreeProgram) (geometry : GthreeGeometry)
    (index : Option GthreeAttribute) (wireframe : gboolean) (update_buffers : Bool) :
    (render_item_setup priv material program geometry index wireframe update_buffers).events
      = priv.events
        ++ (if wireframe ≠ 0 then [Event.attribute_update (attribute_pointer index)] else [])
        ++ (if update_buffers then
            [Event.setup_vertex_attributes material.addr (program_pointer program)
              geometry.addr]
          else []) := by
  unfold render_item_setup
  cases index <;> cases update_buffers <;> dsimp only <;> split_ifs <;>
    simp only [emit_events, gl_events, List.append_nil, Bool.false_eq_true, if_false, if_true]

/-- The events of `render_item` for a visible material: those of `set_program`, then those
of `update_morphtargets` when it runs and the update of the wireframe index, then the call
of `setup_vertex_attributes` when the triple differs or the morph targets were updated. -/
theorem render_item_events (c : Collaborators) (priv : GthreeRendererPrivate) (camera : Nat)
    (material : GthreeMaterial) (object : GthreeObject) (geometry : GthreeGeometry)
    (group : Option GthreeGeometryGroup) (hv : material.visible ≠ 0) :
    ∃ es, (render_item c priv camera material object geometry group).priv.events
        = priv.events ++ es
          ++ (if render_item_update_buffers priv object material geometry
                (set_program c priv camera material object).program
                (render_item_wireframe material) then
              [Event.setup_vertex_attributes material.addr
                (program_pointer (set_program c priv camera material object).program)
                geometry.addr]
            else [])
      ∧ es.countP Event.is_setup_vertex_attributes = 0 := by
  obtain ⟨es1, hes1, hc1⟩ := set_program_events_no_setup c priv camera material object
  obtain ⟨ht1, ht2, ht3⟩ := set_program_triple c priv camera material object
  have haddr := (set_program_spec c priv camera material object).2.1
  have hmorph := render_item_morph_isSome object _ _
    (set_program_is_mesh_material c priv camera material object)
  have hub : render_item_update_buffers (set_program c priv camera material object).priv object
      (set_program c priv camera material object).material geometry
      (set_program c priv camera material object).program (render_item_wireframe material)
      = render_item_update_buffers priv object material geometry
        (set_program c priv camera material object).program (render_item_wireframe material) := by
    unfold render_item_update_buffers
    rw [hmorph]
    congr 1
    rw [decide_eq_decide]
    unfold render_item_triple_differs
    rw [ht1, ht2, ht3]
  unfold render_item
  rw [if_neg hv]
  dsimp only
  rw [(render_item_draw_events _ _ _ _ _ _ _ _).1, render_item_setup_events, hub, haddr]
  obtain ⟨⟨es2, hes2, hc2⟩, -, ha2⟩ := render_item_update_morphtargets_events
    (render_item_cache_triple (set_program c priv camera material object).priv geometry
      (set_program c priv camera material object).program (render_item_wireframe material))
    object (set_program c priv camera material object).material geometry
    (set_program c priv camera material object).program
  rw [hes2, ha2, render_item_cache_triple_events, hes1]
  refine ⟨es1 ++ es2 ++ (if render_item_wireframe material ≠ 0 then
    [Event.attribute_update (attribute_pointer
      (if render_item_wireframe material ≠ 0 then
        (render_item_update_morphtargets
          (render_item_cache_triple (set_program c priv camera material object).priv geometry
            (set_program c priv camera material object).program (render_item_wireframe material))
          object (set_program c priv camera material object).material geometry
          (set_program c priv camera material object).program).2.wireframe_index
      else
        (render_item_update_morphtargets
          (render_item_cache_triple (set_program c priv camera material object).priv geometry
            (set_program c priv camera material object).program (render_item_wireframe material))
          object (set_program c priv camera material object).material geometry
          (set_program c priv camera material object).program).2.index))]
    else []), ?_, ?_⟩
  · simp only [List.append_assoc]
  · rw [List.countP_append, List.countP_append, hc1, hc2]
    split_ifs <;> rfl

theorem render_item_setup_triple (priv : GthreeRendererPrivate) (material : GthreeMaterial)
    (program : Option GthreeProgram) (geometry : GthreeGeometry)
    (index : Option GthreeAttribute) (wireframe : gboolean) (update_buffers : Bool) :
    same_triple priv
      (render_item_setup priv material program geometry index wireframe update_buffers) := by
  unfold render_item_setup
  cases index <;> cases update_buffers <;> dsimp only <;> split_ifs <;>
    exact ⟨rfl, rfl, rfl⟩

theorem render_item_cache_triple_spec (priv : GthreeRendererPrivate)
    (geometry : GthreeGeometry) (program : Option GthreeProgram) (wireframe : gboolean) :
    (render_item_cache_triple priv geometry program wireframe).current_geometry_program_geometry
        = geometry.addr
      ∧ (render_item_cache_triple priv geometry program
          wireframe).current_geometry_program_program = program_pointer program
      ∧ (render_item_cache_triple priv geometry program
          wireframe).current_geometry_program_wireframe = wireframe := by
  unfold render_item_cache_triple
  by_cases h : render_item_triple_differs priv geometry program wireframe
  · rw [if_pos h]
    exact ⟨rfl, rfl, rfl⟩
  · rw [if_neg h]
    unfold render_item_triple_differs at h
    have h1 : geometry.addr = priv.current_geometry_program_geometry :=
      not_not.mp (fun hne => h (Or.inl hne))
    have h2 : program_pointer program = priv.current_geometry_program_program :=
      not_not.mp (fun hne => h (Or.inr (Or.inl hne)))
    have h3 : wireframe = priv.current_geometry_program_wireframe :=
      not_not.mp (fun hne => h (Or.inr (Or.inr hne)))
    exact ⟨h1.symm, h2.symm, h3.symm⟩

/-- C27 (counterexample): a mesh with morph targets drawn with a mesh material while the
cached triple equals the geometry, program and wireframe flag of the draw:
`setup_vertex_attributes` is invoked all the same. -/
theorem morph_targets_force_rebinding :
    ¬ render_item_triple_differs
        { current_geometry_program_geometry := 9, current_geometry_program_program := 7,
          current_geometry_program_wireframe := FALSE }
        { addr := 9, position := some { count := 3 },
          morph_attributes_position := some [100] }
        (some { addr := 7 })
        (render_item_wireframe
          { addr := 3,
            kind := GthreeMaterialKind.mesh_material { morph_targets := TRUE } })
      ∧ (set_program
          { set_params := fun _ p => p, program_cache_get := fun _ _ _ => some { addr := 7 } }
          { current_geometry_program_geometry := 9, current_geometry_program_program := 7,
            current_geometry_program_wireframe := FALSE }
          1
          { addr := 3, kind := GthreeMaterialKind.mesh_material { morph_targets := TRUE } }
          { kind := GthreeObjectKind.mesh { has_morph_targets := TRUE, morph_targets := [5] } }
          ).program = some { addr := 7 }
      ∧ setup_vertex_attributes_calls
          { current_geometry_program_geometry := 9, current_geometry_program_program := 7,
            current_geometry_program_wireframe := FALSE }
          (render_item
            { set_params := fun _ p => p, program_cache_get := fun _ _ _ => some { addr := 7 } }
            { current_geometry_program_geometry := 9, current_geometry_program_program := 7,
              current_geometry_program_wireframe := FALSE }
            1
            { addr := 3, kind := GthreeMaterialKind.mesh_material { morph_targets := TRUE } }
            { kind := GthreeObjectKind.mesh { has_morph_targets := TRUE, morph_targets := [5] } }
            { addr := 9, position := some { count := 3 },
              morph_attributes_position := some [100] }
            none).priv = 1 := by
  decide

/-- C27 (amended): `render_item` invokes `setup_vertex_attributes` exactly once when the
material is visible and either the (geometry, program, wireframe) triple of the draw differs
from the triple cached from the previous draw or the object is a mesh with morph targets
drawn with a mesh material (`update_morphtargets` has just rebound its morph attributes);
in every other case it is not invoked. After a draw with a visible material the cached
triple is the triple of that draw; an invisible material leaves the renderer state as it
was. -/
theorem rebinding_iff_triple_differs_or_morph (c : Collaborators)
    (priv : GthreeRendererPrivate) (camera : Nat) (material : GthreeMaterial)
    (object : GthreeObject) (geometry : GthreeGeometry)
    (group : Option GthreeGeometryGroup) :
    setup_vertex_attributes_calls priv
        (render_item c priv camera material object geometry group).priv
        = (if material.visible ≠ 0
              ∧ (render_item_triple_differs priv geometry
                    (set_program c priv camera material object).program
                    (render_item_wireframe material)
                  ∨ (render_item_morph object material).isSome = true) then 1
           else 0)
      ∧ (if material.visible ≠ 0 then
          (render_item c priv camera material object geometry
              group).priv.current_geometry_program_geometry = geometry.addr
            ∧ (render_item c priv camera material object geometry
              group).priv.current_geometry_program_program
              = program_pointer (set_program c priv camera material object).program
            ∧ (render_item c priv camera material object geometry
              group).priv.current_geometry_program_wireframe = render_item_wireframe material
        else (render_item c priv camera material object geometry group).priv = priv) := by
  by_cases hv : material.visible ≠ 0
  · rw [if_pos hv]
    constructor
    · obtain ⟨es, hes, hc⟩ := render_item_events c priv camera material object geometry group hv
      rw [List.append_assoc] at hes
      unfold setup_vertex_attributes_calls
      rw [logged_of_events _ _ _ hes, List.countP_append, hc, Nat.zero_add]
      have hiff : render_item_update_buffers priv object material geometry
          (set_program c priv camera material object).program (render_item_wireframe material)
          = true
          ↔ (render_item_triple_differs priv geometry
                (set_program c priv camera material object).program
                (render_item_wireframe material)
              ∨ (render_item_morph object material).isSome = true) := by
        unfold render_item_update_buffers
        rw [Bool.or_eq_true, decide_eq_true_eq]
      by_cases hp : render_item_triple_differs priv geometry
            (set_program c priv camera material object).program
            (render_item_wireframe material)
          ∨ (render_item_morph object material).isSome = true
      · rw [if_pos (hiff.mpr hp), if_pos (And.intro hv hp)]
        rfl
      · rw [if_neg (fun h => hp (hiff.mp h)), if_neg (fun h => hp h.2)]
        rfl
    · have key : ∀ (p q : GthreeRendererPrivate) (g pr : Nat) (w : gboolean),
          same_triple p q →
          (p.current_geometry_program_geometry = g ∧ p.current_geometry_program_program = pr
            ∧ p.current_geometry_program_wireframe = w) →
          (q.current_geometry_program_geometry = g ∧ q.current_geometry_program_program = pr
            ∧ q.current_geometry_program_wireframe = w) :=
        fun p q g pr w h hp => ⟨h.1.trans hp.1, h.2.1.trans hp.2.1, h.2.2.trans hp.2.2⟩
      unfold render_item
      rw [if_neg hv]
      dsimp only
      refine key _ _ _ _ _ (render_item_draw_events _ _ _ _ _ _ _ _).2 ?_
      refine key _ _ _ _ _ (render_item_setup_triple _ _ _ _ _ _ _) ?_
      refine key _ _ _ _ _ (render_item_update_morphtargets_events _ _ _ _ _).2.1 ?_
      exact render_item_cache_triple_spec _ _ _ _
  · rw [if_neg hv, if_neg (fun h => hv h.1)]
    have h0 : material.visible = 0 := not_not.mp hv
    unfold render_item
    rw [if_pos h0]
    refine ⟨?_, rfl⟩
    unfold setup_vertex_attributes_calls logged
    show (List.drop priv.events.length priv.events).countP _ = 0
    rw [List.drop_length]
    rfl

/-! ## Topology of the draw issued by `render_item` -/

theorem draws_of_gl (priv : GthreeRendererPrivate) (cmd : GLCommand)
    (h : cmd.draw_mode = none) : draws_of (priv.gl cmd) = draws_of priv := by
  unfold draws_of GthreeRendererPrivate.gl
  dsimp only
  rw [List.filterMap_append, List.filterMap_cons, h, List.filterMap_nil, List.append_nil]

theorem draws_of_eq_of_gl_log (a b : GthreeRendererPrivate) (h : b.gl_log = a.gl_log) :
    draws_of b = draws_of a := by
  unfold draws_of
  rw [h]

theorem set_program_camera_draws (s : SetProgramState) (camera : Nat) :
    draws_of (set_program_camera s camera).priv = draws_of s.priv := by
  unfold set_program_camera draws_of GthreeRendererPrivate.gl
  dsimp only
  split_ifs <;>
    simp only [List.filterMap_append, List.filterMap_cons, List.filterMap_nil,
      GLCommand.draw_mode, List.append_nil]

theorem set_program_skinning_draws (s : SetProgramState) (object : GthreeObject) :
    draws_of (set_program_skinning s object).priv = draws_of s.priv := by
  unfold set_program_skinning draws_of GthreeRendererPrivate.gl
  cases object.skinned_mesh with
  | none => dsimp only; split_ifs <;> rfl
  | some skinned =>
    obtain ⟨skeleton, hb, hib⟩ := skinned
    cases skeleton <;> dsimp only <;> split_ifs <;>
      simp only [List.filterMap_append, List.filterMap_cons, List.filterMap_nil,
        GLCommand.draw_mode, List.append_nil]

theorem set_program_update_material_gl_log (c : Collaborators) (priv : GthreeRendererPrivate)
    (material : GthreeMaterial) (object : GthreeObject) :
    (set_program_update_material c priv material object).priv.gl_log = priv.gl_log := by
  rw [set_program_update_material_eq]
  split_ifs
  · exact (init_material_spec c { priv with used_texture_units := 0 } _ object).2.2.2.2.2.2.1
  · rfl

theorem set_program_draws (c : Collaborators) (priv : GthreeRendererPrivate) (camera : Nat)
    (material : GthreeMaterial) (object : GthreeObject) :
    draws_of (set_program c priv camera material object).priv = draws_of priv := by
  have h1 := set_program_update_material_gl_log c priv material object
  have h2 := (set_program_bind_spec (set_program_update_material c priv material object)
    ).2.2.2.2.2.1
  have h5 := (set_program_clipping_spec
    (set_program_skinning
      (set_program_camera
        (set_program_bind (set_program_update_material c priv material object)) camera)
      object)).2.2.2.2.2.2.2.1
  have h6 := (set_program_refresh_spec
    (set_program_clipping
      (set_program_skinning
        (set_program_camera
          (set_program_bind (set_program_update_material c priv material object)) camera)
        object)) camera).2.2.2.2.2.2.2.1
  unfold set_program
  dsimp only
  show draws_of (set_program_refresh _ camera).priv = _
  rw [draws_of_eq_of_gl_log _ _ h6, draws_of_eq_of_gl_log _ _ h5, set_program_skinning_draws,
    set_program_camera_draws, draws_of_eq_of_gl_log _ _ h2, draws_of_eq_of_gl_log _ _ h1]

theorem render_item_cache_triple_draws (priv : GthreeRendererPrivate)
    (geometry : GthreeGeometry) (program : Option GthreeProgram) (wireframe : gboolean) :
    draws_of (render_item_cache_triple priv geometry program wireframe) = draws_of priv := by
  unfold render_item_cache_triple
  split_ifs <;> rfl

theorem render_item_update_morphtargets_draws (priv : GthreeRendererPrivate)
    (object : GthreeObject) (material : GthreeMaterial) (geometry : GthreeGeometry)
    (program : Option GthreeProgram) :
    draws_of (render_item_update_morphtargets priv object material geometry program).1
      = draws_of priv := by
  unfold render_item_update_morphtargets
  cases render_item_morph object material with
  | none => rfl
  | some pm =>
    dsimp only
    unfold update_morphtargets
    dsimp only
    by_cases hloc : gthree_program_lookup_uniform_location program
        UniformName.morphTargetInfluences0 ≥ 0
    · rw [if_pos hloc]
      exact draws_of_gl _ _ rfl
    · rw [if_neg hloc]
      rfl

theorem render_item_setup_draws (priv : GthreeRendererPrivate) (material : GthreeMaterial)
    (program : Option GthreeProgram) (geometry : GthreeGeometry)
    (index : Option GthreeAttribute) (wireframe : gboolean) (update_buffers : Bool) :
    draws_of (render_item_setup priv material program geometry index wireframe update_buffers)
      = draws_of priv := by
  unfold render_item_setup
  cases index <;> cases update_buffers <;> dsimp only <;> split_ifs <;>
    first | rfl | exact draws_of_gl _ _ rfl

theorem set_line_width_draws (priv : GthreeRendererPrivate) (line_width : float) :
    draws_of (set_line_width priv line_width) = draws_of priv := by
  unfold set_line_width
  split_ifs
  · exact draws_of_gl _ _ rfl
  · rfl

theorem draws_of_gl_draw (priv : GthreeRendererPrivate) (cmd : GLCommand) (mode : guint)
    (h : cmd.draw_mode = some mode) : draws_of (priv.gl cmd) = draws_of priv ++ [mode] := by
  unfold draws_of GthreeRendererPrivate.gl
  dsimp only
  rw [List.filterMap_append, List.filterMap_cons, h, List.filterMap_nil]

theorem draws_of_glDrawArrays (priv : GthreeRendererPrivate) (mode : guint)
    (first count : Int) :
    draws_of (priv.gl (GLCommand.glDrawArrays mode first count)) = draws_of priv ++ [mode] :=
  draws_of_gl_draw _ _ _ rfl

theorem draws_of_glDrawElements (priv : GthreeRendererPrivate) (mode : guint)
    (count type indices : Int) :
    draws_of (priv.gl (GLCommand.glDrawElements mode count type indices))
      = draws_of priv ++ [mode] :=
  draws_of_gl_draw _ _ _ rfl

/-- The draw part of `render_item` issues no draw or one draw with the topology of the
object and material. -/
theorem render_item_draw_draws (priv : GthreeRendererPrivate) (object : GthreeObject)
    (material : GthreeMaterial) (geometry : GthreeGeometry)
    (group : Option GthreeGeometryGroup) (wireframe : gboolean)
    (index position : Option GthreeAttribute) :
    draws_of (render_item_draw priv object material geometry group wireframe index position)
      = draws_of priv
        ++ (if (render_item_draw_range (render_item_data_count index position)
                (render_item_range_factor wireframe) geometry group).2 = 0 then []
            else [render_item_topology object wireframe]) := by
  unfold render_item_draw render_item_topology
  dsimp only
  by_cases h0 : (render_item_draw_range (render_item_data_count index position)
      (render_item_range_factor wireframe) geometry group).2 = 0
  · rw [if_pos h0, if_pos h0, List.append_nil]
  · rw [if_neg h0, if_neg h0]
    cases index <;> cases object.kind <;> dsimp only <;> (try split_ifs) <;>
      (first | rw [draws_of_glDrawArrays] | rw [draws_of_glDrawElements]) <;>
      first | rfl | rw [set_line_width_draws]

/-- C28 (counterexample): a sprite drawn with a mesh material in wireframe mode: the draw is
issued with `GL_TRIANGLES`, not with `GL_LINES`. -/
theorem wireframe_sprite_drawn_as_triangles :
    render_item_wireframe
        { addr := 3, kind := GthreeMaterialKind.mesh_material { wireframe := TRUE } } = TRUE
      ∧ (render_item
          { set_params := fun _ p => p, program_cache_get := fun _ _ _ => some { addr := 7 } }
          {} 1 { addr := 3, kind := GthreeMaterialKind.mesh_material { wireframe := TRUE } }
          { kind := GthreeObjectKind.sprite }
          { addr := 9, wireframe_index := some { count := 6 } } none).priv.gl_log.filter
          GLCommand.is_draw
        = [GLCommand.glDrawElements GL_TRIANGLES 6 0 0] := by
  decide

/-- C28 (amended): `render_item` issues at most one draw command, and its topology is: for a
mesh, `GL_LINES` when the material is a mesh material in wireframe mode and otherwise the
declared draw mode of the mesh (triangles, triangle strip or triangle fan); `GL_LINES` for a
line-segments object; `GL_TRIANGLES` for a sprite and for every other object, also when the
material is in wireframe mode. -/
theorem render_item_draw_topology (c : Collaborators) (priv : GthreeRendererPrivate)
    (camera : Nat) (material : GthreeMaterial) (object : GthreeObject)
    (geometry : GthreeGeometry) (group : Option GthreeGeometryGroup) :
    (draws_of (render_item c priv camera material object geometry group).priv = draws_of priv
        ∨ draws_of (render_item c priv camera material object geometry group).priv
          = draws_of priv ++ [render_item_topology object (render_item_wireframe material)])
      ∧ (∀ m, object.kind = GthreeObjectKind.mesh m →
          render_item_topology object (render_item_wireframe material)
            = (if render_item_wireframe material ≠ 0 then GL_LINES
               else if m.draw_mode = GthreeDrawMode.GTHREE_DRAW_MODE_TRIANGLE_STRIP then
                 GL_TRIANGLE_STRIP
               else if m.draw_mode = GthreeDrawMode.GTHREE_DRAW_MODE_TRIANGLE_FAN then
                 GL_TRIANGLE_FAN
               else GL_TRIANGLES))
      ∧ (object.kind = GthreeObjectKind.line_segments →
          render_item_topology object (render_item_wireframe material) = GL_LINES)
      ∧ (object.kind = GthreeObjectKind.sprite →
          render_item_topology object (render_item_wireframe material) = GL_TRIANGLES) := by
  refine ⟨?_, ?_, ?_, ?_⟩
  · by_cases hv : material.visible = 0
    · left
      unfold render_item
      rw [if_pos hv]
    · unfold render_item
      rw [if_neg hv]
      dsimp only
      rw [render_item_draw_draws, render_item_setup_draws, render_item_update_morphtargets_draws,
        render_item_cache_triple_draws, set_program_draws]
      split_ifs <;> first | exact Or.inl (List.append_nil _) | exact Or.inr rfl
  · intro m hm
    unfold render_item_topology render_item_mesh_draw_mode
    rw [hm]
    dsimp only
    split_ifs with h1 h2 h3
    · rfl
    · rw [h2]
    · rw [h3]
    · cases hd : m.draw_mode with
      | GTHREE_DRAW_MODE_TRIANGLES => rfl
      | GTHREE_DRAW_MODE_TRIANGLE_STRIP => exact absurd hd h2
      | GTHREE_DRAW_MODE_TRIANGLE_FAN => exact absurd hd h3
      | other v => rfl
  · intro h
    unfold render_item_topology
    rw [h]
  · intro h
    unfold render_item_topology
    rw [h]

/-- C28 (witness): a mesh with draw mode triangle strip, drawn with a material that is not
in wireframe mode, is drawn with `GL_TRIANGLE_STRIP`. -/
theorem render_item_draw_topology_witness :
    ({ kind := GthreeObjectKind.mesh
          { draw_mode := GthreeDrawMode.GTHREE_DRAW_MODE_TRIANGLE_STRIP } } : GthreeObject).kind
        = GthreeObjectKind.mesh
          { draw_mode := GthreeDrawMode.GTHREE_DRAW_MODE_TRIANGLE_STRIP }
      ∧ render_item_topology
          { kind := GthreeObjectKind.mesh
              { draw_mode := GthreeDrawMode.GTHREE_DRAW_MODE_TRIANGLE_STRIP } }
          (render_item_wireframe {}) = GL_TRIANGLE_STRIP :=
  ⟨rfl,
    ((render_item_draw_topology
      { set_params := fun _ p => p, program_cache_get := fun _ _ _ => none } {} 1 {}
      { kind := GthreeObjectKind.mesh
          { draw_mode := GthreeDrawMode.GTHREE_DRAW_MODE_TRIANGLE_STRIP } }
      {} none).2.1 _ rfl).trans (by decide)⟩

/-! ## The scene walk -/

theorem filled_objects_append (a b : List Event) :
    filled_objects (a ++ b) = filled_objects a ++ filled_objects b := by
  unfold filled_objects
  rw [List.filterMap_append]

theorem project_object_skeleton_spec (priv : GthreeRendererPrivate) (object : GthreeObject) :
    filled_objects (project_object_skeleton priv object).events = filled_objects priv.events
      ∧ (project_object_skeleton priv object).lights = priv.lights
      ∧ (project_object_skeleton priv object).sort_objects = priv.sort_objects := by
  unfold project_object_skeleton
  cases object.skinned_mesh with
  | none => exact ⟨rfl, rfl, rfl⟩
  | some skinned =>
    obtain ⟨skeleton, hb, hib⟩ := skinned
    cases skeleton with
    | none => exact ⟨rfl, rfl, rfl⟩
    | some sk =>
      refine ⟨?_, rfl, rfl⟩
      dsimp only
      rw [emit_events, filled_objects_append]
      exact List.append_nil _

theorem check_layer_ne_zero_iff (object : GthreeObject) (layer_mask : Nat) :
    gthree_object_check_layer object layer_mask ≠ 0 ↔ object.layer_mask &&& layer_mask ≠ 0 := by
  unfold gthree_object_check_layer
  split_ifs with h
  · exact ⟨fun _ => h, fun _ => by decide⟩
  · exact ⟨fun hc => absurd rfl hc, fun hc => absurd hc h⟩

theorem project_object_classify_drawable (fill : GthreeObject → GthreeRenderList → GthreeRenderList)
    (priv : GthreeRendererPrivate) (object : GthreeObject) :
    filled_objects
        (if object.is_frustum_culled = 0 ∨ object.is_in_frustum ≠ 0 then
          let priv2 := (project_object_skeleton priv object).emit [Event.object_update object.addr]
          let z : float := if priv2.sort_objects ≠ 0 then object.projected_z else 0
          let priv3 :=
            { priv2 with
              current_render_list := { priv2.current_render_list with current_z := z } }
          { priv3.emit [Event.object_fill_render_list object.addr] with
            current_render_list := fill object priv3.current_render_list }
        else project_object_skeleton priv object).events
      = filled_objects priv.events
          ++ (if (decide (object.is_frustum_culled = 0) || decide (object.is_in_frustum ≠ 0)) = true
              then [object.addr] else [])
    ∧ (if object.is_frustum_culled = 0 ∨ object.is_in_frustum ≠ 0 then
          let priv2 := (project_object_skeleton priv object).emit [Event.object_update object.addr]
          let z : float := if priv2.sort_objects ≠ 0 then object.projected_z else 0
          let priv3 :=
            { priv2 with
              current_render_list := { priv2.current_render_list with current_z := z } }
          { priv3.emit [Event.object_fill_render_list object.addr] with
            current_render_list := fill object priv3.current_render_list }
        else project_object_skeleton priv object).lights = priv.lights := by
  obtain ⟨h1, h2, _⟩ := project_object_skeleton_spec priv object
  by_cases hc : object.is_frustum_culled = 0 ∨ object.is_in_frustum ≠ 0
  · have hb : (decide (object.is_frustum_culled = 0) || decide (object.is_in_frustum ≠ 0)) = true := by
      rw [Bool.or_eq_true, decide_eq_true_eq, decide_eq_true_eq]; exact hc
    rw [if_pos hc, if_pos hb]
    refine ⟨?_, h2⟩
    dsimp only
    rw [emit_events, emit_events, filled_objects_append, filled_objects_append, h1,
      List.append_assoc]
    rfl
  · have hb : ¬ (decide (object.is_frustum_culled = 0) || decide (object.is_in_frustum ≠ 0)) = true := by
      rw [Bool.or_eq_true, decide_eq_true_eq, decide_eq_true_eq]; exact hc
    rw [if_neg hc, if_neg hb]
    exact ⟨by rw [h1, List.append_nil], h2⟩

theorem project_object_classify_spec (fill : GthreeObject → GthreeRenderList → GthreeRenderList)
    (priv : GthreeRendererPrivate) (camera : GthreeCamera) (object : GthreeObject) :
    filled_objects (project_object_classify fill priv camera object).events
        = filled_objects priv.events
            ++ (if is_render_candidate camera object = true then [object.addr] else [])
      ∧ (project_object_classify fill priv camera object).lights
        = priv.lights ++ (if is_listed_light camera object = true then [object.addr] else []) := by
  unfold project_object_classify is_render_candidate is_listed_light
  by_cases hl : object.layer_mask &&& camera.layer_mask ≠ 0
  · rw [if_pos ((check_layer_ne_zero_iff _ _).2 hl), decide_eq_true hl]
    obtain ⟨hd1, hd2⟩ := project_object_classify_drawable fill priv object
    cases hk : object.kind with
    | group => exact ⟨(List.append_nil _).symm, (List.append_nil _).symm⟩
    | light => exact ⟨(List.append_nil _).symm, rfl⟩
    | other_object => exact ⟨(List.append_nil _).symm, (List.append_nil _).symm⟩
    | mesh m =>
      dsimp only
      refine ⟨?_, ?_⟩
      · rw [hd1]; rfl
      · rw [hd2]; exact (List.append_nil _).symm
    | line_segments =>
      dsimp only
      refine ⟨?_, ?_⟩
      · rw [hd1]; rfl
      · rw [hd2]; exact (List.append_nil _).symm
    | sprite =>
      dsimp only
      refine ⟨?_, ?_⟩
      · rw [hd1]; rfl
      · rw [hd2]; exact (List.append_nil _).symm
  · have hl2 : ¬ gthree_object_check_layer object camera.layer_mask ≠ 0 :=
      fun h => hl ((check_layer_ne_zero_iff _ _).1 h)
    rw [if_neg hl2, decide_eq_false hl]
    exact ⟨(List.append_nil _).symm, (List.append_nil _).symm⟩

mutual
theorem preorder_select_hidden (p : GthreeObject → Bool) :
    ∀ node : SceneNode, preorder_select p (preorder_flagged false node) = []
  | SceneNode.mk object children => by
    have h := preorder_select_hidden_children p children
    unfold preorder_flagged
    unfold preorder_select at h ⊢
    rw [Bool.false_and, List.filter_cons_of_neg (by simp), h]
theorem preorder_select_hidden_children (p : GthreeObject → Bool) :
    ∀ nodes : List SceneNode, preorder_select p (preorder_flagged_children false nodes) = []
  | [] => rfl
  | child :: rest => by
    have h1 := preorder_select_hidden p child
    have h2 := preorder_select_hidden_children p rest
    unfold preorder_flagged_children
    unfold preorder_select at h1 h2 ⊢
    rw [List.filter_append, List.map_append, h1, h2]
    rfl
end

theorem project_object_skeleton_extends (priv : GthreeRendererPrivate) (object : GthreeObject) :
    priv.events <+: (project_object_skeleton priv object).events := by
  unfold project_object_skeleton
  cases object.skinned_mesh with
  | none => exact List.prefix_refl _
  | some skinned =>
    obtain ⟨skeleton, hb, hib⟩ := skinned
    cases skeleton with
    | none => exact List.prefix_refl _
    | some sk => exact List.prefix_append _ _

theorem project_object_classify_extends (fill : GthreeObject → GthreeRenderList → GthreeRenderList)
    (priv : GthreeRendererPrivate) (camera : GthreeCamera) (object : GthreeObject) :
    priv.events <+: (project_object_classify fill priv camera object).events := by
  have hs := project_object_skeleton_extends priv object
  have hd : priv.events <+:
      (if object.is_frustum_culled = 0 ∨ object.is_in_frustum ≠ 0 then
          let priv2 := (project_object_skeleton priv object).emit [Event.object_update object.addr]
          let z : float := if priv2.sort_objects ≠ 0 then object.projected_z else 0
          let priv3 :=
            { priv2 with
              current_render_list := { priv2.current_render_list with current_z := z } }
          { priv3.emit [Event.object_fill_render_list object.addr] with
            current_render_list := fill object priv3.current_render_list }
        else project_object_skeleton priv object).events := by
    split_ifs
    · dsimp only
      rw [emit_events, emit_events]
      exact (hs.trans (List.prefix_append _ _)).trans (List.prefix_append _ _)
    · exact hs
  unfold project_object_classify
  by_cases hl : gthree_object_check_layer object camera.layer_mask ≠ 0
  · rw [if_pos hl]
    cases hk : object.kind with
    | group => exact List.prefix_refl _
    | light => exact List.prefix_refl _
    | other_object => exact List.prefix_refl _
    | mesh m => exact hd
    | line_segments => exact hd
    | sprite => exact hd
  · rw [if_neg hl]

mutual
theorem project_object_extends (fill : GthreeObject → GthreeRenderList → GthreeRenderList)
    (camera : GthreeCamera) :
    ∀ (node : SceneNode) (priv : GthreeRendererPrivate),
      priv.events <+: (project_object fill camera node priv).events
  | SceneNode.mk object children, priv => by
    unfold project_object
    split_ifs
    · exact List.prefix_refl _
    · exact (project_object_classify_extends fill priv camera object).trans
        (project_children_extends fill camera children _)
theorem project_children_extends (fill : GthreeObject → GthreeRenderList → GthreeRenderList)
    (camera : GthreeCamera) :
    ∀ (nodes : List SceneNode) (priv : GthreeRendererPrivate),
      priv.events <+: (project_children fill camera nodes priv).events
  | [], priv => by
    unfold project_children
    exact List.prefix_refl _
  | child :: rest, priv => by
    unfold project_children
    exact (project_object_extends fill camera child priv).trans
      (project_children_extends fill camera rest _)
end

mutual
theorem project_object_walk (fill : GthreeObject → GthreeRenderList → GthreeRenderList)
    (camera : GthreeCamera) :
    ∀ (node : SceneNode) (priv : GthreeRendererPrivate),
      filled_objects (project_object fill camera node priv).events
          = filled_objects priv.events
              ++ preorder_select (is_render_candidate camera) (preorder_flagged true node)
        ∧ (project_object fill camera node priv).lights
          = priv.lights ++ preorder_select (is_listed_light camera) (preorder_flagged true node)
  | SceneNode.mk object children, priv => by
    unfold project_object preorder_flagged
    by_cases hv : object.visible = 0
    · have hd : decide (object.visible ≠ 0) = false := decide_eq_false (fun h => h hv)
      rw [if_pos hv, hd, Bool.and_false]
      have h1 := preorder_select_hidden_children (is_render_candidate camera) children
      have h2 := preorder_select_hidden_children (is_listed_light camera) children
      unfold preorder_select at h1 h2 ⊢
      rw [List.filter_cons_of_neg (by simp), List.filter_cons_of_neg (by simp), h1, h2,
        List.append_nil, List.append_nil]
      exact ⟨rfl, rfl⟩
    · have hd : decide (object.visible ≠ 0) = true := decide_eq_true hv
      rw [if_neg hv, hd, Bool.and_true]
      obtain ⟨hc1, hc2⟩ := project_object_classify_spec fill priv camera object
      obtain ⟨hw1, hw2⟩ :=
        project_children_walk fill camera children (project_object_classify fill priv camera object)
      rw [hw1, hw2, hc1, hc2]
      unfold preorder_select
      constructor
      · by_cases hp : is_render_candidate camera object = true
        · rw [if_pos hp, List.filter_cons_of_pos (by simpa using hp), List.map_cons,
            List.append_assoc]
          rfl
        · rw [if_neg hp, List.filter_cons_of_neg (by simpa using hp), List.append_nil]
      · by_cases hp : is_listed_light camera object = true
        · rw [if_pos hp, List.filter_cons_of_pos (by simpa using hp), List.map_cons,
            List.append_assoc]
          rfl
        · rw [if_neg hp, List.filter_cons_of_neg (by simpa using hp), List.append_nil]
theorem project_children_walk (fill : GthreeObject → GthreeRenderList → GthreeRenderList)
    (camera : GthreeCamera) :
    ∀ (nodes : List SceneNode) (priv : GthreeRendererPrivate),
      filled_objects (project_children fill camera nodes priv).events
          = filled_objects priv.events
              ++ preorder_select (is_render_candidate camera) (preorder_flagged_children true nodes)
        ∧ (project_children fill camera nodes priv).lights
          = priv.lights
              ++ preorder_select (is_listed_light camera) (preorder_flagged_children true nodes)
  | [], priv => by
    unfold project_children preorder_flagged_children
    exact ⟨(List.append_nil _).symm, (List.append_nil _).symm⟩
  | child :: rest, priv => by
    unfold project_children preorder_flagged_children
    obtain ⟨ho1, ho2⟩ := project_object_walk fill camera child priv
    obtain ⟨hr1, hr2⟩ :=
      project_children_walk fill camera rest (project_object fill camera child priv)
    rw [hr1, hr2, ho1, ho2]
    unfold preorder_select
    rw [List.filter_append, List.filter_append, List.map_append, List.map_append,
      List.append_assoc, List.append_assoc]
    exact ⟨rfl, rfl⟩
end

theorem filled_objects_logged (before after : GthreeRendererPrivate) (sel : List Nat)
    (hp : before.events <+: after.events)
    (h : filled_objects after.events = filled_objects before.events ++ sel) :
    filled_objects (logged before after) = sel := by
  obtain ⟨es, hes⟩ := hp
  rw [logged_of_events before after es hes.symm]
  rw [← hes, filled_objects_append] at h
  exact List.append_cancel_left h

/-- C21: `project_object` on an invisible node returns at once: the renderer state is left
as it was, whatever the children of the node are, so nothing of the subtree is handed to the
render list and the light list does not grow. -/
theorem project_object_invisible_skips_subtree
    (fill : GthreeObject → GthreeRenderList → GthreeRenderList) (camera : GthreeCamera)
    (object : GthreeObject) (children : List SceneNode) (priv : GthreeRendererPrivate)
    (h : object.visible = 0) :
    project_object fill camera (SceneNode.mk object children) priv = priv := by
  unfold project_object
  rw [if_pos h]

theorem project_object_invisible_skips_subtree_witness :
    ({ addr := 1, visible := FALSE, kind := GthreeObjectKind.sprite } : GthreeObject).visible = 0
      ∧ project_object (fun object list => { list with opaque_ := list.opaque_ ++ [object.addr] })
          {}
          (SceneNode.mk { addr := 1, visible := FALSE, kind := GthreeObjectKind.sprite }
            [SceneNode.mk { addr := 2, kind := GthreeObjectKind.sprite } [],
             SceneNode.mk { addr := 3, kind := GthreeObjectKind.light } []])
          {} = {} :=
  ⟨rfl, project_object_invisible_skips_subtree _ _ _ _ _ rfl⟩

/-- C22: for a visible node whose layer mask does not intersect the camera's, `project_object`
does nothing for the node itself and walks its children from the unchanged state: the objects
handed to the render list are exactly the render candidates among the descendants that are
visible along their chain below the node, and the light list grows by exactly the lights
among them, both in pre-order. -/
theorem project_object_layer_miss_still_recurses
    (fill : GthreeObject → GthreeRenderList → GthreeRenderList) (camera : GthreeCamera)
    (object : GthreeObject) (children : List SceneNode) (priv : GthreeRendererPrivate)
    (hv : object.visible ≠ 0) (hl : object.layer_mask &&& camera.layer_mask = 0) :
    project_object fill camera (SceneNode.mk object children) priv
        = project_children fill camera children priv
      ∧ filled_objects (logged priv (project_object fill camera (SceneNode.mk object children) priv))
        = preorder_select (is_render_candidate camera) (preorder_flagged_children true children)
      ∧ (project_object fill camera (SceneNode.mk object children) priv).lights
        = priv.lights
            ++ preorder_select (is_listed_light camera) (preorder_flagged_children true children) := by
  have hc : project_object_classify fill priv camera object = priv := by
    unfold project_object_classify
    rw [if_neg (fun h => (check_layer_ne_zero_iff _ _).1 h hl)]
  have he : project_object fill camera (SceneNode.mk object children) priv
      = project_children fill camera children priv := by
    unfold project_object
    rw [if_neg hv, hc]
  obtain ⟨h1, h2⟩ := project_children_walk fill camera children priv
  refine ⟨he, ?_, ?_⟩
  · rw [he]
    exact filled_objects_logged _ _ _ (project_children_extends fill camera children priv) h1
  · rw [he]
    exact h2

theorem project_object_layer_miss_still_recurses_witness :
    ({ addr := 1, layer_mask := 2, kind := GthreeObjectKind.sprite } : GthreeObject).visible ≠ 0
      ∧ ({ addr := 1, layer_mask := 2, kind := GthreeObjectKind.sprite } : GthreeObject).layer_mask
          &&& ({ layer_mask := 1 } : GthreeCamera).layer_mask = 0
      ∧ filled_objects (logged {}
          (project_object (fun _ list => list) { layer_mask := 1 }
            (SceneNode.mk { addr := 1, layer_mask := 2, kind := GthreeObjectKind.sprite }
              [SceneNode.mk { addr := 2, kind := GthreeObjectKind.sprite, is_frustum_culled := FALSE } [],
               SceneNode.mk { addr := 3, kind := GthreeObjectKind.light } []])
            {})) = [2]
      ∧ (project_object (fun _ list => list) { layer_mask := 1 }
            (SceneNode.mk { addr := 1, layer_mask := 2, kind := GthreeObjectKind.sprite }
              [SceneNode.mk { addr := 2, kind := GthreeObjectKind.sprite, is_frustum_culled := FALSE } [],
               SceneNode.mk { addr := 3, kind := GthreeObjectKind.light } []])
            {}).lights = [3] :=
  ⟨by decide, by decide,
    (project_object_layer_miss_still_recurses (fun _ list => list) { layer_mask := 1 }
      { addr := 1, layer_mask := 2, kind := GthreeObjectKind.sprite }
      [SceneNode.mk { addr := 2, kind := GthreeObjectKind.sprite, is_frustum_culled := FALSE } [],
       SceneNode.mk { addr := 3, kind := GthreeObjectKind.light } []]
      {} (by decide) (by decide)).2.1.trans (by decide),
    (project_object_layer_miss_still_recurses (fun _ list => list) { layer_mask := 1 }
      { addr := 1, layer_mask := 2, kind := GthreeObjectKind.sprite }
      [SceneNode.mk { addr := 2, kind := GthreeObjectKind.sprite, is_frustum_culled := FALSE } [],
       SceneNode.mk { addr := 3, kind := GthreeObjectKind.light } []]
      {} (by decide) (by decide)).2.2.trans (by decide)⟩

/-- C29: the objects that `project_object` hands to `gthree_object_fill_render_list` are, in
call order, the nodes of the depth-first pre-order sequence of the tree that are visible
with all their ancestors, pass the layer test of the camera, are a mesh, a line-segments
object or a sprite, and are flagged to skip frustum culling or lie inside the frustum; the
light list grows by the nodes of that sequence that are visible with all their ancestors,
pass the layer test and are lights, in the same order. -/
theorem project_object_preorder_sequence
    (fill : GthreeObject → GthreeRenderList → GthreeRenderList) (camera : GthreeCamera)
    (node : SceneNode) (priv : GthreeRendererPrivate) :
    filled_objects (logged priv (project_object fill camera node priv))
        = preorder_select (is_render_candidate camera) (preorder_flagged true node)
      ∧ (project_object fill camera node priv).lights
        = priv.lights ++ preorder_select (is_listed_light camera) (preorder_flagged true node) :=
  ⟨filled_objects_logged _ _ _ (project_object_extends fill camera node priv)
      (project_object_walk fill camera node priv).1,
    (project_object_walk fill camera node priv).2⟩

/-! ## The three passes of a frame -/

theorem render_item_calls_append (a b : List Event) :
    render_item_calls (a ++ b) = render_item_calls a ++ render_item_calls b := by
  unfold render_item_calls
  rw [List.filterMap_append]

theorem render_item_calls_logged (before after : GthreeRendererPrivate) (sel : List (Nat × Nat))
    (hp : before.events <+: after.events)
    (h : render_item_calls after.events = render_item_calls before.events ++ sel) :
    render_item_calls (logged before after) = sel := by
  obtain ⟨es, hes⟩ := hp
  rw [logged_of_events before after es hes.symm]
  rw [← hes, render_item_calls_append] at h
  exact List.append_cancel_left h

theorem set_blending_scene (priv : GthreeRendererPrivate) (blending : GthreeBlendMode)
    (blend_equation blend_src blend_dst : guint) :
    (set_blending priv blending blend_equation blend_src blend_dst).events = priv.events
      ∧ (set_blending priv blending blend_equation blend_src blend_dst).current_render_list
        = priv.current_render_list := by
  rw [set_blending_cache]
  exact ⟨rfl, rfl⟩

theorem set_depth_test_scene (priv : GthreeRendererPrivate) (depth_test : gboolean) :
    (set_depth_test priv depth_test).events = priv.events
      ∧ (set_depth_test priv depth_test).current_render_list = priv.current_render_list := by
  unfold set_depth_test
  dsimp only
  split_ifs <;> exact ⟨rfl, rfl⟩

theorem set_depth_write_scene (priv : GthreeRendererPrivate) (depth_write : gboolean) :
    (set_depth_write priv depth_write).events = priv.events
      ∧ (set_depth_write priv depth_write).current_render_list = priv.current_render_list := by
  unfold set_depth_write
  split_ifs <;> exact ⟨rfl, rfl⟩

theorem set_polygon_offset_scene (priv : GthreeRendererPrivate) (polygon_offset : gboolean)
    (factor units : float) :
    (set_polygon_offset priv polygon_offset factor units).events = priv.events
      ∧ (set_polygon_offset priv polygon_offset factor units).current_render_list
        = priv.current_render_list := by
  unfold set_polygon_offset
  dsimp only
  split_ifs <;> exact ⟨rfl, rfl⟩

theorem set_material_faces_scene (priv : GthreeRendererPrivate) (material : GthreeMaterial) :
    (set_material_faces priv material).events = priv.events
      ∧ (set_material_faces priv material).current_render_list = priv.current_render_list := by
  unfold set_material_faces
  dsimp only
  split_ifs <;> exact ⟨rfl, rfl⟩

theorem render_objects_item_scene (priv : GthreeRendererPrivate) (camera : Nat)
    (use_blending : gboolean) (i : Nat) :
    (render_objects_item priv camera use_blending none i).events
        = priv.events
          ++ [Event.object_call_before_render_callback (priv.current_render_list.item i).object,
              Event.object_update_matrix_view (priv.current_render_list.item i).object,
              Event.render_item i (priv.current_render_list.item i).material.addr]
      ∧ (render_objects_item priv camera use_blending none i).current_render_list
        = priv.current_render_list := by
  unfold render_objects_item
  dsimp only
  constructor
  · rw [emit_events, (set_material_faces_scene _ _).1, (set_polygon_offset_scene _ _ _ _).1,
      (set_depth_write_scene _ _).1, (set_depth_test_scene _ _).1]
    split_ifs
    · rw [(set_blending_scene _ _ _ _ _).1, emit_events, List.append_assoc]
      rfl
    · rw [emit_events, List.append_assoc]
      rfl
  · show (set_material_faces _ _).current_render_list = _
    rw [(set_material_faces_scene _ _).2, (set_polygon_offset_scene _ _ _ _).2,
      (set_depth_write_scene _ _).2, (set_depth_test_scene _ _).2]
    split_ifs
    · rw [(set_blending_scene _ _ _ _ _).2]
      rfl
    · rfl

theorem render_objects_scene (camera : Nat) (use_blending : gboolean) (indexes : List Nat) :
    ∀ priv : GthreeRendererPrivate,
      priv.events <+: (render_objects priv indexes camera use_blending none).events
        ∧ render_item_calls (render_objects priv indexes camera use_blending none).events
          = render_item_calls priv.events ++ indexes.map (pass_call priv.current_render_list)
        ∧ (render_objects priv indexes camera use_blending none).current_render_list
          = priv.current_render_list := by
  induction indexes with
  | nil => intro priv; exact ⟨List.prefix_refl _, (List.append_nil _).symm, rfl⟩
  | cons i rest ih =>
    intro priv
    obtain ⟨h1, h2⟩ := render_objects_item_scene priv camera use_blending i
    obtain ⟨ip, ic, il⟩ := ih (render_objects_item priv camera use_blending none i)
    have e : render_objects priv (i :: rest) camera use_blending none
        = render_objects (render_objects_item priv camera use_blending none i) rest camera
            use_blending none := rfl
    rw [e]
    refine ⟨?_, ?_, ?_⟩
    · refine List.IsPrefix.trans ?_ ip
      rw [h1]
      exact List.prefix_append _ _
    · rw [ic, h1, h2, render_item_calls_append, List.map_cons, List.append_assoc]
      rfl
    · rw [il, h2]

theorem render_passes_scene (priv : GthreeRendererPrivate) (camera : Nat) :
    priv.events <+: (gthree_renderer_render_passes priv camera none).events
      ∧ render_item_calls (gthree_renderer_render_passes priv camera none).events
        = render_item_calls priv.events
          ++ (priv.current_render_list.background ++ priv.current_render_list.opaque_
              ++ priv.current_render_list.transparent).map (pass_call priv.current_render_list)
      ∧ (gthree_renderer_render_passes priv camera none).current_render_list
        = priv.current_render_list := by
  unfold gthree_renderer_render_passes
  dsimp only
  obtain ⟨b1, b2⟩ := set_blending_scene priv GTHREE_BLEND_NO 0 0 0
  generalize set_blending priv GTHREE_BLEND_NO 0 0 0 = p1 at b1 b2 ⊢
  obtain ⟨p2p, p2c, p2l⟩ :=
    render_objects_scene camera FALSE p1.current_render_list.background p1
  generalize render_objects p1 p1.current_render_list.background camera FALSE none = p2
    at p2p p2c p2l ⊢
  obtain ⟨p3p, p3c, p3l⟩ :=
    render_objects_scene camera FALSE p2.current_render_list.opaque_ p2
  generalize render_objects p2 p2.current_render_list.opaque_ camera FALSE none = p3
    at p3p p3c p3l ⊢
  obtain ⟨p4p, p4c, p4l⟩ :=
    render_objects_scene camera TRUE p3.current_render_list.transparent p3
  generalize render_objects p3 p3.current_render_list.transparent camera TRUE none = p4
    at p4p p4c p4l ⊢
  refine ⟨?_, ?_, ?_⟩
  · rw [← b1]
    exact (p2p.trans p3p).trans p4p
  · rw [p4c, p3c, p2c, p3l, p2l, b2, b1, List.map_append, List.map_append, List.append_assoc,
      List.append_assoc, List.append_assoc]
  · rw [p4l, p3l, p2l, b2]

theorem fill_render_list_partitioned (pushes : GthreeObject → List (Nat × GthreeMaterial × Nat))
    (object : GthreeObject) (list : GthreeRenderList) (h : Partitioned list) :
    Partitioned (gthree_object_fill_render_list pushes object list) := by
  unfold gthree_object_fill_render_list
  generalize pushes object = ps
  induction ps generalizing list with
  | nil => exact h
  | cons p rest ih =>
    rw [List.foldl_cons]
    exact ih _ (partitioned_push list object.addr p.1 p.2.1 p.2.2 h)

theorem push_background_mode (list : GthreeRenderList) (object geometry : Nat)
    (material : GthreeMaterial) (group : Nat) (h : list.use_background ≠ 0) :
    (gthree_render_list_push list object geometry material group).opaque_ = list.opaque_
      ∧ (gthree_render_list_push list object geometry material group).transparent
        = list.transparent
      ∧ list.items <+: (gthree_render_list_push list object geometry material group).items := by
  unfold gthree_render_list_push
  dsimp only
  rw [if_pos h]
  exact ⟨rfl, rfl, List.prefix_append _ _⟩

theorem fill_render_list_background_mode
    (pushes : GthreeObject → List (Nat × GthreeMaterial × Nat)) (object : GthreeObject)
    (list : GthreeRenderList) (h : list.use_background ≠ 0) :
    (gthree_object_fill_render_list pushes object list).opaque_ = list.opaque_
      ∧ (gthree_object_fill_render_list pushes object list).transparent = list.transparent
      ∧ list.items <+: (gthree_object_fill_render_list pushes object list).items := by
  unfold gthree_object_fill_render_list
  generalize pushes object = ps
  induction ps generalizing list with
  | nil => exact ⟨rfl, rfl, List.prefix_refl _⟩
  | cons p rest ih =>
    rw [List.foldl_cons]
    obtain ⟨h1, h2, h3⟩ := push_background_mode list object.addr p.1 p.2.1 p.2.2 h
    have hu := push_use_background list object.addr p.1 p.2.1 p.2.2
    obtain ⟨i1, i2, i3⟩ := ih (gthree_render_list_push list object.addr p.1 p.2.1 p.2.2)
      (by rw [hu]; exact h)
    exact ⟨i1.trans h1, i2.trans h2, h3.trans i3⟩

theorem set_render_target_scene (current : Nat) (priv : GthreeRendererPrivate)
    (render_target : Option GthreeRenderTarget) (a b : Int) :
    priv.events <+: (gthree_renderer_set_render_target current priv render_target a b).events
      ∧ render_item_calls
          (gthree_renderer_set_render_target current priv render_target a b).events
        = render_item_calls priv.events
      ∧ (gthree_renderer_set_render_target current priv render_target a b).current_render_list
        = priv.current_render_list := by
  unfold gthree_renderer_set_render_target
  cases render_target with
  | none => exact ⟨List.prefix_refl _, rfl, rfl⟩
  | some target =>
    refine ⟨List.prefix_append _ _, ?_, rfl⟩
    show render_item_calls (priv.events ++ [Event.render_target_realize target.addr]) = _
    rw [render_item_calls_append]
    exact List.append_nil _

theorem clear_scene (priv : GthreeRendererPrivate) (color depth stencil : gboolean) :
    (clear priv color depth stencil).events = priv.events
      ∧ (clear priv color depth stencil).current_render_list = priv.current_render_list :=
  ⟨rfl, rfl⟩

theorem render_background_clear_scene (priv : GthreeRendererPrivate) (bg_color : Option GdkRGBA)
    (pushes : GthreeObject → List (Nat × GthreeMaterial × Nat)) :
    (gthree_renderer_render_background (gthree_object_fill_render_list pushes) priv bg_color
        none).events = priv.events
      ∧ (gthree_renderer_render_background (gthree_object_fill_render_list pushes) priv bg_color
        none).current_render_list = priv.current_render_list := by
  unfold gthree_renderer_render_background clear
  cases bg_color with
  | none => dsimp only; split_ifs <;> exact ⟨rfl, rfl⟩
  | some color => dsimp only; split_ifs <;> exact ⟨rfl, rfl⟩

theorem render_background_mesh (fill : GthreeObject → GthreeRenderList → GthreeRenderList)
    (priv : GthreeRendererPrivate) (bg_color : Option GdkRGBA) (mesh : GthreeObject) :
    gthree_renderer_render_background fill priv bg_color (some mesh)
      = { ((gthree_renderer_render_background fill priv bg_color none).emit
            [Event.object_update mesh.addr]).emit [Event.object_fill_render_list mesh.addr] with
          current_render_list :=
            { fill mesh
                { (gthree_renderer_render_background fill priv bg_color none).current_render_list
                  with use_background := TRUE, current_z := 0 } with
              use_background := FALSE } } := rfl

theorem render_background_scene (pushes : GthreeObject → List (Nat × GthreeMaterial × Nat))
    (priv : GthreeRendererPrivate) (bg_color : Option GdkRGBA) (bg_mesh : Option GthreeObject) :
    priv.events
        <+: (gthree_renderer_render_background (gthree_object_fill_render_list pushes) priv
          bg_color bg_mesh).events
      ∧ render_item_calls (gthree_renderer_render_background
          (gthree_object_fill_render_list pushes) priv bg_color bg_mesh).events
        = render_item_calls priv.events
      ∧ (gthree_renderer_render_background (gthree_object_fill_render_list pushes) priv
          bg_color bg_mesh).current_render_list.opaque_ = priv.current_render_list.opaque_
      ∧ (gthree_renderer_render_background (gthree_object_fill_render_list pushes) priv
          bg_color bg_mesh).current_render_list.transparent
        = priv.current_render_list.transparent
      ∧ priv.current_render_list.items
        <+: (gthree_renderer_render_background (gthree_object_fill_render_list pushes) priv
          bg_color bg_mesh).current_render_list.items := by
  obtain ⟨he, hl⟩ := render_background_clear_scene priv bg_color pushes
  cases bg_mesh with
  | none =>
    rw [he, hl]
    exact ⟨List.prefix_refl _, rfl, rfl, rfl, List.prefix_refl _⟩
  | some mesh =>
    rw [render_background_mesh]
    generalize gthree_renderer_render_background (gthree_object_fill_render_list pushes) priv
      bg_color none = p2 at he hl
    obtain ⟨f1, f2, f3⟩ := fill_render_list_background_mode pushes mesh
      { p2.current_render_list with use_background := TRUE, current_z := 0 }
      (by show (TRUE : gboolean) ≠ 0; decide)
    refine ⟨?_, ?_, ?_, ?_, ?_⟩
    · show priv.events <+: (p2.events ++ _) ++ _
      rw [he, List.append_assoc]
      exact List.prefix_append _ _
    · show render_item_calls ((p2.events ++ _) ++ _) = _
      rw [he, render_item_calls_append, render_item_calls_append]
      exact (List.append_nil _).trans (List.append_nil _)
    · show (gthree_object_fill_render_list pushes mesh _).opaque_ = _
      rw [f1, ← hl]
    · show (gthree_object_fill_render_list pushes mesh _).transparent = _
      rw [f2, ← hl]
    · show _ <+: (gthree_object_fill_render_list pushes mesh _).items
      rw [← hl]
      exact f3

theorem project_object_skeleton_frame (priv : GthreeRendererPrivate) (object : GthreeObject) :
    render_item_calls (project_object_skeleton priv object).events
        = render_item_calls priv.events
      ∧ (project_object_skeleton priv object).sort_objects = priv.sort_objects
      ∧ (project_object_skeleton priv object).current_render_list
        = priv.current_render_list := by
  unfold project_object_skeleton
  cases object.skinned_mesh with
  | none => exact ⟨rfl, rfl, rfl⟩
  | some skinned =>
    obtain ⟨skeleton, hb, hib⟩ := skinned
    cases skeleton with
    | none => exact ⟨rfl, rfl, rfl⟩
    | some sk =>
      refine ⟨?_, rfl, rfl⟩
      dsimp only
      rw [emit_events, render_item_calls_append]
      exact List.append_nil _

theorem project_object_classify_frame
    (fill : GthreeObject → GthreeRenderList → GthreeRenderList)
    (hf : ∀ object list, Partitioned list → Partitioned (fill object list))
    (priv : GthreeRendererPrivate) (camera : GthreeCamera) (object : GthreeObject) :
    render_item_calls (project_object_classify fill priv camera object).events
        = render_item_calls priv.events
      ∧ (project_object_classify fill priv camera object).sort_objects = priv.sort_objects
      ∧ (Partitioned priv.current_render_list
          → Partitioned (project_object_classify fill priv camera object).current_render_list) := by
  obtain ⟨s1, s2, s3⟩ := project_object_skeleton_frame priv object
  have hd : render_item_calls
        (if object.is_frustum_culled = 0 ∨ object.is_in_frustum ≠ 0 then
          let priv2 := (project_object_skeleton priv object).emit [Event.object_update object.addr]
          let z : float := if priv2.sort_objects ≠ 0 then object.projected_z else 0
          let priv3 :=
            { priv2 with
              current_render_list := { priv2.current_render_list with current_z := z } }
          { priv3.emit [Event.object_fill_render_list object.addr] with
            current_render_list := fill object priv3.current_render_list }
        else project_object_skeleton priv object).events = render_item_calls priv.events
      ∧ (if object.is_frustum_culled = 0 ∨ object.is_in_frustum ≠ 0 then
          let priv2 := (project_object_skeleton priv object).emit [Event.object_update object.addr]
          let z : float := if priv2.sort_objects ≠ 0 then object.projected_z else 0
          let priv3 :=
            { priv2 with
              current_render_list := { priv2.current_render_list with current_z := z } }
          { priv3.emit [Event.object_fill_render_list object.addr] with
            current_render_list := fill object priv3.current_render_list }
        else project_object_skeleton priv object).sort_objects = priv.sort_objects
      ∧ (Partitioned priv.current_render_list → Partitioned
        (if object.is_frustum_culled = 0 ∨ object.is_in_frustum ≠ 0 then
          let priv2 := (project_object_skeleton priv object).emit [Event.object_update object.addr]
          let z : float := if priv2.sort_objects ≠ 0 then object.projected_z else 0
          let priv3 :=
            { priv2 with
              current_render_list := { priv2.current_render_list with current_z := z } }
          { priv3.emit [Event.object_fill_render_list object.addr] with
            current_render_list := fill object priv3.current_render_list }
        else project_object_skeleton priv object).current_render_list) := by
    by_cases hc : object.is_frustum_culled = 0 ∨ object.is_in_frustum ≠ 0
    · rw [if_pos hc]
      refine ⟨?_, s2, ?_⟩
      · dsimp only
        rw [emit_events, emit_events, render_item_calls_append, render_item_calls_append, s1]
        exact (List.append_nil _).trans (List.append_nil _)
      · intro hp
        dsimp only
        apply hf
        rw [← s3] at hp
        exact hp
    · rw [if_neg hc]
      exact ⟨s1, s2, fun hp => by rw [s3]; exact hp⟩
  unfold project_object_classify
  by_cases hl : gthree_object_check_layer object camera.layer_mask ≠ 0
  · rw [if_pos hl]
    cases hk : object.kind with
    | group => exact ⟨rfl, rfl, fun hp => hp⟩
    | light => exact ⟨rfl, rfl, fun hp => hp⟩
    | other_object => exact ⟨rfl, rfl, fun hp => hp⟩
    | mesh m => exact hd
    | line_segments => exact hd
    | sprite => exact hd
  · rw [if_neg hl]
    exact ⟨rfl, rfl, fun hp => hp⟩

mutual
theorem project_object_frame (fill : GthreeObject → GthreeRenderList → GthreeRenderList)
    (hf : ∀ object list, Partitioned list → Partitioned (fill object list))
    (camera : GthreeCamera) :
    ∀ (node : SceneNode) (priv : GthreeRendererPrivate),
      render_item_calls (project_object fill camera node priv).events
          = render_item_calls priv.events
        ∧ (project_object fill camera node priv).sort_objects = priv.sort_objects
        ∧ (Partitioned priv.current_render_list
            → Partitioned (project_object fill camera node priv).current_render_list)
  | SceneNode.mk object children, priv => by
    unfold project_object
    by_cases hv : object.visible = 0
    · rw [if_pos hv]
      exact ⟨rfl, rfl, fun hp => hp⟩
    · rw [if_neg hv]
      obtain ⟨c1, c2, c3⟩ := project_object_classify_frame fill hf priv camera object
      obtain ⟨w1, w2, w3⟩ := project_children_frame fill hf camera children
        (project_object_classify fill priv camera object)
      exact ⟨w1.trans c1, w2.trans c2, fun hp => w3 (c3 hp)⟩
theorem project_children_frame (fill : GthreeObject → GthreeRenderList → GthreeRenderList)
    (hf : ∀ object list, Partitioned list → Partitioned (fill object list))
    (camera : GthreeCamera) :
    ∀ (nodes : List SceneNode) (priv : GthreeRendererPrivate),
      render_item_calls (project_children fill camera nodes priv).events
          = render_item_calls priv.events
        ∧ (project_children fill camera nodes priv).sort_objects = priv.sort_objects
        ∧ (Partitioned priv.current_render_list
            → Partitioned (project_children fill camera nodes priv).current_render_list)
  | [], priv => by
    unfold project_children
    exact ⟨rfl, rfl, fun hp => hp⟩
  | child :: rest, priv => by
    unfold project_children
    obtain ⟨o1, o2, o3⟩ := project_object_frame fill hf camera child priv
    obtain ⟨r1, r2, r3⟩ := project_children_frame fill hf camera rest
      (project_object fill camera child priv)
    exact ⟨r1.trans o1, r2.trans o2, fun hp => r3 (o3 hp)⟩
end

theorem partitioned_valid (list : GthreeRenderList) (h : Partitioned list) :
    (∀ i ∈ list.opaque_, i < list.items.length)
      ∧ (∀ i ∈ list.transparent, i < list.items.length) := by
  unfold Partitioned at h
  constructor
  · intro i hi
    have hm : i ∈ list.opaque_ ++ list.transparent ++ list.background :=
      List.mem_append_left _ (List.mem_append_left _ hi)
    exact List.mem_range.1 (h.mem_iff.1 hm)
  · intro i hi
    have hm : i ∈ list.opaque_ ++ list.transparent ++ list.background :=
      List.mem_append_left _ (List.mem_append_right _ hi)
    exact List.mem_range.1 (h.mem_iff.1 hm)

theorem item_of_items_extended (l1 l2 : GthreeRenderList) (hp : l1.items <+: l2.items) (i : Nat)
    (hi : i < l1.items.length) : l2.item i = l1.item i := by
  obtain ⟨t, ht⟩ := hp
  unfold GthreeRenderList.item
  rw [← ht]
  exact List.getD_append _ _ _ _ hi

theorem pairwise_z_of_items_extended (r : float → float → Prop) (l1 l2 : GthreeRenderList)
    (hp : l1.items <+: l2.items) (indexes : List Nat)
    (hv : ∀ i ∈ indexes, i < l1.items.length)
    (h : indexes.Pairwise (fun a b => r (l1.item a).z (l1.item b).z)) :
    indexes.Pairwise (fun a b => r (l2.item a).z (l2.item b).z) := by
  refine List.Pairwise.imp_of_mem ?_ h
  intro a b ha hb hab
  rw [item_of_items_extended l1 l2 hp a (hv a ha), item_of_items_extended l1 l2 hp b (hv b hb)]
  exact hab

theorem sort_buckets_valid (list : GthreeRenderList) (h : Partitioned list) :
    (∀ i ∈ (gthree_render_list_sort list).opaque_, i < list.items.length)
      ∧ (∀ i ∈ (gthree_render_list_sort list).transparent, i < list.items.length) := by
  obtain ⟨h1, h2⟩ := partitioned_valid list h
  have ho : (gthree_render_list_sort list).opaque_.Perm list.opaque_ :=
    msort_with_tmp_perm _ _ _
  have ht : (gthree_render_list_sort list).transparent.Perm list.transparent :=
    msort_with_tmp_perm _ _ _
  exact ⟨fun i hi => h1 i (ho.mem_iff.1 hi), fun i hi => h2 i (ht.mem_iff.1 hi)⟩

theorem render_frame_after_walk (current : Nat)
    (pushes : GthreeObject → List (Nat × GthreeMaterial × Nat)) (camera : Nat)
    (bg_color : Option GdkRGBA) (bg_mesh : Option GthreeObject)
    (p0 p3 p4 r : GthreeRendererPrivate)
    (h0p : p0.events <+: p3.events)
    (h0c : render_item_calls p3.events = render_item_calls p0.events)
    (hP : Partitioned p3.current_render_list)
    (h4e : p4.events = p3.events)
    (h4l : p4.current_render_list
      = if p3.sort_objects ≠ 0 then gthree_render_list_sort p3.current_render_list
        else p3.current_render_list)
    (hr : r = gthree_renderer_render_passes
      (gthree_renderer_render_background (gthree_object_fill_render_list pushes)
        (gthree_renderer_set_render_target current p4 p4.current_render_target 0 0)
        bg_color bg_mesh) camera none) :
    render_item_calls (logged p0 r)
        = (r.current_render_list.background ++ r.current_render_list.opaque_
            ++ r.current_render_list.transparent).map (pass_call r.current_render_list)
      ∧ (p3.sort_objects ≠ 0 →
          ((∀ i ∈ r.current_render_list.opaque_,
                (r.current_render_list.item i).z ≠ float.nan) →
              r.current_render_list.opaque_.Pairwise
                (fun a b => (r.current_render_list.item a).z ≤ (r.current_render_list.item b).z))
            ∧ ((∀ i ∈ r.current_render_list.transparent,
                (r.current_render_list.item i).z ≠ float.nan) →
              r.current_render_list.transparent.Pairwise
                (fun a b =>
                  (r.current_render_list.item a).z ≥ (r.current_render_list.item b).z))) := by
  obtain ⟨t1, t2, t3⟩ := set_render_target_scene current p4 p4.current_render_target 0 0
  generalize gthree_renderer_set_render_target current p4 p4.current_render_target 0 0 = p5
    at hr t1 t2 t3
  obtain ⟨b1, b2, b3, b4, b5⟩ := render_background_scene pushes p5 bg_color bg_mesh
  generalize gthree_renderer_render_background (gthree_object_fill_render_list pushes) p5
    bg_color bg_mesh = p6 at hr b1 b2 b3 b4 b5
  obtain ⟨q1, q2, q3⟩ := render_passes_scene p6 camera
  rw [← hr] at q1 q2 q3
  constructor
  · rw [q3]
    apply render_item_calls_logged
    · rw [← h4e] at h0p
      exact ((h0p.trans t1).trans b1).trans q1
    · rw [q2, b2, t2, h4e, h0c]
  · intro hs
    rw [q3, b3, b4, t3, h4l, if_pos hs]
    rw [t3, h4l, if_pos hs] at b5
    obtain ⟨s1, s2⟩ := sort_buckets_pairwise p3.current_render_list
    obtain ⟨v1, v2⟩ := sort_buckets_valid p3.current_render_list hP
    constructor
    · intro hz
      refine pairwise_z_of_items_extended (fun x y => x ≤ y) _ _ b5 _ v1 (s1 ?_)
      intro i hi
      have hi2 : i ∈ (gthree_render_list_sort p3.current_render_list).opaque_ :=
        (msort_with_tmp_perm _ _ _).symm.subset hi
      have hn := hz i hi2
      rw [item_of_items_extended _ _ b5 i (v1 i hi2)] at hn
      exact hn
    · intro hz
      refine pairwise_z_of_items_extended (fun x y => x ≥ y) _ _ b5 _ v2 (s2 ?_)
      intro i hi
      have hi2 : i ∈ (gthree_render_list_sort p3.current_render_list).transparent :=
        (msort_with_tmp_perm _ _ _).symm.subset hi
      have hn := hz i hi2
      rw [item_of_items_extended _ _ b5 i (v2 i hi2)] at hn
      exact hn

/-- C23 (counterexample): a frame with sorting enabled over three opaque sprites whose
depths are 5, NaN and 1. The sort leaves the opaque index array as `[0, 1, 2]`, so the opaque
pass draws the item of depth 5 first and the item of depth 1 last: the depths along the pass
are not ascending. -/
theorem render_frame_nan_depth_opaque_pass_unsorted :
    render_item_calls (logged { sort_objects := TRUE, gl_context := 1 }
        (gthree_renderer_render_frame 1
          (gthree_object_fill_render_list
            (fun object => [(object.addr + 10, { addr := object.addr + 20 }, 0)]))
          {}
          (SceneNode.mk { addr := 0, kind := GthreeObjectKind.group }
            [SceneNode.mk { addr := 1, kind := GthreeObjectKind.sprite, projected_z := 5 } [],
             SceneNode.mk { addr := 2, kind := GthreeObjectKind.sprite, projected_z := float.nan } [],
             SceneNode.mk { addr := 3, kind := GthreeObjectKind.sprite, projected_z := 1 } []])
          none none none { sort_objects := TRUE, gl_context := 1 }))
        = [(0, 21), (1, 22), (2, 23)]
      ∧ ((gthree_renderer_render_frame 1
          (gthree_object_fill_render_list
            (fun object => [(object.addr + 10, { addr := object.addr + 20 }, 0)]))
          {}
          (SceneNode.mk { addr := 0, kind := GthreeObjectKind.group }
            [SceneNode.mk { addr := 1, kind := GthreeObjectKind.sprite, projected_z := 5 } [],
             SceneNode.mk { addr := 2, kind := GthreeObjectKind.sprite, projected_z := float.nan } [],
             SceneNode.mk { addr := 3, kind := GthreeObjectKind.sprite, projected_z := 1 } []])
          none none none
          { sort_objects := TRUE, gl_context := 1 }).current_render_list.opaque_.map
          (fun i => ((gthree_renderer_render_frame 1
            (gthree_object_fill_render_list
              (fun object => [(object.addr + 10, { addr := object.addr + 20 }, 0)]))
            {}
            (SceneNode.mk { addr := 0, kind := GthreeObjectKind.group }
              [SceneNode.mk { addr := 1, kind := GthreeObjectKind.sprite, projected_z := 5 } [],
               SceneNode.mk { addr := 2, kind := GthreeObjectKind.sprite, projected_z := float.nan } [],
               SceneNode.mk { addr := 3, kind := GthreeObjectKind.sprite, projected_z := 1 } []])
            none none none
            { sort_objects := TRUE, gl_context := 1 }).current_render_list.item i).z))
        = [5, float.nan, 1] := by
  decide

/-- C23 (amended): in a frame rendered without override material, the calls of `render_item`
made by `gthree_renderer_render` are, in order, one call for every entry of the background
index array, then one for every entry of the opaque index array, then one for every entry of
the transparent index array, each in the order of its array and with the material of the
item; when sorting is enabled, the depth values of the items are non-decreasing along the
opaque pass if no item of the opaque array has a NaN depth, and non-increasing along the
transparent pass if no item of the transparent array has a NaN depth. -/
theorem render_frame_three_passes (current : Nat)
    (pushes : GthreeObject → List (Nat × GthreeMaterial × Nat)) (camera : GthreeCamera)
    (scene : SceneNode) (bg_color : Option GdkRGBA) (bg_mesh : Option GthreeObject)
    (priv : GthreeRendererPrivate) :
    render_item_calls (logged priv
        (gthree_renderer_render_frame current (gthree_object_fill_render_list pushes) camera
          scene bg_color bg_mesh none priv))
        = ((gthree_renderer_render_frame current (gthree_object_fill_render_list pushes) camera
              scene bg_color bg_mesh none priv).current_render_list.background
            ++ (gthree_renderer_render_frame current (gthree_object_fill_render_list pushes)
              camera scene bg_color bg_mesh none priv).current_render_list.opaque_
            ++ (gthree_renderer_render_frame current (gthree_object_fill_render_list pushes)
              camera scene bg_color bg_mesh none priv).current_render_list.transparent).map
          (pass_call (gthree_renderer_render_frame current
            (gthree_object_fill_render_list pushes) camera scene bg_color bg_mesh none
            priv).current_render_list)
      ∧ (priv.sort_objects ≠ 0 →
          ((∀ i ∈ (gthree_renderer_render_frame current (gthree_object_fill_render_list pushes)
                  camera scene bg_color bg_mesh none priv).current_render_list.opaque_,
              ((gthree_renderer_render_frame current (gthree_object_fill_render_list pushes)
                  camera scene bg_color bg_mesh none priv).current_render_list.item i).z ≠ float.nan) →
            (gthree_renderer_render_frame current (gthree_object_fill_render_list pushes)
                  camera scene bg_color bg_mesh none priv).current_render_list.opaque_.Pairwise
              (fun a b =>
                ((gthree_renderer_render_frame current (gthree_object_fill_render_list pushes)
                  camera scene bg_color bg_mesh none priv).current_render_list.item a).z
                  ≤ ((gthree_renderer_render_frame current (gthree_object_fill_render_list pushes)
                  camera scene bg_color bg_mesh none priv).current_render_list.item b).z))
          ∧ ((∀ i ∈ (gthree_renderer_render_frame current (gthree_object_fill_render_list pushes)
                  camera scene bg_color bg_mesh none priv).current_render_list.transparent,
              ((gthree_renderer_render_frame current (gthree_object_fill_render_list pushes)
                  camera scene bg_color bg_mesh none priv).current_render_list.item i).z ≠ float.nan) →
            (gthree_renderer_render_frame current (gthree_object_fill_render_list pushes)
                  camera scene bg_color bg_mesh none priv).current_render_list.transparent.Pairwise
              (fun a b =>
                ((gthree_renderer_render_frame current (gthree_object_fill_render_list pushes)
                  camera scene bg_color bg_mesh none priv).current_render_list.item a).z
                  ≥ ((gthree_renderer_render_frame current (gthree_object_fill_render_list pushes)
                  camera scene bg_color bg_mesh none priv).current_render_list.item b).z))) := by
  have key : ∀ p2 : GthreeRendererPrivate, p2.events = priv.events
      → p2.sort_objects = priv.sort_objects → Partitioned p2.current_render_list
      → ∀ r : GthreeRendererPrivate,
        r = gthree_renderer_render_passes
          (gthree_renderer_render_background (gthree_object_fill_render_list pushes)
            (gthree_renderer_set_render_target current
              (if (project_object (gthree_object_fill_render_list pushes) camera scene
                    p2).sort_objects ≠ 0 then
                { project_object (gthree_object_fill_render_list pushes) camera scene p2 with
                  current_render_list := gthree_render_list_sort
                    (project_object (gthree_object_fill_render_list pushes) camera scene
                      p2).current_render_list }
              else project_object (gthree_object_fill_render_list pushes) camera scene p2)
              (if (project_object (gthree_object_fill_render_list pushes) camera scene
                    p2).sort_objects ≠ 0 then
                { project_object (gthree_object_fill_render_list pushes) camera scene p2 with
                  current_render_list := gthree_render_list_sort
                    (project_object (gthree_object_fill_render_list pushes) camera scene
                      p2).current_render_list }
              else project_object (gthree_object_fill_render_list pushes) camera scene
                p2).current_render_target 0 0)
            bg_color bg_mesh) camera.addr none
      → render_item_calls (logged priv r)
          = (r.current_render_list.background ++ r.current_render_list.opaque_
              ++ r.current_render_list.transparent).map (pass_call r.current_render_list)
        ∧ (priv.sort_objects ≠ 0 →
            ((∀ i ∈ r.current_render_list.opaque_,
                  (r.current_render_list.item i).z ≠ float.nan) →
                r.current_render_list.opaque_.Pairwise
                  (fun a b =>
                    (r.current_render_list.item a).z ≤ (r.current_render_list.item b).z))
              ∧ ((∀ i ∈ r.current_render_list.transparent,
                  (r.current_render_list.item i).z ≠ float.nan) →
                r.current_render_list.transparent.Pairwise
                  (fun a b =>
                    (r.current_render_list.item a).z
                      ≥ (r.current_render_list.item b).z))) := by
    intro p2 he hs hP r hr
    obtain ⟨w1, w2, w3⟩ := project_object_frame (gthree_object_fill_render_list pushes)
      (fun object list h => fill_render_list_partitioned pushes object list h) camera scene p2
    have wp := project_object_extends (gthree_object_fill_render_list pushes) camera scene p2
    rw [he] at w1 wp
    rw [← hs, ← w2]
    refine render_frame_after_walk current pushes camera.addr bg_color bg_mesh priv
      (project_object (gthree_object_fill_render_list pushes) camera scene p2) _ r wp w1 (w3 hP)
      ?_ ?_ hr
    · split_ifs <;> rfl
    · split_ifs <;> rfl
  exact key
    { priv with
      lights := []
      current_material := 0
      current_camera := 0
      current_geometry_program_geometry := 0
      current_geometry_program_program := 0
      current_geometry_program_wireframe := FALSE
      current_render_list := gthree_render_list_init priv.current_render_list }
    rfl rfl (by simp [Partitioned, gthree_render_list_init]) _ rfl

/-- C23 (witness): a frame with sorting enabled over four sprites at depths 5, 3, 1 and 7,
the last two with a transparent material, and a background mesh: the background item (index
4) is drawn first, then the opaque items by ascending depth (indices 1, 0), then the
transparent items by descending depth (indices 3, 2). -/
theorem render_frame_three_passes_witness :
    ({ sort_objects := TRUE, gl_context := 1 } : GthreeRendererPrivate).sort_objects ≠ 0
      ∧ render_item_calls (logged { sort_objects := TRUE, gl_context := 1 }
        (gthree_renderer_render_frame 1
          (gthree_object_fill_render_list
            (fun object => [(object.addr + 10, { transparent := if 3 ≤ object.addr then TRUE else FALSE, addr := object.addr + 20 }, 0)]))
          {}
          (SceneNode.mk { addr := 0, kind := GthreeObjectKind.group }
            [SceneNode.mk { addr := 1, kind := GthreeObjectKind.sprite, projected_z := 5 } [],
             SceneNode.mk { addr := 2, kind := GthreeObjectKind.sprite, projected_z := 3 } [],
             SceneNode.mk { addr := 3, kind := GthreeObjectKind.sprite, projected_z := 1 } [],
             SceneNode.mk { addr := 4, kind := GthreeObjectKind.sprite, projected_z := 7 } []])
          none (some { addr := 9 }) none { sort_objects := TRUE, gl_context := 1 }))
        = [(4, 29), (1, 22), (0, 21), (3, 24), (2, 23)]
      ∧ (gthree_renderer_render_frame 1
          (gthree_object_fill_render_list
            (fun object => [(object.addr + 10, { transparent := if 3 ≤ object.addr then TRUE else FALSE, addr := object.addr + 20 }, 0)]))
          {}
          (SceneNode.mk { addr := 0, kind := GthreeObjectKind.group }
            [SceneNode.mk { addr := 1, kind := GthreeObjectKind.sprite, projected_z := 5 } [],
             SceneNode.mk { addr := 2, kind := GthreeObjectKind.sprite, projected_z := 3 } [],
             SceneNode.mk { addr := 3, kind := GthreeObjectKind.sprite, projected_z := 1 } [],
             SceneNode.mk { addr := 4, kind := GthreeObjectKind.sprite, projected_z := 7 } []])
          none (some { addr := 9 }) none { sort_objects := TRUE, gl_context := 1 }).current_render_list.opaque_.Pairwise
          (fun a b =>
            ((gthree_renderer_render_frame 1
          (gthree_object_fill_render_list
            (fun object => [(object.addr + 10, { transparent := if 3 ≤ object.addr then TRUE else FALSE, addr := object.addr + 20 }, 0)]))
          {}
          (SceneNode.mk { addr := 0, kind := GthreeObjectKind.group }
            [SceneNode.mk { addr := 1, kind := GthreeObjectKind.sprite, projected_z := 5 } [],
             SceneNode.mk { addr := 2, kind := GthreeObjectKind.sprite, projected_z := 3 } [],
             SceneNode.mk { addr := 3, kind := GthreeObjectKind.sprite, projected_z := 1 } [],
             SceneNode.mk { addr := 4, kind := GthreeObjectKind.sprite, projected_z := 7 } []])
          none (some { addr := 9 }) none { sort_objects := TRUE, gl_context := 1 }).current_render_list.item a).z
              ≤ ((gthree_renderer_render_frame 1
          (gthree_object_fill_render_list
            (fun object => [(object.addr + 10, { transparent := if 3 ≤ object.addr then TRUE else FALSE, addr := object.addr + 20 }, 0)]))
          {}
          (SceneNode.mk { addr := 0, kind := GthreeObjectKind.group }
            [SceneNode.mk { addr := 1, kind := GthreeObjectKind.sprite, projected_z := 5 } [],
             SceneNode.mk { addr := 2, kind := GthreeObjectKind.sprite, projected_z := 3 } [],
             SceneNode.mk { addr := 3, kind := GthreeObjectKind.sprite, projected_z := 1 } [],
             SceneNode.mk { addr := 4, kind := GthreeObjectKind.sprite, projected_z := 7 } []])
          none (some { addr := 9 }) none { sort_objects := TRUE, gl_context := 1 }).current_render_list.item b).z) :=
  ⟨by decide,
    (render_frame_three_passes 1
        (fun object => [(object.addr + 10, { transparent := if 3 ≤ object.addr then TRUE else FALSE, addr := object.addr + 20 }, 0)])
        {}
        (SceneNode.mk { addr := 0, kind := GthreeObjectKind.group }
            [SceneNode.mk { addr := 1, kind := GthreeObjectKind.sprite, projected_z := 5 } [],
             SceneNode.mk { addr := 2, kind := GthreeObjectKind.sprite, projected_z := 3 } [],
             SceneNode.mk { addr := 3, kind := GthreeObjectKind.sprite, projected_z := 1 } [],
             SceneNode.mk { addr := 4, kind := GthreeObjectKind.sprite, projected_z := 7 } []])
        none (some { addr := 9 }) { sort_objects := TRUE, gl_context := 1 }).1.trans (by decide),
    ((render_frame_three_passes 1
        (fun object => [(object.addr + 10, { transparent := if 3 ≤ object.addr then TRUE else FALSE, addr := object.addr + 20 }, 0)])
        {}
        (SceneNode.mk { addr := 0, kind := GthreeObjectKind.group }
            [SceneNode.mk { addr := 1, kind := GthreeObjectKind.sprite, projected_z := 5 } [],
             SceneNode.mk { addr := 2, kind := GthreeObjectKind.sprite, projected_z := 3 } [],
             SceneNode.mk { addr := 3, kind := GthreeObjectKind.sprite, projected_z := 1 } [],
             SceneNode.mk { addr := 4, kind := GthreeObjectKind.sprite, projected_z := 7 } []])
        none (some { addr := 9 }) { sort_objects := TRUE, gl_context := 1 }).2 (by decide)).1
      (by decide)⟩

/-! ## The context assertion of the public entry points -/

/-- C24 (evaluation of the code): the renderer was constructed against context 1 and the
caller's current context is 2. `gthree_renderer_render`, `gthree_renderer_clear`,
`gthree_renderer_clear_depth` and `gthree_renderer_clear_color` abort on their assertion.
`gthree_renderer_set_viewport`, `gthree_renderer_set_size`, `gthree_renderer_set_clear_color`
and `gthree_renderer_set_render_target` carry no assertion: they return normally, having
issued `glViewport`, `glClearColor`, and `glBindFramebuffer` followed by `glViewport`. -/
theorem setters_issue_gl_in_foreign_context :
    gthree_renderer_render 2 (fun _ list => list) {} (SceneNode.mk {} []) none none none
        { gl_context := 1 } = none
      ∧ gthree_renderer_clear 2 { gl_context := 1 } TRUE TRUE TRUE = none
      ∧ gthree_renderer_clear_depth 2 { gl_context := 1 } = none
      ∧ gthree_renderer_clear_color 2 { gl_context := 1 } = none
      ∧ (gthree_renderer_set_viewport 2 { gl_context := 1 } 0 0 640 480).gl_log
        = [GLCommand.glViewport 0 0 640 480]
      ∧ (gthree_renderer_set_size 2 { gl_context := 1 } 640 480).gl_log
        = [GLCommand.glViewport 0 0 640 480]
      ∧ (gthree_renderer_set_clear_color 2 { gl_context := 1 }
          { red := 1, green := 0, blue := 0, alpha := 1 }).gl_log
        = [GLCommand.glClearColor 1 0 0 1]
      ∧ (gthree_renderer_set_render_target 2 { gl_context := 1 } none 0 0).gl_log
        = [GLCommand.glBindFramebuffer GL_FRAMEBUFFER 0, GLCommand.glViewport 0 0 0 0]
      ∧ (gthree_renderer_clear 1 { gl_context := 1 } TRUE TRUE TRUE).map
          (fun priv => priv.gl_log) = some [GLCommand.glClear 0x4500] := by
  decide

/-! ## Soundness of the device-state cache -/

theorem gpu_state_of_log (priv priv2 : GthreeRendererPrivate) (commands : List GLCommand)
    (h : priv2.gl_log = priv.gl_log ++ commands) :
    gpu_state priv2 = (gpu_state priv).run commands := by
  unfold gpu_state GLState.run
  rw [h, List.foldl_append]

theorem most_recent_append {α β : Type} (f : α → Option β) (l : List α) (a : α) :
    most_recent f (l ++ [a])
      = (match f a with
         | some v => some v
         | none => most_recent f l) := by
  unfold most_recent
  rw [List.foldl_append]
  rfl

theorem device_cache_sound_init : device_cache_sound gthree_renderer_init_instance := by
  decide

theorem set_depth_test_gpu (priv : GthreeRendererPrivate) (b : gboolean)
    (hs : (gpu_state priv).depth_test = decide (priv.old_depth_test ≠ 0)) :
    gpu_state (set_depth_test priv b)
      = { gpu_state priv with depth_test := decide (b ≠ 0) } := by
  rw [gpu_state_of_log priv _ _ (set_depth_test_log priv b)]
  by_cases h : priv.old_depth_test ≠ b
  · rw [if_pos h]
    unfold enable_command
    by_cases hb : b ≠ 0
    · rw [if_pos hb, decide_eq_true hb]
      rfl
    · rw [if_neg hb, decide_eq_false hb]
      rfl
  · rw [if_neg h]
    rw [not_not] at h
    have e : decide (b ≠ 0) = (gpu_state priv).depth_test := by rw [hs, h]
    rw [e]
    rfl

theorem set_depth_write_gpu (priv : GthreeRendererPrivate) (b : gboolean)
    (hs : (gpu_state priv).depth_mask = decide (priv.old_depth_write ≠ 0)) :
    gpu_state (set_depth_write priv b)
      = { gpu_state priv with depth_mask := decide (b ≠ 0) } := by
  rw [gpu_state_of_log priv _ _ (set_depth_write_log priv b)]
  by_cases h : priv.old_depth_write ≠ b
  · rw [if_pos h]
    rfl
  · rw [if_neg h]
    rw [not_not] at h
    have e : decide (b ≠ 0) = (gpu_state priv).depth_mask := by rw [hs, h]
    rw [e]
    rfl

theorem set_line_width_gpu (priv : GthreeRendererPrivate) (w : float) :
    gpu_state (set_line_width priv w)
      = (if float.ne priv.old_line_width w then { gpu_state priv with line_width := w }
         else gpu_state priv) := by
  rw [gpu_state_of_log priv _ _ (set_line_width_log priv w)]
  by_cases h : float.ne priv.old_line_width w
  · rw [if_pos h, if_pos h]
    rfl
  · rw [if_neg h, if_neg h]
    rfl

theorem run_cull_command (g : GLState) (side : GthreeSide) :
    g.run [cull_command side]
      = { g with cull_face := decide (c_bool (side = GthreeSide.GTHREE_SIDE_DOUBLE) = 0) } := by
  cases side <;> rfl

theorem run_winding_command (g : GLState) (side : GthreeSide) :
    g.run [winding_command side]
      = { g with
          front_face :=
            if c_bool (side = GthreeSide.GTHREE_SIDE_BACK) ≠ 0 then GL_CW else GL_CCW } := by
  cases side <;> rfl

theorem run_append (g : GLState) (a b : List GLCommand) :
    g.run (a ++ b) = (g.run a).run b := by
  unfold GLState.run
  rw [List.foldl_append]

theorem set_material_faces_gpu (priv : GthreeRendererPrivate) (material : GthreeMaterial)
    (hc : (gpu_state priv).cull_face = decide (priv.old_double_sided = 0))
    (hf : (gpu_state priv).front_face = (if priv.old_flip_sided ≠ 0 then GL_CW else GL_CCW)) :
    gpu_state (set_material_faces priv material)
      = { gpu_state priv with
          cull_face := decide (c_bool (material.side = GthreeSide.GTHREE_SIDE_DOUBLE) = 0)
          front_face :=
            if c_bool (material.side = GthreeSide.GTHREE_SIDE_BACK) ≠ 0 then GL_CW
            else GL_CCW } := by
  rw [gpu_state_of_log priv _ _ (set_material_faces_log priv material), run_append]
  have h1 : (gpu_state priv).run
      (if priv.old_double_sided ≠ c_bool (material.side = GthreeSide.GTHREE_SIDE_DOUBLE)
        then [cull_command material.side] else [])
      = { gpu_state priv with
          cull_face := decide (c_bool (material.side = GthreeSide.GTHREE_SIDE_DOUBLE) = 0) } := by
    by_cases h : priv.old_double_sided ≠ c_bool (material.side = GthreeSide.GTHREE_SIDE_DOUBLE)
    · rw [if_pos h, run_cull_command]
    · rw [if_neg h]
      rw [not_not] at h
      rw [← h, ← hc]
      rfl
  rw [h1]
  by_cases h : priv.old_flip_sided ≠ c_bool (material.side = GthreeSide.GTHREE_SIDE_BACK)
  · rw [if_pos h, run_winding_command]
  · rw [if_neg h]
    rw [not_not] at h
    rw [← h, ← hf]
    rfl

theorem set_polygon_offset_gpu (priv : GthreeRendererPrivate) (b : gboolean)
    (factor units : float)
    (he : (gpu_state priv).polygon_offset_fill = decide (priv.old_polygon_offset ≠ 0))
    (hf : (gpu_state priv).polygon_offset_factor = priv.old_polygon_offset_factor)
    (hu : (gpu_state priv).polygon_offset_units = priv.old_polygon_offset_units) :
    gpu_state (set_polygon_offset priv b factor units)
      = { gpu_state priv with
          polygon_offset_fill := decide (b ≠ 0)
          polygon_offset_factor := if b ≠ 0 then factor else (gpu_state priv).polygon_offset_factor
          polygon_offset_units :=
            if b ≠ 0 then units else (gpu_state priv).polygon_offset_units } := by
  rw [gpu_state_of_log priv _ _ (set_polygon_offset_log priv b factor units), run_append]
  have h1 : (gpu_state priv).run
      (if priv.old_polygon_offset ≠ b then [enable_command GL_POLYGON_OFFSET_FILL b] else [])
      = { gpu_state priv with polygon_offset_fill := decide (b ≠ 0) } := by
    by_cases h : priv.old_polygon_offset ≠ b
    · rw [if_pos h]
      unfold enable_command
      by_cases hb : b ≠ 0
      · rw [if_pos hb, decide_eq_true hb]
        rfl
      · rw [if_neg hb, decide_eq_false hb]
        rfl
    · rw [if_neg h]
      rw [not_not] at h
      have e : decide (b ≠ 0) = (gpu_state priv).polygon_offset_fill := by rw [he, h]
      rw [e]
      rfl
  rw [h1]
  by_cases hb : b ≠ 0
  · rw [if_pos hb, if_pos hb]
    by_cases h : float.ne priv.old_polygon_offset_factor factor
        ∨ float.ne priv.old_polygon_offset_units units
    · rw [if_pos (And.intro hb h)]
      rfl
    · rw [if_neg (fun x => h x.2)]
      rw [not_or] at h
      rw [← float_eq_of_not_ne _ _ h.1, ← float_eq_of_not_ne _ _ h.2, ← hf, ← hu]
      rfl
  · rw [if_neg hb, if_neg hb, if_neg (fun x => hb x.1)]
    rfl

theorem set_depth_test_fields (priv : GthreeRendererPrivate) (b : gboolean) :
    (set_depth_test priv b).old_depth_test = b
      ∧ (set_depth_test priv b).old_depth_write = priv.old_depth_write
      ∧ (set_depth_test priv b).old_double_sided = priv.old_double_sided
      ∧ (set_depth_test priv b).old_flip_sided = priv.old_flip_sided
      ∧ (set_depth_test priv b).old_polygon_offset = priv.old_polygon_offset
      ∧ (set_depth_test priv b).old_polygon_offset_factor = priv.old_polygon_offset_factor
      ∧ (set_depth_test priv b).old_polygon_offset_units = priv.old_polygon_offset_units
      ∧ (set_depth_test priv b).old_line_width = priv.old_line_width := by
  rw [set_depth_test_cache]
  exact ⟨rfl, rfl, rfl, rfl, rfl, rfl, rfl, rfl⟩

theorem set_depth_write_fields (priv : GthreeRendererPrivate) (b : gboolean) :
    (set_depth_write priv b).old_depth_test = priv.old_depth_test
      ∧ (set_depth_write priv b).old_depth_write = b
      ∧ (set_depth_write priv b).old_double_sided = priv.old_double_sided
      ∧ (set_depth_write priv b).old_flip_sided = priv.old_flip_sided
      ∧ (set_depth_write priv b).old_polygon_offset = priv.old_polygon_offset
      ∧ (set_depth_write priv b).old_polygon_offset_factor = priv.old_polygon_offset_factor
      ∧ (set_depth_write priv b).old_polygon_offset_units = priv.old_polygon_offset_units
      ∧ (set_depth_write priv b).old_line_width = priv.old_line_width := by
  rw [set_depth_write_cache]
  exact ⟨rfl, rfl, rfl, rfl, rfl, rfl, rfl, rfl⟩

theorem set_line_width_fields (priv : GthreeRendererPrivate) (w : float) :
    (set_line_width priv w).old_depth_test = priv.old_depth_test
      ∧ (set_line_width priv w).old_depth_write = priv.old_depth_write
      ∧ (set_line_width priv w).old_double_sided = priv.old_double_sided
      ∧ (set_line_width priv w).old_flip_sided = priv.old_flip_sided
      ∧ (set_line_width priv w).old_polygon_offset = priv.old_polygon_offset
      ∧ (set_line_width priv w).old_polygon_offset_factor = priv.old_polygon_offset_factor
      ∧ (set_line_width priv w).old_polygon_offset_units = priv.old_polygon_offset_units
      ∧ (set_line_width priv w).old_line_width = w := by
  rw [set_line_width_cache]
  exact ⟨rfl, rfl, rfl, rfl, rfl, rfl, rfl, rfl⟩

theorem set_material_faces_fields (priv : GthreeRendererPrivate) (material : GthreeMaterial) :
    (set_material_faces priv material).old_depth_test = priv.old_depth_test
      ∧ (set_material_faces priv material).old_depth_write = priv.old_depth_write
      ∧ (set_material_faces priv material).old_double_sided
        = c_bool (material.side = GthreeSide.GTHREE_SIDE_DOUBLE)
      ∧ (set_material_faces priv material).old_flip_sided
        = c_bool (material.side = GthreeSide.GTHREE_SIDE_BACK)
      ∧ (set_material_faces priv material).old_polygon_offset = priv.old_polygon_offset
      ∧ (set_material_faces priv material).old_polygon_offset_factor
        = priv.old_polygon_offset_factor
      ∧ (set_material_faces priv material).old_polygon_offset_units
        = priv.old_polygon_offset_units
      ∧ (set_material_faces priv material).old_line_width = priv.old_line_width := by
  rw [set_material_faces_cache]
  exact ⟨rfl, rfl, rfl, rfl, rfl, rfl, rfl, rfl⟩

theorem set_polygon_offset_fields (priv : GthreeRendererPrivate) (b : gboolean)
    (factor units : float) :
    (set_polygon_offset priv b factor units).old_depth_test = priv.old_depth_test
      ∧ (set_polygon_offset priv b factor units).old_depth_write = priv.old_depth_write
      ∧ (set_polygon_offset priv b factor units).old_double_sided = priv.old_double_sided
      ∧ (set_polygon_offset priv b factor units).old_flip_sided = priv.old_flip_sided
      ∧ (set_polygon_offset priv b factor units).old_polygon_offset = b
      ∧ (set_polygon_offset priv b factor units).old_polygon_offset_factor
        = (if b ≠ 0 then factor else priv.old_polygon_offset_factor)
      ∧ (set_polygon_offset priv b factor units).old_polygon_offset_units
        = (if b ≠ 0 then units else priv.old_polygon_offset_units)
      ∧ (set_polygon_offset priv b factor units).old_line_width = priv.old_line_width := by
  rw [set_polygon_offset_cache]
  exact ⟨rfl, rfl, rfl, rfl, rfl, rfl, rfl, rfl⟩

theorem run_device_state_calls_append (priv : GthreeRendererPrivate)
    (calls : List DeviceStateCall) (c : DeviceStateCall) :
    run_device_state_calls priv (calls ++ [c])
      = DeviceStateCall.apply (run_device_state_calls priv calls) c := by
  unfold run_device_state_calls
  rw [List.foldl_append]
  rfl

theorem line_width_requested_append (calls : List DeviceStateCall) (c : DeviceStateCall) :
    line_width_requested (calls ++ [c])
      = (line_width_requested calls
          || (match c.width with
              | some w => decide (w ≠ 0)
              | none => false)) := by
  unfold line_width_requested
  rw [List.any_append, List.any_cons, List.any_nil, Bool.or_false]

theorem device_state_calls_invariant (calls : List DeviceStateCall) :
    device_cache_sound (run_device_state_calls gthree_renderer_init_instance calls)
      ∧ (∀ b, most_recent DeviceStateCall.depth_test_flag calls = some b →
          (run_device_state_calls gthree_renderer_init_instance calls).old_depth_test = b)
      ∧ (∀ b, most_recent DeviceStateCall.depth_write_flag calls = some b →
          (run_device_state_calls gthree_renderer_init_instance calls).old_depth_write = b)
      ∧ (∀ side, most_recent DeviceStateCall.side calls = some side →
          (run_device_state_calls gthree_renderer_init_instance calls).old_double_sided
              = c_bool (side = GthreeSide.GTHREE_SIDE_DOUBLE)
            ∧ (run_device_state_calls gthree_renderer_init_instance calls).old_flip_sided
              = c_bool (side = GthreeSide.GTHREE_SIDE_BACK))
      ∧ (∀ b, most_recent DeviceStateCall.polygon_offset_flag calls = some b →
          (run_device_state_calls gthree_renderer_init_instance calls).old_polygon_offset = b)
      ∧ (∀ v, most_recent DeviceStateCall.polygon_offset_values calls = some v →
          (run_device_state_calls gthree_renderer_init_instance calls).old_polygon_offset_factor
              = v.1
            ∧ (run_device_state_calls gthree_renderer_init_instance calls).old_polygon_offset_units
              = v.2)
      ∧ (∀ w, most_recent DeviceStateCall.width calls = some w →
          (run_device_state_calls gthree_renderer_init_instance calls).old_line_width = w)
      ∧ (if line_width_requested calls = true then
          (gpu_state (run_device_state_calls gthree_renderer_init_instance calls)).line_width
            = (run_device_state_calls gthree_renderer_init_instance calls).old_line_width
        else
          (run_device_state_calls gthree_renderer_init_instance calls).old_line_width = 0
            ∧ (gpu_state (run_device_state_calls gthree_renderer_init_instance calls)).line_width
              = 1) := by
  induction calls using List.reverseRecOn with
  | nil =>
    refine ⟨device_cache_sound_init, ?_, ?_, ?_, ?_, ?_, ?_, ?_⟩
    · intro b h; exact absurd h (by simp [most_recent])
    · intro b h; exact absurd h (by simp [most_recent])
    · intro b h; exact absurd h (by simp [most_recent])
    · intro b h; exact absurd h (by simp [most_recent])
    · intro b h; exact absurd h (by simp [most_recent])
    · intro b h; exact absurd h (by simp [most_recent])
    · decide
  | append_singleton l c ih =>
    obtain ⟨⟨s1, s2, s3, s4, s5, s6, s7⟩, q2, q3, q4, q5, q6, q7, q8⟩ := ih
    rw [run_device_state_calls_append, line_width_requested_append]
    simp only [most_recent_append]
    generalize run_device_state_calls gthree_renderer_init_instance l = p
      at s1 s2 s3 s4 s5 s6 s7 q2 q3 q4 q5 q6 q7 q8 ⊢
    cases c with
    | depth_test b =>
      obtain ⟨f1, f2, f3, f4, f5, f6, f7, f8⟩ := set_depth_test_fields p b
      have g := set_depth_test_gpu p b s1
      simp only [DeviceStateCall.apply, DeviceStateCall.depth_test_flag,
        DeviceStateCall.depth_write_flag, DeviceStateCall.side,
        DeviceStateCall.polygon_offset_flag, DeviceStateCall.polygon_offset_values,
        DeviceStateCall.width, Bool.or_false]
      unfold device_cache_sound
      rw [g, f1, f2, f3, f4, f5, f6, f7, f8]
      refine ⟨⟨rfl, s2, s3, s4, s5, s6, s7⟩, ?_, q3, q4, q5, q6, q7, q8⟩
      intro b2 h
      exact Option.some.inj h
    | depth_write b =>
      obtain ⟨f1, f2, f3, f4, f5, f6, f7, f8⟩ := set_depth_write_fields p b
      have g := set_depth_write_gpu p b s2
      simp only [DeviceStateCall.apply, DeviceStateCall.depth_test_flag,
        DeviceStateCall.depth_write_flag, DeviceStateCall.side,
        DeviceStateCall.polygon_offset_flag, DeviceStateCall.polygon_offset_values,
        DeviceStateCall.width, Bool.or_false]
      unfold device_cache_sound
      rw [g, f1, f2, f3, f4, f5, f6, f7, f8]
      refine ⟨⟨s1, rfl, s3, s4, s5, s6, s7⟩, q2, ?_, q4, q5, q6, q7, q8⟩
      intro b2 h
      exact Option.some.inj h
    | material_faces m =>
      obtain ⟨f1, f2, f3, f4, f5, f6, f7, f8⟩ := set_material_faces_fields p m
      have g := set_material_faces_gpu p m s3 s4
      simp only [DeviceStateCall.apply, DeviceStateCall.depth_test_flag,
        DeviceStateCall.depth_write_flag, DeviceStateCall.side,
        DeviceStateCall.polygon_offset_flag, DeviceStateCall.polygon_offset_values,
        DeviceStateCall.width, Bool.or_false]
      unfold device_cache_sound
      rw [g, f1, f2, f3, f4, f5, f6, f7, f8]
      refine ⟨⟨s1, s2, rfl, rfl, s5, s6, s7⟩, q2, q3, ?_, q5, q6, q7, q8⟩
      intro side h
      rw [← Option.some.inj h]
      exact ⟨rfl, rfl⟩
    | polygon_offset b factor units =>
      obtain ⟨f1, f2, f3, f4, f5, f6, f7, f8⟩ := set_polygon_offset_fields p b factor units
      have g := set_polygon_offset_gpu p b factor units s5 s6 s7
      simp only [DeviceStateCall.apply, DeviceStateCall.depth_test_flag,
        DeviceStateCall.depth_write_flag, DeviceStateCall.side,
        DeviceStateCall.polygon_offset_flag, DeviceStateCall.polygon_offset_values,
        DeviceStateCall.width, Bool.or_false]
      unfold device_cache_sound
      rw [g, f1, f2, f3, f4, f5, f6, f7, f8]
      refine ⟨⟨s1, s2, s3, s4, rfl, ?_, ?_⟩, q2, q3, q4, ?_, ?_, q7, q8⟩
      · show (if b ≠ 0 then factor else (gpu_state p).polygon_offset_factor) = _
        rw [s6]
      · show (if b ≠ 0 then units else (gpu_state p).polygon_offset_units) = _
        rw [s7]
      · intro b2 h
        exact Option.some.inj h
      · intro v h
        by_cases hb : b ≠ 0
        · rw [if_pos hb] at h
          rw [if_pos hb, if_pos hb, ← Option.some.inj h]
          exact ⟨rfl, rfl⟩
        · rw [if_neg hb] at h
          rw [if_neg hb, if_neg hb]
          exact q6 v h
    | line_width w =>
      obtain ⟨f1, f2, f3, f4, f5, f6, f7, f8⟩ := set_line_width_fields p w
      have g := set_line_width_gpu p w
      simp only [DeviceStateCall.apply, DeviceStateCall.depth_test_flag,
        DeviceStateCall.depth_write_flag, DeviceStateCall.side,
        DeviceStateCall.polygon_offset_flag, DeviceStateCall.polygon_offset_values,
        DeviceStateCall.width]
      unfold device_cache_sound
      rw [g, f1, f2, f3, f4, f5, f6, f7, f8]
      by_cases hw : float.ne p.old_line_width w
      · rw [if_pos hw]
        refine ⟨⟨s1, s2, s3, s4, s5, s6, s7⟩, q2, q3, q4, q5, q6, ?_, ?_⟩
        · intro w2 h
          exact Option.some.inj h
        · by_cases hr : line_width_requested l = true
          · rw [hr, Bool.true_or, if_pos rfl]
          · rw [if_neg hr] at q8
            have hw0 : w ≠ 0 := by
              intro h0
              rw [q8.1, h0] at hw
              exact float_not_ne_self 0 (by decide) hw
            rw [decide_eq_true hw0, Bool.or_true, if_pos rfl]
      · rw [if_neg hw]
        replace hw := float_eq_of_not_ne _ _ hw
        refine ⟨⟨s1, s2, s3, s4, s5, s6, s7⟩, q2, q3, q4, q5, q6, ?_, ?_⟩
        · intro w2 h
          exact Option.some.inj h
        · by_cases hr : line_width_requested l = true
          · rw [hr, Bool.true_or, if_pos rfl]
            rw [if_pos hr] at q8
            rw [q8, hw]
          · rw [if_neg hr] at q8
            have hw0 : w = 0 := by rw [← hw, q8.1]
            rw [Bool.not_eq_true] at hr
            rw [hr, Bool.false_or, decide_eq_false (fun h => h hw0), if_neg Bool.false_ne_true]
            exact ⟨hw0, q8.2⟩

/-- C32: for every blend mode other than custom, `set_blending` does not read its
`blend_equation`, `blend_src` and `blend_dst` arguments: two calls from the same state with
the same mode and different explicit arguments end in the same state, which includes the
log of the GL commands issued and the whole cache. -/
theorem set_blending_preset_ignores_arguments (priv : GthreeRendererPrivate)
    (blending : GthreeBlendMode) (e1 s1 d1 e2 s2 d2 : guint)
    (h : blending ≠ GTHREE_BLEND_CUSTOM) :
    set_blending priv blending e1 s1 d1 = set_blending priv blending e2 s2 d2
      ∧ issued priv (set_blending priv blending e1 s1 d1)
        = issued priv (set_blending priv blending e2 s2 d2) := by
  have e : set_blending priv blending e1 s1 d1 = set_blending priv blending e2 s2 d2 := by
    unfold set_blending
    dsimp only
    rw [if_neg h, if_neg h]
  exact ⟨e, by rw [e]⟩

/-- C32 (witness): from the freshly initialised cache, additive blending requested with two
different sets of explicit arguments gives the same state; the commands issued are those of
the additive preset. -/
theorem set_blending_preset_ignores_arguments_witness :
    GTHREE_BLEND_ADDITIVE ≠ GTHREE_BLEND_CUSTOM
      ∧ set_blending gthree_renderer_init GTHREE_BLEND_ADDITIVE 1 2 3
        = set_blending gthree_renderer_init GTHREE_BLEND_ADDITIVE 4 5 6
      ∧ issued gthree_renderer_init (set_blending gthree_renderer_init GTHREE_BLEND_ADDITIVE 1 2 3)
        = issued gthree_renderer_init
            (set_blending gthree_renderer_init GTHREE_BLEND_ADDITIVE 4 5 6) :=
  ⟨by decide,
    (set_blending_preset_ignores_arguments gthree_renderer_init GTHREE_BLEND_ADDITIVE 1 2 3 4 5 6
      (by decide)).1,
    (set_blending_preset_ignores_arguments gthree_renderer_init GTHREE_BLEND_ADDITIVE 1 2 3 4 5 6
      (by decide)).2⟩
/-! ## Morph normals -/

/-- C34 (evaluation of the code): a geometry with the position morph attributes `[100, 101]`
and the normal morph attributes `[200, 201]`, a mesh with the influences `[5, 3]`. With morph
targets and morph normals enabled, `morphNormal0` and `morphNormal1` are bound to the
position attributes 101 and 100, the same attributes as `morphTarget0` and `morphTarget1`,
and not to the normal attributes 201 and 200. With morph normals enabled and morph targets
disabled, the attribute bound to `morphNormal0` and `morphNormal1` is read through the null
`morphTargets` array (the undefined read is `none` here). -/
theorem morph_normals_read_position_attributes :
    (update_morphtargets {} [5, 3]
        { morph_attributes_position := some [100, 101],
          morph_attributes_normal := some [200, 201] }
        { morph_targets := TRUE, morph_normals := TRUE }
        (some { addr := 7, uniform_locations := [(UniformName.morphTargetInfluences0, 5)] })
      ).2.attributes
        = [(AttributeName.morphTarget 0, some 101), (AttributeName.morphNormal 0, some 101),
            (AttributeName.morphTarget 1, some 100), (AttributeName.morphNormal 1, some 100)]
      ∧ (update_morphtargets {} [5, 3]
        { morph_attributes_position := some [100, 101],
          morph_attributes_normal := some [200, 201] }
        { morph_targets := FALSE, morph_normals := TRUE }
        (some { addr := 7, uniform_locations := [(UniformName.morphTargetInfluences0, 5)] })
      ).2.attributes
        = [(AttributeName.morphNormal 0, none), (AttributeName.morphNormal 1, none)] := by
  decide

/-! ## The cached clear colour -/

/-- C38 (evaluation of the code): on a freshly initialised renderer the cached clear colour
and the clear colour of the GPU are both (0, 0, 0, 0). After
`gthree_renderer_set_clear_color` with red the GPU holds red and `old_clear_color` is still
(0, 0, 0, 0). A frame for a scene without background colour then wants (0, 0, 0, 0), finds
it in the cache and issues only `glClear`: the GPU clears with red. -/
theorem set_clear_color_leaves_cache_stale :
    (gpu_state gthree_renderer_init_instance).clear_color
        = { red := 0, green := 0, blue := 0, alpha := 0 }
      ∧ gthree_renderer_init_instance.old_clear_color
        = { red := 0, green := 0, blue := 0, alpha := 0 }
      ∧ (gpu_state (gthree_renderer_set_clear_color 0 gthree_renderer_init_instance
          { red := 1, green := 0, blue := 0, alpha := 1 })).clear_color
        = { red := 1, green := 0, blue := 0, alpha := 1 }
      ∧ (gthree_renderer_set_clear_color 0 gthree_renderer_init_instance
          { red := 1, green := 0, blue := 0, alpha := 1 }).old_clear_color
        = { red := 0, green := 0, blue := 0, alpha := 0 }
      ∧ issued
          (gthree_renderer_set_clear_color 0 gthree_renderer_init_instance
            { red := 1, green := 0, blue := 0, alpha := 1 })
          (gthree_renderer_render_background (fun _ list => list)
            (gthree_renderer_set_clear_color 0 gthree_renderer_init_instance
              { red := 1, green := 0, blue := 0, alpha := 1 }) none none)
        = [GLCommand.glClear 0x4500]
      ∧ (gpu_state
          (gthree_renderer_render_background (fun _ list => list)
            (gthree_renderer_set_clear_color 0 gthree_renderer_init_instance
              { red := 1, green := 0, blue := 0, alpha := 1 }) none none)).clear_color
        = { red := 1, green := 0, blue := 0, alpha := 1 } := by
  decide

/-! ## Number of morph slots bound -/

theorem add_attribute_names_nodup (g : GthreeGeometry) (name : AttributeName)
    (attr : Option Nat) (h : (g.attributes.map Prod.fst).Nodup) :
    ((gthree_geometry_add_attribute g name attr).attributes.map Prod.fst).Nodup := by
  unfold gthree_geometry_add_attribute
  dsimp only
  rw [List.map_append, List.nodup_append]
  refine ⟨(List.filter_sublist _).map Prod.fst |>.nodup h, List.nodup_singleton _, ?_⟩
  intro x hx hy
  rw [List.map_cons, List.map_nil, List.mem_singleton] at hy
  rw [List.mem_map] at hx
  obtain ⟨e, he, hex⟩ := hx
  rw [List.mem_filter] at he
  have hne : e.1 ≠ name := by simpa using he.2
  exact hne (hex.trans hy)

theorem remove_attribute_names_nodup (g : GthreeGeometry) (name : AttributeName)
    (h : (g.attributes.map Prod.fst).Nodup) :
    ((gthree_geometry_remove_attribute g name).attributes.map Prod.fst).Nodup := by
  unfold gthree_geometry_remove_attribute
  exact ((List.filter_sublist _).map Prod.fst).nodup h

theorem update_morphtargets_slot_names_nodup (mt mn : Option (List Nat))
    (infl : List InfluenceInfo) (len : Nat) (g : GthreeGeometry) (i : Nat)
    (h : (g.attributes.map Prod.fst).Nodup) :
    ((update_morphtargets_slot mt mn infl len g i).1.attributes.map Prod.fst).Nodup := by
  unfold update_morphtargets_slot
  by_cases h1 : i < len
  · rw [if_pos h1]
    dsimp only
    by_cases h2 : (influence_at infl i).value ≠ 0
    · rw [if_pos h2]
      dsimp only
      split_ifs
      · exact add_attribute_names_nodup _ _ _ (add_attribute_names_nodup _ _ _ h)
      · exact add_attribute_names_nodup _ _ _ h
      · exact add_attribute_names_nodup _ _ _ h
      · exact h
    · rw [if_neg h2]
      exact h
  · rw [if_neg h1]
    exact h

theorem update_morphtargets_add_names_nodup (mt mn : Option (List Nat))
    (infl : List InfluenceInfo) (len : Nat) (g : GthreeGeometry)
    (h : (g.attributes.map Prod.fst).Nodup) :
    ((update_morphtargets_add mt mn infl len g).1.attributes.map Prod.fst).Nodup := by
  unfold update_morphtargets_add
  have key : ∀ (slots : List Nat) (acc : GthreeGeometry × List gfloat),
      (acc.1.attributes.map Prod.fst).Nodup →
      ((slots.foldl
        (fun (acc : GthreeGeometry × List gfloat) i =>
          let r := update_morphtargets_slot mt mn infl len acc.1 i
          (r.1, acc.2 ++ [r.2]))
        acc).1.attributes.map Prod.fst).Nodup := by
    intro slots
    induction slots with
    | nil => intro acc ha; exact ha
    | cons i rest ih =>
      intro acc ha
      rw [List.foldl_cons]
      exact ih _ (update_morphtargets_slot_names_nodup mt mn infl len acc.1 i ha)
  exact key _ _ h

theorem update_morphtargets_remove_names_nodup (mt mn : Option (List Nat))
    (infl : List InfluenceInfo) (len : Nat) (g : GthreeGeometry)
    (h : (g.attributes.map Prod.fst).Nodup) :
    ((update_morphtargets_remove mt mn infl len g).attributes.map Prod.fst).Nodup := by
  unfold update_morphtargets_remove
  have key : ∀ (slots : List Nat) (g : GthreeGeometry),
      (g.attributes.map Prod.fst).Nodup →
      ((slots.foldl
        (fun g i =>
          if (influence_at infl i).value ≠ 0 then
            let g1 :=
              if mt.isSome then
                gthree_geometry_remove_attribute g (AttributeName.morphTarget i)
              else g
            if mn.isSome then
              gthree_geometry_remove_attribute g1 (AttributeName.morphNormal i)
            else g1
          else g)
        g).attributes.map Prod.fst).Nodup := by
    intro slots
    induction slots with
    | nil => intro g hg; exact hg
    | cons i rest ih =>
      intro g hg
      rw [List.foldl_cons]
      apply ih
      dsimp only
      split_ifs
      · exact remove_attribute_names_nodup _ _ (remove_attribute_names_nodup _ _ hg)
      · exact remove_attribute_names_nodup _ _ hg
      · exact remove_attribute_names_nodup _ _ hg
      · exact hg
      · exact hg
  exact key _ _ h

theorem update_morphtargets_names_nodup (priv : GthreeRendererPrivate) (w : List gfloat)
    (geometry : GthreeGeometry) (material : GthreeMeshMaterial) (program : Option GthreeProgram)
    (h : (geometry.attributes.map Prod.fst).Nodup) :
    ((update_morphtargets priv w geometry material program).2.attributes.map Prod.fst).Nodup := by
  unfold update_morphtargets
  dsimp only
  by_cases hloc : gthree_program_lookup_uniform_location program
      UniformName.morphTargetInfluences0 ≥ 0
  · rw [if_pos hloc]
    exact update_morphtargets_add_names_nodup _ _ _ _ _
      (update_morphtargets_remove_names_nodup _ _ _ _ _ h)
  · rw [if_neg hloc]
    exact update_morphtargets_add_names_nodup _ _ _ _ _
      (update_morphtargets_remove_names_nodup _ _ _ _ _ h)

theorem slots_length_le (l : List (AttributeName × Option Nat)) (k : Nat)
    (mk : Nat → AttributeName) (hnd : (l.map Prod.fst).Nodup)
    (h : ∀ e ∈ l, ∃ i, i < k ∧ e.1 = mk i) : l.length ≤ k := by
  have hsub : l.map Prod.fst ⊆ (List.range k).map mk := by
    intro x hx
    rw [List.mem_map] at hx
    obtain ⟨e, he, hex⟩ := hx
    obtain ⟨i, hi, hie⟩ := h e he
    rw [List.mem_map]
    exact ⟨i, List.mem_range.2 hi, by rw [← hie, hex]⟩
  have hle := (List.subperm_of_subset hnd hsub).length_le
  rw [List.length_map, List.length_map, List.length_range] at hle
  exact hle

theorem new_bindings_slot (priv : GthreeRendererPrivate) (w : List gfloat)
    (geometry : GthreeGeometry) (material : GthreeMeshMaterial) (program : Option GthreeProgram)
    (hfit : influences_fit geometry w.length) (e : AttributeName × Option Nat)
    (he : e ∈ new_bindings geometry.attributes
      (update_morphtargets priv w geometry material program).2.attributes) :
    ∃ i, i < min 8 w.length
      ∧ (e.1 = AttributeName.morphTarget i ∨ e.1 = AttributeName.morphNormal i)
      ∧ (influence_at (ranked_influences w) i).value ≠ 0 := by
  unfold new_bindings at he
  rw [List.mem_filter, decide_eq_true_eq] at he
  rcases (update_morphtargets_spec priv w geometry material program hfit).2.2.2 e he.1 with
    h | ⟨i, hi, hl, hv, hn, _⟩
  · exact absurd h he.2
  · exact ⟨i, lt_min hi hl, hn, hv⟩

theorem new_bindings_names_nodup (priv : GthreeRendererPrivate) (w : List gfloat)
    (geometry : GthreeGeometry) (material : GthreeMeshMaterial) (program : Option GthreeProgram)
    (hnd : (geometry.attributes.map Prod.fst).Nodup) (p : AttributeName × Option Nat → Bool) :
    (((new_bindings geometry.attributes
      (update_morphtargets priv w geometry material program).2.attributes).filter p).map
        Prod.fst).Nodup := by
  unfold new_bindings
  exact (((List.filter_sublist _).trans (List.filter_sublist _)).map Prod.fst).nodup
    (update_morphtargets_names_nodup priv w geometry material program hnd)

/-- C33 (counterexample): a mesh material that enables morph targets and morph normals and
whose supported counts are 2 morph targets and 1 morph normal, a mesh with six non-zero
influences: `update_morphtargets` binds six `morphTarget` slots and six `morphNormal` slots. -/
theorem morph_slots_exceed_supported_counts :
    (new_bindings []
        (update_morphtargets {} [1, 2, 3, 4, 5, 6]
          { morph_attributes_position := some [100, 101, 102, 103, 104, 105],
            morph_attributes_normal := some [200, 201, 202, 203, 204, 205] }
          { morph_targets := TRUE, morph_normals := TRUE, num_supported_morph_targets := 2,
            num_supported_morph_normals := 1 }
          (some { addr := 7 })).2.attributes).countP (fun e => e.1.is_morph_target) = 6
      ∧ (new_bindings []
        (update_morphtargets {} [1, 2, 3, 4, 5, 6]
          { morph_attributes_position := some [100, 101, 102, 103, 104, 105],
            morph_attributes_normal := some [200, 201, 202, 203, 204, 205] }
          { morph_targets := TRUE, morph_normals := TRUE, num_supported_morph_targets := 2,
            num_supported_morph_normals := 1 }
          (some { addr := 7 })).2.attributes).countP (fun e => e.1.is_morph_normal) = 6 := by
  decide

/-- C33 (amended): for every mesh with `n` morph influences (the scratch array of the
geometry being absent or of length `n`, the attribute table holding each name once), the
bindings `update_morphtargets` adds to the attribute table are at most `min (8, n)`
`morphTarget` slots and at most `min (8, n)` `morphNormal` slots; each is a slot below
`min (8, n)` whose ranked weight is not zero. The supported counts of the material are not
read. -/
theorem morph_slots_bounded_by_influences (priv : GthreeRendererPrivate) (w : List gfloat)
    (geometry : GthreeGeometry) (material : GthreeMeshMaterial) (program : Option GthreeProgram)
    (hfit : influences_fit geometry w.length)
    (hnd : (geometry.attributes.map Prod.fst).Nodup) :
    (new_bindings geometry.attributes
        (update_morphtargets priv w geometry material program).2.attributes).countP
        (fun e => e.1.is_morph_target) ≤ min 8 w.length
      ∧ (new_bindings geometry.attributes
        (update_morphtargets priv w geometry material program).2.attributes).countP
        (fun e => e.1.is_morph_normal) ≤ min 8 w.length
      ∧ ∀ e ∈ new_bindings geometry.attributes
          (update_morphtargets priv w geometry material program).2.attributes,
          ∃ i, i < min 8 w.length
            ∧ (e.1 = AttributeName.morphTarget i ∨ e.1 = AttributeName.morphNormal i)
            ∧ (influence_at (ranked_influences w) i).value ≠ 0 := by
  refine ⟨?_, ?_, fun e he => new_bindings_slot priv w geometry material program hfit e he⟩
  · rw [List.countP_eq_length_filter]
    apply slots_length_le _ _ AttributeName.morphTarget
      (new_bindings_names_nodup priv w geometry material program hnd _)
    intro e he
    rw [List.mem_filter] at he
    obtain ⟨i, hi, hn, _⟩ := new_bindings_slot priv w geometry material program hfit e he.1
    refine ⟨i, hi, ?_⟩
    rcases hn with hn | hn
    · exact hn
    · have h2 := he.2
      rw [hn] at h2
      exact absurd h2 Bool.false_ne_true
  · rw [List.countP_eq_length_filter]
    apply slots_length_le _ _ AttributeName.morphNormal
      (new_bindings_names_nodup priv w geometry material program hnd _)
    intro e he
    rw [List.mem_filter] at he
    obtain ⟨i, hi, hn, _⟩ := new_bindings_slot priv w geometry material program hfit e he.1
    refine ⟨i, hi, ?_⟩
    rcases hn with hn | hn
    · have h2 := he.2
      rw [hn] at h2
      exact absurd h2 Bool.false_ne_true
    · exact hn

/-- C33 (witness): a mesh with three influences, one of them zero, and morph targets
enabled: two `morphTarget` slots are bound, which is at most `min (8, 3)`. -/
theorem morph_slots_bounded_by_influences_witness :
    (influences_fit { morph_attributes_position := some [100, 101, 102] } [4, 0, 2].length
        ∧ ((({ morph_attributes_position := some [100, 101, 102] } :
            GthreeGeometry).attributes).map Prod.fst).Nodup)
      ∧ (new_bindings
          ({ morph_attributes_position := some [100, 101, 102] } : GthreeGeometry).attributes
          (update_morphtargets {} [4, 0, 2] { morph_attributes_position := some [100, 101, 102] }
            { morph_targets := TRUE } (some { addr := 7 })).2.attributes).countP
          (fun e => e.1.is_morph_target) ≤ min 8 [4, 0, 2].length :=
  ⟨⟨by decide, List.nodup_nil⟩,
    (morph_slots_bounded_by_influences {} [4, 0, 2]
      { morph_attributes_position := some [100, 101, 102] } { morph_targets := TRUE }
      (some { addr := 7 }) (by decide) List.nodup_nil).1⟩
/-! ## The drawn span lies inside the element data -/

theorem draw_range_inside (data_count : Int) (wireframe : gboolean) (geometry : GthreeGeometry)
    (group : Option GthreeGeometryGroup) (hrs : 0 ≤ geometry.draw_range_start)
    (hgs : group_start_nonneg group)
    (hd : (render_item_draw_range data_count (render_item_range_factor wireframe) geometry
      group).2 ≠ 0) :
    0 ≤ (render_item_draw_range data_count (render_item_range_factor wireframe) geometry group).1
      ∧ 1 ≤ (render_item_draw_range data_count (render_item_range_factor wireframe) geometry
          group).2
      ∧ (render_item_draw_range data_count (render_item_range_factor wireframe) geometry group).1
          + (render_item_draw_range data_count (render_item_range_factor wireframe) geometry
            group).2 ≤ data_count := by
  unfold render_item_draw_range render_item_range_factor at hd ⊢
  cases group with
  | none =>
    dsimp only at hd ⊢
    split_ifs at hd ⊢ <;> omega
  | some g =>
    have hg : 0 ≤ g.start := hgs
    dsimp only at hd ⊢
    split_ifs at hd ⊢ <;> omega

theorem gl_log_getLast (priv : GthreeRendererPrivate) (c : GLCommand) :
    (priv.gl c).gl_log.getLast? = some c := by
  unfold GthreeRendererPrivate.gl
  simp

theorem render_item_draw_last_command (priv : GthreeRendererPrivate) (object : GthreeObject)
    (material : GthreeMaterial) (geometry : GthreeGeometry)
    (group : Option GthreeGeometryGroup) (wireframe : gboolean)
    (index position : Option GthreeAttribute)
    (hd : (render_item_draw_range (render_item_data_count index position)
      (render_item_range_factor wireframe) geometry group).2 ≠ 0) :
    (render_item_draw priv object material geometry group wireframe index position).gl_log.getLast?
      = some
        (match index with
         | some i =>
           GLCommand.glDrawElements (render_item_topology object wireframe)
             (render_item_draw_range (render_item_data_count index position)
               (render_item_range_factor wireframe) geometry group).2
             i.gl_type
             ((i.item_offset
                + (render_item_draw_range (render_item_data_count index position)
                    (render_item_range_factor wireframe) geometry group).1)
               * i.gl_bytes_per_element)
         | none =>
           GLCommand.glDrawArrays (render_item_topology object wireframe)
             (render_item_draw_range (render_item_data_count index position)
               (render_item_range_factor wireframe) geometry group).1
             (render_item_draw_range (render_item_data_count index position)
               (render_item_range_factor wireframe) geometry group).2) := by
  unfold render_item_draw render_item_topology
  dsimp only
  rw [if_neg hd]
  cases index <;> cases object.kind <;> dsimp only <;> (try split_ifs) <;>
    exact gl_log_getLast _ _

/-- C35: when the user draw range start and the group start are not negative and `render_item`
reaches its draw call (the draw count is not 0), the last GL command it issues is the draw
call for the computed range, and that range lies inside the element data: the start is not
negative, the count is at least 1 and start plus count is at most `data_count`. This holds
for both range factors (1, and 2 for wireframe) and for limited and unlimited (negative)
counts of the user range and of the group. -/
theorem render_item_draw_span_inside (priv : GthreeRendererPrivate) (object : GthreeObject)
    (material : GthreeMaterial) (geometry : GthreeGeometry)
    (group : Option GthreeGeometryGroup) (wireframe : gboolean)
    (index position : Option GthreeAttribute)
    (hrs : 0 ≤ geometry.draw_range_start) (hgs : group_start_nonneg group)
    (hd : (render_item_draw_range (render_item_data_count index position)
      (render_item_range_factor wireframe) geometry group).2 ≠ 0) :
    (render_item_draw priv object material geometry group wireframe index position).gl_log.getLast?
        = some
          (match index with
           | some i =>
             GLCommand.glDrawElements (render_item_topology object wireframe)
               (render_item_draw_range (render_item_data_count index position)
                 (render_item_range_factor wireframe) geometry group).2
               i.gl_type
               ((i.item_offset
                  + (render_item_draw_range (render_item_data_count index position)
                      (render_item_range_factor wireframe) geometry group).1)
                 * i.gl_bytes_per_element)
           | none =>
             GLCommand.glDrawArrays (render_item_topology object wireframe)
               (render_item_draw_range (render_item_data_count index position)
                 (render_item_range_factor wireframe) geometry group).1
               (render_item_draw_range (render_item_data_count index position)
                 (render_item_range_factor wireframe) geometry group).2)
      ∧ 0 ≤ (render_item_draw_range (render_item_data_count index position)
          (render_item_range_factor wireframe) geometry group).1
      ∧ 1 ≤ (render_item_draw_range (render_item_data_count index position)
          (render_item_range_factor wireframe) geometry group).2
      ∧ (render_item_draw_range (render_item_data_count index position)
            (render_item_range_factor wireframe) geometry group).1
          + (render_item_draw_range (render_item_data_count index position)
            (render_item_range_factor wireframe) geometry group).2
          ≤ render_item_data_count index position :=
  ⟨render_item_draw_last_command priv object material geometry group wireframe index position hd,
    draw_range_inside _ wireframe geometry group hrs hgs hd⟩

/-- C35 (witness): a wireframe mesh whose wireframe index has 12 elements, user draw range
start 1 with unlimited count, group start 2 count 3: the range factor is 2, the draw is
`glDrawElements (GL_LINES, 6, ...)` from element 4, and 4 + 6 is at most 12. -/
theorem render_item_draw_span_inside_witness :
    ((0 : Int) ≤ ({ draw_range_start := 1 } : GthreeGeometry).draw_range_start
        ∧ group_start_nonneg (some { start := 2, count := 3 })
        ∧ (render_item_draw_range (render_item_data_count (some { count := 12 }) none)
            (render_item_range_factor TRUE) { draw_range_start := 1 }
            (some { start := 2, count := 3 })).2 ≠ 0)
      ∧ render_item_draw_range (render_item_data_count (some { count := 12 }) none)
          (render_item_range_factor TRUE) { draw_range_start := 1 }
          (some { start := 2, count := 3 }) = (4, 6)
      ∧ (render_item_draw_range (render_item_data_count (some { count := 12 }) none)
            (render_item_range_factor TRUE) { draw_range_start := 1 }
            (some { start := 2, count := 3 })).1
          + (render_item_draw_range (render_item_data_count (some { count := 12 }) none)
            (render_item_range_factor TRUE) { draw_range_start := 1 }
            (some { start := 2, count := 3 })).2
          ≤ render_item_data_count (some { count := 12 }) none :=
  ⟨⟨by decide, by decide, by decide⟩, by decide,
    (render_item_draw_span_inside {} { kind := GthreeObjectKind.mesh {} }
      { kind := GthreeMaterialKind.mesh_material { wireframe := TRUE } }
      { draw_range_start := 1 } (some { start := 2, count := 3 }) TRUE (some { count := 12 })
      none (by decide) (by decide) (by decide)).2.2.2⟩

/-! ## Clipping stays enabled for one frame after the planes are removed -/

theorem project_planes_fields (priv : GthreeRendererPrivate) (planes : List graphene_plane_t)
    (transform : graphene_plane_t → graphene_plane_t) (dst_offset : Nat)
    (skip_transform : gboolean) :
    (project_planes priv planes transform dst_offset skip_transform).num_clipping_planes
        = planes.length
      ∧ (project_planes priv planes transform dst_offset skip_transform).clipping_planes
        = priv.clipping_planes
      ∧ (project_planes priv planes transform dst_offset skip_transform).old_num_global_planes
        = priv.old_num_global_planes := by
  unfold project_planes
  dsimp only
  split_ifs <;> exact ⟨rfl, rfl, rfl⟩

theorem clipping_init_fields (priv : GthreeRendererPrivate)
    (transform : graphene_plane_t → graphene_plane_t) :
    (clipping_init priv transform).1.num_clipping_planes = priv.clipping_planes.length
      ∧ (clipping_init priv transform).1.clipping_planes = priv.clipping_planes
      ∧ (clipping_init priv transform).1.old_num_global_planes = priv.clipping_planes.length
      ∧ (clipping_init priv transform).2
        = c_bool (priv.clipping_planes.length ≠ 0 ∨ priv.old_num_global_planes ≠ 0) := by
  obtain ⟨h1, h2, _⟩ := project_planes_fields priv priv.clipping_planes transform 0 FALSE
  unfold clipping_init
  exact ⟨h1, h2, rfl, rfl⟩

/-- C36: `clipping_init` returns true exactly when the renderer has a clipping plane or the
plane count stored by the previous call is not 0; it stores the current plane count in
`num_clipping_planes` and as the count for the next call, and leaves the planes alone. Hence,
when a frame has run with at least one plane and all planes are then removed, the next frame
still has clipping enabled and the frame after it has clipping disabled, both with
`num_clipping_planes` 0. -/
theorem clipping_enabled_one_more_frame (priv : GthreeRendererPrivate)
    (transform : graphene_plane_t → graphene_plane_t) :
    ((clipping_init priv transform).2 ≠ 0
        ↔ priv.clipping_planes.length ≠ 0 ∨ priv.old_num_global_planes ≠ 0)
      ∧ (clipping_init priv transform).1.old_num_global_planes = priv.clipping_planes.length
      ∧ (clipping_init priv transform).1.num_clipping_planes = priv.clipping_planes.length
      ∧ (clipping_init priv transform).1.clipping_planes = priv.clipping_planes
      ∧ (priv.clipping_planes.length ≠ 0 →
          (gthree_renderer_render_clipping priv transform).clipping_enabled = TRUE
            ∧ (gthree_renderer_render_clipping
                (gthree_renderer_remove_all_clipping_planes
                  (gthree_renderer_render_clipping priv transform)) transform).clipping_enabled
              = TRUE
            ∧ (gthree_renderer_render_clipping
                (gthree_renderer_remove_all_clipping_planes
                  (gthree_renderer_render_clipping priv transform))
                transform).num_clipping_planes = 0
            ∧ (gthree_renderer_render_clipping
                (gthree_renderer_render_clipping
                  (gthree_renderer_remove_all_clipping_planes
                    (gthree_renderer_render_clipping priv transform)) transform)
                transform).clipping_enabled = FALSE
            ∧ (gthree_renderer_render_clipping
                (gthree_renderer_render_clipping
                  (gthree_renderer_remove_all_clipping_planes
                    (gthree_renderer_render_clipping priv transform)) transform)
                transform).num_clipping_planes = 0) := by
  obtain ⟨h1, h2, h3, h4⟩ := clipping_init_fields priv transform
  refine ⟨?_, h3, h1, h2, ?_⟩
  · rw [h4]
    unfold c_bool
    split_ifs with h
    · exact ⟨fun _ => h, fun _ => by decide⟩
    · exact ⟨fun hc => absurd rfl hc, fun hc => absurd hc h⟩
  · intro hp
    have e1 : (gthree_renderer_render_clipping priv transform).clipping_enabled = TRUE := by
      show (clipping_init priv transform).2 = TRUE
      rw [h4]
      unfold c_bool
      rw [if_pos (Or.inl hp)]
      rfl
    generalize hq : gthree_renderer_remove_all_clipping_planes
      (gthree_renderer_render_clipping priv transform) = q
    have q1 : q.clipping_planes = [] := by rw [← hq]; rfl
    have q2 : q.old_num_global_planes = priv.clipping_planes.length := by
      rw [← hq]
      exact h3
    obtain ⟨a1, a2, a3, a4⟩ := clipping_init_fields q transform
    have e2 : (gthree_renderer_render_clipping q transform).clipping_enabled = TRUE := by
      show (clipping_init q transform).2 = TRUE
      rw [a4, q2]
      unfold c_bool
      rw [if_pos (Or.inr hp)]
      rfl
    have e3 : (gthree_renderer_render_clipping q transform).num_clipping_planes = 0 := by
      show (clipping_init q transform).1.num_clipping_planes = 0
      rw [a1, q1]
      rfl
    generalize hr : gthree_renderer_render_clipping q transform = r at e2 e3
    have r1 : r.clipping_planes = [] := by
      rw [← hr]
      show (clipping_init q transform).1.clipping_planes = []
      rw [a2, q1]
    have r2 : r.old_num_global_planes = 0 := by
      rw [← hr]
      show (clipping_init q transform).1.old_num_global_planes = 0
      rw [a3, q1]
      rfl
    obtain ⟨b1, b2, b3, b4⟩ := clipping_init_fields r transform
    refine ⟨e1, e2, e3, ?_, ?_⟩
    · show (clipping_init r transform).2 = FALSE
      rw [b4, r1, r2]
      decide
    · show (clipping_init r transform).1.num_clipping_planes = 0
      rw [b1, r1]
      rfl

/-- C36 (witness): a renderer with one clipping plane: the frame with the plane has clipping
enabled; after `gthree_renderer_remove_all_clipping_planes` the next frame has clipping
enabled and the frame after it has clipping disabled. -/
theorem clipping_enabled_one_more_frame_witness :
    ({ clipping_planes := [{ normal_x := 1, constant := 2 }] } :
        GthreeRendererPrivate).clipping_planes.length ≠ 0
      ∧ (gthree_renderer_render_clipping
          (gthree_renderer_remove_all_clipping_planes
            (gthree_renderer_render_clipping
              { clipping_planes := [{ normal_x := 1, constant := 2 }] } id)) id).clipping_enabled
        = TRUE
      ∧ (gthree_renderer_render_clipping
          (gthree_renderer_render_clipping
            (gthree_renderer_remove_all_clipping_planes
              (gthree_renderer_render_clipping
                { clipping_planes := [{ normal_x := 1, constant := 2 }] } id)) id)
          id).clipping_enabled = FALSE :=
  ⟨by decide,
    ((clipping_enabled_one_more_frame
      { clipping_planes := [{ normal_x := 1, constant := 2 }] } id).2.2.2.2 (by decide)).2.1,
    ((clipping_enabled_one_more_frame
      { clipping_planes := [{ normal_x := 1, constant := 2 }] } id).2.2.2.2 (by decide)).2.2.2.1⟩

/-! ## Vertex attribute enable tracking -/

theorem getD_set_nat (l : List Nat) (a v i : Nat) (ha : a < l.length) :
    (l.set a v).getD i 0 = if i = a then v else l.getD i 0 := by
  rw [List.getD_eq_getElem?_getD, List.getD_eq_getElem?_getD, List.getElem?_set]
  by_cases h : a = i
  · subst h
    simp [ha]
  · have h2 : ¬ i = a := fun x => h x.symm
    simp [h, h2]

theorem init_attributes_spec (priv : GthreeRendererPrivate)
    (hn : priv.new_attributes.length = 8) :
    (init_attributes priv).new_attributes = [0, 0, 0, 0, 0, 0, 0, 0]
      ∧ (init_attributes priv).enabled_attributes = priv.enabled_attributes
      ∧ (init_attributes priv).gl_log = priv.gl_log := by
  refine ⟨?_, rfl, rfl⟩
  unfold init_attributes
  dsimp only
  rw [foldl_set_range (fun _ => (0 : Nat)) 8 priv.new_attributes (le_of_eq hn.symm)]
  rw [← hn, List.drop_length, List.append_nil, hn]
  rfl

theorem attrib_arrays_after_append (gpu : Nat → Bool) (a b : List GLCommand) :
    attrib_arrays_after gpu (a ++ b) = attrib_arrays_after (attrib_arrays_after gpu a) b := by
  unfold attrib_arrays_after
  rw [List.foldl_append]

theorem attrib_tracking_init (priv : GthreeRendererPrivate) (gpu : Nat → Bool)
    (hn : priv.new_attributes.length = 8) (he : priv.enabled_attributes.length = 8)
    (hm : mirrors_attrib_arrays priv gpu) :
    attrib_tracking priv.gl_log gpu [] 0 (init_attributes priv) := by
  obtain ⟨h1, h2, h3⟩ := init_attributes_spec priv hn
  refine ⟨by rw [h1]; rfl, by rw [h2]; exact he, ?_, ?_, [], by rw [h3, List.append_nil], ?_, ?_,
    ?_⟩
  · intro i hi
    rw [h1, if_neg (List.not_mem_nil i)]
    interval_cases i <;> rfl
  · intro i hi
    rw [h2, hm i hi]
    by_cases hg : gpu i = true
    · rw [if_pos hg, if_pos (Or.inr ⟨Nat.zero_le i, hg⟩)]
    · rw [if_neg hg, if_neg (fun h => h.elim (List.not_mem_nil i) (fun x => hg x.2))]
  · intro i
    show gpu i = _
    simp
  · intro a ha
    exact absurd ha (List.not_mem_nil _)
  · intro a ha
    exact absurd ha (List.not_mem_nil _)

theorem attrib_tracking_enable (log0 : List GLCommand) (gpu : Nat → Bool) (used : List Nat)
    (p : GthreeRendererPrivate) (a : Nat) (ha : a < 8)
    (h : attrib_tracking log0 gpu used 0 p) :
    attrib_tracking log0 gpu (used ++ [a]) 0 (enable_attribute p a) := by
  obtain ⟨hn, he, hN, hE, cmds, hl, hA, hen, hdis⟩ := h
  have hN2 : ∀ i, i < 8 →
      (p.new_attributes.set a 1).getD i 0 = (if i ∈ used ++ [a] then 1 else 0) := by
    intro i hi
    rw [getD_set_nat _ _ _ _ (by rw [hn]; exact ha), hN i hi]
    by_cases hia : i = a
    · rw [if_pos hia, if_pos (List.mem_append_right _ (by rw [hia]; exact List.mem_singleton_self a))]
    · rw [if_neg hia]
      by_cases hu : i ∈ used
      · rw [if_pos hu, if_pos (List.mem_append_left _ hu)]
      · rw [if_neg hu, if_neg (fun x => (List.mem_append.1 x).elim hu
          (fun y => hia (List.mem_singleton.1 y)))]
  unfold enable_attribute
  dsimp only
  by_cases h0 : p.enabled_attributes.getD a 0 = 0
  · rw [if_pos h0]
    have hnot : ¬ (a ∈ used ∨ (0 ≤ a ∧ gpu a = true)) := by
      intro hc
      have := hE a ha
      rw [if_pos hc, h0] at this
      exact absurd this (by decide)
    have hau : a ∉ used := fun x => hnot (Or.inl x)
    have hag : gpu a = false := by
      cases hg : gpu a with
      | false => rfl
      | true => exact absurd (Or.inr ⟨Nat.zero_le a, hg⟩) hnot
    refine ⟨by show (p.new_attributes.set a 1).length = 8; rw [List.length_set]; exact hn,
      by show (p.enabled_attributes.set a 1).length = 8; rw [List.length_set]; exact he,
      hN2, ?_, cmds ++ [GLCommand.glEnableVertexAttribArray a], ?_, ?_, ?_, ?_⟩
    · intro i hi
      show (p.enabled_attributes.set a 1).getD i 0 = _
      rw [getD_set_nat _ _ _ _ (by rw [he]; exact ha), hE i hi]
      by_cases hia : i = a
      · rw [if_pos hia,
          if_pos (Or.inl (List.mem_append_right _ (by rw [hia]; exact List.mem_singleton_self a)))]
      · rw [if_neg hia]
        by_cases hc : i ∈ used ∨ (0 ≤ i ∧ gpu i = true)
        · rw [if_pos hc, if_pos (hc.imp (List.mem_append_left _) id)]
        · rw [if_neg hc, if_neg (fun x => hc (x.imp
            (fun y => (List.mem_append.1 y).elim id
              (fun z => absurd (List.mem_singleton.1 z) hia)) id))]
    · show p.gl_log ++ [_] = _
      rw [hl, List.append_assoc]
    · intro i
      rw [attrib_arrays_after_append]
      show (if i = a then true else attrib_arrays_after gpu cmds i) = _
      rw [hA i]
      by_cases hia : i = a
      · rw [if_pos hia]
        simp [hia]
      · rw [if_neg hia]
        simp [hia]
    · intro x hx
      rcases List.mem_append.1 hx with h1 | h1
      · exact ⟨(hen x h1).1, List.mem_append_left _ (hen x h1).2⟩
      · rw [List.mem_singleton] at h1
        injection h1 with h2
        rw [h2]
        exact ⟨hag, List.mem_append_right _ (List.mem_singleton_self a)⟩
    · intro x hx
      rcases List.mem_append.1 hx with h1 | h1
      · exact absurd (hdis x h1).2.2 (Nat.not_lt_zero x)
      · rw [List.mem_singleton] at h1
        exact GLCommand.noConfusion h1
  · rw [if_neg h0]
    have hc : a ∈ used ∨ (0 ≤ a ∧ gpu a = true) := by
      by_contra hc
      have := hE a ha
      rw [if_neg hc] at this
      exact h0 this
    refine ⟨by show (p.new_attributes.set a 1).length = 8; rw [List.length_set]; exact hn,
      he, hN2, ?_, cmds, hl, ?_, ?_, ?_⟩
    · intro i hi
      show p.enabled_attributes.getD i 0 = _
      rw [hE i hi]
      by_cases hia : i = a
      · rw [hia, if_pos hc,
          if_pos (Or.inl (List.mem_append_right _ (List.mem_singleton_self a)))]
      · by_cases hci : i ∈ used ∨ (0 ≤ i ∧ gpu i = true)
        · rw [if_pos hci, if_pos (hci.imp (List.mem_append_left _) id)]
        · rw [if_neg hci, if_neg (fun x => hci (x.imp
            (fun y => (List.mem_append.1 y).elim id
              (fun z => absurd (List.mem_singleton.1 z) hia)) id))]
    · intro i
      rw [hA i]
      by_cases hia : i = a
      · rcases hc with hc | hc
        · simp [hia, hc]
        · simp [hia, hc.2]
      · simp [hia]
    · intro x hx
      exact ⟨(hen x hx).1, List.mem_append_left _ (hen x hx).2⟩
    · intro x hx
      exact absurd (hdis x hx).2.2 (Nat.not_lt_zero x)

theorem attrib_tracking_gl_other (log0 : List GLCommand) (gpu : Nat → Bool) (used : List Nat)
    (k : Nat) (p : GthreeRendererPrivate) (c : GLCommand)
    (h1 : ∀ a, c ≠ GLCommand.glEnableVertexAttribArray a)
    (h2 : ∀ a, c ≠ GLCommand.glDisableVertexAttribArray a)
    (h3 : ∀ g, attrib_arrays_apply g c = g)
    (h : attrib_tracking log0 gpu used k p) :
    attrib_tracking log0 gpu used k (p.gl c) := by
  obtain ⟨hn, he, hN, hE, cmds, hl, hA, hen, hdis⟩ := h
  refine ⟨hn, he, hN, hE, cmds ++ [c], ?_, ?_, ?_, ?_⟩
  · show p.gl_log ++ [c] = _
    rw [hl, List.append_assoc]
  · intro i
    rw [attrib_arrays_after_append]
    show attrib_arrays_apply (attrib_arrays_after gpu cmds) c i = _
    rw [h3, hA i]
  · intro x hx
    rcases List.mem_append.1 hx with h4 | h4
    · exact hen x h4
    · rw [List.mem_singleton] at h4
      exact absurd h4.symm (h1 x)
  · intro x hx
    rcases List.mem_append.1 hx with h4 | h4
    · exact hdis x h4
    · rw [List.mem_singleton] at h4
      exact absurd h4.symm (h2 x)

theorem attrib_tracking_entry (attribute_at : Nat → GthreeAttribute) (log0 : List GLCommand)
    (gpu : Nat → Bool) (used : List Nat) (p : GthreeRendererPrivate) (material : GthreeMaterial)
    (geometry : GthreeGeometry) (e : AttributeName × Int)
    (hu : ∀ a, used_location geometry e = some a → a < 8)
    (h : attrib_tracking log0 gpu used 0 p) :
    attrib_tracking log0 gpu (used ++ (used_location geometry e).toList) 0
      (setup_vertex_attributes_entry attribute_at p material geometry e.1 e.2) := by
  unfold setup_vertex_attributes_entry
  by_cases h1 : e.2 ≥ 0
  · rw [if_pos h1]
    cases hg : gthree_geometry_get_attribute geometry e.1 with
    | none =>
      have hul : used_location geometry e = none := by
        unfold used_location
        rw [hg]
        exact if_neg (fun x => absurd x.2 Bool.false_ne_true)
      rw [hul, Option.toList_none, List.append_nil]
      exact h
    | some a =>
      have hul : used_location geometry e = some e.2.toNat := by
        unfold used_location
        rw [hg]
        exact if_pos ⟨h1, rfl⟩
      rw [hul]
      dsimp only
      refine attrib_tracking_gl_other _ _ _ _ _
        (GLCommand.glVertexAttribPointer _ _ _ _ _ _) (fun _ hx => GLCommand.noConfusion hx)
        (fun _ hx => GLCommand.noConfusion hx) (fun _ => rfl) ?_
      refine attrib_tracking_gl_other _ _ _ _ _
        (GLCommand.glBindBuffer _ _) (fun _ hx => GLCommand.noConfusion hx)
        (fun _ hx => GLCommand.noConfusion hx) (fun _ => rfl) ?_
      exact attrib_tracking_enable log0 gpu used p e.2.toNat (hu _ hul) h
  · have hul : used_location geometry e = none := by
      unfold used_location
      exact if_neg (fun x => h1 x.1)
    rw [if_neg h1, hul, Option.toList_none, List.append_nil]
    exact h

theorem attrib_tracking_entries (attribute_at : Nat → GthreeAttribute) (log0 : List GLCommand)
    (gpu : Nat → Bool) (material : GthreeMaterial) (geometry : GthreeGeometry) :
    ∀ (table : List (AttributeName × Int)) (used : List Nat) (p : GthreeRendererPrivate),
      (∀ a ∈ table.filterMap (used_location geometry), a < 8) →
      attrib_tracking log0 gpu used 0 p →
      attrib_tracking log0 gpu (used ++ table.filterMap (used_location geometry)) 0
        (table.foldl
          (fun p e => setup_vertex_attributes_entry attribute_at p material geometry e.1 e.2)
          p) := by
  intro table
  induction table with
  | nil =>
    intro used p _ h
    rw [List.filterMap_nil, List.append_nil]
    exact h
  | cons e rest ih =>
    intro used p hu h
    have e1 : (e :: rest).filterMap (used_location geometry)
        = (used_location geometry e).toList ++ rest.filterMap (used_location geometry) := by
      cases hx : used_location geometry e with
      | none => rw [List.filterMap_cons_none hx]; rfl
      | some a => rw [List.filterMap_cons_some hx]; rfl
    rw [e1] at hu ⊢
    rw [List.foldl_cons, ← List.append_assoc]
    apply ih
    · intro a ha
      exact hu a (List.mem_append_right _ ha)
    · apply attrib_tracking_entry attribute_at log0 gpu used p material geometry e _ h
      intro a ha
      apply hu a
      rw [ha]
      exact List.mem_append_left _ (by simp)

theorem attrib_tracking_disable (log0 : List GLCommand) (gpu : Nat → Bool) (used : List Nat)
    (k : Nat) (p : GthreeRendererPrivate) (hk : k < 8)
    (h : attrib_tracking log0 gpu used k p) :
    attrib_tracking log0 gpu used (k + 1) (disable_unused_attribute p k) := by
  obtain ⟨hn, he, hN, hE, cmds, hl, hA, hen, hdis⟩ := h
  have hEk := hE k hk
  have hNk := hN k hk
  unfold disable_unused_attribute
  by_cases hd : p.enabled_attributes.getD k 0 ≠ p.new_attributes.getD k 0
  · rw [if_pos hd]
    have hku : k ∉ used := by
      intro hx
      rw [if_pos (Or.inl hx)] at hEk
      rw [if_pos hx] at hNk
      exact hd (hEk.trans hNk.symm)
    have hkg : gpu k = true := by
      by_contra hg
      rw [if_neg (fun x => x.elim hku (fun y => hg y.2))] at hEk
      rw [if_neg hku] at hNk
      exact hd (hEk.trans hNk.symm)
    refine ⟨hn, by show (p.enabled_attributes.set k 0).length = 8; rw [List.length_set]; exact he,
      hN, ?_, cmds ++ [GLCommand.glDisableVertexAttribArray k], ?_, ?_, ?_, ?_⟩
    · intro i hi
      show (p.enabled_attributes.set k 0).getD i 0 = _
      rw [getD_set_nat _ _ _ _ (by rw [he]; exact hk), hE i hi]
      by_cases hik : i = k
      · rw [if_pos hik, hik, if_neg (fun x => x.elim hku (fun y => Nat.not_succ_le_self k y.1))]
      · rw [if_neg hik]
        by_cases hc : i ∈ used ∨ (k ≤ i ∧ gpu i = true)
        · rw [if_pos hc, if_pos (hc.imp id (fun y =>
            ⟨Nat.lt_of_le_of_ne y.1 (fun z => hik z.symm), y.2⟩))]
        · rw [if_neg hc, if_neg (fun x => hc (x.imp id (fun y => ⟨Nat.le_of_succ_le y.1, y.2⟩)))]
    · show p.gl_log ++ [_] = _
      rw [hl, List.append_assoc]
    · intro i
      rw [attrib_arrays_after_append]
      show (if i = k then false else attrib_arrays_after gpu cmds i) = _
      rw [hA i]
      by_cases hik : i = k
      · rw [if_pos hik, hik]
        simp [hku]
      · rw [if_neg hik]
        have e : decide (k ≤ i) = decide (k + 1 ≤ i) := by
          rw [decide_eq_decide]
          exact ⟨fun y => Nat.lt_of_le_of_ne y (fun z => hik z.symm), Nat.le_of_succ_le⟩
        rw [e]
    · intro x hx
      rcases List.mem_append.1 hx with h1 | h1
      · exact hen x h1
      · rw [List.mem_singleton] at h1
        exact GLCommand.noConfusion h1
    · intro x hx
      rcases List.mem_append.1 hx with h1 | h1
      · exact ⟨(hdis x h1).1, (hdis x h1).2.1, Nat.lt_succ_of_lt (hdis x h1).2.2⟩
      · rw [List.mem_singleton] at h1
        injection h1 with h2
        rw [h2]
        exact ⟨hkg, hku, Nat.lt_succ_self k⟩
  · rw [if_neg hd]
    rw [not_not] at hd
    have himp : gpu k = true → k ∈ used := by
      intro hg
      by_contra hku
      rw [if_pos (Or.inr ⟨le_refl k, hg⟩)] at hEk
      rw [if_neg hku] at hNk
      rw [hEk, hNk] at hd
      exact absurd hd (by decide)
    refine ⟨hn, he, hN, ?_, cmds, hl, ?_, hen, ?_⟩
    · intro i hi
      rw [hE i hi]
      by_cases hc : i ∈ used ∨ (k ≤ i ∧ gpu i = true)
      · have hc2 : i ∈ used ∨ (k + 1 ≤ i ∧ gpu i = true) := by
          rcases hc with hc | hc
          · exact Or.inl hc
          · by_cases hik : i = k
            · rw [hik] at hc ⊢
              exact Or.inl (himp hc.2)
            · exact Or.inr ⟨Nat.lt_of_le_of_ne hc.1 (fun z => hik z.symm), hc.2⟩
        rw [if_pos hc, if_pos hc2]
      · rw [if_neg hc, if_neg (fun x => hc (x.imp id (fun y => ⟨Nat.le_of_succ_le y.1, y.2⟩)))]
    · intro i
      rw [hA i]
      by_cases hik : i = k
      · rw [hik]
        by_cases hg : gpu k = true
        · simp [himp hg]
        · simp [hg]
      · have e : decide (k ≤ i) = decide (k + 1 ≤ i) := by
          rw [decide_eq_decide]
          exact ⟨fun y => Nat.lt_of_le_of_ne y (fun z => hik z.symm), Nat.le_of_succ_le⟩
        rw [e]
    · intro x hx
      exact ⟨(hdis x hx).1, (hdis x hx).2.1, Nat.lt_succ_of_lt (hdis x hx).2.2⟩

theorem attrib_tracking_disable_rounds (log0 : List GLCommand) (gpu : Nat → Bool)
    (used : List Nat) (p : GthreeRendererPrivate) (h : attrib_tracking log0 gpu used 0 p) :
    ∀ k, k ≤ 8 →
      attrib_tracking log0 gpu used k ((List.range k).foldl disable_unused_attribute p) := by
  intro k
  induction k with
  | zero => intro _; exact h
  | succ k ih =>
    intro hk
    rw [List.range_succ, List.foldl_append]
    exact attrib_tracking_disable log0 gpu used k _ hk (ih (Nat.le_of_succ_le hk))

theorem attrib_tracking_setup (attribute_at : Nat → GthreeAttribute)
    (priv : GthreeRendererPrivate) (material : GthreeMaterial) (program : GthreeProgram)
    (geometry : GthreeGeometry) (gpu : Nat → Bool)
    (hn : priv.new_attributes.length = 8) (he : priv.enabled_attributes.length = 8)
    (hm : mirrors_attrib_arrays priv gpu)
    (hu : ∀ a ∈ used_locations program geometry, a < 8) :
    attrib_tracking priv.gl_log gpu (used_locations program geometry) 8
      (setup_vertex_attributes attribute_at priv material program geometry) := by
  have h0 := attrib_tracking_init priv gpu hn he hm
  have h1 := attrib_tracking_entries attribute_at priv.gl_log gpu material geometry
    program.attribute_locations [] (init_attributes priv) hu h0
  rw [List.nil_append] at h1
  exact attrib_tracking_disable_rounds priv.gl_log gpu _ _ h1 8 (le_refl 8)

/-- C37: when `enabled_attributes` mirrors the enabled vertex attribute arrays of the GPU
(both arrays having their 8 entries) and every location used is below 8, then after
`setup_vertex_attributes` (that is `init_attributes`, `enable_attribute` for each used
location, `disable_unused_attributes`): a location below 8 is enabled on the GPU exactly
when it was used; `enabled_attributes` equals `new_attributes` and mirrors the GPU again;
`glEnableVertexAttribArray` was issued only for used locations that were not enabled before;
`glDisableVertexAttribArray` only for locations that were enabled before and are not used. -/
theorem vertex_attribute_tracking (attribute_at : Nat → GthreeAttribute)
    (priv : GthreeRendererPrivate) (material : GthreeMaterial) (program : GthreeProgram)
    (geometry : GthreeGeometry) (gpu : Nat → Bool)
    (hn : priv.new_attributes.length = 8) (he : priv.enabled_attributes.length = 8)
    (hm : mirrors_attrib_arrays priv gpu)
    (hu : ∀ a ∈ used_locations program geometry, a < 8) :
    (∀ i, i < 8 →
        (attrib_arrays_after gpu
            (issued priv (setup_vertex_attributes attribute_at priv material program geometry))
            i = true
          ↔ i ∈ used_locations program geometry))
      ∧ (setup_vertex_attributes attribute_at priv material program geometry).enabled_attributes
        = (setup_vertex_attributes attribute_at priv material program geometry).new_attributes
      ∧ mirrors_attrib_arrays
          (setup_vertex_attributes attribute_at priv material program geometry)
          (attrib_arrays_after gpu
            (issued priv (setup_vertex_attributes attribute_at priv material program geometry)))
      ∧ (∀ a, GLCommand.glEnableVertexAttribArray a
            ∈ issued priv (setup_vertex_attributes attribute_at priv material program geometry) →
          gpu a = false ∧ a ∈ used_locations program geometry)
      ∧ (∀ a, GLCommand.glDisableVertexAttribArray a
            ∈ issued priv (setup_vertex_attributes attribute_at priv material program geometry) →
          gpu a = true ∧ a ∉ used_locations program geometry) := by
  obtain ⟨h1, h2, hN, hE, cmds, hl, hA, hen, hdis⟩ :=
    attrib_tracking_setup attribute_at priv material program geometry gpu hn he hm hu
  rw [issued_of_log _ _ cmds hl]
  have hE2 : ∀ i, i < 8 →
      (setup_vertex_attributes attribute_at priv material program geometry).enabled_attributes.getD
          i 0
        = (if i ∈ used_locations program geometry then 1 else 0) := by
    intro i hi
    rw [hE i hi]
    by_cases hx : i ∈ used_locations program geometry
    · rw [if_pos (Or.inl hx), if_pos hx]
    · rw [if_neg hx, if_neg (fun x => x.elim hx (fun y => absurd hi (Nat.not_lt.2 y.1)))]
  have hA2 : ∀ i, i < 8 →
      attrib_arrays_after gpu cmds i = decide (i ∈ used_locations program geometry) := by
    intro i hi
    rw [hA i, decide_eq_false (Nat.not_le.2 hi), Bool.false_and, Bool.or_false]
  refine ⟨?_, ?_, ?_, hen, fun a ha => ⟨(hdis a ha).1, (hdis a ha).2.1⟩⟩
  · intro i hi
    rw [hA2 i hi, decide_eq_true_eq]
  · apply List.ext_getElem (by rw [h1, h2])
    intro i hi1 hi2
    have hi : i < 8 := by rw [← h2]; exact hi1
    have e1 := hE2 i hi
    have e2 := hN i hi
    rw [List.getD_eq_getElem _ _ hi1] at e1
    rw [List.getD_eq_getElem _ _ hi2] at e2
    rw [e1, e2]
  · intro i hi
    rw [hE2 i hi, hA2 i hi]
    by_cases hx : i ∈ used_locations program geometry
    · rw [if_pos hx, if_pos (decide_eq_true hx)]
    · rw [if_neg hx, if_neg (fun x => hx (of_decide_eq_true x))]

/-- C37 (witness): array 1 is enabled on the GPU and mirrored in `enabled_attributes`; the
program has attributes at the locations 0 and 3 that the geometry provides, and one without
location: arrays 0 and 3 are enabled, array 1 is disabled, and `enabled_attributes` is
`[1, 0, 0, 1, 0, 0, 0, 0]`. -/
theorem vertex_attribute_tracking_witness :
    (({ enabled_attributes := [0, 1, 0, 0, 0, 0, 0, 0] } :
          GthreeRendererPrivate).new_attributes.length = 8
        ∧ ({ enabled_attributes := [0, 1, 0, 0, 0, 0, 0, 0] } :
          GthreeRendererPrivate).enabled_attributes.length = 8
        ∧ mirrors_attrib_arrays { enabled_attributes := [0, 1, 0, 0, 0, 0, 0, 0] }
          (fun i => decide (i = 1))
        ∧ ∀ a ∈ used_locations
            { attribute_locations :=
                [(AttributeName.other 1, 0), (AttributeName.other 2, 3),
                  (AttributeName.other 3, -1)] }
            { attributes := [(AttributeName.other 1, some 50), (AttributeName.other 2, some 51)] },
            a < 8)
      ∧ issued { enabled_attributes := [0, 1, 0, 0, 0, 0, 0, 0] }
          (setup_vertex_attributes (fun _ => {}) { enabled_attributes := [0, 1, 0, 0, 0, 0, 0, 0] }
            {}
            { attribute_locations :=
                [(AttributeName.other 1, 0), (AttributeName.other 2, 3),
                  (AttributeName.other 3, -1)] }
            { attributes := [(AttributeName.other 1, some 50), (AttributeName.other 2, some 51)] })
        = [GLCommand.glEnableVertexAttribArray 0, GLCommand.glBindBuffer GL_ARRAY_BUFFER 0,
            GLCommand.glVertexAttribPointer 0 0 0 0 0 0, GLCommand.glEnableVertexAttribArray 3,
            GLCommand.glBindBuffer GL_ARRAY_BUFFER 0, GLCommand.glVertexAttribPointer 3 0 0 0 0 0,
            GLCommand.glDisableVertexAttribArray 1]
      ∧ (setup_vertex_attributes (fun _ => {}) { enabled_attributes := [0, 1, 0, 0, 0, 0, 0, 0] }
            {}
            { attribute_locations :=
                [(AttributeName.other 1, 0), (AttributeName.other 2, 3),
                  (AttributeName.other 3, -1)] }
            { attributes := [(AttributeName.other 1, some 50), (AttributeName.other 2, some 51)]
              }).enabled_attributes
        = (setup_vertex_attributes (fun _ => {}) { enabled_attributes := [0, 1, 0, 0, 0, 0, 0, 0] }
            {}
            { attribute_locations :=
                [(AttributeName.other 1, 0), (AttributeName.other 2, 3),
                  (AttributeName.other 3, -1)] }
            { attributes := [(AttributeName.other 1, some 50), (AttributeName.other 2, some 51)]
              }).new_attributes :=
  ⟨⟨by decide, by decide, by unfold mirrors_attrib_arrays; decide, by decide⟩, by decide,
    (vertex_attribute_tracking (fun _ => {}) { enabled_attributes := [0, 1, 0, 0, 0, 0, 0, 0] } {}
      { attribute_locations :=
          [(AttributeName.other 1, 0), (AttributeName.other 2, 3), (AttributeName.other 3, -1)] }
      { attributes := [(AttributeName.other 1, some 50), (AttributeName.other 2, some 51)] }
      (fun i => decide (i = 1)) (by decide) (by decide)
      (by unfold mirrors_attrib_arrays; decide) (by decide)).2.1⟩

/-! ## Blending during the background and opaque passes -/

theorem no_blend_step (a b : GthreeRendererPrivate) (commands : List GLCommand)
    (hc : same_blend_cache a b) (hl : b.gl_log = a.gl_log ++ commands)
    (hn : ∀ c ∈ commands, GLCommand.is_blend c = false) :
    same_blend_cache a b
      ∧ ∃ cs, b.gl_log = a.gl_log ++ cs ∧ ∀ c ∈ cs, GLCommand.is_blend c = false :=
  ⟨hc, commands, hl, hn⟩

theorem no_blend_trans (a b c : GthreeRendererPrivate)
    (h1 : same_blend_cache a b
      ∧ ∃ cs, b.gl_log = a.gl_log ++ cs ∧ ∀ x ∈ cs, GLCommand.is_blend x = false)
    (h2 : same_blend_cache b c
      ∧ ∃ cs, c.gl_log = b.gl_log ++ cs ∧ ∀ x ∈ cs, GLCommand.is_blend x = false) :
    same_blend_cache a c
      ∧ ∃ cs, c.gl_log = a.gl_log ++ cs ∧ ∀ x ∈ cs, GLCommand.is_blend x = false := by
  obtain ⟨⟨a1, a2, a3, a4⟩, cs1, l1, n1⟩ := h1
  obtain ⟨⟨b1, b2, b3, b4⟩, cs2, l2, n2⟩ := h2
  refine ⟨⟨b1.trans a1, b2.trans a2, b3.trans a3, b4.trans a4⟩, cs1 ++ cs2, ?_, ?_⟩
  · rw [l2, l1, List.append_assoc]
  · intro x hx
    rcases List.mem_append.1 hx with h | h
    · exact n1 x h
    · exact n2 x h

theorem no_blend_refl (a : GthreeRendererPrivate) :
    same_blend_cache a a
      ∧ ∃ cs, a.gl_log = a.gl_log ++ cs ∧ ∀ x ∈ cs, GLCommand.is_blend x = false :=
  ⟨⟨rfl, rfl, rfl, rfl⟩, [], (List.append_nil _).symm, fun _ h => absurd h (List.not_mem_nil _)⟩

theorem set_depth_test_no_blend (priv : GthreeRendererPrivate) (b : gboolean) :
    same_blend_cache priv (set_depth_test priv b)
      ∧ ∃ cs, (set_depth_test priv b).gl_log = priv.gl_log ++ cs
          ∧ ∀ x ∈ cs, GLCommand.is_blend x = false := by
  refine no_blend_step _ _ _ ?_ (set_depth_test_log priv b) ?_
  · rw [set_depth_test_cache]
    exact ⟨rfl, rfl, rfl, rfl⟩
  · intro x hx
    split_ifs at hx
    · rw [List.mem_singleton] at hx
      rw [hx]
      unfold enable_command
      split_ifs <;> rfl
    · exact absurd hx (List.not_mem_nil _)

theorem set_depth_write_no_blend (priv : GthreeRendererPrivate) (b : gboolean) :
    same_blend_cache priv (set_depth_write priv b)
      ∧ ∃ cs, (set_depth_write priv b).gl_log = priv.gl_log ++ cs
          ∧ ∀ x ∈ cs, GLCommand.is_blend x = false := by
  refine no_blend_step _ _ _ ?_ (set_depth_write_log priv b) ?_
  · rw [set_depth_write_cache]
    exact ⟨rfl, rfl, rfl, rfl⟩
  · intro x hx
    split_ifs at hx
    · rw [List.mem_singleton] at hx
      rw [hx]
      rfl
    · exact absurd hx (List.not_mem_nil _)

theorem set_polygon_offset_no_blend (priv : GthreeRendererPrivate) (b : gboolean)
    (factor units : float) :
    same_blend_cache priv (set_polygon_offset priv b factor units)
      ∧ ∃ cs, (set_polygon_offset priv b factor units).gl_log = priv.gl_log ++ cs
          ∧ ∀ x ∈ cs, GLCommand.is_blend x = false := by
  refine no_blend_step _ _ _ ?_ (set_polygon_offset_log priv b factor units) ?_
  · rw [set_polygon_offset_cache]
    exact ⟨rfl, rfl, rfl, rfl⟩
  · intro x hx
    rcases List.mem_append.1 hx with h | h
    · split_ifs at h
      · rw [List.mem_singleton] at h
        rw [h]
        unfold enable_command
        split_ifs <;> rfl
      · exact absurd h (List.not_mem_nil _)
    · split_ifs at h
      · rw [List.mem_singleton] at h
        rw [h]
        rfl
      · exact absurd h (List.not_mem_nil _)

theorem set_material_faces_no_blend (priv : GthreeRendererPrivate) (material : GthreeMaterial) :
    same_blend_cache priv (set_material_faces priv material)
      ∧ ∃ cs, (set_material_faces priv material).gl_log = priv.gl_log ++ cs
          ∧ ∀ x ∈ cs, GLCommand.is_blend x = false := by
  refine no_blend_step _ _ _ ?_ (set_material_faces_log priv material) ?_
  · rw [set_material_faces_cache]
    exact ⟨rfl, rfl, rfl, rfl⟩
  · intro x hx
    rcases List.mem_append.1 hx with h | h
    · split_ifs at h
      · rw [List.mem_singleton] at h
        rw [h]
        unfold cull_command
        split_ifs <;> rfl
      · exact absurd h (List.not_mem_nil _)
    · split_ifs at h
      · rw [List.mem_singleton] at h
        rw [h]
        unfold winding_command
        split_ifs <;> rfl
      · exact absurd h (List.not_mem_nil _)

theorem render_objects_item_no_blend (priv : GthreeRendererPrivate) (camera : Nat) (i : Nat) :
    same_blend_cache priv (render_objects_item priv camera FALSE none i)
      ∧ ∃ cs, (render_objects_item priv camera FALSE none i).gl_log = priv.gl_log ++ cs
          ∧ ∀ x ∈ cs, GLCommand.is_blend x = false := by
  unfold render_objects_item
  dsimp only
  rw [if_neg (fun h => h rfl)]
  have h0 := no_blend_refl
    (priv.emit
      [Event.object_call_before_render_callback (priv.current_render_list.item i).object,
        Event.object_update_matrix_view (priv.current_render_list.item i).object])
  have h1 := no_blend_trans _ _ _ h0 (set_depth_test_no_blend _
    (priv.current_render_list.item i).material.depth_test)
  have h2 := no_blend_trans _ _ _ h1 (set_depth_write_no_blend _
    (priv.current_render_list.item i).material.depth_write)
  have h3 := no_blend_trans _ _ _ h2 (set_polygon_offset_no_blend _
    (priv.current_render_list.item i).material.polygon_offset
    (priv.current_render_list.item i).material.polygon_offset_factor
    (priv.current_render_list.item i).material.polygon_offset_units)
  have h4 := no_blend_trans _ _ _ h3 (set_material_faces_no_blend _
    (priv.current_render_list.item i).material)
  exact h4

theorem render_objects_no_blend (camera : Nat) (indexes : List Nat) :
    ∀ priv : GthreeRendererPrivate,
      same_blend_cache priv (render_objects priv indexes camera FALSE none)
        ∧ ∃ cs, (render_objects priv indexes camera FALSE none).gl_log = priv.gl_log ++ cs
            ∧ ∀ x ∈ cs, GLCommand.is_blend x = false := by
  induction indexes with
  | nil => intro priv; exact no_blend_refl priv
  | cons i rest ih =>
    intro priv
    have e : render_objects priv (i :: rest) camera FALSE none
        = render_objects (render_objects_item priv camera FALSE none i) rest camera FALSE
            none := rfl
    rw [e]
    exact no_blend_trans _ _ _ (render_objects_item_no_blend priv camera i) (ih _)

end Gthree
